import Mathlib

/-!
# Dashboard API server: conversion, patch and validation core

A shallow embedding of the cluster and AWS handlers of `modules/api/pkg/handler/common`
and of the marshalling of the API types of `modules/api/pkg/api/v1`, with the
properties stated about them.

* Types of the kubermatic SDK are kept abstract where the handlers only copy their
  values: the cloud spec is a type parameter `C`, the other SDK values a parameter `V`.
* Functions of other packages that the handlers call are parameters of the embedding.
* Go `int32` values are integers with explicit wrap-around (`wrapInt32`).
* A Go result `(value, error)` is an `Except GoError`; a nil pointer is `none`.
* The marshalling methods of `pkg/api/v1/types.go` are not among the source files and
  are modelled from the specification and from `pkg/api/v1/types_test.go`.

The definitions come first, the theorems follow.
-/

set_option autoImplicit false

namespace Dashboard

/-! ## Go values shared by the handlers -/

/-- Go `error` values as far as the handlers distinguish them. -/
inductive GoError where
  /-- Built by `errors.New` or by `fmt.Errorf` without `%w`. -/
  | errorString (msg : String)
  /-- Built by `fmt.Errorf` with `%w`: a message wrapping another error. -/
  | wrapError (msg : String) (err : GoError)
  /-- The `apierrors.StatusError` of the Kubernetes client, with its status code. -/
  | StatusError (code : Int) (msg : String)
  /-- A value of the struct type `utilerrors.HTTPError`, which is what `utilerrors.New`
  returns. -/
  | HTTPError (code : Int) (msg : String)
  /-- A pointer `*utilerrors.HTTPError` held as an error. -/
  | HTTPErrorPtr (code : Int) (msg : String)
  deriving DecidableEq, Repr

/-- Equality of Go results `(value, error)` is decidable when both components are. -/
instance instDecidableEqExcept {ε α : Type} [DecidableEq ε] [DecidableEq α] :
    DecidableEq (Except ε α)
  | .ok a, .ok b =>
    if h : a = b then isTrue (by rw [h]) else isFalse (fun e => h (by cases e; rfl))
  | .error a, .error b =>
    if h : a = b then isTrue (by rw [h]) else isFalse (fun e => h (by cases e; rfl))
  | .ok _, .error _ => isFalse (fun e => by cases e)
  | .error _, .ok _ => isFalse (fun e => by cases e)

/-- Go `map[string]T`; `none` is the nil map, `some []` the empty map. -/
abbrev GoMap (β : Type) := Option (List (String × β))

/-- Reading `m[k]` from a Go map: the zero value when the key is absent or the map nil. -/
def GoMap.index {β : Type} (zero : β) (m : GoMap β) (k : String) : β :=
  match m with
  | none => zero
  | some kvs => ((kvs.find? (fun kv => kv.1 == k)).map (fun kv => kv.2)).getD zero

/-! ## Internal (kubermaticv1) and external (apiv1) cluster types

The type parameter `C` is the cloud spec `kubermaticv1.CloudSpec`, the parameter `V`
stands for the values of the remaining SDK types, which the handlers only copy. -/

/-- A `kubermaticv1.ClusterNetworkingConfig`: the two fields the handlers touch, and the rest. -/
structure kubermaticv1.ClusterNetworkingConfig (V : Type) where
  KonnectivityEnabled : Option Bool
  ProxyMode : String
  Rest : V
  deriving DecidableEq, Repr

/-- A `kubermaticv1.ClusterSpec`, the spec of the internal cluster resource. -/
structure kubermaticv1.ClusterSpec (C V : Type) where
  HumanReadableName : String
  Cloud : C
  MachineNetworks : V
  Version : V
  OIDC : V
  UsePodSecurityPolicyAdmissionPlugin : Bool
  UsePodNodeSelectorAdmissionPlugin : Bool
  UseEventRateLimitAdmissionPlugin : Bool
  AdmissionPlugins : V
  AuditLogging : V
  UpdateWindow : V
  OPAIntegration : V
  PodNodeSelectorAdmissionPluginConfig : V
  EventRateLimitConfig : V
  ServiceAccount : V
  MLA : V
  ContainerRuntime : String
  ClusterNetwork : kubermaticv1.ClusterNetworkingConfig V
  CNIPlugin : V
  ExposeStrategy : V
  BackupConfig : V
  KubernetesDashboard : V
  APIServerAllowedIPRanges : V
  KubeLB : V
  DisableCSIDriver : Bool
  Kyverno : V
  EnableUserSSHKeyAgent : Option Bool
  Features : GoMap Bool
  Rest : V
  deriving DecidableEq, Repr

/-- A `kubermaticv1.ClusterStatus`: the fields the converter reads, and the rest. -/
structure kubermaticv1.ClusterStatus (V : Type) where
  InheritedLabels : GoMap String
  VersionsControlPlane : V
  AddressURL : String
  Rest : V
  deriving DecidableEq, Repr

/-- A `kubermaticv1.Cluster` with the object metadata the handlers use. -/
structure kubermaticv1.Cluster (C V : Type) where
  Name : String
  ResourceVersion : String
  Labels : GoMap String
  Annotations : GoMap String
  CreationTimestamp : V
  DeletionTimestamp : Option V
  Finalizers : List String
  Spec : kubermaticv1.ClusterSpec C V
  Status : kubermaticv1.ClusterStatus V
  deriving DecidableEq, Repr

/-- The `apiv1.ExternalCCMMigrationStatus` constants. -/
inductive ExternalCCMMigrationStatus where
  | ExternalCCMMigrationNotNeeded
  | ExternalCCMMigrationInProgress
  | ExternalCCMMigrationSupported
  | ExternalCCMMigrationUnsupported
  deriving DecidableEq, Repr

open ExternalCCMMigrationStatus

/-- An `apiv1.ClusterSpec`, the spec of the cluster as the API exposes it.  Its
`ClusterNetwork` is a pointer. -/
structure apiv1.ClusterSpec (C V : Type) where
  Cloud : C
  MachineNetworks : V
  Version : V
  OIDC : V
  UpdateWindow : V
  AuditLogging : V
  UsePodSecurityPolicyAdmissionPlugin : Bool
  UsePodNodeSelectorAdmissionPlugin : Bool
  UseEventRateLimitAdmissionPlugin : Bool
  EnableUserSSHKeyAgent : Option Bool
  BackupConfig : V
  KubeLB : V
  KubernetesDashboard : V
  AdmissionPlugins : V
  OPAIntegration : V
  PodNodeSelectorAdmissionPluginConfig : V
  EventRateLimitConfig : V
  ServiceAccount : V
  MLA : V
  ContainerRuntime : String
  ClusterNetwork : Option (kubermaticv1.ClusterNetworkingConfig V)
  CNIPlugin : V
  ExposeStrategy : V
  APIServerAllowedIPRanges : V
  DisableCSIDriver : Bool
  Kyverno : V
  deriving DecidableEq, Repr

/-- An `apiv1.ClusterStatus`. -/
structure apiv1.ClusterStatus (V : Type) where
  Version : V
  URL : String
  ExternalCCMMigration : ExternalCCMMigrationStatus
  deriving DecidableEq, Repr

/-- An `apiv1.Cluster`: the embedded `apiv1.ObjectMeta` (ID, Name, Annotations and the
two timestamps) and the fields of the cluster itself; `ClusterType` is the Go field
`Type`. -/
structure apiv1.Cluster (C V : Type) where
  ID : String
  Name : String
  Annotations : GoMap String
  CreationTimestamp : V
  DeletionTimestamp : Option V
  Labels : GoMap String
  InheritedLabels : GoMap String
  ClusterType : String
  Credential : String
  Spec : apiv1.ClusterSpec C V
  Status : apiv1.ClusterStatus V
  MachineDeploymentCount : Option Int
  deriving DecidableEq, Repr

/-- The constant `apiv1.KubernetesClusterType`. -/
def apiv1.KubernetesClusterType : String := "kubernetes"

/-- The feature key `kubermaticv1.ClusterFeatureExternalCloudProvider`. -/
def ClusterFeatureExternalCloudProvider : String := "externalCloudProvider"

/-- Functions of other modules that the cluster handlers call. -/
structure Collaborators (C V D I : Type) where
  /-- The call `resources.MigrationToExternalCloudControllerSupported`. -/
  MigrationToExternalCloudControllerSupported : D → kubermaticv1.Cluster C V → List I → Bool
  /-- The call `kubermaticv1helper.NeedCCMMigration`. -/
  NeedCCMMigration : kubermaticv1.Cluster C V → Bool
  /-- The call `label.FilterLabels(label.ClusterResourceType, _)`. -/
  FilterLabels : GoMap String → GoMap String

/-- The function `convertInternalCCMStatusToExternal` of `handler/common/cluster.go`. -/
def convertInternalCCMStatusToExternal {C V D I : Type} (ext : Collaborators C V D I)
    (cluster : kubermaticv1.Cluster C V) (datacenter : D) (incompatibilities : List I) :
    ExternalCCMMigrationStatus :=
  let externalCCMEnabled :=
    GoMap.index false cluster.Spec.Features ClusterFeatureExternalCloudProvider
  let externalCCMSupported :=
    ext.MigrationToExternalCloudControllerSupported datacenter cluster incompatibilities
  if externalCCMEnabled then
    if ext.NeedCCMMigration cluster then ExternalCCMMigrationInProgress
    else ExternalCCMMigrationNotNeeded
  else if externalCCMSupported then ExternalCCMMigrationSupported
  else ExternalCCMMigrationUnsupported

/-- The function `ConvertInternalClusterToExternal` of `handler/common/cluster.go`.
The wrapper `apiv1.NewTime` keeps the time value it is given. -/
def ConvertInternalClusterToExternal {C V D I : Type} (ext : Collaborators C V D I)
    (internalCluster : kubermaticv1.Cluster C V) (datacenter : D) (filterSystemLabels : Bool)
    (incompatibilities : List I) : apiv1.Cluster C V :=
  let cluster : apiv1.Cluster C V :=
    { ID := internalCluster.Name
      Name := internalCluster.Spec.HumanReadableName
      Annotations := internalCluster.Annotations
      CreationTimestamp := internalCluster.CreationTimestamp
      DeletionTimestamp :=
        match internalCluster.DeletionTimestamp with
        | some t => some t
        | none => none
      Labels := internalCluster.Labels
      InheritedLabels := internalCluster.Status.InheritedLabels
      Credential := ""
      MachineDeploymentCount := none
      Spec :=
        { Cloud := internalCluster.Spec.Cloud
          Version := internalCluster.Spec.Version
          MachineNetworks := internalCluster.Spec.MachineNetworks
          OIDC := internalCluster.Spec.OIDC
          UpdateWindow := internalCluster.Spec.UpdateWindow
          AuditLogging := internalCluster.Spec.AuditLogging
          UsePodSecurityPolicyAdmissionPlugin :=
            internalCluster.Spec.UsePodSecurityPolicyAdmissionPlugin
          UsePodNodeSelectorAdmissionPlugin :=
            internalCluster.Spec.UsePodNodeSelectorAdmissionPlugin
          UseEventRateLimitAdmissionPlugin :=
            internalCluster.Spec.UseEventRateLimitAdmissionPlugin
          EnableUserSSHKeyAgent := internalCluster.Spec.EnableUserSSHKeyAgent
          BackupConfig := internalCluster.Spec.BackupConfig
          KubeLB := internalCluster.Spec.KubeLB
          KubernetesDashboard := internalCluster.Spec.KubernetesDashboard
          AdmissionPlugins := internalCluster.Spec.AdmissionPlugins
          OPAIntegration := internalCluster.Spec.OPAIntegration
          PodNodeSelectorAdmissionPluginConfig :=
            internalCluster.Spec.PodNodeSelectorAdmissionPluginConfig
          EventRateLimitConfig := internalCluster.Spec.EventRateLimitConfig
          ServiceAccount := internalCluster.Spec.ServiceAccount
          MLA := internalCluster.Spec.MLA
          ContainerRuntime := internalCluster.Spec.ContainerRuntime
          ClusterNetwork := some internalCluster.Spec.ClusterNetwork
          CNIPlugin := internalCluster.Spec.CNIPlugin
          ExposeStrategy := internalCluster.Spec.ExposeStrategy
          APIServerAllowedIPRanges := internalCluster.Spec.APIServerAllowedIPRanges
          DisableCSIDriver := internalCluster.Spec.DisableCSIDriver
          Kyverno := internalCluster.Spec.Kyverno }
      Status :=
        { Version := internalCluster.Status.VersionsControlPlane
          URL := internalCluster.Status.AddressURL
          ExternalCCMMigration :=
            convertInternalCCMStatusToExternal ext internalCluster datacenter incompatibilities }
      ClusterType := apiv1.KubernetesClusterType }
  let cluster :=
    if filterSystemLabels then
      { cluster with Labels := ext.FilterLabels internalCluster.Labels }
    else cluster
  if cluster.Annotations = none then
    { cluster with Annotations := some [] }
  else cluster

/-- The whitelist copy of `PatchEndpoint` in `handler/common/cluster.go`: the deep copy
of the old internal cluster with the patchable fields taken from the patched external
cluster.  `patchedCluster` is the `*apiv1.Cluster` that `json.Unmarshal` filled; the
result is `none` where the Go code dereferences a nil pointer. -/
def PatchEndpoint.copyWhitelist {C V : Type} (oldInternalCluster : kubermaticv1.Cluster C V)
    (patchedCluster : Option (apiv1.Cluster C V)) : Option (kubermaticv1.Cluster C V) :=
  match patchedCluster with
  | none => none
  | some patchedCluster =>
    match patchedCluster.Spec.ClusterNetwork with
    | none => none
    | some patchedNetwork =>
      let newInternalCluster := oldInternalCluster
      some { newInternalCluster with
        Labels := patchedCluster.Labels
        Annotations := patchedCluster.Annotations
        Spec := { newInternalCluster.Spec with
          HumanReadableName := patchedCluster.Name
          Cloud := patchedCluster.Spec.Cloud
          MachineNetworks := patchedCluster.Spec.MachineNetworks
          Version := patchedCluster.Spec.Version
          OIDC := patchedCluster.Spec.OIDC
          UsePodSecurityPolicyAdmissionPlugin :=
            patchedCluster.Spec.UsePodSecurityPolicyAdmissionPlugin
          UsePodNodeSelectorAdmissionPlugin :=
            patchedCluster.Spec.UsePodNodeSelectorAdmissionPlugin
          UseEventRateLimitAdmissionPlugin :=
            patchedCluster.Spec.UseEventRateLimitAdmissionPlugin
          AdmissionPlugins := patchedCluster.Spec.AdmissionPlugins
          AuditLogging := patchedCluster.Spec.AuditLogging
          UpdateWindow := patchedCluster.Spec.UpdateWindow
          OPAIntegration := patchedCluster.Spec.OPAIntegration
          PodNodeSelectorAdmissionPluginConfig :=
            patchedCluster.Spec.PodNodeSelectorAdmissionPluginConfig
          EventRateLimitConfig := patchedCluster.Spec.EventRateLimitConfig
          ServiceAccount := patchedCluster.Spec.ServiceAccount
          MLA := patchedCluster.Spec.MLA
          ContainerRuntime := patchedCluster.Spec.ContainerRuntime
          ClusterNetwork := { newInternalCluster.Spec.ClusterNetwork with
            KonnectivityEnabled := patchedNetwork.KonnectivityEnabled
            ProxyMode := patchedNetwork.ProxyMode }
          CNIPlugin := patchedCluster.Spec.CNIPlugin
          ExposeStrategy := patchedCluster.Spec.ExposeStrategy
          BackupConfig := patchedCluster.Spec.BackupConfig
          KubernetesDashboard := patchedCluster.Spec.KubernetesDashboard
          APIServerAllowedIPRanges := patchedCluster.Spec.APIServerAllowedIPRanges
          KubeLB := patchedCluster.Spec.KubeLB
          DisableCSIDriver := patchedCluster.Spec.DisableCSIDriver
          Kyverno := patchedCluster.Spec.Kyverno } }

/-! ## AWS subnets (`handler/common/provider/aws.go`) -/

/-- Go `int32` arithmetic: an integer after wrap-around to 32 bits, two's complement. -/
def wrapInt32 (x : Int) : Int := (x + 2147483648) % 4294967296 - 2147483648

/-- An `apiv1.AWSTag`. -/
structure AWSTag where
  Key : String
  Value : String
  deriving DecidableEq, Repr

/-- An `apiv1.AWSSubnet`. -/
structure AWSSubnet where
  Name : String
  ID : String
  AvailabilityZone : String
  AvailabilityZoneID : String
  IPv4CIDR : String
  IPv6CIDR : String
  Tags : List AWSTag
  State : String
  AvailableIPAddressCount : Int
  DefaultForAz : Bool
  IsDefaultSubnet : Bool
  deriving DecidableEq, Repr

/-- An `apiv1.AWSNodeSpec`. -/
structure AWSNodeSpec where
  InstanceType : String
  VolumeSize : Int
  VolumeType : String
  AMI : String
  Tags : GoMap String
  AvailabilityZone : String
  SubnetID : String
  AssignPublicIP : Option Bool
  IsSpotInstance : Option Bool
  EBSVolumeEncrypted : Option Bool
  deriving DecidableEq, Repr

/-- An `apiv1.NodeCloudSpec`, as far as `SetDefaultSubnet` reads it. -/
structure NodeCloudSpec where
  AWS : Option AWSNodeSpec
  deriving DecidableEq, Repr

/-- A `clusterv1alpha1.MachineDeployment`: `Spec.Template.Spec` (of the abstract machine
spec type `M`) and `Spec.Replicas`, an `*int32`. -/
structure MachineDeployment (M : Type) where
  SpecTemplateSpec : M
  SpecReplicas : Option Int

/-- The constructor `utilerrors.NewBadRequest`. -/
def NewBadRequest (msg : String) : GoError := GoError.HTTPError 400 msg

/-- The Go map `machinesForAZ` of type `map[string]int32`, as an association list. -/
abbrev AZMap := List (String × Int)

/-- Reading `m[k]` from `machinesForAZ`: 0 when the key is absent. -/
def AZMap.get (m : AZMap) (k : String) : Int :=
  match m.find? (fun kv => kv.1 == k) with
  | some kv => kv.2
  | none => 0

/-- The assignment `m[k] = v`. -/
def AZMap.set (m : AZMap) (k : String) (v : Int) : AZMap :=
  (k, v) :: m.filter (fun kv => kv.1 != k)

/-- The variables `machinesForAZ`, `machineCounter` and `replicas` that
`SetDefaultSubnet` carries through its loop over the machine deployments. -/
structure SubnetLoop where
  machinesForAZ : AZMap
  machineCounter : Int
  replicas : Int
  deriving DecidableEq, Repr

/-- One iteration of the loop over `machineDeployments.Items` in `SetDefaultSubnet`.
`GetAPIV2NodeCloudSpec` is the conversion of package `machine`. -/
def SetDefaultSubnet.step {M : Type} (GetAPIV2NodeCloudSpec : M → Except GoError NodeCloudSpec)
    (st : SubnetLoop) (md : MachineDeployment M) : Except GoError SubnetLoop :=
  match GetAPIV2NodeCloudSpec md.SpecTemplateSpec with
  | .error err =>
    .error (.wrapError "failed to get node cloud spec from machine deployment: " err)
  | .ok cloudSpec =>
    match cloudSpec.AWS with
    | none => .error (NewBadRequest "cloud spec missing")
    | some aws =>
      let replicas := match md.SpecReplicas with
        | some r => r
        | none => st.replicas
      .ok { machinesForAZ := st.machinesForAZ.set aws.AvailabilityZone
              (wrapInt32 (st.machinesForAZ.get aws.AvailabilityZone + replicas))
            machineCounter := wrapInt32 (st.machineCounter + replicas)
            replicas := replicas }

/-- The loop over `machineDeployments.Items`; it stops at the first error. -/
def SetDefaultSubnet.loop {M : Type} (GetAPIV2NodeCloudSpec : M → Except GoError NodeCloudSpec) :
    SubnetLoop → List (MachineDeployment M) → Except GoError SubnetLoop
  | st, [] => .ok st
  | st, md :: mds =>
    match SetDefaultSubnet.step GetAPIV2NodeCloudSpec st md with
    | .error err => .error err
    | .ok st' => SetDefaultSubnet.loop GetAPIV2NodeCloudSpec st' mds

/-- The assignment `subnets[i].IsDefaultSubnet = true`. -/
def setIsDefaultSubnet : List AWSSubnet → Nat → List AWSSubnet
  | [], _ => []
  | s :: rest, 0 => { s with IsDefaultSubnet := true } :: rest
  | s :: rest, i + 1 => s :: setIsDefaultSubnet rest i

/-- The function `SetDefaultSubnet` of `handler/common/provider/aws.go`.  A nil
`machineDeployments` pointer is `none`. -/
def SetDefaultSubnet {M : Type} (GetAPIV2NodeCloudSpec : M → Except GoError NodeCloudSpec)
    (machineDeployments : Option (List (MachineDeployment M))) (subnets : List AWSSubnet) :
    Except GoError (List AWSSubnet) :=
  if subnets.length = 0 then
    .error (.errorString "the subnet list can not be empty")
  else
    match machineDeployments with
    | none => .error (.errorString "the machine deployment list can not be nil")
    | some items =>
      let machinesForAZ : AZMap :=
        subnets.foldl (fun m subnet => m.set subnet.AvailabilityZone 0) []
      match SetDefaultSubnet.loop GetAPIV2NodeCloudSpec ⟨machinesForAZ, 0, 0⟩ items with
      | .error err => .error err
      | .ok st =>
        if st.machineCounter = 0 then
          .ok (setIsDefaultSubnet subnets 0)
        else
          match subnets.findIdx? (fun subnet => st.machinesForAZ.get subnet.AvailabilityZone == 0) with
          | some i => .ok (setIsDefaultSubnet subnets i)
          | none => .ok (setIsDefaultSubnet subnets 0)


/-- The availability zone and replica count of a machine deployment that decodes to an
AWS node spec and has `Spec.Replicas` set; `none` for any other machine deployment. -/
def awsReplicas {M : Type} (GetAPIV2NodeCloudSpec : M → Except GoError NodeCloudSpec)
    (md : MachineDeployment M) : Option (String × Int) :=
  match GetAPIV2NodeCloudSpec md.SpecTemplateSpec, md.SpecReplicas with
  | .ok ⟨some aws⟩, some r => some (aws.AvailabilityZone, r)
  | _, _ => none

/-- The replica counts of a list of machine deployments, summed as Go sums them: in
`int32` arithmetic. -/
def totalReplicas {M : Type} (GetAPIV2NodeCloudSpec : M → Except GoError NodeCloudSpec)
    (items : List (MachineDeployment M)) : Int :=
  wrapInt32 ((items.filterMap (awsReplicas GetAPIV2NodeCloudSpec)).map (fun p => p.2)).sum

/-- The replica counts of the machine deployments of one availability zone, summed in
`int32` arithmetic. -/
def replicasInAZ {M : Type} (GetAPIV2NodeCloudSpec : M → Except GoError NodeCloudSpec)
    (items : List (MachineDeployment M)) (az : String) : Int :=
  wrapInt32 (((items.filterMap (awsReplicas GetAPIV2NodeCloudSpec)).filter
    (fun p => p.1 == az)).map (fun p => p.2)).sum

/-- The total replica count of a list of machine deployments: the sum of the replica
counts as integers, without the wrap-around of `int32`. -/
def replicaCount {M : Type} (GetAPIV2NodeCloudSpec : M → Except GoError NodeCloudSpec)
    (items : List (MachineDeployment M)) : Int :=
  ((items.filterMap (awsReplicas GetAPIV2NodeCloudSpec)).map (fun p => p.2)).sum

/-- The summed replica count of the machine deployments of one availability zone, as an
integer, without the wrap-around of `int32`. -/
def replicaCountInAZ {M : Type} (GetAPIV2NodeCloudSpec : M → Except GoError NodeCloudSpec)
    (items : List (MachineDeployment M)) (az : String) : Int :=
  (((items.filterMap (awsReplicas GetAPIV2NodeCloudSpec)).filter
    (fun p => p.1 == az)).map (fun p => p.2)).sum

/-- How many subnets of a list are marked as the default subnet. -/
def defaultSubnetCount (subnets : List AWSSubnet) : Nat :=
  subnets.countP (fun s => s.IsDefaultSubnet)

/-- The list `out` is `subnets` with the subnet at index `i` marked as the default
subnet and nothing else changed: same length, same order, same other fields. -/
def MarksSubnet (subnets out : List AWSSubnet) (i : Nat) : Prop :=
  out.length = subnets.length ∧
  out[i]? = subnets[i]?.map (fun s => { s with IsDefaultSubnet := true }) ∧
  ∀ j, j ≠ i → out[j]? = subnets[j]?

/-- A sample subnet of the given availability zone, for concrete evaluations. -/
def sampleSubnet (az : String) (isDefault : Bool) : AWSSubnet :=
  { Name := "", ID := "", AvailabilityZone := az, AvailabilityZoneID := "", IPv4CIDR := "",
    IPv6CIDR := "", Tags := [], State := "", AvailableIPAddressCount := 0,
    DefaultForAz := false, IsDefaultSubnet := isDefault }

/-- A sample node-spec conversion for concrete evaluations: the machine spec is the name
of its availability zone, and the empty name stands for a machine that is not on AWS. -/
def sampleNodeCloudSpec (machineSpec : String) : Except GoError NodeCloudSpec :=
  if machineSpec = "" then .ok { AWS := none }
  else .ok { AWS := some { InstanceType := "", VolumeSize := 0, VolumeType := "", AMI := "",
                           Tags := none, AvailabilityZone := machineSpec, SubnetID := "",
                           AssignPublicIP := none, IsSpotInstance := none,
                           EBSVolumeEncrypted := none } }

/-- A sample cluster with the external cloud provider feature set as given. -/
def sampleCluster (externalCCM : Bool) : kubermaticv1.Cluster Unit Unit :=
  { Name := "c1", ResourceVersion := "1", Labels := none, Annotations := none,
    CreationTimestamp := (), DeletionTimestamp := none, Finalizers := [],
    Spec := { HumanReadableName := "cluster", Cloud := (), MachineNetworks := (), Version := (),
              OIDC := (), UsePodSecurityPolicyAdmissionPlugin := false,
              UsePodNodeSelectorAdmissionPlugin := false,
              UseEventRateLimitAdmissionPlugin := false, AdmissionPlugins := (),
              AuditLogging := (), UpdateWindow := (), OPAIntegration := (),
              PodNodeSelectorAdmissionPluginConfig := (), EventRateLimitConfig := (),
              ServiceAccount := (), MLA := (), ContainerRuntime := "containerd",
              ClusterNetwork := { KonnectivityEnabled := some true, ProxyMode := "ipvs",
                                  Rest := () },
              CNIPlugin := (), ExposeStrategy := (), BackupConfig := (),
              KubernetesDashboard := (), APIServerAllowedIPRanges := (), KubeLB := (),
              DisableCSIDriver := false, Kyverno := (), EnableUserSSHKeyAgent := some true,
              Features := some [(ClusterFeatureExternalCloudProvider, externalCCM)],
              Rest := () },
    Status := { InheritedLabels := none, VersionsControlPlane := (), AddressURL := "",
                Rest := () } }

/-- Sample collaborators: the capability check and the pending-migration check are
constants, and label filtering keeps every label. -/
def sampleCollaborators (supported pending : Bool) : Collaborators Unit Unit Unit Unit :=
  { MigrationToExternalCloudControllerSupported := fun _ _ _ => supported
    NeedCCMMigration := fun _ => pending
    FilterLabels := fun labels => labels }

/-- A sample decoded patch result for `sampleCluster`: the external cluster of
`sampleCluster true` after a merge patch that sets `id`, `name`, `status.url` and
`spec.clusterNetwork.proxyMode`. -/
def samplePatchedCluster : apiv1.Cluster Unit Unit :=
  let current :=
    ConvertInternalClusterToExternal (sampleCollaborators false false) (sampleCluster true) ()
      false ([] : List Unit)
  { current with
    ID := "another-id"
    Name := "renamed"
    Status := { current.Status with URL := "https://changed.example" }
    Spec := { current.Spec with
      ClusterNetwork := some { KonnectivityEnabled := some false, ProxyMode := "ebpf",
                               Rest := () } } }

/-! ## Reading a cluster for a regular user (`handler/common/cluster.go`) -/

/-- The calls a handler makes to its collaborators, in the order it makes them. -/
inductive Call where
  /-- The call `userInfoGetter(ctx, projectID)`. -/
  | userInfoGetter (projectID : String)
  /-- The call `clusterProvider.Get(ctx, userInfo, clusterID, options)`. -/
  | clusterProviderGet (clusterID : String)
  /-- The call `privilegedClusterProvider.GetUnsecured(ctx, project, clusterID, options)`. -/
  | privilegedGetUnsecured (clusterID : String)
  /-- A call of the named method of a privileged (unsecured) provider. -/
  | privileged (method : String)
  /-- A call of the named method of a regular (impersonating) provider. -/
  | regular (method : String)
  deriving DecidableEq, Repr

/-- The collaborators of `getClusterForRegularUser`: the identity lookup, the regular
(impersonating) and the privileged cluster provider, and the adapter
`common.KubernetesErrorToHTTPError`.  `U` is `provider.UserInfo`, `P` the project and
`O` the get options. -/
structure ClusterAccess (C V U P O : Type) where
  userInfoGetter : String → Except GoError U
  Get : U → String → O → Except GoError (kubermaticv1.Cluster C V)
  GetUnsecured : P → String → O → Except GoError (kubermaticv1.Cluster C V)
  KubernetesErrorToHTTPError : GoError → GoError

/-- The constant `http.StatusForbidden`. -/
def StatusForbidden : Int := 403

/-- The function `isStatus` of `handler/common/cluster.go`: `errors.As` looks for an
`apierrors.StatusError` along the chain of wrapped errors, and its code is compared. -/
def isStatus : GoError → Int → Bool
  | .StatusError code _, status => status == code
  | .wrapError _ err, status => isStatus err status
  | .errorString _, _ => false
  | .HTTPError _ _, _ => false
  | .HTTPErrorPtr _ _, _ => false

/-- The function `getClusterForRegularUser` of `handler/common/cluster.go`, returning
its Go result together with the calls it made. -/
def getClusterForRegularUser {C V U P O : Type} (access : ClusterAccess C V U P O)
    (project : P) (projectID clusterID : String) (options : O) :
    Except GoError (kubermaticv1.Cluster C V) × List Call :=
  match access.userInfoGetter projectID with
  | .error err => (.error (access.KubernetesErrorToHTTPError err), [.userInfoGetter projectID])
  | .ok userInfo =>
    match access.Get userInfo clusterID options with
    | .error err =>
      if !isStatus err StatusForbidden then
        (.error (access.KubernetesErrorToHTTPError err),
          [.userInfoGetter projectID, .clusterProviderGet clusterID])
      else
        match access.GetUnsecured project clusterID options with
        | .error errGetUnsecured =>
          (.error (access.KubernetesErrorToHTTPError errGetUnsecured),
            [.userInfoGetter projectID, .clusterProviderGet clusterID,
             .privilegedGetUnsecured clusterID])
        | .ok _ =>
          (.error (access.KubernetesErrorToHTTPError err),
            [.userInfoGetter projectID, .clusterProviderGet clusterID,
             .privilegedGetUnsecured clusterID])
    | .ok cluster =>
      (.ok cluster, [.userInfoGetter projectID, .clusterProviderGet clusterID])

/-- Sample access for concrete evaluations: the regular provider answers Forbidden, the
privileged provider finds the sample cluster, and the adapter turns a status error into
the HTTP error of the same code. -/
def sampleForbiddenAccess : ClusterAccess Unit Unit Unit Unit Unit :=
  { userInfoGetter := fun _ => .ok ()
    Get := fun _ _ _ => .error (.StatusError 403 "forbidden")
    GetUnsecured := fun _ _ _ => .ok (sampleCluster false)
    KubernetesErrorToHTTPError := fun err =>
      match err with
      | .StatusError code msg => .HTTPError code msg
      | other => other }

/-! ## JSON encoding of the API types (`pkg/api/v1`)

The marshalling methods of `pkg/api/v1/types.go` are not among the source files; they
are modelled from the specification and from the expected outputs of
`pkg/api/v1/types_test.go`, on top of a model of the compact output of `encoding/json`. -/

mutual
/-- A JSON document; numbers are the integers. -/
inductive JSON where
  | null
  | bool (b : Bool)
  | num (n : Int)
  | str (s : String)
  | arr (items : JSONList)
  | obj (fields : JSONFields)
/-- The elements of a JSON array. -/
inductive JSONList where
  | nil
  | cons (head : JSON) (tail : JSONList)
/-- The members of a JSON object, in the order they are written. -/
inductive JSONFields where
  | nil
  | cons (key : String) (value : JSON) (tail : JSONFields)
end

/-- How `encoding/json` writes one character of a string: quote, backslash, the control
characters and the HTML characters `<`, `>`, `&` are escaped. -/
def escapeChar (c : Char) : List Char :=
  if c = '"' then ['\\', '"']
  else if c = '\\' then ['\\', '\\']
  else if c = '\n' then ['\\', 'n']
  else if c = '\r' then ['\\', 'r']
  else if c = '\t' then ['\\', 't']
  else if c.toNat < 32 ∨ c = '<' ∨ c = '>' ∨ c = '&' then
    ['\\', 'u', '0', '0', Nat.digitChar (c.toNat / 16), Nat.digitChar (c.toNat % 16)]
  else [c]

/-- A JSON string literal. -/
def renderString (s : String) : List Char :=
  '"' :: (s.data.flatMap escapeChar ++ ['"'])

/-- A JSON integer literal. -/
def renderInt (n : Int) : List Char :=
  match n with
  | .ofNat m => Nat.toDigits 10 m
  | .negSucc m => '-' :: Nat.toDigits 10 (m + 1)

mutual
/-- The compact text of a JSON document, as `json.Marshal` writes it. -/
def JSON.render : JSON → List Char
  | .null => ['n', 'u', 'l', 'l']
  | .bool true => ['t', 'r', 'u', 'e']
  | .bool false => ['f', 'a', 'l', 's', 'e']
  | .num n => renderInt n
  | .str s => renderString s
  | .arr items => '[' :: (items.render ++ [']'])
  | .obj fields => '\x7b' :: (fields.render ++ ['\x7d'])
/-- The elements of an array, separated by commas. -/
def JSONList.render : JSONList → List Char
  | .nil => []
  | .cons head .nil => head.render
  | .cons head tail => head.render ++ ',' :: tail.render
/-- The members of an object, separated by commas. -/
def JSONFields.render : JSONFields → List Char
  | .nil => []
  | .cons key value .nil => renderString key ++ ':' :: value.render
  | .cons key value tail => renderString key ++ ':' :: value.render ++ ',' :: tail.render
end

/-- The bytes `json.Marshal` returns for a document. -/
def JSON.marshal (doc : JSON) : String := String.mk doc.render

/-- A JSON array from a list of documents. -/
def JSONList.ofList : List JSON → JSONList
  | [] => .nil
  | x :: rest => .cons x (JSONList.ofList rest)

/-- A JSON object from a list of members. -/
def JSONFields.ofList : List (String × JSON) → JSONFields
  | [] => .nil
  | (k, v) :: rest => .cons k v (JSONFields.ofList rest)

/-- The encoding of a Go `*bool`: `null` for the nil pointer. -/
def encodeBoolPtr : Option Bool → JSON
  | none => .null
  | some b => .bool b

/-- The encoding of a Go `map[string]string`: `null` for the nil map.  The entries are
held in the order of their keys, the order in which Go writes them. -/
def encodeStringMap : GoMap String → JSON
  | none => .null
  | some entries => .obj (JSONFields.ofList (entries.map (fun kv => (kv.1, JSON.str kv.2))))

/-- The encoding of a Go `[]string`: `null` for the nil slice. -/
def encodeStringSlice : Option (List String) → JSON
  | none => .null
  | some items => .arr (JSONList.ofList (items.map JSON.str))

/-- Modelled from the spec: `AWSNodeSpec.MarshalJSON` of `pkg/api/v1/types.go`, which is
not among the source files.  Every required field is checked, the names of the failing
ones are collected in the declared order, and one error lists them all; otherwise the
full object is written, optional fields included (section 4.3 of the specification and
`TestAWSNodeSpec_MarshalJSON`). -/
def AWSNodeSpec.MarshalJSON (spec : AWSNodeSpec) : Except GoError String :=
  let missing : List String := []
  let missing := if spec.InstanceType.length = 0 then missing ++ ["instanceType"] else missing
  let missing := if spec.VolumeSize ≤ 0 then missing ++ ["diskSize"] else missing
  let missing := if spec.VolumeType.length = 0 then missing ++ ["volumeType"] else missing
  if missing.length > 0 then
    .error (.errorString
      ("missing or invalid required parameter(s): " ++ ", ".intercalate missing))
  else
    .ok (JSON.marshal (.obj (JSONFields.ofList
      [("instanceType", .str spec.InstanceType),
       ("diskSize", .num spec.VolumeSize),
       ("volumeType", .str spec.VolumeType),
       ("ami", .str spec.AMI),
       ("tags", encodeStringMap spec.Tags),
       ("availabilityZone", .str spec.AvailabilityZone),
       ("subnetID", .str spec.SubnetID),
       ("assignPublicIP", encodeBoolPtr spec.AssignPublicIP),
       ("isSpotInstance", encodeBoolPtr spec.IsSpotInstance),
       ("ebsVolumeEncrypted", encodeBoolPtr spec.EBSVolumeEncrypted)])))

/-- The required fields of an `AWSNodeSpec` in their declared order, each with the
test that it is missing or invalid. -/
def AWSNodeSpec.requiredFields (spec : AWSNodeSpec) : List (String × Bool) :=
  [("instanceType", spec.InstanceType == ""),
   ("diskSize", decide (spec.VolumeSize ≤ 0)),
   ("volumeType", spec.VolumeType == "")]

/-- The zero value of `AWSNodeSpec`. -/
def AWSNodeSpec.empty : AWSNodeSpec :=
  { InstanceType := "", VolumeSize := 0, VolumeType := "", AMI := "", Tags := none,
    AvailabilityZone := "", SubnetID := "", AssignPublicIP := none, IsSpotInstance := none,
    EBSVolumeEncrypted := none }

/-- A `kubevirtv1.InstancetypeMatcher` or `kubevirtv1.PreferenceMatcher`, as far as the
node spec writes it. -/
structure Matcher where
  Name : String
  Kind : String
  deriving DecidableEq, Repr

/-- An `apiv1.SecondaryDisks`. -/
structure SecondaryDisks where
  Size : String
  StorageClassName : String
  deriving DecidableEq, Repr

/-- An `apiv1.NodeAffinityPreset`. -/
structure NodeAffinityPreset where
  AffinityType : String
  Key : String
  Values : Option (List String)
  deriving DecidableEq, Repr

/-- An `apiv1.TopologySpreadConstraint`. -/
structure TopologySpreadConstraint where
  MaxSkew : Int
  TopologyKey : String
  WhenUnsatisfiable : String
  deriving DecidableEq, Repr

/-- An `apiv1.KubevirtNodeSpec`. -/
structure KubevirtNodeSpec where
  FlavorName : String
  FlavorProfile : String
  Instancetype : Option Matcher
  Preference : Option Matcher
  CPUs : String
  Memory : String
  PrimaryDiskOSImage : String
  PrimaryDiskStorageClassName : String
  PrimaryDiskSize : String
  SecondaryDisks : Option (List SecondaryDisks)
  PodAffinityPreset : String
  PodAntiAffinityPreset : String
  NodeAffinityPreset : NodeAffinityPreset
  TopologySpreadConstraints : Option (List TopologySpreadConstraint)
  deriving DecidableEq, Repr

/-- The encoding of a matcher pointer: `null` for the nil pointer. -/
def encodeMatcher : Option Matcher → JSON
  | none => .null
  | some m => .obj (JSONFields.ofList [("name", .str m.Name), ("kind", .str m.Kind)])

/-- The object `json.Marshal` writes for a valid `KubevirtNodeSpec`. -/
def KubevirtNodeSpec.toJSON (spec : KubevirtNodeSpec) : JSON :=
  .obj (JSONFields.ofList
    [("flavorName", .str spec.FlavorName),
     ("flavorProfile", .str spec.FlavorProfile),
     ("instancetype", encodeMatcher spec.Instancetype),
     ("preference", encodeMatcher spec.Preference),
     ("cpus", .str spec.CPUs),
     ("memory", .str spec.Memory),
     ("primaryDiskOSImage", .str spec.PrimaryDiskOSImage),
     ("primaryDiskStorageClassName", .str spec.PrimaryDiskStorageClassName),
     ("primaryDiskSize", .str spec.PrimaryDiskSize),
     ("secondaryDisks",
        match spec.SecondaryDisks with
        | none => .null
        | some disks => .arr (JSONList.ofList (disks.map (fun d =>
            JSON.obj (JSONFields.ofList
              [("size", .str d.Size), ("storageClassName", .str d.StorageClassName)]))))),
     ("podAffinityPreset", .str spec.PodAffinityPreset),
     ("podAntiAffinityPreset", .str spec.PodAntiAffinityPreset),
     ("nodeAffinityPreset", .obj (JSONFields.ofList
        [("Type", .str spec.NodeAffinityPreset.AffinityType),
         ("Key", .str spec.NodeAffinityPreset.Key),
         ("Values", encodeStringSlice spec.NodeAffinityPreset.Values)])),
     ("topologySpreadConstraints",
        match spec.TopologySpreadConstraints with
        | none => .null
        | some constraints => .arr (JSONList.ofList (constraints.map (fun c =>
            JSON.obj (JSONFields.ofList
              [("maxSkew", .num c.MaxSkew), ("topologyKey", .str c.TopologyKey),
               ("whenUnsatisfiable", .str c.WhenUnsatisfiable)])))))])

/-- Modelled from the spec: `KubevirtNodeSpec.MarshalJSON` of `pkg/api/v1/types.go`,
which is not among the source files.  With a template named (flavor or instancetype)
`cpus` and `memory` must both be empty, and an error names the ones that are set;
without a template both are required.  The disk fields are always required, and a
missing-fields error lists all failing names in the declared order (section 4.3 of the
specification and `TestKubevirtNodeSpec_MarshalJSON`). -/
def KubevirtNodeSpec.MarshalJSON (spec : KubevirtNodeSpec) : Except GoError String :=
  let missing : List String := []
  let template := spec.FlavorName.length != 0 || spec.Instancetype.isSome
  let conflicting : List String := []
  let conflicting :=
    if template && spec.CPUs.length > 0 then conflicting ++ ["cpus"] else conflicting
  let conflicting :=
    if template && spec.Memory.length > 0 then conflicting ++ ["memory"] else conflicting
  if conflicting.length > 0 then
    .error (.errorString (", ".intercalate conflicting ++
      " can not be set at the same time in template (instancetype/flavor) and node spec"))
  else
    let missing :=
      if !template && spec.CPUs.length = 0 then missing ++ ["cpus"] else missing
    let missing :=
      if !template && spec.Memory.length = 0 then missing ++ ["memory"] else missing
    let missing :=
      if spec.PrimaryDiskOSImage.length = 0 then missing ++ ["primaryDiskOSImage"]
      else missing
    let missing :=
      if spec.PrimaryDiskStorageClassName.length = 0 then
        missing ++ ["primaryDiskStorageClassName"]
      else missing
    let missing :=
      if spec.PrimaryDiskSize.length = 0 then missing ++ ["primaryDiskSize"] else missing
    if missing.length > 0 then
      .error (.errorString
        ("missing or invalid required parameter(s): " ++ ", ".intercalate missing))
    else
      .ok (JSON.marshal spec.toJSON)

/-- The zero value of `KubevirtNodeSpec`. -/
def KubevirtNodeSpec.empty : KubevirtNodeSpec :=
  { FlavorName := "", FlavorProfile := "", Instancetype := none, Preference := none,
    CPUs := "", Memory := "", PrimaryDiskOSImage := "", PrimaryDiskStorageClassName := "",
    PrimaryDiskSize := "", SecondaryDisks := none, PodAffinityPreset := "",
    PodAntiAffinityPreset := "",
    NodeAffinityPreset := { AffinityType := "", Key := "", Values := none },
    TopologySpreadConstraints := none }

/-- The value `KubevirtNodeSpec` with the three disk fields of the test cases set. -/
def KubevirtNodeSpec.withDisks : KubevirtNodeSpec :=
  { KubevirtNodeSpec.empty with
    PrimaryDiskOSImage := "test-url", PrimaryDiskStorageClassName := "test-sc",
    PrimaryDiskSize := "1" }

/-- The instancetype matcher of the test cases. -/
def sampleInstancetype : Matcher :=
  { Name := "standard-2", Kind := "VirtualMachineInstancetype" }

/-! ### Reading JSON text -/

/-- The white space `encoding/json` skips between tokens. -/
def isWhitespace (c : Char) : Bool :=
  c = ' ' || c = '\n' || c = '\r' || c = '\t'

/-- Dropping leading white space. -/
def skipWhitespace : List Char → List Char
  | [] => []
  | c :: rest => if isWhitespace c then skipWhitespace rest else c :: rest

/-- The value of a hexadecimal digit. -/
def hexValue (c : Char) : Option Nat :=
  if '0' ≤ c ∧ c ≤ '9' then some (c.toNat - 48)
  else if 'a' ≤ c ∧ c ≤ 'f' then some (c.toNat - 87)
  else if 'A' ≤ c ∧ c ≤ 'F' then some (c.toNat - 55)
  else none

/-- The character a single-letter escape stands for. -/
def unescape (c : Char) : Option Char :=
  if c = '"' then some '"'
  else if c = '\\' then some '\\'
  else if c = '/' then some '/'
  else if c = 'b' then some (Char.ofNat 8)
  else if c = 'f' then some (Char.ofNat 12)
  else if c = 'n' then some '\n'
  else if c = 'r' then some '\r'
  else if c = 't' then some '\t'
  else none

/-- The characters of a string literal after its opening quote, up to the closing
quote, and the text behind it. -/
def parseStringBody : List Char → Option (List Char × List Char)
  | [] => none
  | c :: rest =>
    if c = '"' then some ([], rest)
    else if c = '\\' then
      match rest with
      | [] => none
      | e :: rest2 =>
        if e = 'u' then
          match rest2 with
          | h1 :: h2 :: h3 :: h4 :: rest3 =>
            match hexValue h1, hexValue h2, hexValue h3, hexValue h4, parseStringBody rest3 with
            | some v1, some v2, some v3, some v4, some (s, r) =>
              some (Char.ofNat (((v1 * 16 + v2) * 16 + v3) * 16 + v4) :: s, r)
            | _, _, _, _, _ => none
          | _ => none
        else
          match unescape e, parseStringBody rest2 with
          | some ch, some (s, r) => some (ch :: s, r)
          | _, _ => none
    else if c.toNat < 32 then none
    else
      match parseStringBody rest with
      | some (s, r) => some (c :: s, r)
      | none => none

/-- Reading decimal digits into an accumulator; stops at the first other character. -/
def parseDigits : List Char → Nat → Nat × List Char
  | [], acc => (acc, [])
  | c :: rest, acc =>
    if c.isDigit then parseDigits rest (acc * 10 + (c.toNat - 48)) else (acc, c :: rest)

/-- Whether the text behind the digits of a number continues it with a fraction or an
exponent; such numbers are not integers and are not read. -/
def continuesNumber : List Char → Bool
  | [] => false
  | c :: _ => c = '.' || c = 'e' || c = 'E'

/-- An unsigned integer literal: digits without a superfluous leading zero. -/
def parseNat : List Char → Option (Nat × List Char)
  | [] => none
  | c :: rest =>
    if c.isDigit then
      if c = '0' then
        match rest with
        | [] => some (0, [])
        | d :: rest2 => if d.isDigit || continuesNumber (d :: rest2) then none
                        else some (0, d :: rest2)
      else
        let (n, r) := parseDigits (c :: rest) 0
        if continuesNumber r then none else some (n, r)
    else none

/-- An integer literal. -/
def parseInt : List Char → Option (Int × List Char)
  | [] => none
  | c :: rest =>
    if c = '-' then
      match parseNat rest with
      | some (n, r) => some (-(n : Int), r)
      | none => none
    else
      match parseNat (c :: rest) with
      | some (n, r) => some ((n : Int), r)
      | none => none

/-- Reading the given characters, or failing. -/
def expect : List Char → List Char → Option (List Char)
  | [], input => some input
  | _ :: _, [] => none
  | e :: es, c :: rest => if c = e then expect es rest else none

mutual
/-- A JSON value at the head of the text, and the text behind it.  The first argument
bounds the number of values read. -/
def parseValue : Nat → List Char → Option (JSON × List Char)
  | 0, _ => none
  | fuel + 1, input =>
    match skipWhitespace input with
    | [] => none
    | c :: rest =>
      if c = 'n' then (expect ['u', 'l', 'l'] rest).map (fun r => (JSON.null, r))
      else if c = 't' then (expect ['r', 'u', 'e'] rest).map (fun r => (JSON.bool true, r))
      else if c = 'f' then
        (expect ['a', 'l', 's', 'e'] rest).map (fun r => (JSON.bool false, r))
      else if c = '"' then
        (parseStringBody rest).map (fun p => (JSON.str (String.mk p.1), p.2))
      else if c = '[' then
        match skipWhitespace rest with
        | [] => none
        | d :: rest2 =>
          if d = ']' then some (JSON.arr .nil, rest2)
          else (parseElements fuel (d :: rest2)).map (fun p => (JSON.arr p.1, p.2))
      else if c = '\x7b' then
        match skipWhitespace rest with
        | [] => none
        | d :: rest2 =>
          if d = '\x7d' then some (JSON.obj .nil, rest2)
          else (parseMembers fuel (d :: rest2)).map (fun p => (JSON.obj p.1, p.2))
      else (parseInt (c :: rest)).map (fun p => (JSON.num p.1, p.2))
/-- The elements of a non-empty array up to its closing bracket. -/
def parseElements : Nat → List Char → Option (JSONList × List Char)
  | 0, _ => none
  | fuel + 1, input =>
    match parseValue fuel input with
    | none => none
    | some (v, r) =>
      match skipWhitespace r with
      | [] => none
      | d :: rest =>
        if d = ',' then
          (parseElements fuel rest).map (fun p => (JSONList.cons v p.1, p.2))
        else if d = ']' then some (JSONList.cons v .nil, rest)
        else none
/-- The members of a non-empty object up to its closing brace. -/
def parseMembers : Nat → List Char → Option (JSONFields × List Char)
  | 0, _ => none
  | fuel + 1, input =>
    match skipWhitespace input with
    | [] => none
    | q :: rest0 =>
      if q = '"' then
        match parseStringBody rest0 with
        | none => none
        | some (key, r0) =>
          match skipWhitespace r0 with
          | [] => none
          | colon :: r1 =>
            if colon = ':' then
              match parseValue fuel r1 with
              | none => none
              | some (v, r) =>
                match skipWhitespace r with
                | [] => none
                | d :: rest =>
                  if d = ',' then
                    (parseMembers fuel rest).map
                      (fun p => (JSONFields.cons (String.mk key) v p.1, p.2))
                  else if d = '\x7d' then some (JSONFields.cons (String.mk key) v .nil, rest)
                  else none
            else none
      else none
end

/-- The document `json.Unmarshal` reads from the text: one value, with nothing but
white space behind it.  The bound on the values read is the length of the text, which
no text exceeds. -/
def JSON.parse (text : String) : Option JSON :=
  match parseValue (text.data.length + 1) text.data with
  | some (doc, rest) => if skipWhitespace rest = [] then some doc else none
  | none => none


/-- Whether a text can follow an integer literal: it does not go on with a digit, a
fraction or an exponent. -/
def endsNumber : List Char → Bool
  | [] => true
  | c :: _ => !c.isDigit && !(c = '.' || c = 'e' || c = 'E')

mutual
/-- The number of values in a document, which bounds the steps needed to read it. -/
def JSON.size : JSON → Nat
  | .null => 1
  | .bool _ => 1
  | .num _ => 1
  | .str _ => 1
  | .arr items => items.size + 1
  | .obj fields => fields.size + 1
/-- The number of values in the elements of an array. -/
def JSONList.size : JSONList → Nat
  | .nil => 0
  | .cons head tail => head.size + tail.size + 1
/-- The number of values in the members of an object. -/
def JSONFields.size : JSONFields → Nat
  | .nil => 0
  | .cons _ value tail => value.size + tail.size + 1
end


/-! ### The cluster spec on the wire: credentials are left out -/

/-- A `kubermaticv1.OpenstackCloudSpec`, with the fields of the marshalling test. -/
structure kubermaticv1.OpenstackCloudSpec where
  Username : String
  Password : String
  SubnetID : String
  Domain : String
  FloatingIPPool : String
  Network : String
  RouterID : String
  SecurityGroups : String
  Project : String
  deriving DecidableEq, Repr

/-- A `kubermaticv1.AzureCloudSpec`, with the fields of the marshalling test. -/
structure kubermaticv1.AzureCloudSpec where
  ClientID : String
  ClientSecret : String
  TenantID : String
  AvailabilitySet : String
  ResourceGroup : String
  RouteTableName : String
  SecurityGroup : String
  SubnetName : String
  SubscriptionID : String
  VNetName : String
  deriving DecidableEq, Repr

/-- A `kubermaticv1.HetznerCloudSpec`. -/
structure kubermaticv1.HetznerCloudSpec where
  Token : String
  deriving DecidableEq, Repr

/-- A `kubermaticv1.DigitaloceanCloudSpec`. -/
structure kubermaticv1.DigitaloceanCloudSpec where
  Token : String
  deriving DecidableEq, Repr

/-- A `kubermaticv1.VSphereCredentials`. -/
structure kubermaticv1.VSphereCredentials where
  Username : String
  Password : String
  deriving DecidableEq, Repr

/-- A `kubermaticv1.VSphereCloudSpec`, with the fields of the marshalling test. -/
structure kubermaticv1.VSphereCloudSpec where
  Username : String
  Password : String
  InfraManagementUser : kubermaticv1.VSphereCredentials
  VMNetName : String
  Datastore : String
  deriving DecidableEq, Repr

/-- A `kubermaticv1.AWSCloudSpec`, with the fields of the marshalling test. -/
structure kubermaticv1.AWSCloudSpec where
  AccessKeyID : String
  SecretAccessKey : String
  SecurityGroupID : String
  InstanceProfileName : String
  RouteTableID : String
  VPCID : String
  deriving DecidableEq, Repr

/-- A `kubermaticv1.CloudSpec`: the datacenter name and the provider sections of the
marshalling test, each a pointer. -/
structure kubermaticv1.CloudSpec where
  DatacenterName : String
  Openstack : Option kubermaticv1.OpenstackCloudSpec
  Azure : Option kubermaticv1.AzureCloudSpec
  Hetzner : Option kubermaticv1.HetznerCloudSpec
  Digitalocean : Option kubermaticv1.DigitaloceanCloudSpec
  VSphere : Option kubermaticv1.VSphereCloudSpec
  AWS : Option kubermaticv1.AWSCloudSpec
  deriving DecidableEq, Repr

/-- The cloud spec with every provider credential blanked: OpenStack user name and
password, Azure client ID and secret, the Hetzner and DigitalOcean tokens, the vSphere
user names and passwords, the AWS access key ID and secret access key. -/
def kubermaticv1.CloudSpec.withoutCredentials (c : kubermaticv1.CloudSpec) :
    kubermaticv1.CloudSpec :=
  { c with
    Openstack := c.Openstack.map (fun o => { o with Username := "", Password := "" })
    Azure := c.Azure.map (fun a => { a with ClientID := "", ClientSecret := "" })
    Hetzner := c.Hetzner.map (fun h => { h with Token := "" })
    Digitalocean := c.Digitalocean.map (fun d => { d with Token := "" })
    VSphere := c.VSphere.map (fun v =>
      { v with Username := "", Password := "",
               InfraManagementUser := { Username := "", Password := "" } })
    AWS := c.AWS.map (fun a => { a with AccessKeyID := "", SecretAccessKey := "" }) }

/-- The encoding of an optional section: `null` for the nil pointer. -/
def encodeSection {α : Type} (encode : α → JSON) : Option α → JSON
  | none => .null
  | some x => encode x

/-- The public counterpart of an OpenStack section: user name and password are omitted. -/
def kubermaticv1.OpenstackCloudSpec.publicJSON (o : kubermaticv1.OpenstackCloudSpec) : JSON :=
  .obj (JSONFields.ofList
    [("subnetID", .str o.SubnetID), ("domain", .str o.Domain),
     ("floatingIPPool", .str o.FloatingIPPool), ("network", .str o.Network),
     ("routerID", .str o.RouterID), ("securityGroups", .str o.SecurityGroups),
     ("project", .str o.Project)])

/-- The public counterpart of an Azure section: client ID and secret are omitted. -/
def kubermaticv1.AzureCloudSpec.publicJSON (a : kubermaticv1.AzureCloudSpec) : JSON :=
  .obj (JSONFields.ofList
    [("tenantID", .str a.TenantID), ("availabilitySet", .str a.AvailabilitySet),
     ("resourceGroup", .str a.ResourceGroup), ("routeTable", .str a.RouteTableName),
     ("securityGroup", .str a.SecurityGroup), ("subnet", .str a.SubnetName),
     ("subscriptionID", .str a.SubscriptionID), ("vnet", .str a.VNetName)])

/-- The public counterpart of a Hetzner section: the token is omitted. -/
def kubermaticv1.HetznerCloudSpec.publicJSON (_ : kubermaticv1.HetznerCloudSpec) : JSON :=
  .obj .nil

/-- The public counterpart of a DigitalOcean section: the token is omitted. -/
def kubermaticv1.DigitaloceanCloudSpec.publicJSON (_ : kubermaticv1.DigitaloceanCloudSpec) :
    JSON :=
  .obj .nil

/-- The public counterpart of a vSphere section: the user names and passwords, those
of the infra management user included, are omitted. -/
def kubermaticv1.VSphereCloudSpec.publicJSON (v : kubermaticv1.VSphereCloudSpec) : JSON :=
  .obj (JSONFields.ofList [("vmNetName", .str v.VMNetName), ("datastore", .str v.Datastore)])

/-- The public counterpart of an AWS section: access key ID and secret access key are
omitted. -/
def kubermaticv1.AWSCloudSpec.publicJSON (a : kubermaticv1.AWSCloudSpec) : JSON :=
  .obj (JSONFields.ofList
    [("securityGroupID", .str a.SecurityGroupID),
     ("instanceProfileName", .str a.InstanceProfileName),
     ("routeTableID", .str a.RouteTableID), ("vpcID", .str a.VPCID)])

/-- Modelled from the spec: the public cloud spec that `ClusterSpec.MarshalJSON` writes
in place of the cloud spec (`pkg/api/v1/types.go` is not among the source files).  The
credential fields are omitted, the other fields are written as they are (section 6 of
the specification, "Sensitive-field redaction contract"). -/
def kubermaticv1.CloudSpec.publicJSON (c : kubermaticv1.CloudSpec) : JSON :=
  .obj (JSONFields.ofList
    [("dc", .str c.DatacenterName),
     ("openstack", encodeSection kubermaticv1.OpenstackCloudSpec.publicJSON c.Openstack),
     ("azure", encodeSection kubermaticv1.AzureCloudSpec.publicJSON c.Azure),
     ("hetzner", encodeSection kubermaticv1.HetznerCloudSpec.publicJSON c.Hetzner),
     ("digitalocean",
        encodeSection kubermaticv1.DigitaloceanCloudSpec.publicJSON c.Digitalocean),
     ("vsphere", encodeSection kubermaticv1.VSphereCloudSpec.publicJSON c.VSphere),
     ("aws", encodeSection kubermaticv1.AWSCloudSpec.publicJSON c.AWS)])

/-- A property of every member of an object. -/
def JSONFields.All (P : String → JSON → Prop) : JSONFields → Prop
  | .nil => True
  | .cons key value rest => P key value ∧ rest.All P

/-- The members of an object document; other documents have none. -/
def JSON.members : JSON → JSONFields
  | .obj fields => fields
  | _ => .nil

/-- The members of an object without the ones of the given name. -/
def JSONFields.erase : JSONFields → String → JSONFields
  | .nil, _ => .nil
  | .cons k v rest, key => if k = key then rest.erase key else .cons k v (rest.erase key)

/-- The encoding of the cluster network pointer: `null` for the nil pointer, otherwise
the two fields the handlers name followed by the remaining fields. -/
def encodeClusterNetwork : Option (kubermaticv1.ClusterNetworkingConfig JSON) → JSON
  | none => .null
  | some n =>
    .obj (.cons "konnectivityEnabled" (encodeBoolPtr n.KonnectivityEnabled)
      (.cons "proxyMode" (.str n.ProxyMode)
        ((n.Rest.members.erase "konnectivityEnabled").erase "proxyMode")))

/-- The members `ClusterSpec.MarshalJSON` writes.  The values of the SDK types are
held as the documents their own marshalling produces. -/
def apiv1.ClusterSpec.publicMembers (cs : apiv1.ClusterSpec kubermaticv1.CloudSpec JSON) :
    JSONFields :=
  JSONFields.ofList
    [("cloud", cs.Cloud.publicJSON),
     ("version", cs.Version),
     ("machineNetworks", cs.MachineNetworks),
     ("oidc", cs.OIDC),
     ("updateWindow", cs.UpdateWindow),
     ("auditLogging", cs.AuditLogging),
     ("usePodSecurityPolicyAdmissionPlugin", .bool cs.UsePodSecurityPolicyAdmissionPlugin),
     ("usePodNodeSelectorAdmissionPlugin", .bool cs.UsePodNodeSelectorAdmissionPlugin),
     ("useEventRateLimitAdmissionPlugin", .bool cs.UseEventRateLimitAdmissionPlugin),
     ("enableUserSSHKeyAgent", encodeBoolPtr cs.EnableUserSSHKeyAgent),
     ("backupConfig", cs.BackupConfig),
     ("kubelb", cs.KubeLB),
     ("kubernetesDashboard", cs.KubernetesDashboard),
     ("admissionPlugins", cs.AdmissionPlugins),
     ("opaIntegration", cs.OPAIntegration),
     ("podNodeSelectorAdmissionPluginConfig", cs.PodNodeSelectorAdmissionPluginConfig),
     ("eventRateLimitConfig", cs.EventRateLimitConfig),
     ("serviceAccount", cs.ServiceAccount),
     ("mla", cs.MLA),
     ("containerRuntime", .str cs.ContainerRuntime),
     ("clusterNetwork", encodeClusterNetwork cs.ClusterNetwork),
     ("cniPlugin", cs.CNIPlugin),
     ("exposeStrategy", cs.ExposeStrategy),
     ("apiServerAllowedIPRanges", cs.APIServerAllowedIPRanges),
     ("disableCsiDriver", .bool cs.DisableCSIDriver),
     ("kyverno", cs.Kyverno)]

/-- Modelled from the spec: `ClusterSpec.MarshalJSON` of `pkg/api/v1/types.go`, which is
not among the source files.  It writes the spec with the public cloud spec in place of
the cloud spec, so that no provider credential is serialised (section 6 of the
specification and `TestNewClusterSpec_MarshalJSON`). -/
def apiv1.ClusterSpec.MarshalJSON (cs : apiv1.ClusterSpec kubermaticv1.CloudSpec JSON) :
    Except GoError String :=
  .ok (JSON.marshal (.obj cs.publicMembers))

/-- The search `strings.Contains(s, substr)`. -/
def stringsContains (s substr : String) : Bool :=
  s.data.tails.any (fun t => substr.data.isPrefixOf t)

/-! ### Reading the cluster spec back -/

/-- The error `json.Unmarshal` returns for a value of the wrong JSON type. -/
def unmarshalTypeError (field : String) : GoError :=
  .errorString ("json: cannot unmarshal value into Go struct field " ++ field)

/-- Decoding into a Go `string`: `null` leaves the field as it is. -/
def decodeString (field : String) (v : JSON) (current : String) : Except GoError String :=
  match v with
  | .null => .ok current
  | .str s => .ok s
  | _ => .error (unmarshalTypeError field)

/-- Decoding into a Go `bool`: `null` leaves the field as it is. -/
def decodeBool (field : String) (v : JSON) (current : Bool) : Except GoError Bool :=
  match v with
  | .null => .ok current
  | .bool b => .ok b
  | _ => .error (unmarshalTypeError field)

/-- Decoding into a Go `*bool`: `null` sets the nil pointer. -/
def decodeBoolPtr (field : String) (v : JSON) : Except GoError (Option Bool) :=
  match v with
  | .null => .ok none
  | .bool b => .ok (some b)
  | _ => .error (unmarshalTypeError field)

/-- Decoding the members of an object into a struct, one after the other; the first
member of the wrong type stops the decoding. -/
def JSONFields.decodeInto {α : Type} (setField : α → String → JSON → Except GoError α) :
    JSONFields → α → Except GoError α
  | .nil, x => .ok x
  | .cons key value rest, x =>
    match setField x key value with
    | .error err => .error err
    | .ok y => rest.decodeInto setField y

/-- Decoding into a pointer to a struct: `null` sets the nil pointer, an object is
decoded into the struct pointed to, or into a zero value when the pointer is nil. -/
def decodeStructPtr {α : Type} (field : String)
    (setField : α → String → JSON → Except GoError α) (zero : α) (v : JSON)
    (current : Option α) : Except GoError (Option α) :=
  match v with
  | .null => .ok none
  | .obj fields =>
    match fields.decodeInto setField (current.getD zero) with
    | .error err => .error err
    | .ok x => .ok (some x)
  | _ => .error (unmarshalTypeError field)

/-- Adding a member at the end of an object. -/
def JSONFields.append : JSONFields → String → JSON → JSONFields
  | .nil, key, value => .cons key value .nil
  | .cons k v rest, key, value => .cons k v (rest.append key value)

/-- One member of an OpenStack section. -/
def kubermaticv1.OpenstackCloudSpec.setField (o : kubermaticv1.OpenstackCloudSpec)
    (key : String) (v : JSON) : Except GoError kubermaticv1.OpenstackCloudSpec :=
  if key = "username" then (decodeString key v o.Username).map (fun s => { o with Username := s })
  else if key = "password" then
    (decodeString key v o.Password).map (fun s => { o with Password := s })
  else if key = "subnetID" then
    (decodeString key v o.SubnetID).map (fun s => { o with SubnetID := s })
  else if key = "domain" then (decodeString key v o.Domain).map (fun s => { o with Domain := s })
  else if key = "floatingIPPool" then
    (decodeString key v o.FloatingIPPool).map (fun s => { o with FloatingIPPool := s })
  else if key = "network" then
    (decodeString key v o.Network).map (fun s => { o with Network := s })
  else if key = "routerID" then
    (decodeString key v o.RouterID).map (fun s => { o with RouterID := s })
  else if key = "securityGroups" then
    (decodeString key v o.SecurityGroups).map (fun s => { o with SecurityGroups := s })
  else if key = "project" then
    (decodeString key v o.Project).map (fun s => { o with Project := s })
  else .ok o

/-- One member of an Azure section. -/
def kubermaticv1.AzureCloudSpec.setField (a : kubermaticv1.AzureCloudSpec)
    (key : String) (v : JSON) : Except GoError kubermaticv1.AzureCloudSpec :=
  if key = "clientID" then (decodeString key v a.ClientID).map (fun s => { a with ClientID := s })
  else if key = "clientSecret" then
    (decodeString key v a.ClientSecret).map (fun s => { a with ClientSecret := s })
  else if key = "tenantID" then
    (decodeString key v a.TenantID).map (fun s => { a with TenantID := s })
  else if key = "availabilitySet" then
    (decodeString key v a.AvailabilitySet).map (fun s => { a with AvailabilitySet := s })
  else if key = "resourceGroup" then
    (decodeString key v a.ResourceGroup).map (fun s => { a with ResourceGroup := s })
  else if key = "routeTable" then
    (decodeString key v a.RouteTableName).map (fun s => { a with RouteTableName := s })
  else if key = "securityGroup" then
    (decodeString key v a.SecurityGroup).map (fun s => { a with SecurityGroup := s })
  else if key = "subnet" then
    (decodeString key v a.SubnetName).map (fun s => { a with SubnetName := s })
  else if key = "subscriptionID" then
    (decodeString key v a.SubscriptionID).map (fun s => { a with SubscriptionID := s })
  else if key = "vnet" then
    (decodeString key v a.VNetName).map (fun s => { a with VNetName := s })
  else .ok a

/-- One member of a Hetzner section. -/
def kubermaticv1.HetznerCloudSpec.setField (h : kubermaticv1.HetznerCloudSpec)
    (key : String) (v : JSON) : Except GoError kubermaticv1.HetznerCloudSpec :=
  if key = "token" then (decodeString key v h.Token).map (fun s => { h with Token := s })
  else .ok h

/-- One member of a DigitalOcean section. -/
def kubermaticv1.DigitaloceanCloudSpec.setField (d : kubermaticv1.DigitaloceanCloudSpec)
    (key : String) (v : JSON) : Except GoError kubermaticv1.DigitaloceanCloudSpec :=
  if key = "token" then (decodeString key v d.Token).map (fun s => { d with Token := s })
  else .ok d

/-- One member of a vSphere credentials object. -/
def kubermaticv1.VSphereCredentials.setField (c : kubermaticv1.VSphereCredentials)
    (key : String) (v : JSON) : Except GoError kubermaticv1.VSphereCredentials :=
  if key = "username" then (decodeString key v c.Username).map (fun s => { c with Username := s })
  else if key = "password" then
    (decodeString key v c.Password).map (fun s => { c with Password := s })
  else .ok c

/-- One member of a vSphere section. -/
def kubermaticv1.VSphereCloudSpec.setField (x : kubermaticv1.VSphereCloudSpec)
    (key : String) (v : JSON) : Except GoError kubermaticv1.VSphereCloudSpec :=
  if key = "username" then (decodeString key v x.Username).map (fun s => { x with Username := s })
  else if key = "password" then
    (decodeString key v x.Password).map (fun s => { x with Password := s })
  else if key = "infraManagementUser" then
    match v with
    | .null => .ok x
    | .obj fields =>
      (fields.decodeInto kubermaticv1.VSphereCredentials.setField x.InfraManagementUser).map
        (fun c => { x with InfraManagementUser := c })
    | _ => .error (unmarshalTypeError key)
  else if key = "vmNetName" then
    (decodeString key v x.VMNetName).map (fun s => { x with VMNetName := s })
  else if key = "datastore" then
    (decodeString key v x.Datastore).map (fun s => { x with Datastore := s })
  else .ok x

/-- One member of an AWS section. -/
def kubermaticv1.AWSCloudSpec.setField (a : kubermaticv1.AWSCloudSpec)
    (key : String) (v : JSON) : Except GoError kubermaticv1.AWSCloudSpec :=
  if key = "accessKeyID" then
    (decodeString key v a.AccessKeyID).map (fun s => { a with AccessKeyID := s })
  else if key = "secretAccessKey" then
    (decodeString key v a.SecretAccessKey).map (fun s => { a with SecretAccessKey := s })
  else if key = "securityGroupID" then
    (decodeString key v a.SecurityGroupID).map (fun s => { a with SecurityGroupID := s })
  else if key = "instanceProfileName" then
    (decodeString key v a.InstanceProfileName).map (fun s => { a with InstanceProfileName := s })
  else if key = "routeTableID" then
    (decodeString key v a.RouteTableID).map (fun s => { a with RouteTableID := s })
  else if key = "vpcID" then (decodeString key v a.VPCID).map (fun s => { a with VPCID := s })
  else .ok a

/-- One member of a cloud spec. -/
def kubermaticv1.CloudSpec.setField (c : kubermaticv1.CloudSpec) (key : String) (v : JSON) :
    Except GoError kubermaticv1.CloudSpec :=
  if key = "dc" then
    (decodeString key v c.DatacenterName).map (fun s => { c with DatacenterName := s })
  else if key = "openstack" then
    (decodeStructPtr key kubermaticv1.OpenstackCloudSpec.setField
      ⟨"", "", "", "", "", "", "", "", ""⟩ v c.Openstack).map
      (fun o => { c with Openstack := o })
  else if key = "azure" then
    (decodeStructPtr key kubermaticv1.AzureCloudSpec.setField
      ⟨"", "", "", "", "", "", "", "", "", ""⟩ v c.Azure).map (fun a => { c with Azure := a })
  else if key = "hetzner" then
    (decodeStructPtr key kubermaticv1.HetznerCloudSpec.setField ⟨""⟩ v c.Hetzner).map
      (fun h => { c with Hetzner := h })
  else if key = "digitalocean" then
    (decodeStructPtr key kubermaticv1.DigitaloceanCloudSpec.setField ⟨""⟩ v c.Digitalocean).map
      (fun d => { c with Digitalocean := d })
  else if key = "vsphere" then
    (decodeStructPtr key kubermaticv1.VSphereCloudSpec.setField
      ⟨"", "", ⟨"", ""⟩, "", ""⟩ v c.VSphere).map (fun x => { c with VSphere := x })
  else if key = "aws" then
    (decodeStructPtr key kubermaticv1.AWSCloudSpec.setField
      ⟨"", "", "", "", "", ""⟩ v c.AWS).map (fun a => { c with AWS := a })
  else .ok c

/-- One member of a cluster network: the two named fields are decoded, any other
member is kept with the remaining fields. -/
def kubermaticv1.ClusterNetworkingConfig.setField (n : kubermaticv1.ClusterNetworkingConfig JSON)
    (key : String) (v : JSON) : Except GoError (kubermaticv1.ClusterNetworkingConfig JSON) :=
  if key = "konnectivityEnabled" then
    (decodeBoolPtr key v).map (fun b => { n with KonnectivityEnabled := b })
  else if key = "proxyMode" then
    (decodeString key v n.ProxyMode).map (fun s => { n with ProxyMode := s })
  else .ok { n with Rest := .obj (n.Rest.members.append key v) }

/-- One member of a cluster spec; members with other names are skipped. -/
def apiv1.ClusterSpec.setField (cs : apiv1.ClusterSpec kubermaticv1.CloudSpec JSON)
    (key : String) (v : JSON) : Except GoError (apiv1.ClusterSpec kubermaticv1.CloudSpec JSON) :=
  if key = "cloud" then
    match v with
    | .null => .ok cs
    | .obj fields =>
      (fields.decodeInto kubermaticv1.CloudSpec.setField cs.Cloud).map
        (fun c => { cs with Cloud := c })
    | _ => .error (unmarshalTypeError key)
  else if key = "version" then .ok { cs with Version := v }
  else if key = "machineNetworks" then .ok { cs with MachineNetworks := v }
  else if key = "oidc" then .ok { cs with OIDC := v }
  else if key = "updateWindow" then .ok { cs with UpdateWindow := v }
  else if key = "auditLogging" then .ok { cs with AuditLogging := v }
  else if key = "usePodSecurityPolicyAdmissionPlugin" then
    (decodeBool key v cs.UsePodSecurityPolicyAdmissionPlugin).map
      (fun b => { cs with UsePodSecurityPolicyAdmissionPlugin := b })
  else if key = "usePodNodeSelectorAdmissionPlugin" then
    (decodeBool key v cs.UsePodNodeSelectorAdmissionPlugin).map
      (fun b => { cs with UsePodNodeSelectorAdmissionPlugin := b })
  else if key = "useEventRateLimitAdmissionPlugin" then
    (decodeBool key v cs.UseEventRateLimitAdmissionPlugin).map
      (fun b => { cs with UseEventRateLimitAdmissionPlugin := b })
  else if key = "enableUserSSHKeyAgent" then
    (decodeBoolPtr key v).map (fun b => { cs with EnableUserSSHKeyAgent := b })
  else if key = "backupConfig" then .ok { cs with BackupConfig := v }
  else if key = "kubelb" then .ok { cs with KubeLB := v }
  else if key = "kubernetesDashboard" then .ok { cs with KubernetesDashboard := v }
  else if key = "admissionPlugins" then .ok { cs with AdmissionPlugins := v }
  else if key = "opaIntegration" then .ok { cs with OPAIntegration := v }
  else if key = "podNodeSelectorAdmissionPluginConfig" then
    .ok { cs with PodNodeSelectorAdmissionPluginConfig := v }
  else if key = "eventRateLimitConfig" then .ok { cs with EventRateLimitConfig := v }
  else if key = "serviceAccount" then .ok { cs with ServiceAccount := v }
  else if key = "mla" then .ok { cs with MLA := v }
  else if key = "containerRuntime" then
    (decodeString key v cs.ContainerRuntime).map (fun s => { cs with ContainerRuntime := s })
  else if key = "clusterNetwork" then
    (decodeStructPtr key kubermaticv1.ClusterNetworkingConfig.setField
      ⟨none, "", .obj .nil⟩ v cs.ClusterNetwork).map (fun n => { cs with ClusterNetwork := n })
  else if key = "cniPlugin" then .ok { cs with CNIPlugin := v }
  else if key = "exposeStrategy" then .ok { cs with ExposeStrategy := v }
  else if key = "apiServerAllowedIPRanges" then .ok { cs with APIServerAllowedIPRanges := v }
  else if key = "disableCsiDriver" then
    (decodeBool key v cs.DisableCSIDriver).map (fun b => { cs with DisableCSIDriver := b })
  else if key = "kyverno" then .ok { cs with Kyverno := v }
  else .ok cs

/-- The zero value of `apiv1.ClusterSpec`, with the SDK values as `null`. -/
def apiv1.ClusterSpec.zero : apiv1.ClusterSpec kubermaticv1.CloudSpec JSON :=
  { Cloud := ⟨"", none, none, none, none, none, none⟩, MachineNetworks := .null,
    Version := .null, OIDC := .null, UpdateWindow := .null, AuditLogging := .null,
    UsePodSecurityPolicyAdmissionPlugin := false, UsePodNodeSelectorAdmissionPlugin := false,
    UseEventRateLimitAdmissionPlugin := false, EnableUserSSHKeyAgent := none,
    BackupConfig := .null, KubeLB := .null, KubernetesDashboard := .null,
    AdmissionPlugins := .null, OPAIntegration := .null,
    PodNodeSelectorAdmissionPluginConfig := .null, EventRateLimitConfig := .null,
    ServiceAccount := .null, MLA := .null, ContainerRuntime := "", ClusterNetwork := none,
    CNIPlugin := .null, ExposeStrategy := .null, APIServerAllowedIPRanges := .null,
    DisableCSIDriver := false, Kyverno := .null }

/-- The call `json.Unmarshal(text, &clusterSpec)` on a zero `apiv1.ClusterSpec`: the
text must be one JSON document, and an object is decoded member by member. -/
def apiv1.ClusterSpec.Unmarshal (text : String) :
    Except GoError (apiv1.ClusterSpec kubermaticv1.CloudSpec JSON) :=
  match JSON.parse text with
  | none => .error (.errorString "invalid character in JSON input")
  | some .null => .ok apiv1.ClusterSpec.zero
  | some (.obj fields) => fields.decodeInto apiv1.ClusterSpec.setField apiv1.ClusterSpec.zero
  | some _ => .error (unmarshalTypeError "ClusterSpec")

/-- The cluster spec with every provider credential blanked. -/
def apiv1.ClusterSpec.withoutCredentials (cs : apiv1.ClusterSpec kubermaticv1.CloudSpec JSON) :
    apiv1.ClusterSpec kubermaticv1.CloudSpec JSON :=
  { cs with Cloud := cs.Cloud.withoutCredentials }

/-- The Hetzner cluster spec of case 3 of `TestNewClusterSpec_MarshalJSON`, with the
given token. -/
def sampleHetznerSpec (token : String) : apiv1.ClusterSpec kubermaticv1.CloudSpec JSON :=
  { apiv1.ClusterSpec.zero with
    Version := .str "1.2.3"
    Cloud := { DatacenterName := "", Openstack := none, Azure := none,
               Hetzner := some { Token := token }, Digitalocean := none, VSphere := none,
               AWS := none } }

/-! ## Two-variant helpers: privileged for admins, regular otherwise -/

/-- A `provider.UserInfo`. -/
structure UserInfo where
  Email : String
  Groups : List String
  Roles : List String
  IsAdmin : Bool
  deriving DecidableEq, Repr

/-- A `kubermaticv1.Project`, as far as the handlers read it. -/
structure kubermaticv1.Project where
  Name : String
  deriving DecidableEq, Repr

/-- The message `err.Error()` of a Go error. -/
def GoError.Error : GoError → String
  | .errorString msg => msg
  | .wrapError msg err => msg ++ err.Error
  | .StatusError _ msg => msg
  | .HTTPError _ msg => msg
  | .HTTPErrorPtr _ msg => msg

/-- The constructor `utilerrors.New(code, msg)`. -/
def utilerrorsNew (code : Int) (msg : String) : GoError := GoError.HTTPError code msg

/-- The constant `http.StatusInternalServerError`. -/
def StatusInternalServerError : Int := 500

/-- The identity lookup and the cluster and SSH key providers, regular and privileged,
that the helpers of `handler/common/cluster.go` call.  `K` is the SSH key type. -/
structure ClusterProviders (C V K : Type) where
  userInfoGetter : String → Except GoError UserInfo
  KubernetesErrorToHTTPError : GoError → GoError
  UpdateUnsecured : kubermaticv1.Project → kubermaticv1.Cluster C V →
    Except GoError (kubermaticv1.Cluster C V)
  Update : kubermaticv1.Project → UserInfo → kubermaticv1.Cluster C V →
    Except GoError (kubermaticv1.Cluster C V)
  NewUnsecured : kubermaticv1.Project → kubermaticv1.Cluster C V → String →
    Except GoError (kubermaticv1.Cluster C V)
  New : kubermaticv1.Project → UserInfo → kubermaticv1.Cluster C V →
    Except GoError (kubermaticv1.Cluster C V)
  SSHKeyGetUnsecured : String → Except GoError K
  SSHKeyGet : UserInfo → String → Except GoError K

/-- The function `updateCluster` of `handler/common/cluster.go`, with the calls it
makes. -/
def updateCluster {C V K : Type} (p : ClusterProviders C V K) (project : kubermaticv1.Project)
    (cluster : kubermaticv1.Cluster C V) :
    Except GoError (kubermaticv1.Cluster C V) × List Call :=
  match p.userInfoGetter "" with
  | .error err =>
    (.error (.wrapError "failed to get user information: " err), [.userInfoGetter ""])
  | .ok adminUserInfo =>
    if adminUserInfo.IsAdmin then
      (p.UpdateUnsecured project cluster,
        [.userInfoGetter "", .privileged "ClusterProvider.UpdateUnsecured"])
    else
      match p.userInfoGetter project.Name with
      | .error err =>
        (.error (.wrapError "failed to get user information: " err),
          [.userInfoGetter "", .userInfoGetter project.Name])
      | .ok userInfo =>
        (p.Update project userInfo cluster,
          [.userInfoGetter "", .userInfoGetter project.Name,
           .regular "ClusterProvider.Update"])

/-- The function `createNewCluster` of `handler/common/cluster.go`, with the calls it
makes. -/
def createNewCluster {C V K : Type} (p : ClusterProviders C V K)
    (project : kubermaticv1.Project) (cluster : kubermaticv1.Cluster C V) :
    Except GoError (kubermaticv1.Cluster C V) × List Call :=
  match p.userInfoGetter "" with
  | .error err => (.error (p.KubernetesErrorToHTTPError err), [.userInfoGetter ""])
  | .ok adminUserInfo =>
    if adminUserInfo.IsAdmin then
      (p.NewUnsecured project cluster adminUserInfo.Email,
        [.userInfoGetter "", .privileged "ClusterProvider.NewUnsecured"])
    else
      match p.userInfoGetter project.Name with
      | .error err =>
        (.error (p.KubernetesErrorToHTTPError err),
          [.userInfoGetter "", .userInfoGetter project.Name])
      | .ok userInfo =>
        (p.New project userInfo cluster,
          [.userInfoGetter "", .userInfoGetter project.Name, .regular "ClusterProvider.New"])

/-- The function `getSSHKey` of `handler/common/cluster.go`, with the calls it makes. -/
def getSSHKey {C V K : Type} (p : ClusterProviders C V K) (projectID keyName : String) :
    Except GoError K × List Call :=
  match p.userInfoGetter "" with
  | .error err =>
    (.error (utilerrorsNew StatusInternalServerError err.Error), [.userInfoGetter ""])
  | .ok adminUserInfo =>
    if adminUserInfo.IsAdmin then
      (p.SSHKeyGetUnsecured keyName,
        [.userInfoGetter "", .privileged "SSHKeyProvider.GetUnsecured"])
    else
      match p.userInfoGetter projectID with
      | .error err =>
        (.error (utilerrorsNew StatusInternalServerError err.Error),
          [.userInfoGetter "", .userInfoGetter projectID])
      | .ok userInfo =>
        (p.SSHKeyGet userInfo keyName,
          [.userInfoGetter "", .userInfoGetter projectID, .regular "SSHKeyProvider.Get"])

/-- The identity lookup and the addon providers, regular and privileged, that the
helpers of `handler/common/addon.go` take from the request context.  `A` is the addon
type, `R` the raw variables. -/
structure AddonProviders (C V A R : Type) where
  userInfoGetter : String → Except GoError UserInfo
  DeleteUnsecured : kubermaticv1.Cluster C V → String → Except GoError Unit
  Delete : UserInfo → kubermaticv1.Cluster C V → String → Except GoError Unit
  UpdateUnsecured : kubermaticv1.Cluster C V → A → Except GoError A
  Update : UserInfo → kubermaticv1.Cluster C V → A → Except GoError A
  NewUnsecured : kubermaticv1.Cluster C V → String → R → GoMap String → Except GoError A
  New : UserInfo → kubermaticv1.Cluster C V → String → R → GoMap String → Except GoError A
  GetUnsecured : kubermaticv1.Cluster C V → String → Except GoError A
  Get : UserInfo → kubermaticv1.Cluster C V → String → Except GoError A
  ListUnsecured : kubermaticv1.Cluster C V → Except GoError (List A)
  List : UserInfo → kubermaticv1.Cluster C V → Except GoError (List A)

/-- The function `deleteAddon` of `handler/common/addon.go`, with the calls it makes. -/
def deleteAddon {C V A R : Type} (p : AddonProviders C V A R)
    (cluster : kubermaticv1.Cluster C V) (projectID addonID : String) :
    Except GoError Unit × List Call :=
  match p.userInfoGetter "" with
  | .error err => (.error err, [.userInfoGetter ""])
  | .ok adminUserInfo =>
    if adminUserInfo.IsAdmin then
      (p.DeleteUnsecured cluster addonID,
        [.userInfoGetter "", .privileged "AddonProvider.DeleteUnsecured"])
    else
      match p.userInfoGetter projectID with
      | .error err => (.error err, [.userInfoGetter "", .userInfoGetter projectID])
      | .ok userInfo =>
        (p.Delete userInfo cluster addonID,
          [.userInfoGetter "", .userInfoGetter projectID, .regular "AddonProvider.Delete"])

/-- The function `updateAddon` of `handler/common/addon.go`, with the calls it makes. -/
def updateAddon {C V A R : Type} (p : AddonProviders C V A R)
    (cluster : kubermaticv1.Cluster C V) (addon : A) (projectID : String) :
    Except GoError A × List Call :=
  match p.userInfoGetter "" with
  | .error err => (.error err, [.userInfoGetter ""])
  | .ok adminUserInfo =>
    if adminUserInfo.IsAdmin then
      (p.UpdateUnsecured cluster addon,
        [.userInfoGetter "", .privileged "AddonProvider.UpdateUnsecured"])
    else
      match p.userInfoGetter projectID with
      | .error err => (.error err, [.userInfoGetter "", .userInfoGetter projectID])
      | .ok userInfo =>
        (p.Update userInfo cluster addon,
          [.userInfoGetter "", .userInfoGetter projectID, .regular "AddonProvider.Update"])

/-- The function `createAddon` of `handler/common/addon.go`, with the calls it makes. -/
def createAddon {C V A R : Type} (p : AddonProviders C V A R)
    (cluster : kubermaticv1.Cluster C V) (rawVars : R) (labels : GoMap String)
    (projectID name : String) : Except GoError A × List Call :=
  match p.userInfoGetter "" with
  | .error err => (.error err, [.userInfoGetter ""])
  | .ok adminUserInfo =>
    if adminUserInfo.IsAdmin then
      (p.NewUnsecured cluster name rawVars labels,
        [.userInfoGetter "", .privileged "AddonProvider.NewUnsecured"])
    else
      match p.userInfoGetter projectID with
      | .error err => (.error err, [.userInfoGetter "", .userInfoGetter projectID])
      | .ok userInfo =>
        (p.New userInfo cluster name rawVars labels,
          [.userInfoGetter "", .userInfoGetter projectID, .regular "AddonProvider.New"])

/-- The function `getAddon` of `handler/common/addon.go`, with the calls it makes. -/
def getAddon {C V A R : Type} (p : AddonProviders C V A R)
    (cluster : kubermaticv1.Cluster C V) (projectID addonID : String) :
    Except GoError A × List Call :=
  match p.userInfoGetter "" with
  | .error err => (.error err, [.userInfoGetter ""])
  | .ok adminUserInfo =>
    if adminUserInfo.IsAdmin then
      (p.GetUnsecured cluster addonID,
        [.userInfoGetter "", .privileged "AddonProvider.GetUnsecured"])
    else
      match p.userInfoGetter projectID with
      | .error err => (.error err, [.userInfoGetter "", .userInfoGetter projectID])
      | .ok userInfo =>
        (p.Get userInfo cluster addonID,
          [.userInfoGetter "", .userInfoGetter projectID, .regular "AddonProvider.Get"])

/-- The function `listAddons` of `handler/common/addon.go`, with the calls it makes. -/
def listAddons {C V A R : Type} (p : AddonProviders C V A R)
    (cluster : kubermaticv1.Cluster C V) (projectID : String) :
    Except GoError (List A) × List Call :=
  match p.userInfoGetter "" with
  | .error err => (.error err, [.userInfoGetter ""])
  | .ok adminUserInfo =>
    if adminUserInfo.IsAdmin then
      (p.ListUnsecured cluster,
        [.userInfoGetter "", .privileged "AddonProvider.ListUnsecured"])
    else
      match p.userInfoGetter projectID with
      | .error err => (.error err, [.userInfoGetter "", .userInfoGetter projectID])
      | .ok userInfo =>
        (p.List userInfo cluster,
          [.userInfoGetter "", .userInfoGetter projectID, .regular "AddonProvider.List"])

/-- What it means for a helper to dispatch on the admin flag.  `run` is the result of
the helper with the calls it made, `scope` the project scope of the second identity
lookup, `privileged` and `regular` the two provider calls.  For an admin the result is
that of the privileged call, and the calls are the unscoped lookup and the privileged
call only; for another caller whose scoped identity resolves the result is that of the
regular call with that identity, and the calls are the two lookups and the regular call
only; when the unscoped lookup fails an error is returned and there is no call but that
lookup; and for a caller who is no admin and whose scoped lookup fails an error is
returned and the calls are the two lookups only, so no provider is called. -/
def DispatchesOnAdmin {α : Type} (userInfoGetter : String → Except GoError UserInfo)
    (scope : String) (privileged : UserInfo → Except GoError α)
    (regular : UserInfo → Except GoError α) (privilegedCall regularCall : Call)
    (run : Except GoError α × List Call) : Prop :=
  (∀ adminUserInfo, userInfoGetter "" = .ok adminUserInfo → adminUserInfo.IsAdmin = true →
    run.1 = privileged adminUserInfo ∧ run.2 = [.userInfoGetter "", privilegedCall]) ∧
  (∀ adminUserInfo userInfo, userInfoGetter "" = .ok adminUserInfo →
    adminUserInfo.IsAdmin = false → userInfoGetter scope = .ok userInfo →
    run.1 = regular userInfo ∧
    run.2 = [.userInfoGetter "", .userInfoGetter scope, regularCall]) ∧
  (∀ err, userInfoGetter "" = .error err →
    (∃ returned, run.1 = .error returned) ∧ run.2 = [.userInfoGetter ""]) ∧
  (∀ adminUserInfo err, userInfoGetter "" = .ok adminUserInfo →
    adminUserInfo.IsAdmin = false → userInfoGetter scope = .error err →
    (∃ returned, run.1 = .error returned) ∧
    run.2 = [.userInfoGetter "", .userInfoGetter scope])

/-! ## Listing the clusters of a project (`handler/common/cluster.go`) -/

/-- The check `errors.As(err, &errHttp)` of `GetClusters` for a target
`var errHttp *utilerrors.HTTPError`, followed by `errHttp.StatusCode()`: the status code
of the first error along the chain of wrapped errors whose type is the pointer type
`*utilerrors.HTTPError`, if there is one.  An error whose type is the struct type
`utilerrors.HTTPError`, as `utilerrors.New` returns it, is not assignable to the target
and does not match. -/
def asHTTPErrorStatus : GoError → Option Int
  | .HTTPErrorPtr code _ => some code
  | .HTTPError _ _ => none
  | .wrapError _ err => asHTTPErrorStatus err
  | .errorString _ => none
  | .StatusError _ _ => none

/-- The check `errors.As(err, &httpErr)` of `WriteHTTPError` for a target
`var httpErr utilerrors.HTTPError`, followed by `httpErr.StatusCode()`: the status code
of the first error along the chain of wrapped errors whose type is the struct type
`utilerrors.HTTPError`, if there is one. -/
def WriteHTTPError.asHTTPError : GoError → Option Int
  | .HTTPError code _ => some code
  | .HTTPErrorPtr _ _ => none
  | .wrapError _ err => WriteHTTPError.asHTTPError err
  | .errorString _ => none
  | .StatusError _ _ => none

/-- The options `provider.ProjectGetOptions`. -/
structure ProjectGetOptions where
  IncludeUninitialized : Bool
  deriving DecidableEq, Repr

/-- What `GetClusters` calls outside this repository.  `V` are opaque SDK values, `D` the
datacenter, `I` a version incompatibility, `X` the KubermaticConfiguration, `L` a client
of the user cluster and `M` a machine deployment. -/
structure ClusterListing (V D I X L M : Type) where
  userInfoGetter : String → Except GoError UserInfo
  KubernetesErrorToHTTPError : GoError → GoError
  /-- The call `privilegedProjectProvider.GetUnsecured(ctx, projectID, options)`. -/
  ProjectGetUnsecured : String → Option ProjectGetOptions → Except GoError kubermaticv1.Project
  /-- The call `projectProvider.Get(ctx, userInfo, projectID, options)`. -/
  ProjectGet : UserInfo → String → Option ProjectGetOptions →
    Except GoError kubermaticv1.Project
  configGetter : Except GoError X
  /-- The call `version.NewFromConfiguration(config).GetIncompatibilities()`. -/
  GetIncompatibilities : X → List I
  /-- The call `provider.DatacenterFromSeedMap(adminUserInfo, seedsGetter, name)`. -/
  DatacenterFromSeedMap : UserInfo → String → Except GoError D
  GetAdminClientForUserCluster : kubermaticv1.Cluster kubermaticv1.CloudSpec V →
    Except GoError L
  GetClientForUserCluster : UserInfo → kubermaticv1.Cluster kubermaticv1.CloudSpec V →
    Except GoError L
  /-- The call `client.List(ctx, machineDeployments, InNamespace(kube-system))`, giving
  `machineDeployments.Items`. -/
  clientList : L → Except GoError (List M)
  /-- The call `clusterProvider.List(ctx, project, nil)`, giving `clusters.Items`. -/
  List : kubermaticv1.Project →
    Except GoError (List (kubermaticv1.Cluster kubermaticv1.CloudSpec V))

/-- The function `GetProject` of `handler/v1/common/common.go`. -/
def GetProject {V D I X L M : Type} (env : ClusterListing V D I X L M) (projectID : String)
    (options : Option ProjectGetOptions) : Except GoError kubermaticv1.Project :=
  match env.userInfoGetter "" with
  | .error err => .error err
  | .ok adminUserInfo =>
    match env.ProjectGetUnsecured projectID options with
    | .error err => .error err
    | .ok adminProject =>
      if adminUserInfo.IsAdmin then .ok adminProject
      else
        match env.userInfoGetter projectID with
        | .error err => .error err
        | .ok userInfo => env.ProjectGet userInfo projectID options

/-- The function `GetClusterClient` of `handler/v1/common/common.go`. -/
def GetClusterClient {V D I X L M : Type} (env : ClusterListing V D I X L M)
    (cluster : kubermaticv1.Cluster kubermaticv1.CloudSpec V) (projectID : String) :
    Except GoError L :=
  match env.userInfoGetter "" with
  | .error err => .error (.wrapError "failed to get user information: " err)
  | .ok adminUserInfo =>
    if adminUserInfo.IsAdmin then env.GetAdminClientForUserCluster cluster
    else
      match env.userInfoGetter projectID with
      | .error err => .error (.wrapError "failed to get user information: " err)
      | .ok userInfo => env.GetClientForUserCluster userInfo cluster

/-- The function `listClusterMachineDeployments` of `handler/common/cluster.go`. -/
def listClusterMachineDeployments {V D I X L M : Type} (env : ClusterListing V D I X L M)
    (cluster : kubermaticv1.Cluster kubermaticv1.CloudSpec V) (projectID : String) :
    Except GoError (List M) :=
  match GetClusterClient env cluster projectID with
  | .error err => .error err
  | .ok client =>
    match env.clientList client with
    | .error err => .error err
    | .ok machineDeployments => .ok machineDeployments

/-- The first loop of `GetClusters`: the rest of `clusters.Items` against the
`apiClusters` appended so far. -/
def GetClusters.convertLoop {V D I X L M : Type} (env : ClusterListing V D I X L M)
    (ext : Collaborators kubermaticv1.CloudSpec V D I) (adminUserInfo : UserInfo)
    (incompatibilities : List I) :
    List (kubermaticv1.Cluster kubermaticv1.CloudSpec V) →
    List (apiv1.Cluster kubermaticv1.CloudSpec V) →
    Except GoError (List (apiv1.Cluster kubermaticv1.CloudSpec V))
  | [], apiClusters => .ok apiClusters
  | internalCluster :: rest, apiClusters =>
    match env.DatacenterFromSeedMap adminUserInfo internalCluster.Spec.Cloud.DatacenterName with
    | .error err =>
      if asHTTPErrorStatus err == some StatusForbidden then
        GetClusters.convertLoop env ext adminUserInfo incompatibilities rest apiClusters
      else .error (env.KubernetesErrorToHTTPError err)
    | .ok dc =>
      GetClusters.convertLoop env ext adminUserInfo incompatibilities rest
        (apiClusters ++
          [ConvertInternalClusterToExternal ext internalCluster dc true incompatibilities])

/-- The goroutines of `GetClusters`, one for each position of `clusters.Items`, taken in
the order of their positions: each writes to its own position of `listErrs` or of
`apiClusters` only.  The result is `none` when a goroutine indexes `apiClusters` out of
range, which panics. -/
def GetClusters.countLoop {V D I X L M : Type} (env : ClusterListing V D I X L M)
    (projectID : String) :
    List (kubermaticv1.Cluster kubermaticv1.CloudSpec V) → Nat →
    List (apiv1.Cluster kubermaticv1.CloudSpec V) → List (Option GoError) →
    Option (List (apiv1.Cluster kubermaticv1.CloudSpec V) × List (Option GoError))
  | [], _, apiClusters, listErrs => some (apiClusters, listErrs)
  | cl :: rest, pos, apiClusters, listErrs =>
    match listClusterMachineDeployments env cl projectID with
    | .error er =>
      GetClusters.countLoop env projectID rest (pos + 1) apiClusters (listErrs.set pos (some er))
    | .ok machineDeployment =>
      if h : pos < apiClusters.length then
        GetClusters.countLoop env projectID rest (pos + 1)
          (apiClusters.set pos
            { apiClusters[pos] with
              MachineDeploymentCount := some (machineDeployment.length : Int) })
          listErrs
      else none

/-- The function `GetClusters` of `handler/common/cluster.go`; `none` is a run-time
panic. -/
def GetClusters {V D I X L M : Type} (env : ClusterListing V D I X L M)
    (ext : Collaborators kubermaticv1.CloudSpec V D I) (projectID : String)
    (includeMachineDeploymentCount : Bool) :
    Option (Except GoError (List (apiv1.Cluster kubermaticv1.CloudSpec V))) :=
  match GetProject env projectID none with
  | .error err => some (.error err)
  | .ok project =>
    match env.userInfoGetter "" with
    | .error err => some (.error (env.KubernetesErrorToHTTPError err))
    | .ok adminUserInfo =>
      match env.List project with
      | .error err => some (.error err)
      | .ok clusters =>
        match env.configGetter with
        | .error err => some (.error err)
        | .ok config =>
          match GetClusters.convertLoop env ext adminUserInfo (env.GetIncompatibilities config)
              clusters [] with
          | .error err => some (.error err)
          | .ok apiClusters =>
            if includeMachineDeploymentCount then
              match GetClusters.countLoop env projectID clusters 0 apiClusters
                  (List.replicate clusters.length none) with
              | none => none
              | some (apiClusters, listErrs) =>
                match listErrs.findSome? id with
                | some er => some (.error er)
                | none => some (.ok apiClusters)
            else some (.ok apiClusters)

/-- The external conversion that `GetClusters` appends for a listed cluster, if its
datacenter lookup succeeds. -/
def GetClusters.converted {V D I X L M : Type} (env : ClusterListing V D I X L M)
    (ext : Collaborators kubermaticv1.CloudSpec V D I) (adminUserInfo : UserInfo)
    (incompatibilities : List I) (internalCluster : kubermaticv1.Cluster kubermaticv1.CloudSpec V) :
    Option (apiv1.Cluster kubermaticv1.CloudSpec V) :=
  match env.DatacenterFromSeedMap adminUserInfo internalCluster.Spec.Cloud.DatacenterName with
  | .ok dc => some (ConvertInternalClusterToExternal ext internalCluster dc true incompatibilities)
  | .error _ => none

/-- Whether the datacenter lookup of a listed cluster succeeds or fails with an error
that the check of `GetClusters` for a `*utilerrors.HTTPError` of status 403 matches. -/
def GetClusters.lookupPasses {V D I X L M : Type} (env : ClusterListing V D I X L M)
    (adminUserInfo : UserInfo) (internalCluster : kubermaticv1.Cluster kubermaticv1.CloudSpec V) :
    Prop :=
  ∀ err, env.DatacenterFromSeedMap adminUserInfo internalCluster.Spec.Cloud.DatacenterName
      = .error err → asHTTPErrorStatus err = some StatusForbidden

/-- A sample cluster in the named datacenter. -/
def sampleClusterIn (name datacenter : String) : kubermaticv1.Cluster kubermaticv1.CloudSpec Unit :=
  { Name := name, ResourceVersion := "1", Labels := none, Annotations := none,
    CreationTimestamp := (), DeletionTimestamp := none, Finalizers := [],
    Spec := { HumanReadableName := name,
              Cloud := { DatacenterName := datacenter, Openstack := none, Azure := none,
                         Hetzner := none, Digitalocean := none, VSphere := none, AWS := none },
              MachineNetworks := (), Version := (),
              OIDC := (), UsePodSecurityPolicyAdmissionPlugin := false,
              UsePodNodeSelectorAdmissionPlugin := false,
              UseEventRateLimitAdmissionPlugin := false, AdmissionPlugins := (),
              AuditLogging := (), UpdateWindow := (), OPAIntegration := (),
              PodNodeSelectorAdmissionPluginConfig := (), EventRateLimitConfig := (),
              ServiceAccount := (), MLA := (), ContainerRuntime := "containerd",
              ClusterNetwork := { KonnectivityEnabled := some true, ProxyMode := "ipvs",
                                  Rest := () },
              CNIPlugin := (), ExposeStrategy := (), BackupConfig := (),
              KubernetesDashboard := (), APIServerAllowedIPRanges := (), KubeLB := (),
              DisableCSIDriver := false, Kyverno := (), EnableUserSSHKeyAgent := some true,
              Features := none, Rest := () },
    Status := (sampleCluster false).Status }

/-- A sample admin identity. -/
def sampleAdmin : UserInfo :=
  { Email := "admin@example.com", Groups := [], Roles := [], IsAdmin := true }

/-- A sample environment of `GetClusters`: the project holds the listed clusters, the
datacenter `restricted` is refused with a `*utilerrors.HTTPError` of status 403, the
datacenter `refused` with the error `utilerrors.New(http.StatusForbidden, "forbidden")`,
the datacenter `broken` fails with status 500, every other datacenter is found, and
every user cluster has the given number of machine deployments. -/
def sampleListing (clusters : List (kubermaticv1.Cluster kubermaticv1.CloudSpec Unit))
    (machineDeployments : Nat) : ClusterListing Unit Unit Unit Unit Unit Unit :=
  { userInfoGetter := fun _ => .ok sampleAdmin
    KubernetesErrorToHTTPError := fun err => err
    ProjectGetUnsecured := fun projectID _ => .ok { Name := projectID }
    ProjectGet := fun _ projectID _ => .ok { Name := projectID }
    List := fun _ => .ok clusters
    configGetter := .ok ()
    GetIncompatibilities := fun _ => []
    DatacenterFromSeedMap := fun _ name =>
      if name = "restricted" then .error (.HTTPErrorPtr 403 "forbidden")
      else if name = "refused" then .error (utilerrorsNew StatusForbidden "forbidden")
      else if name = "broken" then .error (.HTTPError 500 "seed unavailable")
      else .ok ()
    GetAdminClientForUserCluster := fun _ => .ok ()
    GetClientForUserCluster := fun _ _ => .ok ()
    clientList := fun _ => .ok (List.replicate machineDeployments ()) }

/-- A sample set of SDK checks for clusters with a cloud spec. -/
def sampleCloudCollaborators : Collaborators kubermaticv1.CloudSpec Unit Unit Unit :=
  { MigrationToExternalCloudControllerSupported := fun _ _ _ => false
    NeedCCMMigration := fun _ => false
    FilterLabels := fun labels => labels }

/-! ## Logging request errors (`handler/routing.go`) -/

/-- The errors that `ctx.Err()` returns once a context is done. -/
inductive ContextError where
  | Canceled
  | DeadlineExceeded
  deriving DecidableEq, Repr

/-- An `http.Request` as far as the error handler reads it: the `URL` pointer, given by
the text that `URL.String()` returns. -/
structure Request where
  URL : Option String
  deriving DecidableEq, Repr

/-- A call `log.Errorw(msg, keysAndValues...)`. -/
structure LogEntry where
  msg : String
  keysAndValues : List (String × String)
  deriving DecidableEq, Repr

/-- What a call of the error handler did: the entries it wrote to the log and the number
of times it called the request provider. -/
structure ErrorHandlerRun where
  log : List LogEntry
  reqProviderCalls : Nat
  deriving DecidableEq, Repr

/-- The last statement of the handler returned by `NewRequestErrorHandler`:
`log.Errorw(err.Error(), "request", reqProvider().URL.String())`.  The result is `none`
when the request or its URL is the nil pointer. -/
def NewRequestErrorHandler.logError (reqProvider : Unit → Option Request) (err : GoError) :
    Option ErrorHandlerRun :=
  match reqProvider () with
  | none => none
  | some req =>
    match req.URL with
    | none => none
    | some url =>
      some { log := [{ msg := err.Error, keysAndValues := [("request", url)] }],
             reqProviderCalls := 1 }

/-- The handler returned by `NewRequestErrorHandler` of `handler/routing.go`, applied to
a context whose `Err()` is `ctxErr` and to the error `err`.  `AsHTTPError` gives the
status code of the HTTP error that `err` is, or `none` for the nil pointer;
`reqProvider` returns the `*http.Request`.  The result is `none` when the handler
dereferences a nil pointer. -/
def NewRequestErrorHandler (AsHTTPError : GoError → Option Int)
    (reqProvider : Unit → Option Request) (ctxErr : Option ContextError) (err : GoError) :
    Option ErrorHandlerRun :=
  if ctxErr = some ContextError.Canceled then
    some { log := [], reqProviderCalls := 0 }
  else
    match AsHTTPError err with
    | some code =>
      if code < StatusInternalServerError then some { log := [], reqProviderCalls := 0 }
      else NewRequestErrorHandler.logError reqProvider err
    | none => NewRequestErrorHandler.logError reqProvider err

/-- A sample `AsHTTPError`: the status code of an HTTP error along the chain of wrapped
errors. -/
def sampleAsHTTPError : GoError → Option Int := WriteHTTPError.asHTTPError

/-- A sample request provider, for the request of the given URL. -/
def sampleReqProvider (url : String) : Unit → Option Request :=
  fun _ => some { URL := some url }

/-! ## Go map operations -/

/-- The lookup `v, ok := m[k]`: `none` when the key is absent or the map nil. -/
def GoMap.lookup {β : Type} (m : GoMap β) (k : String) : Option β :=
  match m with
  | none => none
  | some kvs => (kvs.find? (fun kv => kv.1 == k)).map (fun kv => kv.2)

/-- The statement `delete(m, k)`, which is a no-op on the nil map. -/
def GoMap.delete {β : Type} (m : GoMap β) (k : String) : GoMap β :=
  m.map (fun kvs => kvs.filter (fun kv => kv.1 != k))

/-- The assignment `m[k] = v` on the entries of a map that is not nil. -/
def GoMap.setEntry {β : Type} (kvs : List (String × β)) (k : String) (v : β) :
    List (String × β) :=
  kvs.filter (fun kv => kv.1 != k) ++ [(k, v)]

/-- The assignment `m[k] = v`; `none` is the panic for the nil map. -/
def GoMap.set {β : Type} (m : GoMap β) (k : String) (v : β) : Option (GoMap β) :=
  match m with
  | none => none
  | some kvs => some (some (GoMap.setEntry kvs k v))

/-! ## The link between a cluster and its credential preset (`handler/common/cluster.go`) -/

/-- The constant `kubermaticv1.IsCredentialPresetLabelKey` of the SDK. -/
def kubermaticv1.IsCredentialPresetLabelKey : String := "is-credential-preset"

/-- The constant `kubermaticv1.PresetNameAnnotation` of the SDK. -/
def kubermaticv1.PresetNameAnnotation : String := "presetName"

/-- The constant `kubermaticv1.PresetInvalidatedAnnotation` of the SDK. -/
def kubermaticv1.PresetInvalidatedAnnotation : String := "presetInvalidated"

/-- The step of `PatchEndpoint` that follows the call of
`CreateOrUpdateCredentialSecretForClusterWithValidation`: when that call reports
`changed`, the link to the credential preset is removed from `newInternalCluster`. -/
def PatchEndpoint.clearPresetLink {C V : Type} (changed : Bool)
    (newInternalCluster : kubermaticv1.Cluster C V) : kubermaticv1.Cluster C V :=
  if changed then
    let newInternalCluster :=
      match newInternalCluster.Labels with
      | none => newInternalCluster
      | some _ =>
        { newInternalCluster with
          Labels := GoMap.delete newInternalCluster.Labels
            kubermaticv1.IsCredentialPresetLabelKey }
    match newInternalCluster.Annotations with
    | none => newInternalCluster
    | some _ =>
      { newInternalCluster with
        Annotations := GoMap.delete
          (GoMap.delete newInternalCluster.Annotations kubermaticv1.PresetNameAnnotation)
          kubermaticv1.PresetInvalidatedAnnotation }
  else newInternalCluster

/-- The OpenStack section of a preset as far as `checkIfPresetCustomized` reads it. -/
structure kubermaticv1.PresetOpenstack where
  IsCustomizable : Bool
  Network : String
  SecurityGroups : String
  FloatingIPPool : String
  RouterID : String
  deriving DecidableEq, Repr

/-- The spec of a preset as far as `checkIfPresetCustomized` reads it: the OpenStack
section is a pointer. -/
structure kubermaticv1.PresetSpec where
  Openstack : Option kubermaticv1.PresetOpenstack
  deriving DecidableEq, Repr

/-- A `kubermaticv1.Preset`. -/
structure kubermaticv1.Preset where
  Name : String
  Spec : kubermaticv1.PresetSpec
  deriving DecidableEq, Repr

/-- The function `checkIfPresetCustomized` of `handler/common/cluster.go`.  `GetPreset` is
the call `credentialManager.GetPreset(ctx, &adminUserInfo, &projectID, credentialName)`,
whose error is dropped, so that `preset` is the nil pointer when the lookup fails.  The
result is `none` when a nil pointer is dereferenced. -/
def checkIfPresetCustomized
    (GetPreset : UserInfo → String → String → Except GoError kubermaticv1.Preset)
    (projectID : String) (adminUserInfo : UserInfo) (cloudSpec : kubermaticv1.CloudSpec)
    (credentialName : String) : Option Bool :=
  let preset : Option kubermaticv1.Preset :=
    match GetPreset adminUserInfo projectID credentialName with
    | .ok preset => some preset
    | .error _ => none
  match cloudSpec.Openstack with
  | none => some false
  | some openstackCloudSpec =>
    match preset with
    | none => none
    | some preset =>
      match preset.Spec.Openstack with
      | none => none
      | some presetSpec =>
        if presetSpec.IsCustomizable then
          if presetSpec.Network != openstackCloudSpec.Network ||
              presetSpec.RouterID != openstackCloudSpec.RouterID ||
              presetSpec.FloatingIPPool != openstackCloudSpec.FloatingIPPool ||
              presetSpec.SecurityGroups != openstackCloudSpec.SecurityGroups then
            some true
          else some false
        else some false

/-- The request body `apiv1.CreateClusterSpec`: the cluster, and the node deployment and
the applications as opaque values. -/
structure apiv1.CreateClusterSpec (C V : Type) where
  Cluster : apiv1.Cluster C V
  NodeDeployment : V
  Applications : V
  deriving DecidableEq, Repr

/-- The state of `GenerateCluster` after the credential step: the labels and annotations
of `partialCluster`, and the request body with its credential name and cloud spec as
they are then. -/
structure GenerateCluster.Linked (V : Type) where
  Labels : GoMap String
  Annotations : GoMap String
  body : apiv1.CreateClusterSpec kubermaticv1.CloudSpec V
  deriving DecidableEq, Repr

/-- The part of `GenerateCluster` that starts to fill `partialCluster`: its labels and
annotations are those of the body (or empty maps), and for a credential name the cloud
credentials are set from the preset and the link to the preset is recorded unless the
preset was customized.  `SetCloudCredentials` is the call
`credentialManager.SetCloudCredentials(ctx, adminUserInfo, projectID, credentialName,
body.Cluster.Spec.Cloud, dc)`: it returns the cloud spec `*cloudSpec`, and since its
argument shares the provider sections with the body, through which the call may write,
also the cloud spec of the body as the call leaves it.  The result is `none` when a nil
pointer is dereferenced. -/
def GenerateCluster.linkPreset {V D : Type}
    (SetCloudCredentials : UserInfo → String → String → kubermaticv1.CloudSpec → D →
      Except GoError (kubermaticv1.CloudSpec × kubermaticv1.CloudSpec))
    (GetPreset : UserInfo → String → String → Except GoError kubermaticv1.Preset)
    (projectID : String) (adminUserInfo : UserInfo) (dc : D)
    (body : apiv1.CreateClusterSpec kubermaticv1.CloudSpec V) :
    Option (Except GoError (GenerateCluster.Linked V)) :=
  let labels : List (String × String) :=
    match body.Cluster.Labels with
    | none => []
    | some labels => labels
  let annotations : List (String × String) :=
    match body.Cluster.Annotations with
    | none => []
    | some annotations => annotations
  let credentialName := body.Cluster.Credential
  if credentialName.utf8ByteSize > 0 then
    match SetCloudCredentials adminUserInfo projectID credentialName body.Cluster.Spec.Cloud
        dc with
    | .error err => some (.error (NewBadRequest ("invalid credentials: " ++ err.Error)))
    | .ok (cloudSpec, bodyCloud) =>
      match checkIfPresetCustomized GetPreset projectID adminUserInfo bodyCloud
          credentialName with
      | none => none
      | some true =>
        some (.ok
          { Labels := some labels
            Annotations := some annotations
            body := { body with
              Cluster := { body.Cluster with
                Credential := ""
                Spec := { body.Cluster.Spec with Cloud := cloudSpec } } } })
      | some false =>
        some (.ok
          { Labels := some (GoMap.setEntry labels kubermaticv1.IsCredentialPresetLabelKey "true")
            Annotations :=
              some (GoMap.setEntry annotations kubermaticv1.PresetNameAnnotation credentialName)
            body := { body with
              Cluster := { body.Cluster with
                Spec := { body.Cluster.Spec with Cloud := cloudSpec } } } })
  else
    some (.ok { Labels := some labels, Annotations := some annotations, body := body })

/-- A sample OpenStack cloud spec on the given network. -/
def sampleOpenstackCloud (network : String) : kubermaticv1.CloudSpec :=
  { DatacenterName := "dc-1"
    Openstack := some { Username := "", Password := "", SubnetID := "", Domain := "",
                        FloatingIPPool := "ext", Network := network, RouterID := "r1",
                        SecurityGroups := "default", Project := "" }
    Azure := none, Hetzner := none, Digitalocean := none, VSphere := none, AWS := none }

/-- A sample customizable OpenStack preset. -/
def samplePreset : kubermaticv1.Preset :=
  { Name := "os-preset"
    Spec := { Openstack := some { IsCustomizable := true, Network := "net-1",
                                  SecurityGroups := "default", FloatingIPPool := "ext",
                                  RouterID := "r1" } } }

/-! ## Validating a create request (`handler/common/cluster.go`) -/

/-- The variable `ClusterTypes`: the set of supported cluster types. -/
def ClusterTypes : List String := [apiv1.KubernetesClusterType]

/-- What `ValidateClusterSpec` calls outside this repository.  `V` are opaque SDK
values, among them the version of the cluster spec, `S` is a parsed semantic version and
`A` an entry of the update manager's version list. -/
structure VersionChecks (V S A : Type) where
  /-- The method `Semver()` of the version of the spec; `none` is the nil pointer. -/
  Semver : V → Option S
  /-- The method `Equal` of a semantic version. -/
  Equal : S → S → Bool
  /-- The formatting of a semantic version with `%v`. -/
  format : S → String
  /-- The call `kubermaticv1helper.ClusterCloudProviderName(body.Cluster.Spec.Cloud)`. -/
  ClusterCloudProviderName : kubermaticv1.CloudSpec → Except GoError String
  /-- The call `updateManager.GetVersionsForProvider(kubermaticv1.ProviderType(name))`. -/
  GetVersionsForProvider : String → Except GoError (List A)
  /-- The field `Version` of an entry of the version list. -/
  Version : A → S

/-- The function `ValidateClusterSpec` of `handler/common/cluster.go`; `.ok ()` is the
nil error. -/
def ValidateClusterSpec {V S A : Type} (updateManager : VersionChecks V S A)
    (body : apiv1.CreateClusterSpec kubermaticv1.CloudSpec V) : Except GoError Unit :=
  if body.Cluster.Spec.Cloud.DatacenterName == "" then
    .error (.errorString "cluster datacenter name is empty")
  else if body.Cluster.ID != "" then
    .error (.errorString "cluster.ID is read-only")
  else if !ClusterTypes.contains body.Cluster.ClusterType then
    .error (.errorString ("invalid cluster type " ++ body.Cluster.ClusterType))
  else
    match updateManager.Semver body.Cluster.Spec.Version with
    | none =>
      .error (.errorString
        "invalid cluster: invalid cloud spec \"Version\" is required but was not specified")
    | some semver =>
      if body.Cluster.Name.utf8ByteSize > 100 then
        .error (.errorString "invalid cluster name: too long (greater than 100 characters)")
      else
        match updateManager.ClusterCloudProviderName body.Cluster.Spec.Cloud with
        | .error err => .error (.wrapError "failed to get the cloud provider name: " err)
        | .ok providerName =>
          match updateManager.GetVersionsForProvider providerName with
          | .error err => .error (.wrapError "failed to get available cluster versions: " err)
          | .ok versions =>
            if versions.any (fun availableVersion =>
                updateManager.Equal semver (updateManager.Version availableVersion)) then
              .ok ()
            else
              .error (.errorString
                ("invalid cluster: invalid cloud spec: unsupported version " ++
                  updateManager.format semver))

/-- A sample update manager: versions are natural numbers, every provider supports
versions 1 and 2, and version 0 is the missing version. -/
def sampleVersionChecks : VersionChecks Nat Nat Nat :=
  { Semver := fun v => if v = 0 then none else some v
    Equal := fun a b => a == b
    format := fun v => toString v
    ClusterCloudProviderName := fun _ => .ok "hetzner"
    GetVersionsForProvider := fun _ => .ok [1, 2]
    Version := fun a => a }

/-- A sample create request for a cluster of the given name, in datacenter `dc-1` and
of version 1. -/
def sampleCreateBody (name : String) : apiv1.CreateClusterSpec kubermaticv1.CloudSpec Nat :=
  { Cluster :=
      { ID := "", Name := name, Annotations := none, CreationTimestamp := 0,
        DeletionTimestamp := none, Labels := none, InheritedLabels := none,
        ClusterType := apiv1.KubernetesClusterType, Credential := "",
        Spec := { Cloud := { DatacenterName := "dc-1", Openstack := none, Azure := none,
                             Hetzner := some { Token := "t" }, Digitalocean := none,
                             VSphere := none, AWS := none },
                  MachineNetworks := 0, Version := 1, OIDC := 0, UpdateWindow := 0,
                  AuditLogging := 0, UsePodSecurityPolicyAdmissionPlugin := false,
                  UsePodNodeSelectorAdmissionPlugin := false,
                  UseEventRateLimitAdmissionPlugin := false, EnableUserSSHKeyAgent := none,
                  BackupConfig := 0, KubeLB := 0, KubernetesDashboard := 0,
                  AdmissionPlugins := 0, OPAIntegration := 0,
                  PodNodeSelectorAdmissionPluginConfig := 0, EventRateLimitConfig := 0,
                  ServiceAccount := 0, MLA := 0, ContainerRuntime := "containerd",
                  ClusterNetwork := none, CNIPlugin := 0, ExposeStrategy := 0,
                  APIServerAllowedIPRanges := 0, DisableCSIDriver := false, Kyverno := 0 },
        Status := { Version := 0, URL := "", ExternalCCMMigration := .ExternalCCMMigrationNotNeeded },
        MachineDeploymentCount := none },
    NodeDeployment := 0, Applications := 0 }

/-! ## Addons (`handler/common/addon.go`) -/

/-- The constant `addonEnsureLabelKey`. -/
def addonEnsureLabelKey : String := "addons.kubermatic.io/ensure"

/-- The constant `trueFlag`. -/
def trueFlag : String := "true"

/-- A `runtime.RawExtension`: the raw bytes. -/
structure RawExtension where
  Raw : List Nat
  deriving DecidableEq, Repr

/-- The spec of a `kubermaticv1.Addon` as far as the handlers read it; `Variables` is a
pointer. -/
structure kubermaticv1.AddonSpec where
  Variables : Option RawExtension
  IsDefault : Bool
  deriving DecidableEq, Repr

/-- A `kubermaticv1.Addon` with the object metadata the handlers read; `T` is a
timestamp. -/
structure kubermaticv1.Addon (T : Type) where
  Name : String
  Labels : GoMap String
  CreationTimestamp : T
  DeletionTimestamp : Option T
  Spec : kubermaticv1.AddonSpec
  deriving DecidableEq, Repr

/-- An `apiv1.AddonSpec`; `W` are the decoded variables, a Go map that may be nil. -/
structure apiv1.AddonSpec (W : Type) where
  IsDefault : Bool
  Variables : Option W
  ContinuouslyReconcile : Bool
  deriving DecidableEq, Repr

/-- An `apiv1.Addon`, with the fields of its `ObjectMeta`. -/
structure apiv1.Addon (T W : Type) where
  ID : String
  Name : String
  CreationTimestamp : T
  DeletionTimestamp : Option T
  Spec : apiv1.AddonSpec W
  deriving DecidableEq, Repr

/-- The function `convertInternalAddonToExternal` of `handler/common/addon.go`.
`Unmarshal` is `k8sjson.Unmarshal` into `result.Spec.Variables`, which is nil before. -/
def convertInternalAddonToExternal {T W : Type}
    (Unmarshal : List Nat → Except GoError (Option W)) (internalAddon : kubermaticv1.Addon T) :
    Except GoError (apiv1.Addon T W) :=
  let result : apiv1.Addon T W :=
    { ID := internalAddon.Name
      Name := internalAddon.Name
      CreationTimestamp := internalAddon.CreationTimestamp
      DeletionTimestamp :=
        match internalAddon.DeletionTimestamp with
        | some deletionTimestamp => some deletionTimestamp
        | none => none
      Spec := { IsDefault := internalAddon.Spec.IsDefault, Variables := none,
                ContinuouslyReconcile := false } }
  let decoded : Except GoError (apiv1.Addon T W) :=
    match internalAddon.Spec.Variables with
    | none => .ok result
    | some rawVariables =>
      if rawVariables.Raw.length > 0 then
        match Unmarshal rawVariables.Raw with
        | .error err => .error err
        | .ok decodedVariables =>
          .ok { result with Spec := { result.Spec with Variables := decodedVariables } }
      else .ok result
  match decoded with
  | .error err => .error err
  | .ok result =>
    match internalAddon.Labels with
    | none => .ok result
    | some _ =>
      if GoMap.index "" internalAddon.Labels addonEnsureLabelKey == trueFlag then
        .ok { result with Spec := { result.Spec with ContinuouslyReconcile := true } }
      else .ok result

/-- A sample decoder of addon variables: the bytes must open with a brace. -/
def sampleUnmarshal : List Nat → Except GoError (Option (List Nat))
  | 123 :: rest => .ok (some rest)
  | _ => .error (.errorString "invalid character looking for beginning of value")

/-- A sample addon with the given labels and raw variables. -/
def sampleAddon (labels : GoMap String) (rawVariables : Option RawExtension) :
    kubermaticv1.Addon Nat :=
  { Name := "dns", Labels := labels, CreationTimestamp := 1, DeletionTimestamp := none,
    Spec := { Variables := rawVariables, IsDefault := true } }

/-! ## Datacenters (`handler/v1/dc/datacenter.go`)

The declarations of the Go package `dc` carry the prefix `dc.`.  A provider section of a
datacenter spec is a pointer to a value of type `P`; `V` are opaque SDK values. -/

/-- The constant `http.StatusBadRequest`. -/
def StatusBadRequest : Int := 400

/-- The constant `http.StatusNotFound`. -/
def StatusNotFound : Int := 404

/-- The verb `%q` of `fmt` for a string without characters that need escaping. -/
def goQuote (s : String) : String := "\"" ++ s ++ "\""

/-- The constructor `utilerrors.NewNotFound(kind, name)` of the SDK: an HTTP error with
status 404. -/
def NewNotFound (kind name : String) : GoError :=
  GoError.HTTPError StatusNotFound (kind ++ " " ++ goQuote name ++ " not found")

/-- A `kubermaticv1.NodeSettings`. -/
structure kubermaticv1.NodeSettings where
  HTTPProxy : Option String
  NoProxy : Option String
  InsecureRegistries : Option (List String)
  RegistryMirrors : Option (List String)
  PauseImage : String
  deriving DecidableEq, Repr

/-- The zero value `kubermaticv1.NodeSettings{}`. -/
def kubermaticv1.NodeSettings.zero : kubermaticv1.NodeSettings :=
  { HTTPProxy := none, NoProxy := none, InsecureRegistries := none, RegistryMirrors := none,
    PauseImage := "" }

/-- A `kubermaticv1.DatacenterSpec`: the provider sections and the settings that the
handlers copy. -/
structure kubermaticv1.DatacenterSpec (P V : Type) where
  Digitalocean : Option P
  BringYourOwn : Option P
  Baremetal : Option P
  Edge : Option P
  AWS : Option P
  Azure : Option P
  Openstack : Option P
  Packet : Option P
  Hetzner : Option P
  VSphere : Option P
  VMwareCloudDirector : Option P
  GCP : Option P
  Kubevirt : Option P
  Alibaba : Option P
  Anexia : Option P
  Nutanix : Option P
  Fake : Option P
  RequiredEmails : Option (List String)
  EnforceAuditLogging : Bool
  EnforcedAuditWebhookSettings : Option V
  EnforcePodSecurityPolicy : Bool
  ProviderReconciliationInterval : Option V
  DefaultOperatingSystemProfiles : GoMap String
  MachineFlavorFilter : Option V
  DisableCSIDriver : Bool
  KubeLB : Option V
  deriving DecidableEq, Repr

/-- A `kubermaticv1.Datacenter`; `Node` is a pointer. -/
structure kubermaticv1.Datacenter (P V : Type) where
  Country : String
  Location : String
  Node : Option kubermaticv1.NodeSettings
  Spec : kubermaticv1.DatacenterSpec P V
  deriving DecidableEq, Repr

/-- The spec of a `kubermaticv1.Seed`: the datacenters by name, and the rest. -/
structure kubermaticv1.SeedSpec (P V : Type) where
  Datacenters : GoMap (kubermaticv1.Datacenter P V)
  Rest : V
  deriving DecidableEq, Repr

/-- A `kubermaticv1.Seed`. -/
structure kubermaticv1.Seed (P V : Type) where
  Name : String
  Spec : kubermaticv1.SeedSpec P V
  deriving DecidableEq, Repr

/-- An `apiv1.DatacenterSpec`. -/
structure apiv1.DatacenterSpec (P V : Type) where
  Seed : String
  Country : String
  Location : String
  Provider : String
  Node : kubermaticv1.NodeSettings
  Digitalocean : Option P
  BringYourOwn : Option P
  AWS : Option P
  Azure : Option P
  Edge : Option P
  Openstack : Option P
  Packet : Option P
  Hetzner : Option P
  VSphere : Option P
  Baremetal : Option P
  GCP : Option P
  Kubevirt : Option P
  Alibaba : Option P
  Anexia : Option P
  Nutanix : Option P
  VMwareCloudDirector : Option P
  Fake : Option P
  RequiredEmails : Option (List String)
  EnforceAuditLogging : Bool
  EnforcedAuditWebhookSettings : Option V
  EnforcePodSecurityPolicy : Bool
  DefaultOperatingSystemProfiles : GoMap String
  KubeLB : Option V
  IPv6Enabled : Bool
  MachineFlavorFilter : Option V
  DisableCSIDriver : Bool
  deriving DecidableEq, Repr

/-- An `apiv1.DatacenterMeta`. -/
structure apiv1.DatacenterMeta where
  Name : String
  deriving DecidableEq, Repr

/-- An `apiv1.Datacenter`. -/
structure apiv1.Datacenter (P V : Type) where
  Metadata : apiv1.DatacenterMeta
  Spec : apiv1.DatacenterSpec P V
  deriving DecidableEq, Repr

/-- A call that a datacenter endpoint makes outside the handler; `masterClientUpdate`
carries the seed as it is passed to `masterClient.Update`. -/
inductive dc.Call (P V : Type) where
  | userInfoGetter (projectID : String)
  | seedsGetter
  | masterClientUpdate (seed : kubermaticv1.Seed P V)
  deriving DecidableEq, Repr

/-- What the datacenter handlers call outside this repository and its standard
library. -/
structure dc.Access (P V : Type) where
  userInfoGetter : String → Except GoError UserInfo
  KubernetesErrorToHTTPError : GoError → GoError
  /-- The seeds by name; the entries of the map are pointers that are not nil. -/
  seedsGetter : Except GoError (GoMap (kubermaticv1.Seed P V))
  /-- The call `masterClient.Update(ctx, seed)`. -/
  masterClientUpdate : kubermaticv1.Seed P V → Except GoError Unit
  /-- The call `kubermaticv1helper.DatacenterCloudProviderName(spec)`. -/
  DatacenterCloudProviderName : kubermaticv1.DatacenterSpec P V → Except GoError String
  /-- The method `dc.IsIPv6Enabled(kubermaticv1.ProviderType(p))`. -/
  IsIPv6Enabled : kubermaticv1.Datacenter P V → String → Bool
  /-- The call `email.MatchesRequirements(userInfo.Email, dc.Spec.RequiredEmails)`. -/
  MatchesRequirements : String → Option (List String) → Except GoError Bool
  /-- The function `strings.EqualFold`. -/
  EqualFold : String → String → Bool
  /-- The call `json.Marshal(currentAPIDC)`. -/
  jsonMarshal : apiv1.Datacenter P V → Except GoError String
  /-- The call `jsonpatch.MergePatch(currentDCJSON, req.Patch)`. -/
  MergePatch : String → String → Except GoError String
  /-- The call `json.Unmarshal(patchedJSON, &patched)` into the zero datacenter. -/
  jsonUnmarshal : String → Except GoError (apiv1.Datacenter P V)
  /-- The call `json.Unmarshal(req.Patch, &seedValidator)`, giving
  `seedValidator.Spec.Seed`. -/
  unmarshalSeedValidator : String → Except GoError String

/-- The constant `kubermaticv1.AlibabaCloudProvider`. -/
def kubermaticv1.AlibabaCloudProvider : String := "alibaba"
/-- The constant `kubermaticv1.BringYourOwnCloudProvider`. -/
def kubermaticv1.BringYourOwnCloudProvider : String := "bringyourown"
/-- The constant `kubermaticv1.DigitaloceanCloudProvider`. -/
def kubermaticv1.DigitaloceanCloudProvider : String := "digitalocean"
/-- The constant `kubermaticv1.AWSCloudProvider`. -/
def kubermaticv1.AWSCloudProvider : String := "aws"
/-- The constant `kubermaticv1.OpenstackCloudProvider`. -/
def kubermaticv1.OpenstackCloudProvider : String := "openstack"
/-- The constant `kubermaticv1.PacketCloudProvider`. -/
def kubermaticv1.PacketCloudProvider : String := "packet"
/-- The constant `kubermaticv1.HetznerCloudProvider`. -/
def kubermaticv1.HetznerCloudProvider : String := "hetzner"
/-- The constant `kubermaticv1.VSphereCloudProvider`. -/
def kubermaticv1.VSphereCloudProvider : String := "vsphere"
/-- The constant `kubermaticv1.BaremetalCloudProvider`. -/
def kubermaticv1.BaremetalCloudProvider : String := "baremetal"
/-- The constant `kubermaticv1.AzureCloudProvider`. -/
def kubermaticv1.AzureCloudProvider : String := "azure"
/-- The constant `kubermaticv1.EdgeCloudProvider`. -/
def kubermaticv1.EdgeCloudProvider : String := "edge"
/-- The constant `kubermaticv1.GCPCloudProvider`. -/
def kubermaticv1.GCPCloudProvider : String := "gcp"
/-- The constant `kubermaticv1.KubevirtCloudProvider`. -/
def kubermaticv1.KubevirtCloudProvider : String := "kubevirt"
/-- The constant `kubermaticv1.AnexiaCloudProvider`. -/
def kubermaticv1.AnexiaCloudProvider : String := "anexia"
/-- The constant `kubermaticv1.NutanixCloudProvider`. -/
def kubermaticv1.NutanixCloudProvider : String := "nutanix"
/-- The constant `kubermaticv1.VMwareCloudDirectorCloudProvider`. -/
def kubermaticv1.VMwareCloudDirectorCloudProvider : String := "vmwareclouddirector"
/-- The constant `kubermaticv1.FakeCloudProvider`. -/
def kubermaticv1.FakeCloudProvider : String := "fake"

/-- The verb `%v` of `fmt` for a slice of provider types. -/
def formatProviderNames (providerNames : List String) : String :=
  "[" ++ " ".intercalate providerNames ++ "]"

/-- The provider names that `GetProviderName` collects, in its order. -/
def dc.GetProviderName.providerNames {P V : Type} (dcSpec : apiv1.DatacenterSpec P V) :
    List String :=
  (if dcSpec.Alibaba.isSome then [kubermaticv1.AlibabaCloudProvider] else []) ++
  (if dcSpec.BringYourOwn.isSome then [kubermaticv1.BringYourOwnCloudProvider] else []) ++
  (if dcSpec.Digitalocean.isSome then [kubermaticv1.DigitaloceanCloudProvider] else []) ++
  (if dcSpec.AWS.isSome then [kubermaticv1.AWSCloudProvider] else []) ++
  (if dcSpec.Openstack.isSome then [kubermaticv1.OpenstackCloudProvider] else []) ++
  (if dcSpec.Packet.isSome then [kubermaticv1.PacketCloudProvider] else []) ++
  (if dcSpec.Hetzner.isSome then [kubermaticv1.HetznerCloudProvider] else []) ++
  (if dcSpec.VSphere.isSome then [kubermaticv1.VSphereCloudProvider] else []) ++
  (if dcSpec.Baremetal.isSome then [kubermaticv1.BaremetalCloudProvider] else []) ++
  (if dcSpec.Azure.isSome then [kubermaticv1.AzureCloudProvider] else []) ++
  (if dcSpec.Edge.isSome then [kubermaticv1.EdgeCloudProvider] else []) ++
  (if dcSpec.GCP.isSome then [kubermaticv1.GCPCloudProvider] else []) ++
  (if dcSpec.Kubevirt.isSome then [kubermaticv1.KubevirtCloudProvider] else []) ++
  (if dcSpec.Anexia.isSome then [kubermaticv1.AnexiaCloudProvider] else []) ++
  (if dcSpec.Nutanix.isSome then [kubermaticv1.NutanixCloudProvider] else []) ++
  (if dcSpec.VMwareCloudDirector.isSome then [kubermaticv1.VMwareCloudDirectorCloudProvider]
    else []) ++
  (if dcSpec.Fake.isSome then [kubermaticv1.FakeCloudProvider] else [])

/-- The function `GetProviderName`: the provider type and the error, one of which is the
zero value. -/
def dc.GetProviderName {P V : Type} (dcSpec : apiv1.DatacenterSpec P V) :
    String × Option GoError :=
  match dc.GetProviderName.providerNames dcSpec with
  | [providerName] => (providerName, none)
  | providerNames =>
    ("", some (.errorString
      ("only one DC provider should be specified, got: " ++ formatProviderNames providerNames)))

/-- The function `validateProvider`; `.ok ()` is the nil error. -/
def dc.validateProvider {P V : Type} (dcSpec : apiv1.DatacenterSpec P V) : Except GoError Unit :=
  match (dc.GetProviderName dcSpec).2 with
  | some err => .error err
  | none => .ok ()

/-- The function `validateUser`; `.ok ()` is the nil error. -/
def dc.validateUser {P V : Type} (env : dc.Access P V) : Except GoError Unit :=
  match env.userInfoGetter "" with
  | .error err => .error (env.KubernetesErrorToHTTPError err)
  | .ok userInfo =>
    if !userInfo.IsAdmin then
      .error (utilerrorsNew StatusForbidden
        ("forbidden: \"" ++ userInfo.Email ++ "\" doesn't have admin rights"))
    else .ok ()

/-- The function `ConvertInternalDCToExternalSpec`. -/
def dc.ConvertInternalDCToExternalSpec {P V : Type} (env : dc.Access P V)
    (datacenter : kubermaticv1.Datacenter P V) (seedName : String) :
    Except GoError (apiv1.DatacenterSpec P V) :=
  match env.DatacenterCloudProviderName datacenter.Spec with
  | .error err => .error err
  | .ok p =>
    let nodeSettings :=
      match datacenter.Node with
      | some node => node
      | none => kubermaticv1.NodeSettings.zero
    .ok
      { Seed := seedName
        Location := datacenter.Location
        Country := datacenter.Country
        Provider := p
        Node := nodeSettings
        Digitalocean := datacenter.Spec.Digitalocean
        AWS := datacenter.Spec.AWS
        BringYourOwn := datacenter.Spec.BringYourOwn
        Openstack := datacenter.Spec.Openstack
        Hetzner := datacenter.Spec.Hetzner
        VSphere := datacenter.Spec.VSphere
        Baremetal := datacenter.Spec.Baremetal
        Azure := datacenter.Spec.Azure
        Edge := datacenter.Spec.Edge
        Packet := datacenter.Spec.Packet
        GCP := datacenter.Spec.GCP
        Kubevirt := datacenter.Spec.Kubevirt
        Alibaba := datacenter.Spec.Alibaba
        Anexia := datacenter.Spec.Anexia
        Nutanix := datacenter.Spec.Nutanix
        VMwareCloudDirector := datacenter.Spec.VMwareCloudDirector
        Fake := datacenter.Spec.Fake
        RequiredEmails := datacenter.Spec.RequiredEmails
        EnforceAuditLogging := datacenter.Spec.EnforceAuditLogging
        EnforcedAuditWebhookSettings := datacenter.Spec.EnforcedAuditWebhookSettings
        EnforcePodSecurityPolicy := datacenter.Spec.EnforcePodSecurityPolicy
        DefaultOperatingSystemProfiles := datacenter.Spec.DefaultOperatingSystemProfiles
        KubeLB := datacenter.Spec.KubeLB
        IPv6Enabled := env.IsIPv6Enabled datacenter p
        MachineFlavorFilter := datacenter.Spec.MachineFlavorFilter
        DisableCSIDriver := datacenter.Spec.DisableCSIDriver }

/-- The function `convertInternalDCToExternal`. -/
def dc.convertInternalDCToExternal {P V : Type} (env : dc.Access P V)
    (datacenter : kubermaticv1.Datacenter P V) (dcName seedName : String) :
    Except GoError (apiv1.Datacenter P V) :=
  match dc.ConvertInternalDCToExternalSpec env datacenter seedName with
  | .error err => .error err
  | .ok dcSpec => .ok { Metadata := { Name := dcName }, Spec := dcSpec }

/-- The function `convertExternalDCToInternal`; the fields it does not set have their
zero values. -/
def dc.convertExternalDCToInternal {P V : Type} (datacenter : apiv1.DatacenterSpec P V) :
    kubermaticv1.Datacenter P V :=
  { Country := datacenter.Country
    Location := datacenter.Location
    Node := some datacenter.Node
    Spec :=
      { Digitalocean := datacenter.Digitalocean
        BringYourOwn := datacenter.BringYourOwn
        AWS := datacenter.AWS
        Azure := datacenter.Azure
        Edge := datacenter.Edge
        Openstack := datacenter.Openstack
        Packet := datacenter.Packet
        Hetzner := datacenter.Hetzner
        VSphere := datacenter.VSphere
        GCP := datacenter.GCP
        Kubevirt := datacenter.Kubevirt
        Alibaba := datacenter.Alibaba
        Anexia := datacenter.Anexia
        Nutanix := datacenter.Nutanix
        VMwareCloudDirector := datacenter.VMwareCloudDirector
        Fake := datacenter.Fake
        RequiredEmails := datacenter.RequiredEmails
        EnforceAuditLogging := datacenter.EnforceAuditLogging
        EnforcedAuditWebhookSettings := datacenter.EnforcedAuditWebhookSettings
        EnforcePodSecurityPolicy := datacenter.EnforcePodSecurityPolicy
        MachineFlavorFilter := datacenter.MachineFlavorFilter
        Baremetal := none
        ProviderReconciliationInterval := none
        DefaultOperatingSystemProfiles := none
        DisableCSIDriver := false
        KubeLB := none } }

/-- The function `getAPIDCsFromSeed`: the datacenters of the seed whose conversion
succeeds, in the order in which the map is ranged over. -/
def dc.getAPIDCsFromSeed {P V : Type} (env : dc.Access P V) (seed : kubermaticv1.Seed P V) :
    List (apiv1.Datacenter P V) :=
  (seed.Spec.Datacenters.getD []).filterMap (fun entry =>
    match dc.ConvertInternalDCToExternalSpec env entry.2 seed.Name with
    | .error _ => none
    | .ok spec => some { Metadata := { Name := entry.1 }, Spec := spec })

/-- The function `getAPIDCsFromSeedMap`. -/
def dc.getAPIDCsFromSeedMap {P V : Type} (env : dc.Access P V)
    (seeds : GoMap (kubermaticv1.Seed P V)) : List (apiv1.Datacenter P V) :=
  (seeds.getD []).flatMap (fun entry => dc.getAPIDCsFromSeed env entry.2)

/-- The function `filterDCsByName`. -/
def dc.filterDCsByName {P V : Type} (dcs : List (apiv1.Datacenter P V)) (dcName : String) :
    Except GoError (apiv1.Datacenter P V) :=
  let foundDCs := dcs.filter (fun unfilteredDC => unfilteredDC.Metadata.Name == dcName)
  if foundDCs.length > 1 then
    .error (.errorString ("did not find one but " ++ toString foundDCs.length ++
      " datacenters for name " ++ goQuote dcName))
  else
    match foundDCs with
    | [] => .error (NewNotFound "datacenter" dcName)
    | found :: _ => .ok found

/-- The function `filterDCsByEmail`. -/
def dc.filterDCsByEmail {P V : Type} (env : dc.Access P V) (userInfo : UserInfo) :
    List (apiv1.Datacenter P V) → Except GoError (List (apiv1.Datacenter P V))
  | [] => .ok []
  | datacenter :: rest =>
    match env.MatchesRequirements userInfo.Email datacenter.Spec.RequiredEmails with
    | .error err => .error err
    | .ok isMatch =>
      match dc.filterDCsByEmail env userInfo rest with
      | .error err => .error err
      | .ok result => .ok (if isMatch then datacenter :: result else result)

/-- The function `GetDatacenter`. -/
def dc.GetDatacenter {P V : Type} (env : dc.Access P V) (userInfo : UserInfo)
    (datacenterToGet : String) : Except GoError (apiv1.Datacenter P V) :=
  match env.seedsGetter with
  | .error err =>
    .error (utilerrorsNew StatusInternalServerError ("failed to list seeds: " ++ err.Error))
  | .ok seeds =>
    let dcs := dc.getAPIDCsFromSeedMap env seeds
    if !userInfo.IsAdmin then
      match dc.filterDCsByEmail env userInfo dcs with
      | .error err =>
        .error (utilerrorsNew StatusInternalServerError
          ("failed to filter datacenters by email: " ++ err.Error))
      | .ok dcs => dc.filterDCsByName dcs datacenterToGet
    else dc.filterDCsByName dcs datacenterToGet

/-- The body of a `createDCReq`. -/
structure dc.createDCReqBody (P V : Type) where
  Name : String
  Spec : apiv1.DatacenterSpec P V
  deriving DecidableEq, Repr

/-- The request `createDCReq`. -/
structure dc.createDCReq (P V : Type) where
  Seed : String
  Body : dc.createDCReqBody P V
  deriving DecidableEq, Repr

/-- The request `updateDCReq`, which embeds a `createDCReq`. -/
structure dc.updateDCReq (P V : Type) where
  createDCReq : dc.createDCReq P V
  DCToUpdate : String
  deriving DecidableEq, Repr

/-- The request `patchDCReq`. -/
structure dc.patchDCReq where
  Patch : String
  DCToPatch : String
  Seed : String
  deriving DecidableEq, Repr

/-- The request `deleteDCReq`. -/
structure dc.deleteDCReq where
  Seed : String
  DC : String
  deriving DecidableEq, Repr

/-- The method `validate` of `createDCReq`. -/
def dc.createDCReq.validate {P V : Type} (env : dc.Access P V) (req : dc.createDCReq P V) :
    Except GoError Unit :=
  match dc.validateProvider req.Body.Spec with
  | .error err => .error err
  | .ok _ =>
    if !env.EqualFold req.Seed req.Body.Spec.Seed then
      .error (.errorString ("path seed " ++ goQuote req.Seed ++ " and request seed " ++
        goQuote req.Body.Spec.Seed ++ " not equal"))
    else .ok ()

/-- The method `validate` of `patchDCReq`. -/
def dc.patchDCReq.validate {P V : Type} (env : dc.Access P V) (req : dc.patchDCReq) :
    Except GoError Unit :=
  match env.unmarshalSeedValidator req.Patch with
  | .error err =>
    .error (utilerrorsNew StatusBadRequest
      ("failed to validate patch body seed: " ++ err.Error))
  | .ok seed =>
    if seed != "" && !env.EqualFold seed req.Seed then
      .error (utilerrorsNew StatusBadRequest
        ("patched dc validation failed: path seed name " ++ goQuote req.Seed ++
          " has to be equal to patch seed name " ++ goQuote seed))
    else .ok ()

/-- The seed with another datacenter map. -/
def kubermaticv1.Seed.withDatacenters {P V : Type} (seed : kubermaticv1.Seed P V)
    (datacenters : List (String × kubermaticv1.Datacenter P V)) : kubermaticv1.Seed P V :=
  { seed with Spec := { seed.Spec with Datacenters := some datacenters } }

/-- The endpoint returned by `CreateEndpoint`, with the calls it makes.  `request` is
`none` when the request is no `createDCReq`. -/
def dc.CreateEndpoint {P V : Type} (env : dc.Access P V) (request : Option (dc.createDCReq P V)) :
    Except GoError (apiv1.Datacenter P V) × List (dc.Call P V) :=
  match request with
  | none => (.error (NewBadRequest "invalid request"), [])
  | some req =>
    match dc.createDCReq.validate env req with
    | .error err =>
      (.error (utilerrorsNew StatusBadRequest ("Validation error: " ++ err.Error)), [])
    | .ok _ =>
      match dc.validateUser env with
      | .error err => (.error err, [.userInfoGetter ""])
      | .ok _ =>
        match env.seedsGetter with
        | .error err =>
          (.error (utilerrorsNew StatusInternalServerError
            ("failed to list seeds: " ++ err.Error)), [.userInfoGetter "", .seedsGetter])
        | .ok seeds =>
          match GoMap.lookup seeds req.Body.Spec.Seed with
          | none =>
            (.error (utilerrorsNew StatusBadRequest
              ("Bad request: seed " ++ goQuote req.Body.Spec.Seed ++ " does not exist")),
              [.userInfoGetter "", .seedsGetter])
          | some seed =>
            match GoMap.lookup seed.Spec.Datacenters req.Body.Name with
            | some _ =>
              (.error (utilerrorsNew StatusBadRequest
                ("Bad request: datacenter " ++ goQuote req.Body.Name ++ " already exists")),
                [.userInfoGetter "", .seedsGetter])
            | none =>
              let datacenters :=
                match seed.Spec.Datacenters with
                | none => []
                | some datacenters => datacenters
              let seed := seed.withDatacenters
                (GoMap.setEntry datacenters req.Body.Name
                  (dc.convertExternalDCToInternal req.Body.Spec))
              match env.masterClientUpdate seed with
              | .error err =>
                (.error (utilerrorsNew StatusInternalServerError
                  ("failed to update seed " ++ goQuote seed.Name ++ " datacenter " ++
                    goQuote req.Body.Name ++ ": " ++ err.Error)),
                  [.userInfoGetter "", .seedsGetter, .masterClientUpdate seed])
              | .ok _ =>
                (.ok { Metadata := { Name := req.Body.Name }, Spec := req.Body.Spec },
                  [.userInfoGetter "", .seedsGetter, .masterClientUpdate seed])

/-- The endpoint returned by `UpdateEndpoint`, with the calls it makes. -/
def dc.UpdateEndpoint {P V : Type} (env : dc.Access P V) (request : Option (dc.updateDCReq P V)) :
    Except GoError (apiv1.Datacenter P V) × List (dc.Call P V) :=
  match request with
  | none => (.error (NewBadRequest "invalid request"), [])
  | some req =>
    match dc.createDCReq.validate env req.createDCReq with
    | .error err =>
      (.error (utilerrorsNew StatusBadRequest ("Validation error: " ++ err.Error)), [])
    | .ok _ =>
      match dc.validateUser env with
      | .error err => (.error err, [.userInfoGetter ""])
      | .ok _ =>
        match env.seedsGetter with
        | .error err =>
          (.error (utilerrorsNew StatusInternalServerError
            ("failed to list seeds: " ++ err.Error)), [.userInfoGetter "", .seedsGetter])
        | .ok seeds =>
          match GoMap.lookup seeds req.createDCReq.Body.Spec.Seed with
          | none =>
            (.error (utilerrorsNew StatusBadRequest
              ("Bad request: seed " ++ goQuote req.createDCReq.Body.Spec.Seed ++
                " does not exist")),
              [.userInfoGetter "", .seedsGetter])
          | some seed =>
            let missing : Except GoError (apiv1.Datacenter P V) × List (dc.Call P V) :=
              (.error (utilerrorsNew StatusBadRequest
                ("Bad request: datacenter " ++ goQuote req.DCToUpdate ++ " does not exists")),
                [.userInfoGetter "", .seedsGetter])
            match seed.Spec.Datacenters with
            | none => missing
            | some datacenters =>
              match GoMap.lookup (some datacenters) req.DCToUpdate with
              | none => missing
              | some _ =>
                let renamed : Except GoError (List (String × kubermaticv1.Datacenter P V)) :=
                  if !env.EqualFold req.DCToUpdate req.createDCReq.Body.Name then
                    match GoMap.lookup (some datacenters) req.createDCReq.Body.Name with
                    | some _ =>
                      .error (utilerrorsNew StatusBadRequest
                        ("Bad request: cannot change " ++ goQuote req.DCToUpdate ++
                          " datacenter name to " ++ goQuote req.createDCReq.Body.Name ++
                          " as it already exists"))
                    | none => .ok (datacenters.filter (fun kv => kv.1 != req.DCToUpdate))
                  else .ok datacenters
                match renamed with
                | .error err => (.error err, [.userInfoGetter "", .seedsGetter])
                | .ok datacenters =>
                  let seed := seed.withDatacenters
                    (GoMap.setEntry datacenters req.createDCReq.Body.Name
                      (dc.convertExternalDCToInternal req.createDCReq.Body.Spec))
                  match env.masterClientUpdate seed with
                  | .error err =>
                    (.error (utilerrorsNew StatusInternalServerError
                      ("failed to update seed " ++ goQuote seed.Name ++ " datacenter " ++
                        goQuote req.DCToUpdate ++ ": " ++ err.Error)),
                      [.userInfoGetter "", .seedsGetter, .masterClientUpdate seed])
                  | .ok _ =>
                    (.ok { Metadata := { Name := req.createDCReq.Body.Name },
                           Spec := req.createDCReq.Body.Spec },
                      [.userInfoGetter "", .seedsGetter, .masterClientUpdate seed])

/-- The part of `PatchEndpoint` that computes the patched datacenter: conversion of the
current datacenter, merge patch, decoding, validation of the provider, conversion back
and the provider name taken from the result. -/
def dc.PatchEndpoint.patch {P V : Type} (env : dc.Access P V) (req : dc.patchDCReq)
    (currentDC : kubermaticv1.Datacenter P V) :
    Except GoError (apiv1.Datacenter P V × kubermaticv1.Datacenter P V) :=
  match dc.convertInternalDCToExternal env currentDC req.DCToPatch req.Seed with
  | .error err =>
    .error (utilerrorsNew StatusInternalServerError
      ("failed to convert current dc: " ++ err.Error))
  | .ok currentAPIDC =>
    match env.jsonMarshal currentAPIDC with
    | .error err =>
      .error (utilerrorsNew StatusInternalServerError
        ("failed to marshal current dc: " ++ err.Error))
    | .ok currentDCJSON =>
      match env.MergePatch currentDCJSON req.Patch with
      | .error err =>
        .error (utilerrorsNew StatusInternalServerError
          ("failed to merge patch dc: " ++ err.Error))
      | .ok patchedJSON =>
        match env.jsonUnmarshal patchedJSON with
        | .error err =>
          .error (utilerrorsNew StatusInternalServerError
            ("failed to unmarshal patched dc: " ++ err.Error))
        | .ok patched =>
          match dc.validateProvider patched.Spec with
          | .error err =>
            .error (utilerrorsNew StatusBadRequest
              ("patched dc validation failed: " ++ err.Error))
          | .ok _ =>
            let kubermaticPatched := dc.convertExternalDCToInternal patched.Spec
            match env.DatacenterCloudProviderName kubermaticPatched.Spec with
            | .error err =>
              .error (utilerrorsNew StatusInternalServerError
                ("failed extracting provider name from dc: " ++ err.Error))
            | .ok providerName =>
              .ok ({ patched with Spec := { patched.Spec with Provider := providerName } },
                kubermaticPatched)

/-- The endpoint returned by `PatchEndpoint`, with the calls it makes. -/
def dc.PatchEndpoint {P V : Type} (env : dc.Access P V) (request : Option dc.patchDCReq) :
    Except GoError (apiv1.Datacenter P V) × List (dc.Call P V) :=
  match request with
  | none => (.error (NewBadRequest "invalid request"), [])
  | some req =>
    match dc.patchDCReq.validate env req with
    | .error err => (.error err, [])
    | .ok _ =>
      match dc.validateUser env with
      | .error err => (.error err, [.userInfoGetter ""])
      | .ok _ =>
        match env.seedsGetter with
        | .error err =>
          (.error (utilerrorsNew StatusInternalServerError
            ("failed to list seeds: " ++ err.Error)), [.userInfoGetter "", .seedsGetter])
        | .ok seeds =>
          match GoMap.lookup seeds req.Seed with
          | none =>
            (.error (utilerrorsNew StatusBadRequest
              ("Bad request: seed " ++ goQuote req.Seed ++ " does not exist")),
              [.userInfoGetter "", .seedsGetter])
          | some seed =>
            let missing : Except GoError (apiv1.Datacenter P V) × List (dc.Call P V) :=
              (.error (utilerrorsNew StatusBadRequest
                ("Bad request: datacenter " ++ goQuote req.DCToPatch ++ " does not exists")),
                [.userInfoGetter "", .seedsGetter])
            match seed.Spec.Datacenters with
            | none => missing
            | some datacenters =>
              match GoMap.lookup (some datacenters) req.DCToPatch with
              | none => missing
              | some currentDC =>
                match dc.PatchEndpoint.patch env req currentDC with
                | .error err => (.error err, [.userInfoGetter "", .seedsGetter])
                | .ok (patched, kubermaticPatched) =>
                  let renamed :
                      Except GoError (List (String × kubermaticv1.Datacenter P V) × String) :=
                    if !env.EqualFold req.DCToPatch patched.Metadata.Name then
                      match GoMap.lookup (some datacenters) patched.Metadata.Name with
                      | some _ =>
                        .error (utilerrorsNew StatusBadRequest
                          ("Bad request: cannot change " ++ goQuote req.DCToPatch ++
                            " datacenter name to " ++ goQuote patched.Metadata.Name ++
                            " as it already exists"))
                      | none =>
                        .ok (datacenters.filter (fun kv => kv.1 != req.DCToPatch),
                          patched.Metadata.Name)
                    else .ok (datacenters, req.DCToPatch)
                  match renamed with
                  | .error err => (.error err, [.userInfoGetter "", .seedsGetter])
                  | .ok (datacenters, dcName) =>
                    let seed := seed.withDatacenters
                      (GoMap.setEntry datacenters dcName kubermaticPatched)
                    match env.masterClientUpdate seed with
                    | .error err =>
                      (.error (utilerrorsNew StatusInternalServerError
                        ("failed to update seed " ++ goQuote seed.Name ++ " datacenter " ++
                          goQuote req.DCToPatch ++ ": " ++ err.Error)),
                        [.userInfoGetter "", .seedsGetter, .masterClientUpdate seed])
                    | .ok _ =>
                      (.ok patched,
                        [.userInfoGetter "", .seedsGetter, .masterClientUpdate seed])

/-- The endpoint returned by `DeleteEndpoint`, with the calls it makes; it returns no
value. -/
def dc.DeleteEndpoint {P V : Type} (env : dc.Access P V) (request : Option dc.deleteDCReq) :
    Except GoError Unit × List (dc.Call P V) :=
  match request with
  | none => (.error (NewBadRequest "invalid request"), [])
  | some req =>
    match dc.validateUser env with
    | .error err => (.error err, [.userInfoGetter ""])
    | .ok _ =>
      match env.seedsGetter with
      | .error err =>
        (.error (utilerrorsNew StatusInternalServerError
          ("failed to list seeds: " ++ err.Error)), [.userInfoGetter "", .seedsGetter])
      | .ok seeds =>
        match GoMap.lookup seeds req.Seed with
        | none =>
          (.error (utilerrorsNew StatusBadRequest
            ("Bad request: seed " ++ goQuote req.Seed ++ " does not exist")),
            [.userInfoGetter "", .seedsGetter])
        | some seed =>
          let missing : Except GoError Unit × List (dc.Call P V) :=
            (.error (utilerrorsNew StatusBadRequest
              ("Bad request: datacenter " ++ goQuote req.DC ++ " does not exists")),
              [.userInfoGetter "", .seedsGetter])
          match seed.Spec.Datacenters with
          | none => missing
          | some datacenters =>
            match GoMap.lookup (some datacenters) req.DC with
            | none => missing
            | some _ =>
              let seed := seed.withDatacenters (datacenters.filter (fun kv => kv.1 != req.DC))
              match env.masterClientUpdate seed with
              | .error err =>
                (.error (utilerrorsNew StatusInternalServerError
                  ("failed to delete seed " ++ goQuote seed.Name ++ " datacenter " ++
                    goQuote req.DC ++ ": " ++ err.Error)),
                  [.userInfoGetter "", .seedsGetter, .masterClientUpdate seed])
              | .ok _ => (.ok (), [.userInfoGetter "", .seedsGetter, .masterClientUpdate seed])

/-- Whether `masterClient.Update` is among the calls. -/
def dc.Call.isUpdate {P V : Type} : dc.Call P V → Bool
  | .masterClientUpdate _ => true
  | _ => false

/-- The simple case folding of `strings.EqualFold` on ASCII letters. -/
def sampleEqualFold (s t : String) : Bool :=
  s.data.map Char.toLower == t.data.map Char.toLower

/-- A sample internal datacenter of the given provider section names: Hetzner when
`hetzner` is set, and Baremetal when `baremetal` is set. -/
def sampleInternalDC (hetzner baremetal : Bool) (requiredEmails : Option (List String)) :
    kubermaticv1.Datacenter Unit Unit :=
  { Country := "DE", Location := "Falkenstein", Node := none,
    Spec := { Digitalocean := none, BringYourOwn := none,
              Baremetal := if baremetal then some () else none, Edge := none, AWS := none,
              Azure := none, Openstack := none, Packet := none,
              Hetzner := if hetzner then some () else none, VSphere := none,
              VMwareCloudDirector := none, GCP := none, Kubevirt := none, Alibaba := none,
              Anexia := none, Nutanix := none, Fake := none,
              RequiredEmails := requiredEmails, EnforceAuditLogging := false,
              EnforcedAuditWebhookSettings := none, EnforcePodSecurityPolicy := false,
              ProviderReconciliationInterval := none, DefaultOperatingSystemProfiles := none,
              MachineFlavorFilter := none, DisableCSIDriver := false, KubeLB := none } }

/-- A sample of `kubermaticv1helper.DatacenterCloudProviderName` for the sections that
`sampleInternalDC` sets. -/
def sampleDatacenterCloudProviderName (spec : kubermaticv1.DatacenterSpec Unit Unit) :
    Except GoError String :=
  match spec.Hetzner, spec.Baremetal with
  | some _, none => .ok kubermaticv1.HetznerCloudProvider
  | none, some _ => .ok kubermaticv1.BaremetalCloudProvider
  | _, _ => .error (.errorString "only one cloud provider can be set in DatacenterSpec")

/-- A sample seed map: the seed `europe` with the datacenters `hetzner-fsn1`, open to
everybody, and `restricted`, which requires an address of `example.com`; and the seed
`asia` with a datacenter that is also called `hetzner-fsn1` when `duplicate` is set. -/
def sampleSeeds (duplicate : Bool) : GoMap (kubermaticv1.Seed Unit Unit) :=
  some [("europe",
          { Name := "europe",
            Spec := { Datacenters :=
                        some [("hetzner-fsn1", sampleInternalDC true false none),
                              ("restricted",
                                sampleInternalDC true false (some ["example.com"]))],
                      Rest := () } }),
        ("asia",
          { Name := "asia",
            Spec := { Datacenters :=
                        some [(if duplicate then "hetzner-fsn1" else "hetzner-sin1",
                                sampleInternalDC true false none)],
                      Rest := () } })]

/-- A sample environment of the datacenter handlers for the caller of the given
identity: requirements on the email are domains, of which the address must end in
one. -/
def sampleAccess (userInfo : UserInfo) (duplicate : Bool) : dc.Access Unit Unit :=
  { userInfoGetter := fun _ => .ok userInfo
    KubernetesErrorToHTTPError := fun err => err
    seedsGetter := .ok (sampleSeeds duplicate)
    masterClientUpdate := fun _ => .ok ()
    DatacenterCloudProviderName := sampleDatacenterCloudProviderName
    IsIPv6Enabled := fun _ _ => false
    MatchesRequirements := fun email requirements =>
      match requirements with
      | none => .ok true
      | some [] => .ok true
      | some domains => .ok (domains.any (fun domain => domain.data.isSuffixOf email.data))
    EqualFold := sampleEqualFold
    jsonMarshal := fun _ => .ok ""
    MergePatch := fun current _ => .ok current
    jsonUnmarshal := fun _ => .error (.errorString "unexpected end of JSON input")
    unmarshalSeedValidator := fun _ => .ok "" }

/-- A sample caller without admin rights. -/
def sampleUser : UserInfo :=
  { Email := "user@other.org", Groups := [], Roles := [], IsAdmin := false }

/-- A sample external datacenter spec for the seed `europe` with a Hetzner section. -/
def sampleDCSpec : apiv1.DatacenterSpec Unit Unit :=
  { Seed := "europe", Country := "DE", Location := "Nuremberg", Provider := "",
    Node := kubermaticv1.NodeSettings.zero, Digitalocean := none, BringYourOwn := none,
    AWS := none, Azure := none, Edge := none, Openstack := none, Packet := none,
    Hetzner := some (), VSphere := none, Baremetal := none, GCP := none, Kubevirt := none,
    Alibaba := none, Anexia := none, Nutanix := none, VMwareCloudDirector := none,
    Fake := none, RequiredEmails := none, EnforceAuditLogging := false,
    EnforcedAuditWebhookSettings := none, EnforcePodSecurityPolicy := false,
    DefaultOperatingSystemProfiles := none, KubeLB := none, IPv6Enabled := false,
    MachineFlavorFilter := none, DisableCSIDriver := false }

/-- Whether the email of the caller satisfies the requirements of the datacenter:
`email.MatchesRequirements` succeeds with `true`. -/
def dc.emailMatches {P V : Type} (env : dc.Access P V) (userInfo : UserInfo)
    (datacenter : apiv1.Datacenter P V) : Bool :=
  match env.MatchesRequirements userInfo.Email datacenter.Spec.RequiredEmails with
  | .ok true => true
  | _ => false

/-- The number of datacenters of the list that have the name, compared exactly. -/
def dc.countByName {P V : Type} (dcs : List (apiv1.Datacenter P V)) (dcName : String) : Nat :=
  dcs.countP (fun datacenter => datacenter.Metadata.Name == dcName)

/-- Sample cluster and SSH key providers for a caller of the given identity: the
privileged calls return the cluster renamed `privileged` and the key `privileged-key`,
the regular calls the cluster renamed after the email of the identity they are called
with and the key `regular-key`; the project scope `other` cannot be resolved. -/
def sampleClusterProviders (userInfo : UserInfo) : ClusterProviders Unit Unit String :=
  { userInfoGetter := fun scope =>
      if scope = "other" then .error (.errorString "no binding") else .ok userInfo
    KubernetesErrorToHTTPError := fun err => err
    UpdateUnsecured := fun _ cluster => .ok { cluster with Name := "privileged" }
    Update := fun _ caller cluster => .ok { cluster with Name := caller.Email }
    NewUnsecured := fun _ cluster email => .ok { cluster with Name := "privileged-" ++ email }
    New := fun _ caller cluster => .ok { cluster with Name := caller.Email }
    SSHKeyGetUnsecured := fun _ => .ok "privileged-key"
    SSHKeyGet := fun _ _ => .ok "regular-key" }

/-! ### Listing datacenters -/

/-- The order in which the list endpoints sort: the names compared as Go compares
strings with `<`, position by position. -/
def dc.nameLE {P V : Type} (a b : apiv1.Datacenter P V) : Prop :=
  a.Metadata.Name.data ≤ b.Metadata.Name.data

/-- The order of the names is decidable. -/
instance dc.nameLE.decidable {P V : Type} : DecidableRel (dc.nameLE : apiv1.Datacenter P V → _) :=
  fun a b => inferInstanceAs (Decidable (a.Metadata.Name.data ≤ b.Metadata.Name.data))

/-- The call `sort.SliceStable(dcs, less)` with `less` comparing `Metadata.Name` by `<`:
the stable sort by name. -/
def dc.sortByName {P V : Type} (dcs : List (apiv1.Datacenter P V)) :
    List (apiv1.Datacenter P V) :=
  dcs.insertionSort dc.nameLE

/-- The function `filterDCsByProvider`. -/
def dc.filterDCsByProvider {P V : Type} (providerName : String)
    (list : List (apiv1.Datacenter P V)) : List (apiv1.Datacenter P V) :=
  list.filter (fun datacenter => datacenter.Spec.Provider == providerName)

/-- The request `forProviderDCListReq`. -/
structure dc.forProviderDCListReq where
  Provider : String
  deriving DecidableEq, Repr

/-- The request `listDCForSeedReq`. -/
structure dc.listDCForSeedReq where
  Seed : String
  deriving DecidableEq, Repr

/-- The last part of the list endpoints: for a caller who is no admin the datacenters
are filtered by email, and the result is sorted by name. -/
def dc.ListEndpoint.filterAndSort {P V : Type} (env : dc.Access P V) (userInfo : UserInfo)
    (dcs : List (apiv1.Datacenter P V)) : Except GoError (List (apiv1.Datacenter P V)) :=
  if !userInfo.IsAdmin then
    match dc.filterDCsByEmail env userInfo dcs with
    | .error err =>
      .error (utilerrorsNew StatusInternalServerError
        ("failed to filter datacenters by email: " ++ err.Error))
    | .ok dcs => .ok (dc.sortByName dcs)
  else .ok (dc.sortByName dcs)

/-- The endpoint returned by `ListEndpoint`. -/
def dc.ListEndpoint {P V : Type} (env : dc.Access P V) :
    Except GoError (List (apiv1.Datacenter P V)) :=
  match env.seedsGetter with
  | .error err =>
    .error (utilerrorsNew StatusInternalServerError ("failed to list seeds: " ++ err.Error))
  | .ok seeds =>
    match env.userInfoGetter "" with
    | .error err => .error (env.KubernetesErrorToHTTPError err)
    | .ok userInfo =>
      dc.ListEndpoint.filterAndSort env userInfo (dc.getAPIDCsFromSeedMap env seeds)

/-- The endpoint returned by `ListEndpointForProvider`.  `request` is `none` when the
request is no `forProviderDCListReq`. -/
def dc.ListEndpointForProvider {P V : Type} (env : dc.Access P V)
    (request : Option dc.forProviderDCListReq) : Except GoError (List (apiv1.Datacenter P V)) :=
  match request with
  | none => .error (NewBadRequest "invalid request")
  | some req =>
    match env.seedsGetter with
    | .error err =>
      .error (utilerrorsNew StatusInternalServerError ("failed to list seeds: " ++ err.Error))
    | .ok seeds =>
      match env.userInfoGetter "" with
      | .error err => .error (env.KubernetesErrorToHTTPError err)
      | .ok userInfo =>
        dc.ListEndpoint.filterAndSort env userInfo
          (dc.filterDCsByProvider req.Provider (dc.getAPIDCsFromSeedMap env seeds))

/-- The endpoint returned by `ListEndpointForSeed`. -/
def dc.ListEndpointForSeed {P V : Type} (env : dc.Access P V)
    (request : Option dc.listDCForSeedReq) : Except GoError (List (apiv1.Datacenter P V)) :=
  match request with
  | none => .error (NewBadRequest "invalid request")
  | some req =>
    match env.seedsGetter with
    | .error err =>
      .error (utilerrorsNew StatusInternalServerError ("failed to list seeds: " ++ err.Error))
    | .ok seeds =>
      match env.userInfoGetter "" with
      | .error err => .error (env.KubernetesErrorToHTTPError err)
      | .ok userInfo =>
        match GoMap.lookup seeds req.Seed with
        | none => .error (NewNotFound "seed" req.Seed)
        | some seed =>
          dc.ListEndpoint.filterAndSort env userInfo (dc.getAPIDCsFromSeed env seed)

/-- The datacenters that a list endpoint is to return for the caller, before sorting:
all of them for an admin, and for another caller those whose `RequiredEmails` the email of
the caller satisfies. -/
def dc.visibleTo {P V : Type} (env : dc.Access P V) (userInfo : UserInfo)
    (dcs : List (apiv1.Datacenter P V)) : List (apiv1.Datacenter P V) :=
  if userInfo.IsAdmin then dcs else dcs.filter (dc.emailMatches env userInfo)

/-- What a list endpoint returns for the datacenters `dcs` found in the seeds: a list
sorted in non-decreasing order of the name that is a permutation of the datacenters
visible to the caller, so that datacenters of equal names are all kept. -/
def dc.ListsSorted {P V : Type} (env : dc.Access P V) (userInfo : UserInfo)
    (dcs out : List (apiv1.Datacenter P V)) : Prop :=
  List.Sorted (fun a b => a.Metadata.Name ≤ b.Metadata.Name) out ∧
  out.Perm (dc.visibleTo env userInfo dcs) ∧
  ∀ dcName, dc.countByName out dcName = dc.countByName (dc.visibleTo env userInfo dcs) dcName

/-! ## Machine size filters (`handler/common/filter.go`, `handler/common/provider/gcp.go`)

Go `int` values are integers of the 64-bit range; the filters do no arithmetic on them
but the division of the memory size. -/

/-- The constant `math.MaxInt32`. -/
def MaxInt32 : Int := 2147483647

/-- The largest value of a Go `int` on a 64-bit platform. -/
def MaxInt : Int := 9223372036854775807

/-- The function `FilterCPU` of `handler/common/filter.go`. -/
def FilterCPU (record minCPU maxCPU : Int) : Bool :=
  let maxCPU := if maxCPU == 0 then MaxInt32 else maxCPU
  if record >= minCPU && record <= maxCPU then true else false

/-- The function `FilterMemory` of `handler/common/filter.go`. -/
def FilterMemory (record minMemory maxMemory : Int) : Bool :=
  let maxMemory := if maxMemory == 0 then MaxInt32 else maxMemory
  if record >= minMemory && record <= maxMemory then true else false

/-- A `kubermaticv1.MachineFlavorFilter`. -/
structure MachineFlavorFilter where
  MinCPU : Int
  MaxCPU : Int
  MinRAM : Int
  MaxRAM : Int
  EnableGPU : Bool
  deriving DecidableEq, Repr

/-- The zero value `kubermaticv1.MachineFlavorFilter{}`. -/
def MachineFlavorFilter.zero : MachineFlavorFilter :=
  { MinCPU := 0, MaxCPU := 0, MinRAM := 0, MaxRAM := 0, EnableGPU := false }

/-- An `apiv1.GCPMachineSize`; `Memory` and `VCPUs` are `int64`. -/
structure GCPMachineSize where
  Name : String
  Description : String
  Memory : Int
  VCPUs : Int
  deriving DecidableEq, Repr

/-- A Go slice: `none` is the nil slice. -/
abbrev GoSlice (α : Type) := Option (List α)

/-- The call `append(s, x)`, which gives a slice that is not nil. -/
def GoSlice.append {α : Type} (s : GoSlice α) (x : α) : GoSlice α :=
  some (s.getD [] ++ [x])

/-- The loop of `filterGCPByQuota` over the rest of the instances, with the records kept
so far. -/
def filterGCPByQuota.loop (machineFilter : MachineFlavorFilter) :
    List GCPMachineSize → GoSlice GCPMachineSize → GoSlice GCPMachineSize
  | [], filteredRecords => filteredRecords
  | r :: rest, filteredRecords =>
    let keep := true
    let keep := if !FilterCPU r.VCPUs machineFilter.MinCPU machineFilter.MaxCPU then false
      else keep
    let keep :=
      if !FilterMemory (Int.tdiv r.Memory 1024) machineFilter.MinRAM machineFilter.MaxRAM then
        false
      else keep
    filterGCPByQuota.loop machineFilter rest
      (if keep then GoSlice.append filteredRecords r else filteredRecords)

/-- The function `filterGCPByQuota` of `handler/common/provider/gcp.go`; it starts from
the empty list `apiv1.GCPMachineSizeList{}`. -/
def filterGCPByQuota (instances : List GCPMachineSize) (machineFilter : MachineFlavorFilter) :
    GoSlice GCPMachineSize :=
  filterGCPByQuota.loop machineFilter instances (some [])

/-- The names of the datacenters of the seed that a call passes to `masterClient.Update`,
and no names for another call. -/
def dc.Call.updatedNames {P V : Type} : dc.Call P V → List String
  | .masterClientUpdate seed => (seed.Spec.Datacenters.getD []).map (fun entry => entry.1)
  | _ => []

/-- A sample environment for the patch endpoint, for an admin and the given seeds: the
current datacenter is marshalled, and the document that results from the merge patch
decodes to `patched`. -/
def samplePatchAccess (seeds : GoMap (kubermaticv1.Seed Unit Unit))
    (patched : apiv1.Datacenter Unit Unit) : dc.Access Unit Unit :=
  { sampleAccess sampleAdmin false with
    seedsGetter := .ok seeds
    jsonMarshal := fun _ => .ok "current"
    MergePatch := fun current patch => .ok (current ++ "+" ++ patch)
    jsonUnmarshal := fun _ => .ok patched }

/-- A sample seed map: the seed `europe` with the one datacenter `metal-1`, whose only
provider section is Baremetal. -/
def sampleBaremetalSeeds : GoMap (kubermaticv1.Seed Unit Unit) :=
  some [("europe",
          { Name := "europe",
            Spec := { Datacenters := some [("metal-1", sampleInternalDC false true none)],
                      Rest := () } })]

/-- The external form of the sample datacenter `metal-1`. -/
def sampleBaremetalAPIDC : apiv1.Datacenter Unit Unit :=
  { Metadata := { Name := "metal-1" },
    Spec := { sampleDCSpec with
      Location := "Falkenstein", Provider := "baremetal", Hetzner := none,
      Baremetal := some () } }

/-- A sample of `kubermaticv1helper.DatacenterCloudProviderName` that gives the empty
name and no error for a spec without provider section. -/
def sampleLenientProviderName (spec : kubermaticv1.DatacenterSpec Unit Unit) :
    Except GoError String :=
  match spec.Hetzner, spec.Baremetal with
  | some _, none => .ok kubermaticv1.HetznerCloudProvider
  | none, some _ => .ok kubermaticv1.BaremetalCloudProvider
  | none, none => .ok ""
  | some _, some _ => .error (.errorString "only one cloud provider can be set in DatacenterSpec")

/-! ## Deleting a cluster (`handler/common/cluster.go`) -/

/-- The constant `kubermaticv1.NodeDeletionFinalizer` of the SDK. -/
def kubermaticv1.NodeDeletionFinalizer : String := "kubermatic.k8c.io/delete-nodes"

/-- The constant `kubermaticv1.InClusterLBCleanupFinalizer` of the SDK. -/
def kubermaticv1.InClusterLBCleanupFinalizer : String := "kubermatic.k8c.io/cleanup-in-cluster-lb"

/-- The constant `kubermaticv1.InClusterPVCleanupFinalizer` of the SDK. -/
def kubermaticv1.InClusterPVCleanupFinalizer : String := "kubermatic.k8c.io/cleanup-in-cluster-pv"

/-- A call of a cluster provider that `updateAndDeleteCluster` makes, with the cluster it
passes; `privileged` tells the unsecured variant. -/
inductive DeleteCall (C V : Type) where
  | update (privileged : Bool) (cluster : kubermaticv1.Cluster C V)
  | delete (privileged : Bool) (cluster : kubermaticv1.Cluster C V)
  deriving DecidableEq, Repr

/-- What the cluster `DeleteEndpoint` calls outside this repository, and the two lookups
with which it starts. -/
structure ClusterDeletion (C V : Type) where
  userInfoGetter : String → Except GoError UserInfo
  KubernetesErrorToHTTPError : GoError → GoError
  /-- The call `common.GetProject(ctx, ..., projectID, nil)`. -/
  GetProject : String → Except GoError kubermaticv1.Project
  /-- The call `GetInternalCluster(ctx, ..., project, projectID, clusterID, options)`. -/
  GetInternalCluster : kubermaticv1.Project → String → String →
    Except GoError (kubermaticv1.Cluster C V)
  /-- The function `kuberneteshelper.HasFinalizer`. -/
  HasFinalizer : kubermaticv1.Cluster C V → String → Bool
  /-- The function `kuberneteshelper.AddFinalizer`, which changes the cluster in place. -/
  AddFinalizer : kubermaticv1.Cluster C V → String → kubermaticv1.Cluster C V
  UpdateUnsecured : kubermaticv1.Project → kubermaticv1.Cluster C V →
    Except GoError (kubermaticv1.Cluster C V)
  DeleteUnsecured : kubermaticv1.Cluster C V → Except GoError Unit
  Update : kubermaticv1.Project → UserInfo → kubermaticv1.Cluster C V →
    Except GoError (kubermaticv1.Cluster C V)
  Delete : UserInfo → kubermaticv1.Cluster C V → Except GoError Unit

/-- The function `updateAndDeleteClusterForRegularUser`, with the provider calls it
makes. -/
def updateAndDeleteClusterForRegularUser {C V : Type} (env : ClusterDeletion C V)
    (project : kubermaticv1.Project) (cluster : kubermaticv1.Cluster C V) :
    Except GoError Unit × List (DeleteCall C V) :=
  match env.userInfoGetter project.Name with
  | .error err => (.error (utilerrorsNew StatusInternalServerError err.Error), [])
  | .ok userInfo =>
    match env.Update project userInfo cluster with
    | .error err => (.error (env.KubernetesErrorToHTTPError err), [.update false cluster])
    | .ok updated =>
      match env.Delete userInfo updated with
      | .error err =>
        (.error (env.KubernetesErrorToHTTPError err),
          [.update false cluster, .delete false updated])
      | .ok _ => (.ok (), [.update false cluster, .delete false updated])

/-- The function `updateAndDeleteCluster`, with the provider calls it makes. -/
def updateAndDeleteCluster {C V : Type} (env : ClusterDeletion C V)
    (project : kubermaticv1.Project) (cluster : kubermaticv1.Cluster C V) :
    Except GoError Unit × List (DeleteCall C V) :=
  match env.userInfoGetter "" with
  | .error err => (.error (utilerrorsNew StatusInternalServerError err.Error), [])
  | .ok adminUserInfo =>
    if adminUserInfo.IsAdmin then
      match env.UpdateUnsecured project cluster with
      | .error err => (.error (env.KubernetesErrorToHTTPError err), [.update true cluster])
      | .ok updated =>
        match env.DeleteUnsecured updated with
        | .error err =>
          (.error (env.KubernetesErrorToHTTPError err),
            [.update true cluster, .delete true updated])
        | .ok _ => (.ok (), [.update true cluster, .delete true updated])
    else updateAndDeleteClusterForRegularUser env project cluster

/-- The finalizer step of `DeleteEndpoint`: the cluster as the step leaves it, and the
finalizers with which it calls `AddFinalizer`, in the order of the calls. -/
def DeleteEndpoint.addCleanupFinalizers {C V : Type} (env : ClusterDeletion C V)
    (deleteVolumes deleteLoadBalancers : Bool) (existingCluster : kubermaticv1.Cluster C V) :
    kubermaticv1.Cluster C V × List String :=
  let wasUpOnce := env.HasFinalizer existingCluster kubermaticv1.NodeDeletionFinalizer
  if wasUpOnce && (deleteVolumes || deleteLoadBalancers) then
    let afterLB : kubermaticv1.Cluster C V × List String :=
      if deleteLoadBalancers then
        (env.AddFinalizer existingCluster kubermaticv1.InClusterLBCleanupFinalizer,
          [kubermaticv1.InClusterLBCleanupFinalizer])
      else (existingCluster, [])
    if deleteVolumes then
      (env.AddFinalizer afterLB.1 kubermaticv1.InClusterPVCleanupFinalizer,
        afterLB.2 ++ [kubermaticv1.InClusterPVCleanupFinalizer])
    else afterLB
  else (existingCluster, [])

/-- The function `DeleteEndpoint` of `handler/common/cluster.go`, with the provider calls
it makes; it returns no value. -/
def DeleteEndpoint {C V : Type} (env : ClusterDeletion C V) (projectID clusterID : String)
    (deleteVolumes deleteLoadBalancers : Bool) : Except GoError Unit × List (DeleteCall C V) :=
  match env.GetProject projectID with
  | .error err => (.error (env.KubernetesErrorToHTTPError err), [])
  | .ok project =>
    match env.GetInternalCluster project projectID clusterID with
    | .error err => (.error err, [])
    | .ok existingCluster =>
      updateAndDeleteCluster env project
        (DeleteEndpoint.addCleanupFinalizers env deleteVolumes deleteLoadBalancers
          existingCluster).1

/-- A sample environment for deleting the given cluster as an admin: a finalizer is
added at the end of the list unless the cluster has it. -/
def sampleDeletion (cluster : kubermaticv1.Cluster Unit Unit) : ClusterDeletion Unit Unit :=
  { userInfoGetter := fun _ => .ok sampleAdmin
    KubernetesErrorToHTTPError := fun err => err
    GetProject := fun projectID => .ok { Name := projectID }
    GetInternalCluster := fun _ _ _ => .ok cluster
    HasFinalizer := fun c finalizer => c.Finalizers.contains finalizer
    AddFinalizer := fun c finalizer =>
      if c.Finalizers.contains finalizer then c
      else { c with Finalizers := c.Finalizers ++ [finalizer] }
    UpdateUnsecured := fun _ c => .ok c
    DeleteUnsecured := fun _ => .ok ()
    Update := fun _ _ c => .ok c
    Delete := fun _ _ => .ok () }

/-- The provider sections of an external datacenter spec, in the order in which
`GetProviderName` looks at them: the provider type of each section, and whether the
section is set (its pointer is not nil). -/
def dc.providerSections {P V : Type} (dcSpec : apiv1.DatacenterSpec P V) :
    List (String × Bool) :=
  [(kubermaticv1.AlibabaCloudProvider, dcSpec.Alibaba.isSome),
   (kubermaticv1.BringYourOwnCloudProvider, dcSpec.BringYourOwn.isSome),
   (kubermaticv1.DigitaloceanCloudProvider, dcSpec.Digitalocean.isSome),
   (kubermaticv1.AWSCloudProvider, dcSpec.AWS.isSome),
   (kubermaticv1.OpenstackCloudProvider, dcSpec.Openstack.isSome),
   (kubermaticv1.PacketCloudProvider, dcSpec.Packet.isSome),
   (kubermaticv1.HetznerCloudProvider, dcSpec.Hetzner.isSome),
   (kubermaticv1.VSphereCloudProvider, dcSpec.VSphere.isSome),
   (kubermaticv1.BaremetalCloudProvider, dcSpec.Baremetal.isSome),
   (kubermaticv1.AzureCloudProvider, dcSpec.Azure.isSome),
   (kubermaticv1.EdgeCloudProvider, dcSpec.Edge.isSome),
   (kubermaticv1.GCPCloudProvider, dcSpec.GCP.isSome),
   (kubermaticv1.KubevirtCloudProvider, dcSpec.Kubevirt.isSome),
   (kubermaticv1.AnexiaCloudProvider, dcSpec.Anexia.isSome),
   (kubermaticv1.NutanixCloudProvider, dcSpec.Nutanix.isSome),
   (kubermaticv1.VMwareCloudDirectorCloudProvider, dcSpec.VMwareCloudDirector.isSome),
   (kubermaticv1.FakeCloudProvider, dcSpec.Fake.isSome)]

/-- The number of provider sections of the spec that are set. -/
def dc.setSectionCount {P V : Type} (dcSpec : apiv1.DatacenterSpec P V) : Nat :=
  ((dc.providerSections dcSpec).filter (fun providerSection => providerSection.2)).length

/-! ### The ensure label of an addon -/

/-- What the addon endpoints call outside this repository besides the addon providers.
`T` is a timestamp and `W` the decoded variables of an addon. -/
structure AddonEndpoints (C V T W : Type) where
  providers : AddonProviders C V (kubermaticv1.Addon T) (Option RawExtension)
  KubernetesErrorToHTTPError : GoError → GoError
  /-- The call `GetCluster(ctx, ..., projectID, clusterID, nil)`. -/
  GetCluster : String → String → Except GoError (kubermaticv1.Cluster C V)
  /-- The call `k8sjson.Marshal(external)`. -/
  Marshal : Option W → Except GoError (List Nat)
  /-- The call `k8sjson.Unmarshal(raw, &result.Spec.Variables)`. -/
  Unmarshal : List Nat → Except GoError (Option W)

/-- The function `convertExternalVariablesToInternal` of `handler/common/addon.go`. -/
def convertExternalVariablesToInternal {W : Type} (Marshal : Option W → Except GoError (List Nat))
    (external : Option W) : Except GoError RawExtension :=
  match Marshal external with
  | .error err => .error err
  | .ok raw => .ok { Raw := raw }

/-- The label step of `PatchAddonEndpoint`: a nil label map becomes an empty one, the
ensure label is set to `false`, and then to `true` when the request asks for continuous
reconciliation. -/
def PatchAddonEndpoint.setEnsureLabel (labels : GoMap String) (continuouslyReconcile : Bool) :
    GoMap String :=
  let labels : List (String × String) :=
    match labels with
    | none => []
    | some labels => labels
  let labels := GoMap.setEntry labels addonEnsureLabelKey "false"
  if continuouslyReconcile then some (GoMap.setEntry labels addonEnsureLabelKey trueFlag)
  else some labels

/-- The label step of `CreateAddonEndpoint`: an empty label map, with the ensure label
set to `true` when the request asks for continuous reconciliation. -/
def CreateAddonEndpoint.labels (continuouslyReconcile : Bool) : GoMap String :=
  let labels : List (String × String) := []
  if continuouslyReconcile then some (GoMap.setEntry labels addonEnsureLabelKey trueFlag)
  else some labels

/-- What an addon endpoint hands to the helpers that write through the addon provider. -/
inductive AddonWrite (T : Type) where
  /-- The call `updateAddon(ctx, userInfoGetter, cluster, apiAddon, projectID)`. -/
  | updateAddon (apiAddon : kubermaticv1.Addon T)
  /-- The call `createAddon(ctx, userInfoGetter, cluster, rawVars, labels, projectID, name)`. -/
  | createAddon (rawVars : Option RawExtension) (labels : GoMap String) (name : String)
  deriving DecidableEq, Repr

/-- The function `PatchAddonEndpoint` of `handler/common/addon.go`, with what it hands to
`updateAddon`. -/
def PatchAddonEndpoint {C V T W : Type} (env : AddonEndpoints C V T W) (addon : apiv1.Addon T W)
    (projectID clusterID addonID : String) :
    Except GoError (apiv1.Addon T W) × List (AddonWrite T) :=
  match env.GetCluster projectID clusterID with
  | .error err => (.error err, [])
  | .ok cluster =>
    match (getAddon env.providers cluster projectID addonID).1 with
    | .error err => (.error (env.KubernetesErrorToHTTPError err), [])
    | .ok apiAddon =>
      match convertExternalVariablesToInternal env.Marshal addon.Spec.Variables with
      | .error err => (.error (env.KubernetesErrorToHTTPError err), [])
      | .ok rawVars =>
        let apiAddon : kubermaticv1.Addon T :=
          { apiAddon with
            Spec := { apiAddon.Spec with Variables := some rawVars }
            Labels := PatchAddonEndpoint.setEnsureLabel apiAddon.Labels
              addon.Spec.ContinuouslyReconcile }
        match (updateAddon env.providers cluster apiAddon projectID).1 with
        | .error err => (.error (env.KubernetesErrorToHTTPError err), [.updateAddon apiAddon])
        | .ok updated =>
          match convertInternalAddonToExternal env.Unmarshal updated with
          | .error err => (.error (env.KubernetesErrorToHTTPError err), [.updateAddon apiAddon])
          | .ok result => (.ok result, [.updateAddon apiAddon])

/-- The function `CreateAddonEndpoint` of `handler/common/addon.go`, with what it hands to
`createAddon`. -/
def CreateAddonEndpoint {C V T W : Type} (env : AddonEndpoints C V T W) (addon : apiv1.Addon T W)
    (projectID clusterID : String) :
    Except GoError (apiv1.Addon T W) × List (AddonWrite T) :=
  match env.GetCluster projectID clusterID with
  | .error err => (.error err, [])
  | .ok cluster =>
    match convertExternalVariablesToInternal env.Marshal addon.Spec.Variables with
    | .error err => (.error (env.KubernetesErrorToHTTPError err), [])
    | .ok rawVars =>
      let labels := CreateAddonEndpoint.labels addon.Spec.ContinuouslyReconcile
      match (createAddon env.providers cluster (some rawVars) labels projectID addon.Name).1 with
      | .error err =>
        (.error (env.KubernetesErrorToHTTPError err),
          [.createAddon (some rawVars) labels addon.Name])
      | .ok apiAddon =>
        match convertInternalAddonToExternal env.Unmarshal apiAddon with
        | .error err =>
          (.error (env.KubernetesErrorToHTTPError err),
            [.createAddon (some rawVars) labels addon.Name])
        | .ok result => (.ok result, [.createAddon (some rawVars) labels addon.Name])

/-- A sample environment of the addon endpoints for an admin: the cluster holds the one
addon `stored`, an update returns the addon it is given, and a new addon gets the name,
variables and labels it is created with. -/
def sampleAddonEndpoints (stored : kubermaticv1.Addon Nat) :
    AddonEndpoints Unit Unit Nat (List Nat) :=
  { providers :=
      { userInfoGetter := fun _ => .ok sampleAdmin
        DeleteUnsecured := fun _ _ => .ok ()
        Delete := fun _ _ _ => .ok ()
        UpdateUnsecured := fun _ addon => .ok addon
        Update := fun _ _ addon => .ok addon
        NewUnsecured := fun _ name rawVars labels =>
          .ok { Name := name, Labels := labels, CreationTimestamp := 2,
                DeletionTimestamp := none, Spec := { Variables := rawVars, IsDefault := false } }
        New := fun _ _ name rawVars labels =>
          .ok { Name := name, Labels := labels, CreationTimestamp := 2,
                DeletionTimestamp := none, Spec := { Variables := rawVars, IsDefault := false } }
        GetUnsecured := fun _ _ => .ok stored
        Get := fun _ _ _ => .ok stored
        ListUnsecured := fun _ => .ok [stored]
        List := fun _ _ => .ok [stored] }
    KubernetesErrorToHTTPError := fun err => err
    GetCluster := fun _ _ => .ok (sampleCluster true)
    Marshal := fun external => .ok (123 :: external.getD [])
    Unmarshal := sampleUnmarshal }

/-- A sample request body for an addon, with the given flag. -/
def sampleAddonRequest (continuouslyReconcile : Bool) : apiv1.Addon Nat (List Nat) :=
  { ID := "", Name := "dns", CreationTimestamp := 0, DeletionTimestamp := none,
    Spec := { IsDefault := false, Variables := some [125],
              ContinuouslyReconcile := continuouslyReconcile } }

/-- The datacenters of a seed in their external form: for each entry of the datacenter
map of the seed that `convertInternalDCToExternal` converts, the converted datacenter
under the name of the entry, in the order in which the map is ranged over. -/
def dc.convertedFromSeed {P V : Type} (env : dc.Access P V) (seed : kubermaticv1.Seed P V) :
    List (apiv1.Datacenter P V) :=
  (seed.Spec.Datacenters.getD []).filterMap (fun entry =>
    (dc.convertInternalDCToExternal env entry.2 entry.1 seed.Name).toOption)

/-- The datacenters of all the seeds of a seed map in their external form. -/
def dc.convertedFromSeeds {P V : Type} (env : dc.Access P V)
    (seeds : GoMap (kubermaticv1.Seed P V)) : List (apiv1.Datacenter P V) :=
  (seeds.getD []).flatMap (fun seedEntry =>
    (seedEntry.2.Spec.Datacenters.getD []).filterMap (fun entry =>
      (dc.convertInternalDCToExternal env entry.2 entry.1 seedEntry.2.Name).toOption))

/-! ## Theorems -/

/-! ### External CCM migration status -/

/-- C1: `convertInternalCCMStatusToExternal` is the transition rule on the three inputs
(the feature flag of the cluster, the capability reported for the datacenter, the pending
migration): enabled and pending gives InProgress, enabled and not pending gives
NotNeeded, not enabled and supported gives Supported, neither gives Unsupported; and
with the flag enabled the result is the same whatever the capability check reports. -/
theorem c1_ccm_status_transition_rule {C V D I : Type} (ext : Collaborators C V D I)
    (cluster : kubermaticv1.Cluster C V) (datacenter : D) (incompatibilities : List I) :
    let enabled := GoMap.index false cluster.Spec.Features ClusterFeatureExternalCloudProvider
    let supported :=
      ext.MigrationToExternalCloudControllerSupported datacenter cluster incompatibilities
    let pending := ext.NeedCCMMigration cluster
    let status := convertInternalCCMStatusToExternal ext cluster datacenter incompatibilities
    (enabled = true → pending = true → status = ExternalCCMMigrationInProgress) ∧
    (enabled = true → pending = false → status = ExternalCCMMigrationNotNeeded) ∧
    (enabled = false → supported = true → status = ExternalCCMMigrationSupported) ∧
    (enabled = false → supported = false → status = ExternalCCMMigrationUnsupported) ∧
    (enabled = true → ∀ ext2 : Collaborators C V D I,
      ext2.NeedCCMMigration cluster = ext.NeedCCMMigration cluster →
      convertInternalCCMStatusToExternal ext2 cluster datacenter incompatibilities = status) := by
  simp only [convertInternalCCMStatusToExternal]
  refine ⟨?_, ?_, ?_, ?_, ?_⟩
  · intro he hp; simp [he, hp]
  · intro he hp; simp [he, hp]
  · intro he hs; simp [he, hs]
  · intro he hs; simp [he, hs]
  · intro he ext2 h2; simp [he, h2]


theorem c1_ccm_status_transition_rule_witness :
    GoMap.index false (sampleCluster true).Spec.Features ClusterFeatureExternalCloudProvider
      = true ∧
    (sampleCollaborators false true).NeedCCMMigration (sampleCluster true) = true ∧
    convertInternalCCMStatusToExternal (sampleCollaborators false true) (sampleCluster true)
      () [] = ExternalCCMMigrationInProgress :=
  ⟨by decide, rfl,
   (c1_ccm_status_transition_rule (sampleCollaborators false true) (sampleCluster true)
      () []).1 (by decide) rfl⟩

/-! ### Default subnet selection -/

theorem wrapInt32_add_left (a b : Int) : wrapInt32 (wrapInt32 a + b) = wrapInt32 (a + b) := by
  unfold wrapInt32; omega

theorem wrapInt32_zero : wrapInt32 0 = 0 := by decide

/-- Within the range of `int32` the wrap-around changes nothing. -/
theorem wrapInt32_of_inRange (x : Int) (hlo : -2147483648 ≤ x) (hhi : x < 2147483648) :
    wrapInt32 x = x := by
  unfold wrapInt32; omega

theorem AZMap.get_nil (k : String) : AZMap.get [] k = 0 := rfl

theorem AZMap.get_cons (kv : String × Int) (m : AZMap) (k : String) :
    AZMap.get (kv :: m) k = if kv.1 = k then kv.2 else AZMap.get m k := by
  unfold AZMap.get
  rw [List.find?_cons]
  by_cases h : kv.1 = k
  · have hb : (kv.1 == k) = true := by simp [h]
    simp only [hb, if_pos h]
  · have hb : (kv.1 == k) = false := by simp [h]
    simp only [hb, if_neg h]

theorem AZMap.get_filter_ne (m : AZMap) (k k2 : String) (h : k2 ≠ k) :
    AZMap.get (m.filter (fun kv => kv.1 != k)) k2 = AZMap.get m k2 := by
  induction m with
  | nil => rfl
  | cons kv rest ih =>
    rw [List.filter_cons]
    by_cases hk : kv.1 = k
    · have hk2 : ¬ kv.1 = k2 := fun e => h (e ▸ hk)
      simp only [hk, bne_self_eq_false, Bool.false_eq_true, if_false]
      rw [AZMap.get_cons, if_neg hk2, ← ih]
    · have hb : (kv.1 != k) = true := by simp [hk]
      simp only [hb, if_true]
      rw [AZMap.get_cons, AZMap.get_cons, ih]

theorem AZMap.get_set_self (m : AZMap) (k : String) (v : Int) : (m.set k v).get k = v := by
  unfold AZMap.set
  rw [AZMap.get_cons]; simp

theorem AZMap.get_set_ne (m : AZMap) (k k2 : String) (v : Int) (h : k2 ≠ k) :
    (m.set k v).get k2 = m.get k2 := by
  have h2 : ¬ k = k2 := fun e => h e.symm
  unfold AZMap.set
  rw [AZMap.get_cons, if_neg h2, AZMap.get_filter_ne m k k2 h]

theorem AZMap.get_set (m : AZMap) (k k2 : String) (v : Int) :
    (m.set k v).get k2 = if k2 = k then v else m.get k2 := by
  by_cases h : k2 = k
  · subst h; simp [AZMap.get_set_self]
  · simp [h, AZMap.get_set_ne]

theorem initial_machinesForAZ_get (subnets : List AWSSubnet) (m : AZMap)
    (hm : ∀ k, m.get k = 0) (k : String) :
    AZMap.get (subnets.foldl (fun m subnet => AZMap.set m subnet.AvailabilityZone 0) m) k = 0 := by
  induction subnets generalizing m with
  | nil => exact hm k
  | cons s rest ih =>
    apply ih
    intro k2
    rw [AZMap.get_set]
    split <;> simp [hm]

theorem setIsDefaultSubnet_length (subnets : List AWSSubnet) (i : Nat) :
    (setIsDefaultSubnet subnets i).length = subnets.length := by
  induction subnets generalizing i with
  | nil => rfl
  | cons s rest ih => cases i <;> simp [setIsDefaultSubnet, ih]

theorem setIsDefaultSubnet_getElem? (subnets : List AWSSubnet) (i j : Nat) :
    (setIsDefaultSubnet subnets i)[j]? =
      if j = i then subnets[j]?.map (fun s => { s with IsDefaultSubnet := true })
      else subnets[j]? := by
  induction subnets generalizing i j with
  | nil => simp [setIsDefaultSubnet]
  | cons s rest ih =>
    cases i with
    | zero => cases j <;> simp [setIsDefaultSubnet]
    | succ i => cases j <;> simp [setIsDefaultSubnet, ih]

theorem defaultSubnetCount_set (subnets : List AWSSubnet) (i : Nat)
    (hclean : ∀ s ∈ subnets, s.IsDefaultSubnet = false) (hi : i < subnets.length) :
    defaultSubnetCount (setIsDefaultSubnet subnets i) = 1 := by
  have hzero : ∀ l : List AWSSubnet, (∀ s ∈ l, s.IsDefaultSubnet = false) →
      defaultSubnetCount l = 0 := by
    intro l hl
    unfold defaultSubnetCount
    rw [List.countP_eq_zero]
    intro s hs
    simp [hl s hs]
  induction subnets generalizing i with
  | nil => simp at hi
  | cons s rest ih =>
    have hs : s.IsDefaultSubnet = false := hclean s (List.mem_cons_self _ _)
    have hrest : ∀ t ∈ rest, t.IsDefaultSubnet = false :=
      fun t ht => hclean t (List.mem_cons_of_mem _ ht)
    cases i with
    | zero =>
      have := hzero rest hrest
      unfold defaultSubnetCount at this ⊢
      simp [setIsDefaultSubnet, List.countP_cons, this]
    | succ i =>
      have := ih i hrest (by simpa using hi)
      unfold defaultSubnetCount at this ⊢
      simp [setIsDefaultSubnet, List.countP_cons, this, hs]

theorem findIdx?_lt_length {α : Type} (p : α → Bool) (l : List α) (i : Nat)
    (h : l.findIdx? p = some i) : i < l.length := by
  rw [List.findIdx?_eq_some_iff_findIdx_eq] at h
  exact h.1

/-- Whenever `SetDefaultSubnet` returns a list, it is the input list with one
position marked. -/
theorem SetDefaultSubnet_ok_shape {M : Type}
    (g : M → Except GoError NodeCloudSpec) (mds : Option (List (MachineDeployment M)))
    (subnets out : List AWSSubnet) (h : SetDefaultSubnet g mds subnets = .ok out) :
    ∃ i, i < subnets.length ∧ out = setIsDefaultSubnet subnets i := by
  unfold SetDefaultSubnet at h
  split at h
  · cases h
  · rename_i hlen
    have hpos : 0 < subnets.length := Nat.pos_of_ne_zero hlen
    split at h
    · cases h
    · dsimp only at h
      split at h
      · cases h
      · split at h
        · exact ⟨0, hpos, by cases h; rfl⟩
        · split at h
          · rename_i i hi
            exact ⟨i, findIdx?_lt_length _ _ _ hi, by cases h; rfl⟩
          · exact ⟨0, hpos, by cases h; rfl⟩

theorem awsReplicas_eq_some {M : Type} (g : M → Except GoError NodeCloudSpec)
    (md : MachineDeployment M) (p : String × Int) (h : awsReplicas g md = some p) :
    ∃ aws, g md.SpecTemplateSpec = .ok ⟨some aws⟩ ∧ md.SpecReplicas = some p.2 ∧
      aws.AvailabilityZone = p.1 := by
  unfold awsReplicas at h
  split at h
  · rename_i aws r hg hr
    cases h
    exact ⟨aws, hg, hr, rfl⟩
  · cases h

/-- One iteration on a machine deployment that is on AWS and has its replicas set. -/
theorem SetDefaultSubnet.step_aws {M : Type} (g : M → Except GoError NodeCloudSpec)
    (st : SubnetLoop) (md : MachineDeployment M) (p : String × Int)
    (h : awsReplicas g md = some p) :
    SetDefaultSubnet.step g st md = .ok
      { machinesForAZ := st.machinesForAZ.set p.1 (wrapInt32 (st.machinesForAZ.get p.1 + p.2))
        machineCounter := wrapInt32 (st.machineCounter + p.2)
        replicas := p.2 } := by
  obtain ⟨aws, hg, hr, haz⟩ := awsReplicas_eq_some g md p h
  unfold SetDefaultSubnet.step
  rw [hg]
  simp only [hr, haz]

/-- The loop over machine deployments that are all on AWS with replicas set: it ends
without error, with the `int32` sums in the counter and in the map. -/
theorem SetDefaultSubnet.loop_aws {M : Type} (g : M → Except GoError NodeCloudSpec)
    (items : List (MachineDeployment M))
    (haws : ∀ md ∈ items, (awsReplicas g md).isSome)
    (st : SubnetLoop) (base : String → Int) (total : Int)
    (hmap : ∀ az, st.machinesForAZ.get az = wrapInt32 (base az))
    (hcnt : st.machineCounter = wrapInt32 total) :
    ∃ st2, SetDefaultSubnet.loop g st items = .ok st2 ∧
      st2.machineCounter =
        wrapInt32 (total + ((items.filterMap (awsReplicas g)).map (fun p => p.2)).sum) ∧
      ∀ az, st2.machinesForAZ.get az =
        wrapInt32 (base az + (((items.filterMap (awsReplicas g)).filter
          (fun p => p.1 == az)).map (fun p => p.2)).sum) := by
  induction items generalizing st base total with
  | nil =>
    refine ⟨st, rfl, ?_, ?_⟩
    · simpa using hcnt
    · intro az; simpa using hmap az
  | cons md rest ih =>
    have hmd := haws md (List.mem_cons_self _ _)
    obtain ⟨p, hp⟩ := Option.isSome_iff_exists.mp hmd
    have hrest : ∀ m ∈ rest, (awsReplicas g m).isSome :=
      fun m hm => haws m (List.mem_cons_of_mem _ hm)
    have hstep := SetDefaultSubnet.step_aws g st md p hp
    obtain ⟨st2, hloop, hc2, hm2⟩ := ih hrest
      { machinesForAZ := st.machinesForAZ.set p.1 (wrapInt32 (st.machinesForAZ.get p.1 + p.2))
        machineCounter := wrapInt32 (st.machineCounter + p.2)
        replicas := p.2 }
      (fun az => base az + if az = p.1 then p.2 else 0) (total + p.2)
      (by
        intro az
        rw [AZMap.get_set]
        by_cases haz : az = p.1
        · subst haz
          simp only [if_true]
          rw [hmap, wrapInt32_add_left]
        · simp only [haz, if_false]
          rw [hmap]; simp)
      (by simp only; rw [hcnt, wrapInt32_add_left])
    refine ⟨st2, ?_, ?_, ?_⟩
    · simp only [SetDefaultSubnet.loop, hstep]
      exact hloop
    · rw [hc2]
      simp only [List.filterMap_cons, hp, List.map_cons, List.sum_cons]
      congr 1; ring
    · intro az
      rw [hm2 az]
      simp only [List.filterMap_cons, hp, List.filter_cons]
      by_cases haz : az = p.1
      · subst haz
        simp only [if_true, beq_self_eq_true, List.map_cons, List.sum_cons]
        congr 1; ring
      · have hb : (p.1 == az) = false := by
          simp only [beq_eq_false_iff_ne, ne_eq]
          exact fun e => haz e.symm
        simp only [haz, if_false, hb, Bool.false_eq_true]
        congr 1; ring

/-- What `SetDefaultSubnet` computes for machine deployments that are all on AWS with
replicas set: the choice is made from the `int32` sums. -/
theorem SetDefaultSubnet_aws {M : Type} (g : M → Except GoError NodeCloudSpec)
    (items : List (MachineDeployment M)) (subnets : List AWSSubnet)
    (hne : subnets ≠ []) (haws : ∀ md ∈ items, (awsReplicas g md).isSome) :
    SetDefaultSubnet g (some items) subnets =
      if totalReplicas g items = 0 then .ok (setIsDefaultSubnet subnets 0)
      else match subnets.findIdx?
          (fun subnet => replicasInAZ g items subnet.AvailabilityZone == 0) with
        | some i => .ok (setIsDefaultSubnet subnets i)
        | none => .ok (setIsDefaultSubnet subnets 0) := by
  have hlen : ¬ subnets.length = 0 := by
    intro h; exact hne (List.length_eq_zero.mp h)
  obtain ⟨st2, hloop, hc2, hm2⟩ := SetDefaultSubnet.loop_aws g items haws
    ⟨subnets.foldl (fun m subnet => AZMap.set m subnet.AvailabilityZone 0) [], 0, 0⟩
    (fun _ => 0) 0
    (fun az => by
      simp only [wrapInt32_zero]
      exact initial_machinesForAZ_get subnets [] (fun k => AZMap.get_nil k) az)
    (by simp [wrapInt32_zero])
  unfold SetDefaultSubnet
  simp only [hlen, if_false, hloop]
  have hc : st2.machineCounter = totalReplicas g items := by
    rw [hc2]; unfold totalReplicas; simp
  have hm : ∀ az, st2.machinesForAZ.get az = replicasInAZ g items az := by
    intro az; rw [hm2]; unfold replicasInAZ; simp
  simp only [hc, hm]

theorem MarksSubnet_set (subnets : List AWSSubnet) (i : Nat) :
    MarksSubnet subnets (setIsDefaultSubnet subnets i) i := by
  refine ⟨setIsDefaultSubnet_length subnets i, ?_, ?_⟩
  · rw [setIsDefaultSubnet_getElem?]; simp
  · intro j hj
    rw [setIsDefaultSubnet_getElem?]; simp [hj]

/-- C2 (as stated, refuted): a subnet list with two subnets that are already marked and
an empty, non-nil machine deployment list comes back with two default subnets. -/
theorem c2_two_defaults_counterexample :
    ∃ out, SetDefaultSubnet sampleNodeCloudSpec (some [])
        [sampleSubnet "a" true, sampleSubnet "b" true] = .ok out ∧
      defaultSubnetCount out = 2 :=
  ⟨[sampleSubnet "a" true, sampleSubnet "b" true], by decide, by decide⟩

/-- C2 (amended): for every non-empty subnet list in which no subnet is marked as
default on entry, and every non-nil machine deployment list on which `SetDefaultSubnet`
returns without error, exactly one subnet of the returned list is marked as default. -/
theorem c2_exactly_one_default_subnet {M : Type}
    (GetAPIV2NodeCloudSpec : M → Except GoError NodeCloudSpec)
    (items : List (MachineDeployment M)) (subnets out : List AWSSubnet)
    (hclean : ∀ s ∈ subnets, s.IsDefaultSubnet = false)
    (hok : SetDefaultSubnet GetAPIV2NodeCloudSpec (some items) subnets = .ok out) :
    defaultSubnetCount out = 1 := by
  obtain ⟨i, hi, hout⟩ := SetDefaultSubnet_ok_shape _ _ _ _ hok
  rw [hout]
  exact defaultSubnetCount_set subnets i hclean hi

theorem c2_exactly_one_default_subnet_witness :
    SetDefaultSubnet sampleNodeCloudSpec (some [⟨"a", some 2⟩])
        [sampleSubnet "a" false, sampleSubnet "b" false]
      = .ok [sampleSubnet "a" false, sampleSubnet "b" true] ∧
    defaultSubnetCount [sampleSubnet "a" false, sampleSubnet "b" true] = 1 :=
  ⟨by decide,
   c2_exactly_one_default_subnet sampleNodeCloudSpec [⟨"a", some 2⟩]
     [sampleSubnet "a" false, sampleSubnet "b" false]
     [sampleSubnet "a" false, sampleSubnet "b" true]
     (by decide) (by decide)⟩

/-- C3 (as stated, refuted): with one subnet and one machine deployment whose replica
count is zero but whose node spec is not an AWS one, the replica counts sum to zero and
`SetDefaultSubnet` does not succeed: it returns the bad-request error. -/
theorem c3_not_aws_counterexample :
    SetDefaultSubnet sampleNodeCloudSpec (some [⟨"", some 0⟩]) [sampleSubnet "a" false]
      = .error (NewBadRequest "cloud spec missing") := by
  decide

/-- C3 (amended): for every non-empty subnet list and a machine deployment list with
zero items, or whose items are all AWS machine deployments with their replicas set and
whose replica counts sum to zero, `SetDefaultSubnet` succeeds, marks the subnet at index
0 as default, and returns a list of the same length and order in which nothing but
`IsDefaultSubnet` of subnet 0 is changed. -/
theorem c3_no_machines_marks_first_subnet {M : Type}
    (GetAPIV2NodeCloudSpec : M → Except GoError NodeCloudSpec)
    (items : List (MachineDeployment M)) (subnets : List AWSSubnet)
    (hne : subnets ≠ [])
    (haws : ∀ md ∈ items, (awsReplicas GetAPIV2NodeCloudSpec md).isSome)
    (hzero : totalReplicas GetAPIV2NodeCloudSpec items = 0) :
    ∃ out, SetDefaultSubnet GetAPIV2NodeCloudSpec (some items) subnets = .ok out ∧
      MarksSubnet subnets out 0 ∧
      (∃ first, subnets[0]? = some first ∧
        out[0]? = some { first with IsDefaultSubnet := true }) := by
  refine ⟨setIsDefaultSubnet subnets 0, ?_, MarksSubnet_set subnets 0, ?_⟩
  · rw [SetDefaultSubnet_aws _ items subnets hne haws, if_pos hzero]
  · cases subnets with
    | nil => exact absurd rfl hne
    | cons s rest => exact ⟨s, by simp, by simp [setIsDefaultSubnet]⟩

theorem c3_no_machines_marks_first_subnet_witness :
    ∃ out, SetDefaultSubnet sampleNodeCloudSpec (some [⟨"b", some 1⟩, ⟨"b", some (-1)⟩])
        [sampleSubnet "b" false, sampleSubnet "a" false] = .ok out ∧
      MarksSubnet [sampleSubnet "b" false, sampleSubnet "a" false] out 0 ∧
      (∃ first, [sampleSubnet "b" false, sampleSubnet "a" false][0]? = some first ∧
        out[0]? = some { first with IsDefaultSubnet := true }) :=
  c3_no_machines_marks_first_subnet sampleNodeCloudSpec [⟨"b", some 1⟩, ⟨"b", some (-1)⟩]
    [sampleSubnet "b" false, sampleSubnet "a" false] (by decide) (by decide) (by decide)

/-- For every non-empty subnet list and every machine deployment list (all AWS, all
with their replicas set) whose total replica count is non-zero, `SetDefaultSubnet` marks
the lowest-index subnet whose availability zone has a summed replica count of 0, and
marks the subnet at index 0 when every subnet has a zone with a non-zero count, all sums
being the ones the code forms, in `int32` arithmetic. -/
theorem SetDefaultSubnet_marks_by_int32_sums {M : Type}
    (GetAPIV2NodeCloudSpec : M → Except GoError NodeCloudSpec)
    (items : List (MachineDeployment M)) (subnets : List AWSSubnet)
    (hne : subnets ≠ [])
    (haws : ∀ md ∈ items, (awsReplicas GetAPIV2NodeCloudSpec md).isSome)
    (htotal : totalReplicas GetAPIV2NodeCloudSpec items ≠ 0) :
    (∀ i (hi : i < subnets.length),
      replicasInAZ GetAPIV2NodeCloudSpec items subnets[i].AvailabilityZone = 0 →
      (∀ j (hj : j < i),
        replicasInAZ GetAPIV2NodeCloudSpec items subnets[j].AvailabilityZone ≠ 0) →
      ∃ out, SetDefaultSubnet GetAPIV2NodeCloudSpec (some items) subnets = .ok out ∧
        MarksSubnet subnets out i) ∧
    ((∀ s ∈ subnets, replicasInAZ GetAPIV2NodeCloudSpec items s.AvailabilityZone ≠ 0) →
      ∃ out, SetDefaultSubnet GetAPIV2NodeCloudSpec (some items) subnets = .ok out ∧
        MarksSubnet subnets out 0) := by
  constructor
  · intro i hi hz hlow
    refine ⟨setIsDefaultSubnet subnets i, ?_, MarksSubnet_set subnets i⟩
    rw [SetDefaultSubnet_aws _ items subnets hne haws, if_neg htotal]
    have hfind : subnets.findIdx?
        (fun subnet => replicasInAZ GetAPIV2NodeCloudSpec items subnet.AvailabilityZone == 0)
          = some i := by
      rw [List.findIdx?_eq_some_iff_getElem]
      refine ⟨hi, by simpa using hz, ?_⟩
      intro j hj
      simpa using hlow j hj
    rw [hfind]
  · intro hall
    refine ⟨setIsDefaultSubnet subnets 0, ?_, MarksSubnet_set subnets 0⟩
    rw [SetDefaultSubnet_aws _ items subnets hne haws, if_neg htotal]
    have hfind : subnets.findIdx?
        (fun subnet => replicasInAZ GetAPIV2NodeCloudSpec items subnet.AvailabilityZone == 0)
          = none := by
      rw [List.findIdx?_eq_none_iff]
      intro s hs
      simpa using hall s hs
    rw [hfind]

/-- The sum of the second components of the pairs that pass a test lies between 0 and
the sum over all pairs, when no second component is negative. -/
theorem sum_filter_le_sum_of_nonneg (l : List (String × Int)) (p : String × Int → Bool)
    (h : ∀ x ∈ l, 0 ≤ x.2) :
    0 ≤ ((l.filter p).map (fun x => x.2)).sum ∧
      ((l.filter p).map (fun x => x.2)).sum ≤ (l.map (fun x => x.2)).sum := by
  induction l with
  | nil => simp
  | cons x rest ih =>
    have hx := h x (List.mem_cons_self _ _)
    have hrest := ih (fun y hy => h y (List.mem_cons_of_mem _ hy))
    cases hp : p x
    · simp only [List.filter_cons, hp, Bool.false_eq_true, if_false, List.map_cons,
        List.sum_cons]
      omega
    · simp only [List.filter_cons, hp, if_true, List.map_cons, List.sum_cons]
      omega

/-- When no replica count is negative and the total is at most 2147483647, the `int32`
sums that `SetDefaultSubnet` forms are the replica counts. -/
theorem replicas_eq_replicaCount {M : Type}
    (GetAPIV2NodeCloudSpec : M → Except GoError NodeCloudSpec)
    (items : List (MachineDeployment M))
    (hnonneg : ∀ md ∈ items, ∀ p ∈ awsReplicas GetAPIV2NodeCloudSpec md, 0 ≤ p.2)
    (hfits : replicaCount GetAPIV2NodeCloudSpec items ≤ 2147483647) :
    totalReplicas GetAPIV2NodeCloudSpec items = replicaCount GetAPIV2NodeCloudSpec items ∧
    ∀ az, replicasInAZ GetAPIV2NodeCloudSpec items az
      = replicaCountInAZ GetAPIV2NodeCloudSpec items az := by
  have hpairs : ∀ x ∈ items.filterMap (awsReplicas GetAPIV2NodeCloudSpec), 0 ≤ x.2 := by
    intro x hx
    obtain ⟨md, hmd, hsome⟩ := List.mem_filterMap.1 hx
    exact hnonneg md hmd x hsome
  have hall := sum_filter_le_sum_of_nonneg _ (fun _ => true) hpairs
  simp only [List.filter_true] at hall
  unfold replicaCount at hfits
  refine ⟨?_, ?_⟩
  · unfold totalReplicas replicaCount
    exact wrapInt32_of_inRange _ (by omega) (by omega)
  · intro az
    have haz := sum_filter_le_sum_of_nonneg _ (fun p => p.1 == az) hpairs
    unfold replicasInAZ replicaCountInAZ
    exact wrapInt32_of_inRange _ (by omega) (by omega)

/-- C4 (as stated, refuted): `SetDefaultSubnet` for the subnets of the zones `a` and `b`
and three machine deployments in zone `a` with 2147483647, 2147483647 and 2 replicas.
The total replica count is 4294967296, which is not zero, zone `a` has all of them and
zone `b` none, so the subnet of zone `b` is the lowest-index subnet of a zone without
machines; but the `int32` counter of the code has wrapped around to 0 and the subnet of
zone `a`, at index 0, is marked. -/
theorem c4_overflowing_total_counterexample :
    replicaCount sampleNodeCloudSpec
      [⟨"a", some 2147483647⟩, ⟨"a", some 2147483647⟩, ⟨"a", some 2⟩] = 4294967296 ∧
    replicaCountInAZ sampleNodeCloudSpec
      [⟨"a", some 2147483647⟩, ⟨"a", some 2147483647⟩, ⟨"a", some 2⟩] "a" = 4294967296 ∧
    replicaCountInAZ sampleNodeCloudSpec
      [⟨"a", some 2147483647⟩, ⟨"a", some 2147483647⟩, ⟨"a", some 2⟩] "b" = 0 ∧
    SetDefaultSubnet sampleNodeCloudSpec
        (some [⟨"a", some 2147483647⟩, ⟨"a", some 2147483647⟩, ⟨"a", some 2⟩])
        [sampleSubnet "a" false, sampleSubnet "b" false]
      = .ok [sampleSubnet "a" true, sampleSubnet "b" false] := by
  refine ⟨?_, ?_, ?_, ?_⟩ <;> decide

/-- C4 (amended): for every non-empty subnet list and every machine deployment list (all
AWS, all with their replicas set) in which no replica count is negative and whose total
replica count is non-zero and at most 2147483647, `SetDefaultSubnet` succeeds and marks
the lowest-index subnet whose availability zone has a summed replica count of 0, and
nothing else; and it marks the subnet at index 0 when every subnet has a zone with a
non-zero count.  The counts are sums of integers, without wrap-around. -/
theorem c4_marks_first_zone_without_machines {M : Type}
    (GetAPIV2NodeCloudSpec : M → Except GoError NodeCloudSpec)
    (items : List (MachineDeployment M)) (subnets : List AWSSubnet)
    (hne : subnets ≠ [])
    (haws : ∀ md ∈ items, (awsReplicas GetAPIV2NodeCloudSpec md).isSome)
    (hnonneg : ∀ md ∈ items, ∀ p ∈ awsReplicas GetAPIV2NodeCloudSpec md, 0 ≤ p.2)
    (hfits : replicaCount GetAPIV2NodeCloudSpec items ≤ 2147483647)
    (htotal : replicaCount GetAPIV2NodeCloudSpec items ≠ 0) :
    (∀ i (hi : i < subnets.length),
      replicaCountInAZ GetAPIV2NodeCloudSpec items subnets[i].AvailabilityZone = 0 →
      (∀ j (hj : j < i),
        replicaCountInAZ GetAPIV2NodeCloudSpec items subnets[j].AvailabilityZone ≠ 0) →
      ∃ out, SetDefaultSubnet GetAPIV2NodeCloudSpec (some items) subnets = .ok out ∧
        MarksSubnet subnets out i) ∧
    ((∀ s ∈ subnets, replicaCountInAZ GetAPIV2NodeCloudSpec items s.AvailabilityZone ≠ 0) →
      ∃ out, SetDefaultSubnet GetAPIV2NodeCloudSpec (some items) subnets = .ok out ∧
        MarksSubnet subnets out 0) := by
  obtain ⟨htot, haz⟩ := replicas_eq_replicaCount GetAPIV2NodeCloudSpec items hnonneg hfits
  have h := SetDefaultSubnet_marks_by_int32_sums GetAPIV2NodeCloudSpec items subnets hne haws
    (by rw [htot]; exact htotal)
  simp only [haz] at h
  exact h

/-- The machine deployments of 2 replicas in zone `a` and 1 in zone `c`, against the
subnets of the zones `a`, `b`, `c` and `d`: the subnet of zone `b`, at index 1, is
marked. -/
theorem c4_marks_first_zone_without_machines_witness :
    ∃ out, SetDefaultSubnet sampleNodeCloudSpec (some [⟨"a", some 2⟩, ⟨"c", some 1⟩])
        [sampleSubnet "a" false, sampleSubnet "b" false, sampleSubnet "c" false,
         sampleSubnet "d" false] = .ok out ∧
      MarksSubnet [sampleSubnet "a" false, sampleSubnet "b" false, sampleSubnet "c" false,
        sampleSubnet "d" false] out 1 :=
  (c4_marks_first_zone_without_machines sampleNodeCloudSpec
    [⟨"a", some 2⟩, ⟨"c", some 1⟩]
    [sampleSubnet "a" false, sampleSubnet "b" false, sampleSubnet "c" false,
     sampleSubnet "d" false]
    (by decide) (by decide) (by decide) (by decide) (by decide)).1 1 (by decide) (by decide)
    (by
      intro j hj
      have hj0 : j = 0 := by omega
      subst hj0
      show replicaCountInAZ sampleNodeCloudSpec [⟨"a", some 2⟩, ⟨"c", some 1⟩] "a" ≠ 0
      decide)

/-! ### Cluster patch: whitelist copy and round trip -/

/-- C5: in the cluster `PatchEndpoint`, for every old internal cluster and every patched
external cluster, the new internal cluster that the whitelist copy produces has the same
resource name, resource version, status, timestamps and finalizers as the old one, and
the same spec fields outside the whitelist (`EnableUserSSHKeyAgent`, `Features`, the
other spec fields, and the `ClusterNetwork` fields other than `KonnectivityEnabled` and
`ProxyMode`), whatever `id` and `status` the patched cluster carries; and the copy does
produce a cluster whenever the patched cluster has a cluster network. -/
theorem c5_patch_whitelist_frame {C V : Type} (oldInternalCluster : kubermaticv1.Cluster C V)
    (patchedCluster : apiv1.Cluster C V) :
    (patchedCluster.Spec.ClusterNetwork ≠ none →
      ∃ newInternalCluster,
        PatchEndpoint.copyWhitelist oldInternalCluster (some patchedCluster)
          = some newInternalCluster) ∧
    ∀ newInternalCluster,
      PatchEndpoint.copyWhitelist oldInternalCluster (some patchedCluster)
        = some newInternalCluster →
      newInternalCluster.Name = oldInternalCluster.Name ∧
      newInternalCluster.ResourceVersion = oldInternalCluster.ResourceVersion ∧
      newInternalCluster.Status = oldInternalCluster.Status ∧
      newInternalCluster.CreationTimestamp = oldInternalCluster.CreationTimestamp ∧
      newInternalCluster.DeletionTimestamp = oldInternalCluster.DeletionTimestamp ∧
      newInternalCluster.Finalizers = oldInternalCluster.Finalizers ∧
      newInternalCluster.Spec.EnableUserSSHKeyAgent
        = oldInternalCluster.Spec.EnableUserSSHKeyAgent ∧
      newInternalCluster.Spec.Features = oldInternalCluster.Spec.Features ∧
      newInternalCluster.Spec.Rest = oldInternalCluster.Spec.Rest ∧
      newInternalCluster.Spec.ClusterNetwork.Rest
        = oldInternalCluster.Spec.ClusterNetwork.Rest := by
  constructor
  · intro hnet
    cases hcn : patchedCluster.Spec.ClusterNetwork with
    | none => exact absurd hcn hnet
    | some net => simp only [PatchEndpoint.copyWhitelist, hcn]; exact ⟨_, rfl⟩
  · intro newInternalCluster h
    cases hcn : patchedCluster.Spec.ClusterNetwork with
    | none => simp [PatchEndpoint.copyWhitelist, hcn] at h
    | some net =>
      simp only [PatchEndpoint.copyWhitelist, hcn, Option.some.injEq] at h
      subst h
      exact ⟨rfl, rfl, rfl, rfl, rfl, rfl, rfl, rfl, rfl, rfl⟩

theorem c5_patch_whitelist_frame_witness :
    samplePatchedCluster.Spec.ClusterNetwork ≠ none ∧
    samplePatchedCluster.ID ≠ (sampleCluster true).Name ∧
    ∃ newInternalCluster,
      PatchEndpoint.copyWhitelist (sampleCluster true) (some samplePatchedCluster)
        = some newInternalCluster ∧
      newInternalCluster.Name = (sampleCluster true).Name ∧
      newInternalCluster.ResourceVersion = (sampleCluster true).ResourceVersion ∧
      newInternalCluster.Status = (sampleCluster true).Status :=
  ⟨by decide, by decide,
   match (c5_patch_whitelist_frame (sampleCluster true) samplePatchedCluster).1 (by decide) with
   | ⟨n, hn⟩ =>
     ⟨n, hn,
      ((c5_patch_whitelist_frame (sampleCluster true) samplePatchedCluster).2 n hn).1,
      ((c5_patch_whitelist_frame (sampleCluster true) samplePatchedCluster).2 n hn).2.1,
      ((c5_patch_whitelist_frame (sampleCluster true) samplePatchedCluster).2 n hn).2.2.1⟩⟩

/-- C6 (as stated, refuted): for the sample cluster, whose `Annotations` map is nil,
converting with `filterSystemLabels = false` and copying the whitelist back yields a
cluster whose `Annotations` is the empty map and not nil. -/
theorem c6_nil_annotations_counterexample :
    (sampleCluster true).Annotations = none ∧
    (PatchEndpoint.copyWhitelist (sampleCluster true)
      (some (ConvertInternalClusterToExternal (sampleCollaborators false false)
        (sampleCluster true) () false ([] : List Unit)))).map (fun c => c.Annotations)
      = some (some []) := by
  decide

/-- C6 (amended): for every internal cluster `x` and datacenter, converting with
`ConvertInternalClusterToExternal(x, dc, false)` and copying the whitelist of
`PatchEndpoint` from that external value back onto a copy of `x` yields `x` itself,
so every whitelisted field is restored, except that a nil `Annotations` map comes back
as the empty map. -/
theorem c6_convert_then_copy_roundtrip {C V D I : Type} (ext : Collaborators C V D I)
    (x : kubermaticv1.Cluster C V) (datacenter : D) (incompatibilities : List I) :
    PatchEndpoint.copyWhitelist x
        (some (ConvertInternalClusterToExternal ext x datacenter false incompatibilities))
      = some { x with
          Annotations := match x.Annotations with
            | none => some []
            | some entries => some entries } := by
  obtain ⟨name, rv, labels, ann, ct, dt, fin, spec, status⟩ := x
  obtain ⟨hrn, cloud, mn, ver, oidc, psp, pns, erl, ap, al, uw, opa, pnsc, erlc, sa, mla,
    cr, ⟨ke, pm, nrest⟩, cni, es, bc, kd, ips, klb, dcsi, kyv, ssh, feat, rest⟩ := spec
  cases ann <;> cases dt <;>
    simp [PatchEndpoint.copyWhitelist, ConvertInternalClusterToExternal]

/-! ### Reading a cluster for a regular user -/

/-- C10: for a caller whose project-scoped identity resolves, `getClusterForRegularUser`
returns the cluster of the scoped `Get` when that succeeds; when the scoped `Get` fails
with an error that is not Forbidden, that error is returned (through the HTTP error
adapter) and the privileged provider is not called; when it fails with Forbidden and the
privileged `GetUnsecured` fails too, the error of the privileged lookup is returned; and
when it fails with Forbidden and the privileged lookup succeeds, the original Forbidden
error is returned, never the cluster found through the privileged path. -/
theorem c10_regular_user_forbidden_fallback {C V U P O : Type}
    (access : ClusterAccess C V U P O) (project : P) (projectID clusterID : String)
    (options : O) (userInfo : U) (hinfo : access.userInfoGetter projectID = .ok userInfo) :
    let result := getClusterForRegularUser access project projectID clusterID options
    (∀ cluster, access.Get userInfo clusterID options = .ok cluster →
      result.1 = .ok cluster ∧ Call.privilegedGetUnsecured clusterID ∉ result.2) ∧
    (∀ err, access.Get userInfo clusterID options = .error err →
      isStatus err StatusForbidden = false →
      result.1 = .error (access.KubernetesErrorToHTTPError err) ∧
      Call.privilegedGetUnsecured clusterID ∉ result.2) ∧
    (∀ err errGetUnsecured, access.Get userInfo clusterID options = .error err →
      isStatus err StatusForbidden = true →
      access.GetUnsecured project clusterID options = .error errGetUnsecured →
      result.1 = .error (access.KubernetesErrorToHTTPError errGetUnsecured)) ∧
    (∀ err found, access.Get userInfo clusterID options = .error err →
      isStatus err StatusForbidden = true →
      access.GetUnsecured project clusterID options = .ok found →
      result.1 = .error (access.KubernetesErrorToHTTPError err) ∧
      Call.privilegedGetUnsecured clusterID ∈ result.2) := by
  simp only [getClusterForRegularUser, hinfo]
  refine ⟨?_, ?_, ?_, ?_⟩
  · intro cluster hget
    simp [hget]
  · intro err hget hst
    simp [hget, hst]
  · intro err err2 hget hst hun
    simp [hget, hst, hun]
  · intro err found hget hst hun
    simp [hget, hst, hun]

theorem c10_regular_user_forbidden_fallback_witness :
    sampleForbiddenAccess.userInfoGetter "p1" = .ok () ∧
    sampleForbiddenAccess.Get () "c1" () = .error (.StatusError 403 "forbidden") ∧
    isStatus (.StatusError 403 "forbidden") StatusForbidden = true ∧
    sampleForbiddenAccess.GetUnsecured () "c1" () = .ok (sampleCluster false) ∧
    (getClusterForRegularUser sampleForbiddenAccess () "p1" "c1" ()).1
      = .error (.HTTPError 403 "forbidden") :=
  ⟨rfl, rfl, by decide, rfl,
   ((c10_regular_user_forbidden_fallback sampleForbiddenAccess () "p1" "c1" () () rfl).2.2.2
      (.StatusError 403 "forbidden") (sampleCluster false) rfl (by decide) rfl).1⟩

/-! ### Required fields of the node specs -/

set_option maxRecDepth 100000 in
/-- The cases of `TestAWSNodeSpec_MarshalJSON`, evaluated on the model. -/
theorem AWSNodeSpec_MarshalJSON_test_cases :
    AWSNodeSpec.MarshalJSON AWSNodeSpec.empty = .error (.errorString
      "missing or invalid required parameter(s): instanceType, diskSize, volumeType") ∧
    AWSNodeSpec.MarshalJSON { AWSNodeSpec.empty with InstanceType := "test-instance" }
      = .error (.errorString
          "missing or invalid required parameter(s): diskSize, volumeType") ∧
    AWSNodeSpec.MarshalJSON { AWSNodeSpec.empty with VolumeType := "test-volume" }
      = .error (.errorString
          "missing or invalid required parameter(s): instanceType, diskSize") ∧
    AWSNodeSpec.MarshalJSON { AWSNodeSpec.empty with VolumeSize := 1 }
      = .error (.errorString
          "missing or invalid required parameter(s): instanceType, volumeType") ∧
    AWSNodeSpec.MarshalJSON { AWSNodeSpec.empty with
        VolumeSize := 0, InstanceType := "test-instance", VolumeType := "test-volume" }
      = .error (.errorString "missing or invalid required parameter(s): diskSize") ∧
    AWSNodeSpec.MarshalJSON { AWSNodeSpec.empty with
        InstanceType := "test-instance", VolumeSize := 1, VolumeType := "test-volume" }
      = .ok "\x7b\"instanceType\":\"test-instance\",\"diskSize\":1,\"volumeType\":\"test-volume\",\"ami\":\"\",\"tags\":null,\"availabilityZone\":\"\",\"subnetID\":\"\",\"assignPublicIP\":null,\"isSpotInstance\":null,\"ebsVolumeEncrypted\":null\x7d" := by
  refine ⟨?_, ?_, ?_, ?_, ?_, ?_⟩ <;> decide

theorem string_length_eq_zero (s : String) : s.length = 0 ↔ s = "" := by
  constructor
  · intro h
    apply String.ext
    exact List.length_eq_zero.mp h
  · intro h; subst h; rfl

/-- C8: for every `AWSNodeSpec`, marshalling fails iff at least one required predicate
fails (`InstanceType` non-empty, `VolumeSize` positive, `VolumeType` non-empty); on
failure the message is `missing or invalid required parameter(s): ` followed by the
names of exactly the failing fields, joined by comma and space, in the order
instanceType, diskSize, volumeType; and on success the full object is written, with the
optional fields at their zero values included. -/
theorem c8_aws_node_spec_required_fields (spec : AWSNodeSpec) :
    ((∃ err, spec.MarshalJSON = .error err) ↔
      (spec.InstanceType = "" ∨ spec.VolumeSize ≤ 0 ∨ spec.VolumeType = "")) ∧
    (∀ err, spec.MarshalJSON = .error err →
      err = .errorString ("missing or invalid required parameter(s): " ++
        ", ".intercalate ((spec.requiredFields.filter (fun f => f.2)).map (fun f => f.1)))) ∧
    (∀ out, spec.MarshalJSON = .ok out →
      out = JSON.marshal (.obj (JSONFields.ofList
        [("instanceType", .str spec.InstanceType),
         ("diskSize", .num spec.VolumeSize),
         ("volumeType", .str spec.VolumeType),
         ("ami", .str spec.AMI),
         ("tags", encodeStringMap spec.Tags),
         ("availabilityZone", .str spec.AvailabilityZone),
         ("subnetID", .str spec.SubnetID),
         ("assignPublicIP", encodeBoolPtr spec.AssignPublicIP),
         ("isSpotInstance", encodeBoolPtr spec.IsSpotInstance),
         ("ebsVolumeEncrypted", encodeBoolPtr spec.EBSVolumeEncrypted)]))) := by
  by_cases h1 : spec.InstanceType = "" <;> by_cases h2 : spec.VolumeSize ≤ 0 <;>
    by_cases h3 : spec.VolumeType = "" <;>
    simp [AWSNodeSpec.MarshalJSON, AWSNodeSpec.requiredFields, string_length_eq_zero,
      h1, h2, h3]

theorem c8_aws_node_spec_required_fields_witness :
    GoError.errorString "missing or invalid required parameter(s): instanceType, diskSize"
      = .errorString ("missing or invalid required parameter(s): " ++
          ", ".intercalate
            (((AWSNodeSpec.requiredFields
                { AWSNodeSpec.empty with VolumeType := "test-volume" }).filter
              (fun f => f.2)).map (fun f => f.1))) :=
  (c8_aws_node_spec_required_fields { AWSNodeSpec.empty with VolumeType := "test-volume" }).2.1
    _ (by decide)

set_option maxRecDepth 100000 in
/-- The failing cases of `TestKubevirtNodeSpec_MarshalJSON`, evaluated on the model. -/
theorem KubevirtNodeSpec_MarshalJSON_error_cases :
    KubevirtNodeSpec.MarshalJSON KubevirtNodeSpec.empty = .error (.errorString
      "missing or invalid required parameter(s): cpus, memory, primaryDiskOSImage, primaryDiskStorageClassName, primaryDiskSize") ∧
    KubevirtNodeSpec.MarshalJSON { KubevirtNodeSpec.empty with CPUs := "2" }
      = .error (.errorString
      "missing or invalid required parameter(s): memory, primaryDiskOSImage, primaryDiskStorageClassName, primaryDiskSize") ∧
    KubevirtNodeSpec.MarshalJSON { KubevirtNodeSpec.empty with PrimaryDiskSize := "1" }
      = .error (.errorString
      "missing or invalid required parameter(s): cpus, memory, primaryDiskOSImage, primaryDiskStorageClassName") ∧
    KubevirtNodeSpec.MarshalJSON { KubevirtNodeSpec.withDisks with
        CPUs := "1", Memory := "1", FlavorName := "test-flavor" }
      = .error (.errorString
      "cpus, memory can not be set at the same time in template (instancetype/flavor) and node spec") ∧
    KubevirtNodeSpec.MarshalJSON { KubevirtNodeSpec.withDisks with
        CPUs := "1", FlavorName := "test-flavor" }
      = .error (.errorString
      "cpus can not be set at the same time in template (instancetype/flavor) and node spec") ∧
    KubevirtNodeSpec.MarshalJSON { KubevirtNodeSpec.withDisks with
        Memory := "1", Instancetype := some sampleInstancetype }
      = .error (.errorString
      "memory can not be set at the same time in template (instancetype/flavor) and node spec") ∧
    KubevirtNodeSpec.MarshalJSON { KubevirtNodeSpec.withDisks with Memory := "1" }
      = .error (.errorString "missing or invalid required parameter(s): cpus") ∧
    KubevirtNodeSpec.MarshalJSON { KubevirtNodeSpec.withDisks with CPUs := "1" }
      = .error (.errorString "missing or invalid required parameter(s): memory") := by
  refine ⟨?_, ?_, ?_, ?_, ?_, ?_, ?_, ?_⟩ <;> decide

set_option maxRecDepth 100000 in
/-- The successful cases 7, 8-7 and 10 of `TestKubevirtNodeSpec_MarshalJSON`, evaluated
on the model. -/
theorem KubevirtNodeSpec_MarshalJSON_success_cases :
    KubevirtNodeSpec.MarshalJSON { KubevirtNodeSpec.withDisks with CPUs := "1", Memory := "1" }
      = .ok "\x7b\"flavorName\":\"\",\"flavorProfile\":\"\",\"instancetype\":null,\"preference\":null,\"cpus\":\"1\",\"memory\":\"1\",\"primaryDiskOSImage\":\"test-url\",\"primaryDiskStorageClassName\":\"test-sc\",\"primaryDiskSize\":\"1\",\"secondaryDisks\":null,\"podAffinityPreset\":\"\",\"podAntiAffinityPreset\":\"\",\"nodeAffinityPreset\":\x7b\"Type\":\"\",\"Key\":\"\",\"Values\":null\x7d,\"topologySpreadConstraints\":null\x7d" ∧
    KubevirtNodeSpec.MarshalJSON { KubevirtNodeSpec.withDisks with FlavorName := "test-flavor" }
      = .ok "\x7b\"flavorName\":\"test-flavor\",\"flavorProfile\":\"\",\"instancetype\":null,\"preference\":null,\"cpus\":\"\",\"memory\":\"\",\"primaryDiskOSImage\":\"test-url\",\"primaryDiskStorageClassName\":\"test-sc\",\"primaryDiskSize\":\"1\",\"secondaryDisks\":null,\"podAffinityPreset\":\"\",\"podAntiAffinityPreset\":\"\",\"nodeAffinityPreset\":\x7b\"Type\":\"\",\"Key\":\"\",\"Values\":null\x7d,\"topologySpreadConstraints\":null\x7d" ∧
    KubevirtNodeSpec.MarshalJSON { KubevirtNodeSpec.withDisks with
        Instancetype := some sampleInstancetype,
        NodeAffinityPreset := { AffinityType := "soft", Key := "foo", Values := some ["bar"] },
        TopologySpreadConstraints := some
          [{ MaxSkew := 1, TopologyKey := "zone", WhenUnsatisfiable := "ScheduleAnyway" }] }
      = .ok "\x7b\"flavorName\":\"\",\"flavorProfile\":\"\",\"instancetype\":\x7b\"name\":\"standard-2\",\"kind\":\"VirtualMachineInstancetype\"\x7d,\"preference\":null,\"cpus\":\"\",\"memory\":\"\",\"primaryDiskOSImage\":\"test-url\",\"primaryDiskStorageClassName\":\"test-sc\",\"primaryDiskSize\":\"1\",\"secondaryDisks\":null,\"podAffinityPreset\":\"\",\"podAntiAffinityPreset\":\"\",\"nodeAffinityPreset\":\x7b\"Type\":\"soft\",\"Key\":\"foo\",\"Values\":[\"bar\"]\x7d,\"topologySpreadConstraints\":[\x7b\"maxSkew\":1,\"topologyKey\":\"zone\",\"whenUnsatisfiable\":\"ScheduleAnyway\"\x7d]\x7d" := by
  refine ⟨?_, ?_, ?_⟩ <;> decide

/-- C9: for every `KubevirtNodeSpec` that names a template (non-empty `FlavorName` or
non-nil `Instancetype`) and whose disk fields are valid, marshalling fails iff `CPUs` or
`Memory` is non-empty; the error names exactly the non-empty ones, in the order cpus,
memory, followed by ` can not be set at the same time in template (instancetype/flavor)
and node spec`; and with both empty the spec is marshalled. -/
theorem c9_kubevirt_template_excludes_cpu_memory (spec : KubevirtNodeSpec)
    (htemplate : spec.FlavorName ≠ "" ∨ spec.Instancetype ≠ none)
    (hImage : spec.PrimaryDiskOSImage ≠ "")
    (hClass : spec.PrimaryDiskStorageClassName ≠ "")
    (hSize : spec.PrimaryDiskSize ≠ "") :
    ((∃ err, spec.MarshalJSON = .error err) ↔ (spec.CPUs ≠ "" ∨ spec.Memory ≠ "")) ∧
    (∀ err, spec.MarshalJSON = .error err →
      err = .errorString
        (", ".intercalate
          ((if spec.CPUs ≠ "" then ["cpus"] else []) ++
           (if spec.Memory ≠ "" then ["memory"] else [])) ++
         " can not be set at the same time in template (instancetype/flavor) and node spec")) ∧
    (spec.CPUs = "" → spec.Memory = "" → spec.MarshalJSON = .ok (JSON.marshal spec.toJSON)) := by
  have ht : (spec.FlavorName.length != 0 || spec.Instancetype.isSome) = true := by
    rcases htemplate with h | h
    · have : spec.FlavorName.length ≠ 0 := fun e => h ((string_length_eq_zero _).mp e)
      simp [this]
    · cases hi : spec.Instancetype with
      | none => exact absurd hi h
      | some m => simp
  have h1 : spec.PrimaryDiskOSImage.length ≠ 0 :=
    fun e => hImage ((string_length_eq_zero _).mp e)
  have h2 : spec.PrimaryDiskStorageClassName.length ≠ 0 :=
    fun e => hClass ((string_length_eq_zero _).mp e)
  have h3 : spec.PrimaryDiskSize.length ≠ 0 :=
    fun e => hSize ((string_length_eq_zero _).mp e)
  by_cases hc : spec.CPUs = "" <;> by_cases hm : spec.Memory = "" <;>
    simp [KubevirtNodeSpec.MarshalJSON, ht, h1, h2, h3, hc, hm, Nat.pos_iff_ne_zero,
      string_length_eq_zero]

theorem c9_kubevirt_template_excludes_cpu_memory_witness :
    ((∃ err, KubevirtNodeSpec.MarshalJSON { KubevirtNodeSpec.withDisks with
        CPUs := "1", FlavorName := "test-flavor" } = .error err) ↔
      (("1" : String) ≠ "" ∨ ("" : String) ≠ "")) ∧
    KubevirtNodeSpec.MarshalJSON { KubevirtNodeSpec.withDisks with FlavorName := "test-flavor" }
      = .ok (JSON.marshal
          (KubevirtNodeSpec.toJSON { KubevirtNodeSpec.withDisks with
            FlavorName := "test-flavor" })) :=
  ⟨(c9_kubevirt_template_excludes_cpu_memory
      { KubevirtNodeSpec.withDisks with CPUs := "1", FlavorName := "test-flavor" }
      (Or.inl (by decide)) (by decide) (by decide) (by decide)).1,
   (c9_kubevirt_template_excludes_cpu_memory
      { KubevirtNodeSpec.withDisks with FlavorName := "test-flavor" }
      (Or.inl (by decide)) (by decide) (by decide) (by decide)).2.2 rfl rfl⟩

/-! ### Reading back what was written -/

theorem hexValue_digitChar (k : Nat) (hk : k < 16) : hexValue (Nat.digitChar k) = some k := by
  interval_cases k <;> decide

theorem parseStringBody_quote (rest : List Char) :
    parseStringBody ('"' :: rest) = some ([], rest) := by
  rw [parseStringBody.eq_def]; simp

theorem parseStringBody_simple_escape (e ch : Char) (rest s r : List Char)
    (he : e ≠ 'u') (hch : unescape e = some ch) (h : parseStringBody rest = some (s, r)) :
    parseStringBody ('\\' :: e :: rest) = some (ch :: s, r) := by
  rw [parseStringBody.eq_def]
  have : ¬ ('\\' = '"') := by decide
  simp [this, he, hch, h]

theorem parseStringBody_unicode (h1 h2 h3 h4 : Char) (v1 v2 v3 v4 : Nat) (rest s r : List Char)
    (e1 : hexValue h1 = some v1) (e2 : hexValue h2 = some v2) (e3 : hexValue h3 = some v3)
    (e4 : hexValue h4 = some v4) (h : parseStringBody rest = some (s, r)) :
    parseStringBody ('\\' :: 'u' :: h1 :: h2 :: h3 :: h4 :: rest)
      = some (Char.ofNat (((v1 * 16 + v2) * 16 + v3) * 16 + v4) :: s, r) := by
  rw [parseStringBody.eq_def]
  have : ¬ ('\\' = '"') := by decide
  simp [this, e1, e2, e3, e4, h]

theorem parseStringBody_plain (c : Char) (rest s r : List Char)
    (hq : c ≠ '"') (hb : c ≠ '\\') (hc : ¬ c.toNat < 32)
    (h : parseStringBody rest = some (s, r)) :
    parseStringBody (c :: rest) = some (c :: s, r) := by
  rw [parseStringBody.eq_def]
  simp [hq, hb, hc, h]

theorem parseStringBody_escapeChar (c : Char) (tail s r : List Char)
    (h : parseStringBody tail = some (s, r)) :
    parseStringBody (escapeChar c ++ tail) = some (c :: s, r) := by
  unfold escapeChar
  split_ifs with h1 h2 h3 h4 h5 h6
  · subst h1
    exact parseStringBody_simple_escape _ _ _ _ _ (by decide) (by decide) h
  · subst h2
    exact parseStringBody_simple_escape _ _ _ _ _ (by decide) (by decide) h
  · subst h3
    exact parseStringBody_simple_escape _ _ _ _ _ (by decide) (by decide) h
  · subst h4
    exact parseStringBody_simple_escape _ _ _ _ _ (by decide) (by decide) h
  · subst h5
    exact parseStringBody_simple_escape _ _ _ _ _ (by decide) (by decide) h
  · have hlt : c.toNat < 64 := by
      rcases h6 with h | h | h | h
      · omega
      · subst h; decide
      · subst h; decide
      · subst h; decide
    have hq : c.toNat / 16 < 16 := by omega
    have hm : c.toNat % 16 < 16 := by omega
    have h0 : hexValue '0' = some 0 := by decide
    have hn : ((0 * 16 + 0) * 16 + c.toNat / 16) * 16 + c.toNat % 16 = c.toNat := by omega
    have := parseStringBody_unicode '0' '0' (Nat.digitChar (c.toNat / 16))
      (Nat.digitChar (c.toNat % 16)) 0 0 (c.toNat / 16) (c.toNat % 16) tail s r h0 h0
      (hexValue_digitChar _ hq) (hexValue_digitChar _ hm) h
    rw [hn, Char.ofNat_toNat] at this
    exact this
  · have h7 : ¬ c.toNat < 32 := fun hh => h6 (Or.inl hh)
    exact parseStringBody_plain c tail s r h1 h2 h7 h

theorem parseStringBody_flatMap (s rest : List Char) :
    parseStringBody (s.flatMap escapeChar ++ '"' :: rest) = some (s, rest) := by
  induction s with
  | nil => exact parseStringBody_quote rest
  | cons c cs ih =>
    rw [List.flatMap_cons, List.append_assoc]
    exact parseStringBody_escapeChar c _ cs rest ih

theorem renderString_append (s : String) (rest : List Char) :
    renderString s ++ rest = '"' :: (s.data.flatMap escapeChar ++ '"' :: rest) := by
  simp [renderString]


theorem digitChar_isDigit (k : Nat) (hk : k < 10) :
    (Nat.digitChar k).isDigit = true ∧ (Nat.digitChar k).toNat - 48 = k ∧
      (Nat.digitChar k = '0' → k = 0) ∧ Nat.digitChar k ≠ '-' := by
  interval_cases k <;> decide

theorem parseDigits_cons_digit (c : Char) (rest : List Char) (acc : Nat)
    (h : c.isDigit = true) :
    parseDigits (c :: rest) acc = parseDigits rest (acc * 10 + (c.toNat - 48)) := by
  simp [parseDigits, h]

theorem parseDigits_endsNumber (rest : List Char) (acc : Nat) (h : endsNumber rest = true) :
    parseDigits rest acc = (acc, rest) := by
  cases rest with
  | nil => rfl
  | cons c tl =>
    have hc : c.isDigit = false := by
      simp only [endsNumber, Bool.and_eq_true, Bool.not_eq_true'] at h
      exact h.1
    simp [parseDigits, hc]

theorem continuesNumber_endsNumber (rest : List Char) (h : endsNumber rest = true) :
    continuesNumber rest = false := by
  cases rest with
  | nil => rfl
  | cons c tl =>
    simp only [endsNumber, Bool.and_eq_true, Bool.not_eq_true'] at h
    simpa [continuesNumber] using h.2

theorem parseDigits_toDigitsCore (fuel : Nat) :
    ∀ (n : Nat) (ds tail : List Char), 0 < n → n < fuel →
      parseDigits (Nat.toDigitsCore 10 fuel n ds ++ tail) 0 = parseDigits (ds ++ tail) n := by
  induction fuel with
  | zero => intro n ds tail _ hf; omega
  | succ fuel ih =>
    intro n ds tail hn hf
    have hd := digitChar_isDigit (n % 10) (Nat.mod_lt _ (by decide))
    simp only [Nat.toDigitsCore]
    split_ifs with h0
    · rw [List.cons_append, parseDigits_cons_digit _ _ _ hd.1, hd.2.1]
      have : 0 * 10 + n % 10 = n := by omega
      rw [this]
    · rw [ih (n / 10) _ tail (Nat.pos_of_ne_zero h0) (by omega), List.cons_append,
        parseDigits_cons_digit _ _ _ hd.1, hd.2.1]
      have : n / 10 * 10 + n % 10 = n := by omega
      rw [this]

theorem toDigitsCore_head (fuel : Nat) :
    ∀ (n : Nat) (ds : List Char), 0 < n → n < fuel →
      ∃ c tl, Nat.toDigitsCore 10 fuel n ds = c :: tl ∧ c.isDigit = true ∧ c ≠ '0' ∧
        c ≠ '-' := by
  induction fuel with
  | zero => intro n ds _ hf; omega
  | succ fuel ih =>
    intro n ds hn hf
    have hd := digitChar_isDigit (n % 10) (Nat.mod_lt _ (by decide))
    simp only [Nat.toDigitsCore]
    split_ifs with h0
    · refine ⟨_, _, rfl, hd.1, ?_, hd.2.2.2⟩
      intro hz
      have := hd.2.2.1 hz
      omega
    · exact ih (n / 10) _ (Nat.pos_of_ne_zero h0) (by omega)

theorem parseNat_toDigits (n : Nat) (rest : List Char) (h : endsNumber rest = true) :
    parseNat (Nat.toDigits 10 n ++ rest) = some (n, rest) ∧
    ∃ c tl, Nat.toDigits 10 n = c :: tl ∧ c.isDigit = true ∧ c ≠ '-' := by
  rcases Nat.eq_zero_or_pos n with hz | hpos
  · subst hz
    refine ⟨?_, '0', [], rfl, by decide, by decide⟩
    show parseNat ('0' :: rest) = some (0, rest)
    cases rest with
    | nil => rfl
    | cons d tl =>
      have hc := continuesNumber_endsNumber _ h
      have hd : d.isDigit = false := by
        simp only [endsNumber, Bool.and_eq_true, Bool.not_eq_true'] at h
        exact h.1
      have h0 : ('0' : Char).isDigit = true := by decide
      simp [parseNat, h0, hd, hc]
  · obtain ⟨c, tl, hct, hdig, hne0, hneg⟩ := toDigitsCore_head (n + 1) n [] hpos (by omega)
    have hparse := parseDigits_toDigitsCore (n + 1) n [] rest hpos (by omega)
    have htd : Nat.toDigits 10 n = c :: tl := hct
    refine ⟨?_, c, tl, htd, hdig, hneg⟩
    have hparse2 : parseDigits (c :: (tl ++ rest)) 0 = (n, rest) := by
      have : Nat.toDigitsCore 10 (n + 1) n [] ++ rest = c :: (tl ++ rest) := by
        rw [hct]; rfl
      rw [this] at hparse
      rw [hparse, List.nil_append, parseDigits_endsNumber _ _ h]
    rw [htd, List.cons_append]
    simp only [parseNat, hdig, hne0, if_true, if_false, hparse2,
      continuesNumber_endsNumber _ h]
    simp

theorem parseInt_renderInt (n : Int) (rest : List Char) (h : endsNumber rest = true) :
    parseInt (renderInt n ++ rest) = some (n, rest) ∧
    ∃ c tl, renderInt n = c :: tl ∧ (c.isDigit = true ∨ c = '-') := by
  cases n with
  | ofNat m =>
    obtain ⟨hp, c, tl, hct, hdig, hneg⟩ := parseNat_toDigits m rest h
    refine ⟨?_, c, tl, hct, Or.inl hdig⟩
    show parseInt (Nat.toDigits 10 m ++ rest) = some (Int.ofNat m, rest)
    rw [hct, List.cons_append] at hp ⊢
    simp [parseInt, hneg, hp]
  | negSucc m =>
    obtain ⟨hp, _⟩ := parseNat_toDigits (m + 1) rest h
    refine ⟨?_, '-', _, rfl, Or.inr rfl⟩
    show parseInt ('-' :: (Nat.toDigits 10 (m + 1) ++ rest)) = some (Int.negSucc m, rest)
    simp only [parseInt, if_true, hp]
    rfl


theorem skipWhitespace_cons (c : Char) (rest : List Char) (h : isWhitespace c = false) :
    skipWhitespace (c :: rest) = c :: rest := by
  simp [skipWhitespace, h]

theorem isDigit_facts (c : Char) (h : c.isDigit = true ∨ c = '-') :
    isWhitespace c = false ∧ c ≠ 'n' ∧ c ≠ 't' ∧ c ≠ 'f' ∧ c ≠ '"' ∧ c ≠ '[' ∧ c ≠ '\x7b' ∧
      c ≠ ']' ∧ c ≠ '\x7d' ∧ c ≠ ',' := by
  rcases h with h | h
  · have h1 : 48 ≤ c.val ∧ c.val ≤ 57 := by
      simpa [Char.isDigit] using h
    have key : ∀ d : Char, ¬ (48 ≤ d.val ∧ d.val ≤ 57) → c ≠ d := by
      intro d hd e; subst e; exact hd h1
    refine ⟨?_, key _ (by decide), key _ (by decide), key _ (by decide), key _ (by decide),
      key _ (by decide), key _ (by decide), key _ (by decide), key _ (by decide),
      key _ (by decide)⟩
    have e1 := key ' ' (by decide)
    have e2 := key '\n' (by decide)
    have e3 := key '\r' (by decide)
    have e4 := key '\t' (by decide)
    simp [isWhitespace, e1, e2, e3, e4]
  · subst h; decide

/-- The first character of a written document: never white space, and never one of
the characters that close or separate. -/
theorem JSON.render_head (t : JSON) :
    ∃ c tl, t.render = c :: tl ∧ isWhitespace c = false ∧ c ≠ ']' ∧ c ≠ '\x7d' ∧ c ≠ ',' := by
  cases t with
  | null => exact ⟨'n', _, rfl, by decide, by decide, by decide, by decide⟩
  | bool b =>
    cases b
    · exact ⟨'f', _, rfl, by decide, by decide, by decide, by decide⟩
    · exact ⟨'t', _, rfl, by decide, by decide, by decide, by decide⟩
  | num n =>
    obtain ⟨_, c, tl, hct, hc⟩ := parseInt_renderInt n [] rfl
    have hf := isDigit_facts c hc
    exact ⟨c, tl, hct, hf.1, hf.2.2.2.2.2.2.2.1, hf.2.2.2.2.2.2.2.2.1, hf.2.2.2.2.2.2.2.2.2⟩
  | str s => exact ⟨'"', _, rfl, by decide, by decide, by decide, by decide⟩
  | arr items => exact ⟨'[', _, rfl, by decide, by decide, by decide, by decide⟩
  | obj fields => exact ⟨'\x7b', _, rfl, by decide, by decide, by decide, by decide⟩

theorem parseValue_null (fuel : Nat) (rest : List Char) :
    parseValue (fuel + 1) (JSON.null.render ++ rest) = some (JSON.null, rest) := by
  simp [parseValue, JSON.render, skipWhitespace, isWhitespace, expect]

theorem parseValue_bool (fuel : Nat) (b : Bool) (rest : List Char) :
    parseValue (fuel + 1) ((JSON.bool b).render ++ rest) = some (JSON.bool b, rest) := by
  cases b <;> simp [parseValue, JSON.render, skipWhitespace, isWhitespace, expect]

theorem parseValue_num (fuel : Nat) (n : Int) (rest : List Char)
    (h : endsNumber rest = true) :
    parseValue (fuel + 1) ((JSON.num n).render ++ rest) = some (JSON.num n, rest) := by
  obtain ⟨hp, c, tl, hct, hc⟩ := parseInt_renderInt n rest h
  have hf := isDigit_facts c hc
  simp only [JSON.render]
  rw [hct, List.cons_append] at hp ⊢
  simp [parseValue, skipWhitespace_cons _ _ hf.1, hf.2.1, hf.2.2.1, hf.2.2.2.1,
    hf.2.2.2.2.1, hf.2.2.2.2.2.1, hf.2.2.2.2.2.2.1, hp]

theorem parseValue_str (fuel : Nat) (s : String) (rest : List Char) :
    parseValue (fuel + 1) ((JSON.str s).render ++ rest) = some (JSON.str s, rest) := by
  simp only [JSON.render, renderString_append]
  simp [parseValue, skipWhitespace, isWhitespace, parseStringBody_flatMap]


theorem endsNumber_separator (c : Char) (rest : List Char)
    (h : c = ',' ∨ c = ']' ∨ c = '\x7d') : endsNumber (c :: rest) = true := by
  rcases h with h | h | h <;> subst h <;> rfl

theorem parseValue_arr_nil (fuel : Nat) (rest : List Char) :
    parseValue (fuel + 1) ((JSON.arr .nil).render ++ rest) = some (JSON.arr .nil, rest) := by
  simp [parseValue, JSON.render, JSONList.render, skipWhitespace, isWhitespace]

theorem parseValue_obj_nil (fuel : Nat) (rest : List Char) :
    parseValue (fuel + 1) ((JSON.obj .nil).render ++ rest) = some (JSON.obj .nil, rest) := by
  simp [parseValue, JSON.render, JSONFields.render, skipWhitespace, isWhitespace]

theorem parseValue_arr_of_elements (fuel : Nat) (text rest : List Char) (items : JSONList)
    (c : Char) (tl : List Char) (htext : text = c :: tl)
    (hws : isWhitespace c = false) (hc : c ≠ ']')
    (h : parseElements fuel text = some (items, rest)) :
    parseValue (fuel + 1) ('[' :: text) = some (JSON.arr items, rest) := by
  subst htext
  have h0 : skipWhitespace ('[' :: c :: tl) = '[' :: c :: tl :=
    skipWhitespace_cons _ _ (by decide)
  simp [parseValue, h0, skipWhitespace_cons _ _ hws, hc, h]

theorem parseValue_obj_of_members (fuel : Nat) (text rest : List Char) (fields : JSONFields)
    (c : Char) (tl : List Char) (htext : text = c :: tl)
    (hws : isWhitespace c = false) (hc : c ≠ '\x7d')
    (h : parseMembers fuel text = some (fields, rest)) :
    parseValue (fuel + 1) ('\x7b' :: text) = some (JSON.obj fields, rest) := by
  subst htext
  have h0 : skipWhitespace ('\x7b' :: c :: tl) = '\x7b' :: c :: tl :=
    skipWhitespace_cons _ _ (by decide)
  simp [parseValue, h0, skipWhitespace_cons _ _ hws, hc, h]

theorem parseElements_last (fuel : Nat) (text rest : List Char) (v : JSON)
    (h : parseValue fuel text = some (v, ']' :: rest)) :
    parseElements (fuel + 1) text = some (JSONList.cons v .nil, rest) := by
  simp [parseElements, h, skipWhitespace, isWhitespace]

theorem parseElements_more (fuel : Nat) (text mid rest : List Char) (v : JSON)
    (vs : JSONList) (h : parseValue fuel text = some (v, ',' :: mid))
    (h2 : parseElements fuel mid = some (vs, rest)) :
    parseElements (fuel + 1) text = some (JSONList.cons v vs, rest) := by
  simp [parseElements, h, h2, skipWhitespace, isWhitespace]

theorem parseMembers_last (fuel : Nat) (key : String) (text rest : List Char) (v : JSON)
    (h : parseValue fuel text = some (v, '\x7d' :: rest)) :
    parseMembers (fuel + 1) (renderString key ++ ':' :: text)
      = some (JSONFields.cons key v .nil, rest) := by
  rw [renderString_append]
  simp [parseMembers, h, skipWhitespace, isWhitespace, parseStringBody_flatMap]

theorem parseMembers_more (fuel : Nat) (key : String) (text mid rest : List Char) (v : JSON)
    (vs : JSONFields) (h : parseValue fuel text = some (v, ',' :: mid))
    (h2 : parseMembers fuel mid = some (vs, rest)) :
    parseMembers (fuel + 1) (renderString key ++ ':' :: text)
      = some (JSONFields.cons key v vs, rest) := by
  rw [renderString_append]
  simp [parseMembers, h, h2, skipWhitespace, isWhitespace, parseStringBody_flatMap]


theorem JSONList.render_elements_cons (h h2 : JSON) (t2 : JSONList) :
    (JSONList.cons h (.cons h2 t2)).render = h.render ++ ',' :: (JSONList.cons h2 t2).render := by
  simp [JSONList.render]

theorem JSONFields.render_members_cons (k k2 : String) (v v2 : JSON) (t2 : JSONFields) :
    (JSONFields.cons k v (.cons k2 v2 t2)).render
      = renderString k ++ ':' :: v.render ++ ',' :: (JSONFields.cons k2 v2 t2).render := by
  simp [JSONFields.render]

theorem JSONList.render_elements_head (h : JSON) (t : JSONList) (rest : List Char) :
    ∃ c tl, (JSONList.cons h t).render ++ rest = c :: tl ∧ isWhitespace c = false ∧
      c ≠ ']' := by
  obtain ⟨c, tl, hct, hws, hc, _, _⟩ := JSON.render_head h
  cases t with
  | nil => exact ⟨c, tl ++ rest, by simp [JSONList.render, hct], hws, hc⟩
  | cons h2 t2 =>
    exact ⟨c, tl ++ ',' :: (JSONList.cons h2 t2).render ++ rest,
      by rw [JSONList.render_elements_cons, hct]; simp, hws, hc⟩

theorem JSONFields.render_members_head (k : String) (v : JSON) (t : JSONFields)
    (rest : List Char) :
    ∃ tl, (JSONFields.cons k v t).render ++ rest = '"' :: tl := by
  cases t with
  | nil => exact ⟨_, by simp [JSONFields.render, renderString]; rfl⟩
  | cons k2 v2 t2 => exact ⟨_, by rw [JSONFields.render_members_cons]; simp [renderString]; rfl⟩

mutual
/-- Reading a written document gives the document back, with the text behind it. -/
theorem parseValue_render : ∀ (t : JSON) (fuel : Nat) (rest : List Char),
    t.size ≤ fuel → endsNumber rest = true →
    parseValue fuel (t.render ++ rest) = some (t, rest)
  | .null, fuel, rest, hf, _ => by
    obtain ⟨f, rfl⟩ : ∃ f, fuel = f + 1 := ⟨fuel - 1, by simp [JSON.size] at hf; omega⟩
    exact parseValue_null f rest
  | .bool b, fuel, rest, hf, _ => by
    obtain ⟨f, rfl⟩ : ∃ f, fuel = f + 1 := ⟨fuel - 1, by simp [JSON.size] at hf; omega⟩
    exact parseValue_bool f b rest
  | .num n, fuel, rest, hf, hr => by
    obtain ⟨f, rfl⟩ : ∃ f, fuel = f + 1 := ⟨fuel - 1, by simp [JSON.size] at hf; omega⟩
    exact parseValue_num f n rest hr
  | .str s, fuel, rest, hf, _ => by
    obtain ⟨f, rfl⟩ : ∃ f, fuel = f + 1 := ⟨fuel - 1, by simp [JSON.size] at hf; omega⟩
    exact parseValue_str f s rest
  | .arr .nil, fuel, rest, hf, _ => by
    obtain ⟨f, rfl⟩ : ∃ f, fuel = f + 1 := ⟨fuel - 1, by simp [JSON.size] at hf; omega⟩
    exact parseValue_arr_nil f rest
  | .arr (.cons h t), fuel, rest, hf, _ => by
    obtain ⟨f, rfl⟩ : ∃ f, fuel = f + 1 := ⟨fuel - 1, by simp [JSON.size] at hf; omega⟩
    have hsz : (JSONList.cons h t).size ≤ f := by simp [JSON.size] at hf; exact hf
    have hel := parseElements_render h t f rest hsz
    obtain ⟨c, tl, hct, hws, hc⟩ := JSONList.render_elements_head h t (']' :: rest)
    have := parseValue_arr_of_elements f _ rest _ c tl hct hws hc hel
    simpa [JSON.render] using this
  | .obj .nil, fuel, rest, hf, _ => by
    obtain ⟨f, rfl⟩ : ∃ f, fuel = f + 1 := ⟨fuel - 1, by simp [JSON.size] at hf; omega⟩
    exact parseValue_obj_nil f rest
  | .obj (.cons k v t), fuel, rest, hf, _ => by
    obtain ⟨f, rfl⟩ : ∃ f, fuel = f + 1 := ⟨fuel - 1, by simp [JSON.size] at hf; omega⟩
    have hsz : (JSONFields.cons k v t).size ≤ f := by simp [JSON.size] at hf; exact hf
    have hel := parseMembers_render k v t f rest hsz
    obtain ⟨tl, hct⟩ := JSONFields.render_members_head k v t ('\x7d' :: rest)
    have := parseValue_obj_of_members f _ rest _ '"' tl hct (by decide) (by decide) hel
    simpa [JSON.render] using this
termination_by t => 2 * sizeOf t
/-- Reading the written elements of a non-empty array gives them back. -/
theorem parseElements_render : ∀ (h : JSON) (t : JSONList) (fuel : Nat) (rest : List Char),
    (JSONList.cons h t).size ≤ fuel →
    parseElements fuel ((JSONList.cons h t).render ++ ']' :: rest)
      = some (JSONList.cons h t, rest)
  | h, .nil, fuel, rest, hf => by
    obtain ⟨f, rfl⟩ : ∃ f, fuel = f + 1 := ⟨fuel - 1, by simp [JSONList.size] at hf; omega⟩
    have hsz : h.size ≤ f := by simp [JSONList.size] at hf; omega
    have hv := parseValue_render h f (']' :: rest) hsz rfl
    have := parseElements_last f _ rest h hv
    simpa [JSONList.render] using this
  | h, .cons h2 t2, fuel, rest, hf => by
    obtain ⟨f, rfl⟩ : ∃ f, fuel = f + 1 := ⟨fuel - 1, by simp [JSONList.size] at hf; omega⟩
    have hsz : h.size ≤ f := by simp [JSONList.size] at hf; omega
    have hsz2 : (JSONList.cons h2 t2).size ≤ f := by simp [JSONList.size] at hf ⊢; omega
    have hv := parseValue_render h f
      (',' :: ((JSONList.cons h2 t2).render ++ ']' :: rest)) hsz rfl
    have hrest := parseElements_render h2 t2 f rest hsz2
    have := parseElements_more f _ _ rest h _ hv hrest
    rw [JSONList.render_elements_cons]
    simpa using this
termination_by h t => 2 * (sizeOf h + sizeOf t) + 1
/-- Reading the written members of a non-empty object gives them back. -/
theorem parseMembers_render : ∀ (k : String) (v : JSON) (t : JSONFields) (fuel : Nat)
    (rest : List Char), (JSONFields.cons k v t).size ≤ fuel →
    parseMembers fuel ((JSONFields.cons k v t).render ++ '\x7d' :: rest)
      = some (JSONFields.cons k v t, rest)
  | k, v, .nil, fuel, rest, hf => by
    obtain ⟨f, rfl⟩ : ∃ f, fuel = f + 1 := ⟨fuel - 1, by simp [JSONFields.size] at hf; omega⟩
    have hsz : v.size ≤ f := by simp [JSONFields.size] at hf; omega
    have hv := parseValue_render v f ('\x7d' :: rest) hsz rfl
    have := parseMembers_last f k _ rest v hv
    simpa [JSONFields.render] using this
  | k, v, .cons k2 v2 t2, fuel, rest, hf => by
    obtain ⟨f, rfl⟩ : ∃ f, fuel = f + 1 := ⟨fuel - 1, by simp [JSONFields.size] at hf; omega⟩
    have hsz : v.size ≤ f := by simp [JSONFields.size] at hf; omega
    have hsz2 : (JSONFields.cons k2 v2 t2).size ≤ f := by
      simp [JSONFields.size] at hf ⊢; omega
    have hv := parseValue_render v f
      (',' :: ((JSONFields.cons k2 v2 t2).render ++ '\x7d' :: rest)) hsz rfl
    have hrest := parseMembers_render k2 v2 t2 f rest hsz2
    have := parseMembers_more f k _ _ rest v _ hv hrest
    rw [JSONFields.render_members_cons]
    simpa using this
termination_by _ v t => 2 * (sizeOf v + sizeOf t) + 1
end

theorem renderString_length (s : String) : 2 ≤ (renderString s).length := by
  simp [renderString]

mutual
theorem JSON.size_le_length : ∀ t : JSON, t.size ≤ t.render.length
  | .null => by simp [JSON.size, JSON.render]
  | .bool true => by simp [JSON.size, JSON.render]
  | .bool false => by simp [JSON.size, JSON.render]
  | .num n => by
    obtain ⟨c, tl, h, _⟩ := JSON.render_head (.num n)
    rw [h]; simp [JSON.size]
  | .str s => by
    have := renderString_length s
    simp only [JSON.size, JSON.render]; omega
  | .arr items => by
    have := JSONList.elements_size_le_length items
    simp only [JSON.size, JSON.render, List.length_cons, List.length_append, List.length_nil]
    omega
  | .obj fields => by
    have := JSONFields.members_size_le_length fields
    simp only [JSON.size, JSON.render, List.length_cons, List.length_append, List.length_nil]
    omega
theorem JSONList.elements_size_le_length : ∀ ts : JSONList, ts.size ≤ ts.render.length + 1
  | .nil => by simp [JSONList.size]
  | .cons h .nil => by
    have := JSON.size_le_length h
    simp only [JSONList.size, JSONList.render]; omega
  | .cons h (.cons h2 t2) => by
    have := JSON.size_le_length h
    have := JSONList.elements_size_le_length (.cons h2 t2)
    rw [JSONList.render_elements_cons]
    simp only [JSONList.size, List.length_cons, List.length_append] at *
    omega
theorem JSONFields.members_size_le_length : ∀ fs : JSONFields, fs.size ≤ fs.render.length + 1
  | .nil => by simp [JSONFields.size]
  | .cons k v .nil => by
    have := JSON.size_le_length v
    simp only [JSONFields.size, JSONFields.render, List.length_cons, List.length_append]
    omega
  | .cons k v (.cons k2 v2 t2) => by
    have := JSON.size_le_length v
    have := JSONFields.members_size_le_length (.cons k2 v2 t2)
    rw [JSONFields.render_members_cons]
    simp only [JSONFields.size, List.length_cons, List.length_append] at *
    omega
end

/-- What `json.Marshal` writes for a document, `json.Unmarshal` reads as that document. -/
theorem JSON.parse_marshal (doc : JSON) : JSON.parse (JSON.marshal doc) = some doc := by
  have hsz : doc.size ≤ doc.render.length + 1 := by
    have := JSON.size_le_length doc; omega
  have h := parseValue_render doc (doc.render.length + 1) [] hsz rfl
  rw [List.append_nil] at h
  simp [JSON.parse, JSON.marshal, h, skipWhitespace]

/-! ### Credentials stay out of the marshalled cluster spec -/

theorem JSONFields.All.imp {P Q : String → JSON → Prop} (h : ∀ k v, P k v → Q k v) :
    ∀ fs : JSONFields, fs.All P → fs.All Q
  | .nil, _ => trivial
  | .cons k v rest, hp => ⟨h k v hp.1, JSONFields.All.imp h rest hp.2⟩

theorem JSONFields.All.and {P Q : String → JSON → Prop} :
    ∀ fs : JSONFields, fs.All P → fs.All Q → fs.All (fun k v => P k v ∧ Q k v)
  | .nil, _, _ => trivial
  | .cons _ _ rest, hp, hq => ⟨⟨hp.1, hq.1⟩, JSONFields.All.and rest hp.2 hq.2⟩

theorem JSONFields.all_erase (P : String → JSON → Prop) (key : String) :
    ∀ fs : JSONFields, fs.All P → (fs.erase key).All P
  | .nil, _ => trivial
  | .cons k v rest, hp => by
    unfold JSONFields.erase
    split
    · exact JSONFields.all_erase P key rest hp.2
    · exact ⟨hp.1, JSONFields.all_erase P key rest hp.2⟩

theorem JSONFields.all_ne_erase (key : String) :
    ∀ fs : JSONFields, (fs.erase key).All (fun k _ => k ≠ key)
  | .nil => trivial
  | .cons k v rest => by
    unfold JSONFields.erase
    split
    · exact JSONFields.all_ne_erase key rest
    · rename_i hne
      exact ⟨hne, JSONFields.all_ne_erase key rest⟩

/-- An object all of whose members can be set, whatever the struct holds, decodes. -/
theorem JSONFields.decodeInto_ok {α : Type} (setField : α → String → JSON → Except GoError α) :
    ∀ fs : JSONFields, fs.All (fun k v => ∀ x, ∃ y, setField x k v = .ok y) →
      ∀ x, ∃ z, fs.decodeInto setField x = .ok z
  | .nil, _, x => ⟨x, rfl⟩
  | .cons k v rest, hall, x => by
    obtain ⟨y, hy⟩ := hall.1 x
    obtain ⟨z, hz⟩ := JSONFields.decodeInto_ok setField rest hall.2 y
    exact ⟨z, by simp only [JSONFields.decodeInto, hy, hz]⟩

theorem decodeStructPtr_ok {α : Type} (field : String)
    (setField : α → String → JSON → Except GoError α) (zero : α)
    (encode : α → JSON)
    (h : ∀ a, ∃ fs, encode a = .obj fs ∧
      fs.All (fun k v => ∀ x, ∃ y, setField x k v = .ok y))
    (section_ : Option α) (current : Option α) :
    ∃ r, decodeStructPtr field setField zero (encodeSection encode section_) current = .ok r := by
  cases section_ with
  | none => exact ⟨none, rfl⟩
  | some a =>
    obtain ⟨fs, hfs, hall⟩ := h a
    obtain ⟨z, hz⟩ := JSONFields.decodeInto_ok setField fs hall (current.getD zero)
    exact ⟨some z, by simp only [encodeSection, hfs, decodeStructPtr, hz]⟩

theorem kubermaticv1.CloudSpec.publicJSON_decodes (c : kubermaticv1.CloudSpec) :
    ∃ fs, c.publicJSON = .obj fs ∧
      fs.All (fun k v => ∀ x, ∃ y, kubermaticv1.CloudSpec.setField x k v = .ok y) := by
  refine ⟨_, rfl, ?_⟩
  simp only [JSONFields.ofList, JSONFields.All, and_true]
  refine ⟨?_, ?_, ?_, ?_, ?_, ?_, ?_⟩
  · intro x
    simp [kubermaticv1.CloudSpec.setField, decodeString, Except.map]
  · intro x
    obtain ⟨r, hr⟩ := decodeStructPtr_ok "openstack" kubermaticv1.OpenstackCloudSpec.setField
      ⟨"", "", "", "", "", "", "", "", ""⟩ kubermaticv1.OpenstackCloudSpec.publicJSON
      (fun a => ⟨_, rfl, by
        simp [JSONFields.ofList, JSONFields.All, kubermaticv1.OpenstackCloudSpec.setField,
          decodeString, Except.map]⟩) c.Openstack x.Openstack
    simp [kubermaticv1.CloudSpec.setField, hr, Except.map]
  · intro x
    obtain ⟨r, hr⟩ := decodeStructPtr_ok "azure" kubermaticv1.AzureCloudSpec.setField
      ⟨"", "", "", "", "", "", "", "", "", ""⟩ kubermaticv1.AzureCloudSpec.publicJSON
      (fun a => ⟨_, rfl, by
        simp [JSONFields.ofList, JSONFields.All, kubermaticv1.AzureCloudSpec.setField,
          decodeString, Except.map]⟩) c.Azure x.Azure
    simp [kubermaticv1.CloudSpec.setField, hr, Except.map]
  · intro x
    obtain ⟨r, hr⟩ := decodeStructPtr_ok "hetzner" kubermaticv1.HetznerCloudSpec.setField
      ⟨""⟩ kubermaticv1.HetznerCloudSpec.publicJSON
      (fun a => ⟨_, rfl, by simp [JSONFields.All]⟩) c.Hetzner x.Hetzner
    simp [kubermaticv1.CloudSpec.setField, hr, Except.map]
  · intro x
    obtain ⟨r, hr⟩ := decodeStructPtr_ok "digitalocean"
      kubermaticv1.DigitaloceanCloudSpec.setField
      ⟨""⟩ kubermaticv1.DigitaloceanCloudSpec.publicJSON
      (fun a => ⟨_, rfl, by simp [JSONFields.All]⟩) c.Digitalocean x.Digitalocean
    simp [kubermaticv1.CloudSpec.setField, hr, Except.map]
  · intro x
    obtain ⟨r, hr⟩ := decodeStructPtr_ok "vsphere" kubermaticv1.VSphereCloudSpec.setField
      ⟨"", "", ⟨"", ""⟩, "", ""⟩ kubermaticv1.VSphereCloudSpec.publicJSON
      (fun a => ⟨_, rfl, by
        simp [JSONFields.ofList, JSONFields.All, kubermaticv1.VSphereCloudSpec.setField,
          decodeString, Except.map]⟩) c.VSphere x.VSphere
    simp [kubermaticv1.CloudSpec.setField, hr, Except.map]
  · intro x
    obtain ⟨r, hr⟩ := decodeStructPtr_ok "aws" kubermaticv1.AWSCloudSpec.setField
      ⟨"", "", "", "", "", ""⟩ kubermaticv1.AWSCloudSpec.publicJSON
      (fun a => ⟨_, rfl, by
        simp [JSONFields.ofList, JSONFields.All, kubermaticv1.AWSCloudSpec.setField,
          decodeString, Except.map]⟩) c.AWS x.AWS
    simp [kubermaticv1.CloudSpec.setField, hr, Except.map]

theorem encodeClusterNetwork_decodes
    (network current : Option (kubermaticv1.ClusterNetworkingConfig JSON)) :
    ∃ r, decodeStructPtr "clusterNetwork" kubermaticv1.ClusterNetworkingConfig.setField
      ⟨none, "", .obj .nil⟩ (encodeClusterNetwork network) current = .ok r := by
  cases network with
  | none => exact ⟨none, rfl⟩
  | some n =>
    have hrest : ((n.Rest.members.erase "konnectivityEnabled").erase "proxyMode").All
        (fun k v => ∀ x, ∃ y, kubermaticv1.ClusterNetworkingConfig.setField x k v = .ok y) := by
      have h1 := JSONFields.all_erase _ "proxyMode" _
        (JSONFields.all_ne_erase "konnectivityEnabled" n.Rest.members)
      have h2 := JSONFields.all_ne_erase "proxyMode"
        (n.Rest.members.erase "konnectivityEnabled")
      have hboth := JSONFields.All.and _ h1 h2
      refine JSONFields.All.imp ?_ _ hboth
      intro k v hk x
      simp only [kubermaticv1.ClusterNetworkingConfig.setField, if_neg hk.1, if_neg hk.2]
      exact ⟨_, rfl⟩
    have hall : (JSONFields.cons "konnectivityEnabled" (encodeBoolPtr n.KonnectivityEnabled)
        (.cons "proxyMode" (.str n.ProxyMode)
          ((n.Rest.members.erase "konnectivityEnabled").erase "proxyMode"))).All
        (fun k v => ∀ x, ∃ y, kubermaticv1.ClusterNetworkingConfig.setField x k v = .ok y) := by
      refine ⟨?_, ?_, hrest⟩
      · intro x
        cases h : n.KonnectivityEnabled <;>
          simp [kubermaticv1.ClusterNetworkingConfig.setField, encodeBoolPtr, decodeBoolPtr,
            Except.map]
      · intro x
        simp [kubermaticv1.ClusterNetworkingConfig.setField, decodeString, Except.map]
    obtain ⟨z, hz⟩ := JSONFields.decodeInto_ok _ _ hall (current.getD ⟨none, "", .obj .nil⟩)
    exact ⟨some z, by simp only [encodeClusterNetwork, decodeStructPtr, hz]⟩

/-- The public cloud spec does not depend on the credentials. -/
theorem kubermaticv1.CloudSpec.publicJSON_withoutCredentials (c : kubermaticv1.CloudSpec) :
    c.withoutCredentials.publicJSON = c.publicJSON := by
  obtain ⟨dc, openstack, azure, hetzner, digitalocean, vsphere, aws⟩ := c
  cases openstack <;> cases azure <;> cases hetzner <;> cases digitalocean <;>
    cases vsphere <;> cases aws <;> rfl

theorem apiv1.ClusterSpec.publicMembers_withoutCredentials
    (cs : apiv1.ClusterSpec kubermaticv1.CloudSpec JSON) :
    cs.withoutCredentials.publicMembers = cs.publicMembers := by
  simp only [apiv1.ClusterSpec.publicMembers, apiv1.ClusterSpec.withoutCredentials,
    kubermaticv1.CloudSpec.publicJSON_withoutCredentials]

/-- The members `MarshalJSON` writes can all be set, whatever the struct holds. -/
theorem apiv1.ClusterSpec.publicMembers_decode
    (cs : apiv1.ClusterSpec kubermaticv1.CloudSpec JSON) :
    cs.publicMembers.All (fun k v => ∀ x, ∃ y, apiv1.ClusterSpec.setField x k v = .ok y) := by
  simp only [apiv1.ClusterSpec.publicMembers, JSONFields.ofList, JSONFields.All, and_true]
  refine ⟨?_, ?_, ?_, ?_, ?_, ?_, ?_, ?_, ?_, ?_, ?_, ?_, ?_, ?_, ?_, ?_, ?_, ?_, ?_, ?_, ?_,
    ?_, ?_, ?_, ?_, ?_⟩
  case refine_1 =>
    intro x
    obtain ⟨fs, hfs, hall⟩ := kubermaticv1.CloudSpec.publicJSON_decodes cs.Cloud
    obtain ⟨z, hz⟩ := JSONFields.decodeInto_ok _ fs hall x.Cloud
    simp [apiv1.ClusterSpec.setField, hfs, hz, Except.map]
  case refine_10 =>
    intro x
    cases h : cs.EnableUserSSHKeyAgent <;>
      simp [apiv1.ClusterSpec.setField, encodeBoolPtr, decodeBoolPtr, Except.map]
  case refine_21 =>
    intro x
    obtain ⟨r, hr⟩ := encodeClusterNetwork_decodes cs.ClusterNetwork x.ClusterNetwork
    simp [apiv1.ClusterSpec.setField, hr, Except.map]
  all_goals
    intro x
    simp [apiv1.ClusterSpec.setField, decodeBool, decodeString, Except.map]

/-- What `MarshalJSON` writes for a cluster spec, `json.Unmarshal` decodes into a
cluster spec without error. -/
theorem apiv1.ClusterSpec.Unmarshal_marshal
    (cs : apiv1.ClusterSpec kubermaticv1.CloudSpec JSON) :
    ∃ decoded, apiv1.ClusterSpec.Unmarshal (JSON.marshal (.obj cs.publicMembers))
      = .ok decoded := by
  obtain ⟨z, hz⟩ := JSONFields.decodeInto_ok _ _ (apiv1.ClusterSpec.publicMembers_decode cs)
    apiv1.ClusterSpec.zero
  exact ⟨z, by simp only [apiv1.ClusterSpec.Unmarshal, JSON.parse_marshal, hz]⟩

set_option maxRecDepth 100000 in
/-- C7 (as stated, refuted): the Hetzner cluster spec of the marshalling test with the
token set to the one-character value `\x7b`, which occurs in no other field (blanking the
credentials gives the spec with the empty token), is marshalled to a text that contains
that value: every marshalled object starts with it. -/
theorem c7_output_contains_credential_value_counterexample :
    (sampleHetznerSpec "\x7b").withoutCredentials = sampleHetznerSpec "" ∧
    ∃ out, (sampleHetznerSpec "\x7b").MarshalJSON = .ok out ∧
      stringsContains out "\x7b" = true :=
  ⟨rfl, _, rfl, by decide⟩

/-- C7 (amended): for every cluster spec, whatever provider credentials its cloud spec
carries, `MarshalJSON` succeeds and its output is the output for the same spec with the
credentials blanked: two specs that differ only in credential values are marshalled to
the same bytes, so a value occurs in the output only if it occurs in the output for
blank credentials; and the output unmarshals back into a cluster spec without error. -/
theorem c7_marshal_leaves_out_credentials
    (cs : apiv1.ClusterSpec kubermaticv1.CloudSpec JSON) :
    ∃ out, cs.MarshalJSON = .ok out ∧
      cs.withoutCredentials.MarshalJSON = .ok out ∧
      (∀ cs2 : apiv1.ClusterSpec kubermaticv1.CloudSpec JSON,
        cs2.withoutCredentials = cs.withoutCredentials → cs2.MarshalJSON = .ok out) ∧
      (∀ v blank, cs.withoutCredentials.MarshalJSON = .ok blank →
        stringsContains blank v = false → stringsContains out v = false) ∧
      ∃ decoded, apiv1.ClusterSpec.Unmarshal out = .ok decoded := by
  have hblank : cs.withoutCredentials.MarshalJSON = cs.MarshalJSON := by
    simp only [apiv1.ClusterSpec.MarshalJSON,
      apiv1.ClusterSpec.publicMembers_withoutCredentials]
  refine ⟨JSON.marshal (.obj cs.publicMembers), rfl, hblank, ?_, ?_,
    apiv1.ClusterSpec.Unmarshal_marshal cs⟩
  · intro cs2 h2
    have e2 : cs2.MarshalJSON = cs2.withoutCredentials.MarshalJSON := by
      simp only [apiv1.ClusterSpec.MarshalJSON,
        apiv1.ClusterSpec.publicMembers_withoutCredentials]
    rw [e2, h2, hblank]; rfl
  · intro v blank hb hv
    rw [hblank] at hb
    cases hb
    exact hv

set_option maxRecDepth 1000000 in
/-- Case 3 of `TestNewClusterSpec_MarshalJSON`, evaluated on the model: the token does
not occur in the marshalled Hetzner cluster spec, and the text unmarshals. -/
theorem ClusterSpec_MarshalJSON_test_case_hetzner :
    ∃ out, (sampleHetznerSpec "_______VALUE_TO_BE_FILTERED_______").MarshalJSON = .ok out ∧
      stringsContains out "_______VALUE_TO_BE_FILTERED_______" = false ∧
      (apiv1.ClusterSpec.Unmarshal out).toOption.isSome = true :=
  ⟨_, rfl, by decide, by decide⟩

/-! ### Two-variant helpers -/

/-- C11: each of the two-variant helpers `updateCluster`, `createNewCluster`,
`getSSHKey`, `getAddon`, `listAddons`, `createAddon`, `updateAddon` and `deleteAddon`
dispatches on the admin flag of the unscoped identity: for an admin the result is
exactly that of the privileged (unsecured) provider call, and neither the
project-scoped identity lookup nor the regular provider is called; for another caller
the result is exactly that of the regular provider called with the identity resolved
for the project scope, and the privileged provider is not called; when the unscoped
identity lookup fails an error is returned and no provider is called; and for a caller
who is no admin and whose project-scoped identity lookup fails an error is returned and
no provider, privileged or regular, is called.  The calls of each case are listed in
full. -/
theorem c11_two_variant_helpers_dispatch {C V K A R : Type} (cp : ClusterProviders C V K)
    (ap : AddonProviders C V A R) (project : kubermaticv1.Project)
    (cluster : kubermaticv1.Cluster C V) (projectID keyName addonID name : String)
    (addon : A) (rawVars : R) (labels : GoMap String) :
    DispatchesOnAdmin cp.userInfoGetter project.Name
      (fun _ => cp.UpdateUnsecured project cluster)
      (fun userInfo => cp.Update project userInfo cluster)
      (.privileged "ClusterProvider.UpdateUnsecured") (.regular "ClusterProvider.Update")
      (updateCluster cp project cluster) ∧
    DispatchesOnAdmin cp.userInfoGetter project.Name
      (fun adminUserInfo => cp.NewUnsecured project cluster adminUserInfo.Email)
      (fun userInfo => cp.New project userInfo cluster)
      (.privileged "ClusterProvider.NewUnsecured") (.regular "ClusterProvider.New")
      (createNewCluster cp project cluster) ∧
    DispatchesOnAdmin cp.userInfoGetter projectID
      (fun _ => cp.SSHKeyGetUnsecured keyName)
      (fun userInfo => cp.SSHKeyGet userInfo keyName)
      (.privileged "SSHKeyProvider.GetUnsecured") (.regular "SSHKeyProvider.Get")
      (getSSHKey cp projectID keyName) ∧
    DispatchesOnAdmin ap.userInfoGetter projectID
      (fun _ => ap.GetUnsecured cluster addonID)
      (fun userInfo => ap.Get userInfo cluster addonID)
      (.privileged "AddonProvider.GetUnsecured") (.regular "AddonProvider.Get")
      (getAddon ap cluster projectID addonID) ∧
    DispatchesOnAdmin ap.userInfoGetter projectID
      (fun _ => ap.ListUnsecured cluster)
      (fun userInfo => ap.List userInfo cluster)
      (.privileged "AddonProvider.ListUnsecured") (.regular "AddonProvider.List")
      (listAddons ap cluster projectID) ∧
    DispatchesOnAdmin ap.userInfoGetter projectID
      (fun _ => ap.NewUnsecured cluster name rawVars labels)
      (fun userInfo => ap.New userInfo cluster name rawVars labels)
      (.privileged "AddonProvider.NewUnsecured") (.regular "AddonProvider.New")
      (createAddon ap cluster rawVars labels projectID name) ∧
    DispatchesOnAdmin ap.userInfoGetter projectID
      (fun _ => ap.UpdateUnsecured cluster addon)
      (fun userInfo => ap.Update userInfo cluster addon)
      (.privileged "AddonProvider.UpdateUnsecured") (.regular "AddonProvider.Update")
      (updateAddon ap cluster addon projectID) ∧
    DispatchesOnAdmin ap.userInfoGetter projectID
      (fun _ => ap.DeleteUnsecured cluster addonID)
      (fun userInfo => ap.Delete userInfo cluster addonID)
      (.privileged "AddonProvider.DeleteUnsecured") (.regular "AddonProvider.Delete")
      (deleteAddon ap cluster projectID addonID) := by
  refine ⟨?_, ?_, ?_, ?_, ?_, ?_, ?_, ?_⟩
  · refine ⟨?_, ?_, ?_, ?_⟩
    · intro a ha hadm; simp [updateCluster, ha, hadm]
    · intro a u ha hadm hu; simp [updateCluster, ha, hadm, hu]
    · intro e he; simp [updateCluster, he]
    · intro a e ha hadm hu; simp [updateCluster, ha, hadm, hu]
  · refine ⟨?_, ?_, ?_, ?_⟩
    · intro a ha hadm; simp [createNewCluster, ha, hadm]
    · intro a u ha hadm hu; simp [createNewCluster, ha, hadm, hu]
    · intro e he; simp [createNewCluster, he]
    · intro a e ha hadm hu; simp [createNewCluster, ha, hadm, hu]
  · refine ⟨?_, ?_, ?_, ?_⟩
    · intro a ha hadm; simp [getSSHKey, ha, hadm]
    · intro a u ha hadm hu; simp [getSSHKey, ha, hadm, hu]
    · intro e he; simp [getSSHKey, he]
    · intro a e ha hadm hu; simp [getSSHKey, ha, hadm, hu]
  · refine ⟨?_, ?_, ?_, ?_⟩
    · intro a ha hadm; simp [getAddon, ha, hadm]
    · intro a u ha hadm hu; simp [getAddon, ha, hadm, hu]
    · intro e he; simp [getAddon, he]
    · intro a e ha hadm hu; simp [getAddon, ha, hadm, hu]
  · refine ⟨?_, ?_, ?_, ?_⟩
    · intro a ha hadm; simp [listAddons, ha, hadm]
    · intro a u ha hadm hu; simp [listAddons, ha, hadm, hu]
    · intro e he; simp [listAddons, he]
    · intro a e ha hadm hu; simp [listAddons, ha, hadm, hu]
  · refine ⟨?_, ?_, ?_, ?_⟩
    · intro a ha hadm; simp [createAddon, ha, hadm]
    · intro a u ha hadm hu; simp [createAddon, ha, hadm, hu]
    · intro e he; simp [createAddon, he]
    · intro a e ha hadm hu; simp [createAddon, ha, hadm, hu]
  · refine ⟨?_, ?_, ?_, ?_⟩
    · intro a ha hadm; simp [updateAddon, ha, hadm]
    · intro a u ha hadm hu; simp [updateAddon, ha, hadm, hu]
    · intro e he; simp [updateAddon, he]
    · intro a e ha hadm hu; simp [updateAddon, ha, hadm, hu]
  · refine ⟨?_, ?_, ?_, ?_⟩
    · intro a ha hadm; simp [deleteAddon, ha, hadm]
    · intro a u ha hadm hu; simp [deleteAddon, ha, hadm, hu]
    · intro e he; simp [deleteAddon, he]
    · intro a e ha hadm hu; simp [deleteAddon, ha, hadm, hu]

/-! ### Listing the clusters of a project -/

/-- The first loop of `GetClusters` appends the conversions of the clusters whose
datacenter is found when every failing lookup fails with a `*utilerrors.HTTPError` of
status 403. -/
theorem GetClusters.convertLoop_passes {V D I X L M : Type} (env : ClusterListing V D I X L M)
    (ext : Collaborators kubermaticv1.CloudSpec V D I) (adminUserInfo : UserInfo)
    (incompatibilities : List I) (clusters : List (kubermaticv1.Cluster kubermaticv1.CloudSpec V))
    (apiClusters : List (apiv1.Cluster kubermaticv1.CloudSpec V))
    (h : ∀ c ∈ clusters, GetClusters.lookupPasses env adminUserInfo c) :
    GetClusters.convertLoop env ext adminUserInfo incompatibilities clusters apiClusters =
      .ok (apiClusters ++
        clusters.filterMap (GetClusters.converted env ext adminUserInfo incompatibilities)) := by
  induction clusters generalizing apiClusters with
  | nil => simp [GetClusters.convertLoop]
  | cons c rest ih =>
    have hrest : ∀ c ∈ rest, GetClusters.lookupPasses env adminUserInfo c :=
      fun c hc => h c (List.mem_cons_of_mem _ hc)
    have hc := h c (List.mem_cons_self _ _)
    rw [GetClusters.convertLoop]
    cases hdc : env.DatacenterFromSeedMap adminUserInfo c.Spec.Cloud.DatacenterName with
    | error err =>
      have h403 := hc err hdc
      simp only [h403, beq_self_eq_true, if_true]
      rw [ih _ hrest]
      simp [List.filterMap_cons, GetClusters.converted, hdc]
    | ok dc =>
      simp only []
      rw [ih _ hrest]
      simp [List.filterMap_cons, GetClusters.converted, hdc]

/-- The first loop of `GetClusters` stops at the first datacenter lookup that fails with
anything but a `*utilerrors.HTTPError` of status 403. -/
theorem GetClusters.convertLoop_aborts {V D I X L M : Type} (env : ClusterListing V D I X L M)
    (ext : Collaborators kubermaticv1.CloudSpec V D I) (adminUserInfo : UserInfo)
    (incompatibilities : List I)
    (before after : List (kubermaticv1.Cluster kubermaticv1.CloudSpec V))
    (failing : kubermaticv1.Cluster kubermaticv1.CloudSpec V) (err : GoError)
    (apiClusters : List (apiv1.Cluster kubermaticv1.CloudSpec V))
    (h : ∀ c ∈ before, GetClusters.lookupPasses env adminUserInfo c)
    (herr : env.DatacenterFromSeedMap adminUserInfo failing.Spec.Cloud.DatacenterName
      = .error err)
    (hstatus : asHTTPErrorStatus err ≠ some StatusForbidden) :
    GetClusters.convertLoop env ext adminUserInfo incompatibilities
      (before ++ failing :: after) apiClusters = .error (env.KubernetesErrorToHTTPError err) := by
  induction before generalizing apiClusters with
  | nil =>
    rw [List.nil_append, GetClusters.convertLoop]
    simp [herr, hstatus]
  | cons c rest ih =>
    have hrest : ∀ c ∈ rest, GetClusters.lookupPasses env adminUserInfo c :=
      fun c hc => h c (List.mem_cons_of_mem _ hc)
    have hc := h c (List.mem_cons_self _ _)
    rw [List.cons_append, GetClusters.convertLoop]
    cases hdc : env.DatacenterFromSeedMap adminUserInfo c.Spec.Cloud.DatacenterName with
    | error e =>
      have h403 := hc e hdc
      simp only [h403, beq_self_eq_true, if_true]
      exact ih _ hrest
    | ok dc =>
      simp only []
      exact ih _ hrest

/-- When the project, the unscoped identity, the cluster listing and the configuration
are obtained, `GetClusters` without machine-deployment counts behaves as follows.  If
every datacenter lookup that fails does so with an error that the check for a
`*utilerrors.HTTPError` of status 403 matches, the call succeeds with, in listing order,
the external conversions (`ConvertInternalClusterToExternal` with label filtering) of
exactly the listed clusters whose datacenter lookup succeeds, the others being omitted.
If some lookup fails with an error that the check does not match, the first such lookup
aborts the call with that error, as passed through `KubernetesErrorToHTTPError`. -/
theorem GetClusters_omits_matched_forbidden {V D I X L M : Type}
    (env : ClusterListing V D I X L M) (ext : Collaborators kubermaticv1.CloudSpec V D I)
    (projectID : String) (project : kubermaticv1.Project) (adminUserInfo : UserInfo)
    (clusters : List (kubermaticv1.Cluster kubermaticv1.CloudSpec V)) (config : X)
    (hproject : GetProject env projectID none = .ok project)
    (huser : env.userInfoGetter "" = .ok adminUserInfo)
    (hlist : env.List project = .ok clusters)
    (hconfig : env.configGetter = .ok config) :
    ((∀ c ∈ clusters, GetClusters.lookupPasses env adminUserInfo c) →
      GetClusters env ext projectID false =
        some (.ok (clusters.filterMap
          (GetClusters.converted env ext adminUserInfo (env.GetIncompatibilities config))))) ∧
    (∀ before failing after err, clusters = before ++ failing :: after →
      (∀ c ∈ before, GetClusters.lookupPasses env adminUserInfo c) →
      env.DatacenterFromSeedMap adminUserInfo failing.Spec.Cloud.DatacenterName = .error err →
      asHTTPErrorStatus err ≠ some StatusForbidden →
      GetClusters env ext projectID false =
        some (.error (env.KubernetesErrorToHTTPError err))) := by
  constructor
  · intro h
    simp only [GetClusters, hproject, huser, hlist, hconfig]
    rw [GetClusters.convertLoop_passes env ext adminUserInfo _ clusters [] h]
    simp
  · intro before failing after err hsplit h herr hstatus
    simp only [GetClusters, hproject, huser, hlist, hconfig]
    rw [hsplit, GetClusters.convertLoop_aborts env ext adminUserInfo _ before after failing err
      [] h herr hstatus]

/-- A listing in which the datacenter of the middle cluster is refused with a
`*utilerrors.HTTPError` of status 403: the other two clusters are returned in listing
order; and a listing whose second datacenter lookup fails with status 500 is aborted with
that error. -/
theorem GetClusters_omits_matched_forbidden_sample :
    (GetClusters
        (sampleListing [sampleClusterIn "a" "dc-1", sampleClusterIn "b" "restricted",
          sampleClusterIn "c" "dc-2"] 0)
        sampleCloudCollaborators "p" false).map (fun r => r.map (fun l => l.map (fun c => c.ID)))
      = some (.ok ["a", "c"]) ∧
    GetClusters
        (sampleListing [sampleClusterIn "a" "dc-1", sampleClusterIn "b" "broken",
          sampleClusterIn "c" "dc-2"] 0)
        sampleCloudCollaborators "p" false
      = some (.error (.HTTPError 500 "seed unavailable")) := by
  have h := GetClusters_omits_matched_forbidden
    (sampleListing [sampleClusterIn "a" "dc-1", sampleClusterIn "b" "restricted",
      sampleClusterIn "c" "dc-2"] 0)
    sampleCloudCollaborators "p" { Name := "p" } sampleAdmin
    [sampleClusterIn "a" "dc-1", sampleClusterIn "b" "restricted", sampleClusterIn "c" "dc-2"]
    () rfl rfl rfl rfl
  have h2 := GetClusters_omits_matched_forbidden
    (sampleListing [sampleClusterIn "a" "dc-1", sampleClusterIn "b" "broken",
      sampleClusterIn "c" "dc-2"] 0)
    sampleCloudCollaborators "p" { Name := "p" } sampleAdmin
    [sampleClusterIn "a" "dc-1", sampleClusterIn "b" "broken", sampleClusterIn "c" "dc-2"]
    () rfl rfl rfl rfl
  refine ⟨?_, ?_⟩
  · rw [h.1 (by
      intro c hc err
      simp only [List.mem_cons, List.mem_singleton, List.not_mem_nil, or_false] at hc
      rcases hc with rfl | rfl | rfl <;> simp [sampleListing, sampleClusterIn]
      intro h
      subst h
      rfl)]
    rfl
  · exact h2.2 [sampleClusterIn "a" "dc-1"] (sampleClusterIn "b" "broken")
      [sampleClusterIn "c" "dc-2"] (.HTTPError 500 "seed unavailable") rfl
      (by
        intro c hc err
        simp only [List.mem_singleton] at hc
        subst hc
        simp [sampleListing, sampleClusterIn])
      rfl (by decide)

/-- C12: `GetClusters` without machine-deployment counts for the listing of the clusters
`a`, `b` and `c`, where the datacenter lookup of `b` fails with the error
`utilerrors.New(http.StatusForbidden, "forbidden")`.  This error is an HTTP error of
status 403, as the check of `WriteHTTPError` for the struct type finds, but the check of
`GetClusters`, whose target is a `*utilerrors.HTTPError`, does not match it: the whole
call is aborted with this 403 error instead of returning `a` and `c`.  The cluster is
omitted only when the lookup fails with a pointer `*utilerrors.HTTPError` of status
403. -/
theorem c12_forbidden_error_of_utilerrors_new_aborts :
    WriteHTTPError.asHTTPError (utilerrorsNew StatusForbidden "forbidden") = some 403 ∧
    asHTTPErrorStatus (utilerrorsNew StatusForbidden "forbidden") = none ∧
    GetClusters
        (sampleListing [sampleClusterIn "a" "dc-1", sampleClusterIn "b" "refused",
          sampleClusterIn "c" "dc-2"] 0)
        sampleCloudCollaborators "p" false
      = some (.error (utilerrorsNew StatusForbidden "forbidden")) ∧
    (GetClusters
        (sampleListing [sampleClusterIn "a" "dc-1", sampleClusterIn "b" "restricted",
          sampleClusterIn "c" "dc-2"] 0)
        sampleCloudCollaborators "p" false).map (fun r => r.map (fun l => l.map (fun c => c.ID)))
      = some (.ok ["a", "c"]) := by
  refine ⟨?_, ?_, ?_, ?_⟩ <;> rfl

/-- The goroutines of `GetClusters` leave the length of `apiClusters` as it is. -/
theorem GetClusters.countLoop_length {V D I X L M : Type} (env : ClusterListing V D I X L M)
    (projectID : String) (clusters : List (kubermaticv1.Cluster kubermaticv1.CloudSpec V))
    (pos : Nat) (apiClusters out : List (apiv1.Cluster kubermaticv1.CloudSpec V))
    (listErrs outErrs : List (Option GoError))
    (h : GetClusters.countLoop env projectID clusters pos apiClusters listErrs
      = some (out, outErrs)) :
    out.length = apiClusters.length := by
  induction clusters generalizing pos apiClusters listErrs with
  | nil =>
    simp only [GetClusters.countLoop, Option.some.injEq, Prod.mk.injEq] at h
    rw [h.1]
  | cons cl rest ih =>
    rw [GetClusters.countLoop] at h
    cases hmd : listClusterMachineDeployments env cl projectID with
    | error er =>
      simp only [hmd] at h
      exact ih _ _ _ h
    | ok machineDeployment =>
      simp only [hmd] at h
      by_cases hpos : pos < apiClusters.length
      · simp only [hpos, dite_true] at h
        rw [ih _ _ _ h, List.length_set]
      · simp [hpos] at h

/-- An error recorded in `listErrs` stays recorded while the goroutines of `GetClusters`
run. -/
theorem GetClusters.countLoop_keeps_error {V D I X L M : Type}
    (env : ClusterListing V D I X L M) (projectID : String)
    (clusters : List (kubermaticv1.Cluster kubermaticv1.CloudSpec V))
    (pos : Nat) (apiClusters out : List (apiv1.Cluster kubermaticv1.CloudSpec V))
    (listErrs outErrs : List (Option GoError))
    (herr : ∃ x ∈ listErrs, x.isSome = true)
    (h : GetClusters.countLoop env projectID clusters pos apiClusters listErrs
      = some (out, outErrs)) :
    ∃ x ∈ outErrs, x.isSome = true := by
  induction clusters generalizing pos apiClusters listErrs with
  | nil =>
    simp only [GetClusters.countLoop, Option.some.injEq, Prod.mk.injEq] at h
    rw [← h.2]
    exact herr
  | cons cl rest ih =>
    rw [GetClusters.countLoop] at h
    cases hmd : listClusterMachineDeployments env cl projectID with
    | error er =>
      simp only [hmd] at h
      refine ih _ _ _ ?_ h
      obtain ⟨x, hx, hsome⟩ := herr
      obtain ⟨i, hi, rfl⟩ := List.getElem_of_mem hx
      by_cases hip : pos = i
      · refine ⟨some er, ?_, rfl⟩
        rw [List.mem_iff_getElem]
        exact ⟨i, by rw [List.length_set]; exact hi, by simp [hip]⟩
      · refine ⟨listErrs[i], ?_, hsome⟩
        rw [List.mem_iff_getElem]
        exact ⟨i, by rw [List.length_set]; exact hi, by simp [List.getElem_set, hip]⟩
    | ok machineDeployment =>
      simp only [hmd] at h
      by_cases hpos : pos < apiClusters.length
      · simp only [hpos, dite_true] at h
        exact ih _ _ _ herr h
      · simp [hpos] at h

/-- When `apiClusters` is shorter than `clusters.Items`, the goroutines of `GetClusters`
either index it out of range or record an error. -/
theorem GetClusters.countLoop_short {V D I X L M : Type}
    (env : ClusterListing V D I X L M) (projectID : String)
    (clusters : List (kubermaticv1.Cluster kubermaticv1.CloudSpec V))
    (pos : Nat) (apiClusters out : List (apiv1.Cluster kubermaticv1.CloudSpec V))
    (listErrs outErrs : List (Option GoError))
    (hshort : apiClusters.length < pos + clusters.length)
    (hpos : pos ≤ apiClusters.length)
    (herrs : pos + clusters.length ≤ listErrs.length)
    (h : GetClusters.countLoop env projectID clusters pos apiClusters listErrs
      = some (out, outErrs)) :
    ∃ x ∈ outErrs, x.isSome = true := by
  induction clusters generalizing pos apiClusters listErrs with
  | nil => simp at hshort; omega
  | cons cl rest ih =>
    rw [GetClusters.countLoop] at h
    simp only [List.length_cons] at hshort herrs
    cases hmd : listClusterMachineDeployments env cl projectID with
    | error er =>
      simp only [hmd] at h
      refine GetClusters.countLoop_keeps_error env projectID rest _ _ _ _ _ ?_ h
      refine ⟨some er, ?_, rfl⟩
      rw [List.mem_iff_getElem]
      exact ⟨pos, by rw [List.length_set]; omega, by simp⟩
    | ok machineDeployment =>
      simp only [hmd] at h
      by_cases hlt : pos < apiClusters.length
      · simp only [hlt, dite_true] at h
        refine ih _ _ _ ?_ ?_ ?_ h
        · rw [List.length_set]; omega
        · rw [List.length_set]; omega
        · omega
      · simp [hlt] at h

/-- A list from which `filterMap` drops an element gets shorter. -/
theorem length_filterMap_lt_of_dropped {α β : Type} (f : α → Option β) (l : List α)
    (h : ∃ a ∈ l, f a = none) : (l.filterMap f).length < l.length := by
  induction l with
  | nil => simp at h
  | cons a rest ih =>
    obtain ⟨b, hb, hnone⟩ := h
    rw [List.mem_cons] at hb
    have hle := List.length_filterMap_le f rest
    cases hfa : f a with
    | none => simp only [List.filterMap_cons, hfa, List.length_cons]; omega
    | some y =>
      rcases hb with rfl | hb
      · rw [hfa] at hnone; cases hnone
      · have := ih ⟨b, hb, hnone⟩
        simp only [List.filterMap_cons, hfa, List.length_cons]; omega

/-- With machine-deployment counts requested, `GetClusters` never succeeds for a listing
from which a cluster is omitted because its datacenter lookup fails with an error that
the check for status 403 matches: it
panics on an index out of range, unless listing the machine deployments of some
cluster fails, which is then the error returned. -/
theorem GetClusters.counts_never_succeed_after_omission {V D I X L M : Type}
    (env : ClusterListing V D I X L M) (ext : Collaborators kubermaticv1.CloudSpec V D I)
    (projectID : String) (project : kubermaticv1.Project) (adminUserInfo : UserInfo)
    (clusters : List (kubermaticv1.Cluster kubermaticv1.CloudSpec V)) (config : X)
    (hproject : GetProject env projectID none = .ok project)
    (huser : env.userInfoGetter "" = .ok adminUserInfo)
    (hlist : env.List project = .ok clusters)
    (hconfig : env.configGetter = .ok config)
    (hpass : ∀ c ∈ clusters, GetClusters.lookupPasses env adminUserInfo c)
    (homitted : ∃ c ∈ clusters, ∃ err,
      env.DatacenterFromSeedMap adminUserInfo c.Spec.Cloud.DatacenterName = .error err)
    (apiClusters : List (apiv1.Cluster kubermaticv1.CloudSpec V)) :
    GetClusters env ext projectID true ≠ some (.ok apiClusters) := by
  have hshort : (clusters.filterMap
      (GetClusters.converted env ext adminUserInfo (env.GetIncompatibilities config))).length
      < clusters.length := by
    apply length_filterMap_lt_of_dropped
    obtain ⟨c, hc, err, herr⟩ := homitted
    exact ⟨c, hc, by simp [GetClusters.converted, herr]⟩
  simp only [GetClusters, hproject, huser, hlist, hconfig]
  rw [GetClusters.convertLoop_passes env ext adminUserInfo _ clusters [] hpass]
  simp only [List.nil_append, if_true]
  cases hloop : GetClusters.countLoop env projectID clusters 0
      (clusters.filterMap
        (GetClusters.converted env ext adminUserInfo (env.GetIncompatibilities config)))
      (List.replicate clusters.length none) with
  | none => simp
  | some result =>
    obtain ⟨out, outErrs⟩ := result
    obtain ⟨x, hx, hsome⟩ := GetClusters.countLoop_short env projectID clusters 0 _ out _ outErrs
      (by omega) (Nat.zero_le _) (by simp) hloop
    cases hfind : outErrs.findSome? id with
    | some er => simp [hfind]
    | none =>
      have hnone := hfind
      rw [List.findSome?_eq_none_iff] at hnone
      have := hnone x hx
      cases x with
      | none => cases hsome
      | some e => simp at this

/-- C13: `GetClusters` with `includeMachineDeploymentCount` for the listing of a cluster
whose datacenter lookup returns a `*utilerrors.HTTPError` of status 403, which the check
of `GetClusters` matches, followed by a cluster whose datacenter is found, each with two
machine deployments.  Without counts the call succeeds with the second cluster
alone; with counts the goroutine of position 1 indexes the one-element result list out
of range, so the call panics instead of returning that cluster with count 2. -/
theorem c13_count_write_out_of_range_after_omission :
    (GetClusters
        (sampleListing [sampleClusterIn "a" "restricted", sampleClusterIn "b" "dc-1"] 2)
        sampleCloudCollaborators "p" false).map
          (fun r => r.map (fun l => l.map (fun c => (c.ID, c.MachineDeploymentCount))))
      = some (.ok [("b", none)]) ∧
    GetClusters
        (sampleListing [sampleClusterIn "a" "restricted", sampleClusterIn "b" "dc-1"] 2)
        sampleCloudCollaborators "p" true = none ∧
    (GetClusters
        (sampleListing [sampleClusterIn "a" "dc-2", sampleClusterIn "b" "dc-1"] 2)
        sampleCloudCollaborators "p" true).map
          (fun r => r.map (fun l => l.map (fun c => (c.ID, c.MachineDeploymentCount))))
      = some (.ok [("a", some 2), ("b", some 2)]) := by
  refine ⟨?_, ?_, ?_⟩ <;> rfl

/-! ### Logging request errors -/

/-- C14: the handler returned by `NewRequestErrorHandler`.  When the context error is
`context.Canceled`, or the error is an HTTP error with a status code below 500, the
handler writes nothing to the log and does not call the request provider, whatever that
provider would return.  Otherwise, that is when the context error is not
`context.Canceled` and the error is either no HTTP error or an HTTP error with status
code 500 or more, it writes exactly one entry, with the error's message and the URL of
the request that the provider returns. -/
theorem c14_request_error_logged_unless_cancelled_or_client_error
    (AsHTTPError : GoError → Option Int) (reqProvider : Unit → Option Request)
    (ctxErr : Option ContextError) (err : GoError) :
    ((ctxErr = some ContextError.Canceled ∨
        ∃ code, AsHTTPError err = some code ∧ code < 500) →
      NewRequestErrorHandler AsHTTPError reqProvider ctxErr err
        = some { log := [], reqProviderCalls := 0 }) ∧
    (∀ req url, reqProvider () = some req → req.URL = some url →
      (ctxErr ≠ some ContextError.Canceled ∧
        (AsHTTPError err = none ∨ ∃ code, AsHTTPError err = some code ∧ 500 ≤ code)) →
      NewRequestErrorHandler AsHTTPError reqProvider ctxErr err
        = some { log := [{ msg := err.Error, keysAndValues := [("request", url)] }],
                 reqProviderCalls := 1 }) ∧
    (∀ run, NewRequestErrorHandler AsHTTPError reqProvider ctxErr err = some run →
      (run.log ≠ [] ↔
        (ctxErr ≠ some ContextError.Canceled ∧
          (AsHTTPError err = none ∨ ∃ code, AsHTTPError err = some code ∧ 500 ≤ code)))) := by
  refine ⟨?_, ?_, ?_⟩
  · rintro (hc | ⟨code, hcode, hlt⟩)
    · simp [NewRequestErrorHandler, hc]
    · by_cases hc : ctxErr = some ContextError.Canceled
      · simp [NewRequestErrorHandler, hc]
      · simp [NewRequestErrorHandler, hc, hcode, StatusInternalServerError, hlt]
  · rintro req url hreq hurl ⟨hc, hstatus⟩
    rcases hstatus with hnone | ⟨code, hcode, hge⟩
    · simp [NewRequestErrorHandler, NewRequestErrorHandler.logError, hc, hnone, hreq, hurl]
    · have hnlt : ¬ code < 500 := by omega
      simp [NewRequestErrorHandler, NewRequestErrorHandler.logError, hc, hcode,
        StatusInternalServerError, hnlt, hreq, hurl]
  · intro run hrun
    by_cases hc : ctxErr = some ContextError.Canceled
    · simp [NewRequestErrorHandler, hc] at hrun
      subst hrun
      simp [hc]
    · cases hcode : AsHTTPError err with
      | none =>
        simp only [NewRequestErrorHandler, hc, if_false, hcode,
          NewRequestErrorHandler.logError] at hrun
        cases hreq : reqProvider () with
        | none => simp [hreq] at hrun
        | some req =>
          cases hurl : req.URL with
          | none => simp [hreq, hurl] at hrun
          | some url =>
            simp [hreq, hurl] at hrun
            subst hrun
            simp [hc]
      | some code =>
        by_cases hlt : code < 500
        · simp [NewRequestErrorHandler, hc, hcode, StatusInternalServerError, hlt] at hrun
          subst hrun
          simp [hc]
          omega
        · simp only [NewRequestErrorHandler, hc, if_false, hcode, StatusInternalServerError,
            hlt, NewRequestErrorHandler.logError] at hrun
          cases hreq : reqProvider () with
          | none => simp [hreq] at hrun
          | some req =>
            cases hurl : req.URL with
            | none => simp [hreq, hurl] at hrun
            | some url =>
              simp [hreq, hurl] at hrun
              subst hrun
              simp [hc]
              omega

/-- The error handler on sample requests: a cancelled request and a 404 are not logged,
a 500 and an error that is no HTTP error are logged, also when the deadline passed. -/
theorem NewRequestErrorHandler.samples :
    NewRequestErrorHandler sampleAsHTTPError (sampleReqProvider "/api/v1/dc")
        (some .Canceled) (.errorString "boom")
      = some { log := [], reqProviderCalls := 0 } ∧
    NewRequestErrorHandler sampleAsHTTPError (sampleReqProvider "/api/v1/dc")
        none (.HTTPError 404 "not found")
      = some { log := [], reqProviderCalls := 0 } ∧
    NewRequestErrorHandler sampleAsHTTPError (sampleReqProvider "/api/v1/dc")
        none (.HTTPError 500 "failed")
      = some { log := [{ msg := "failed", keysAndValues := [("request", "/api/v1/dc")] }],
               reqProviderCalls := 1 } ∧
    NewRequestErrorHandler sampleAsHTTPError (sampleReqProvider "/api/v1/dc")
        (some .DeadlineExceeded) (.errorString "boom")
      = some { log := [{ msg := "boom", keysAndValues := [("request", "/api/v1/dc")] }],
               reqProviderCalls := 1 } := by
  decide

/-! ### Go map operations -/

/-- After `delete(m, k)` the key `k` is absent. -/
theorem GoMap.lookup_delete_self {β : Type} (m : GoMap β) (k : String) :
    GoMap.lookup (GoMap.delete m k) k = none := by
  cases m with
  | none => rfl
  | some kvs =>
    simp only [GoMap.delete, Option.map_some', GoMap.lookup, Option.map_eq_none']
    rw [List.find?_eq_none]
    intro kv hkv
    rw [List.mem_filter] at hkv
    simpa using hkv.2

/-- Dropping the entries of one key does not change what is found for another key. -/
theorem GoMap.find_filter_of_ne {β : Type} (kvs : List (String × β)) (k other : String)
    (h : other ≠ k) :
    (kvs.filter (fun kv => kv.1 != k)).find? (fun kv => kv.1 == other)
      = kvs.find? (fun kv => kv.1 == other) := by
  induction kvs with
  | nil => rfl
  | cons kv rest ih =>
    by_cases hk : kv.1 = k
    · have hf : (kv.1 != k) = false := by simp [hk]
      have hne : (kv.1 == other) = false := by
        rw [beq_eq_false_iff_ne]
        intro e
        exact h (e.symm.trans hk)
      rw [List.filter_cons]
      simp only [hf, List.find?_cons, hne, Bool.false_eq_true, if_false, ih]
    · have hf : (kv.1 != k) = true := by simp [hk]
      rw [List.filter_cons]
      simp only [hf, if_true]
      cases ho : (kv.1 == other)
      · simp only [List.find?_cons, ho, ih]
      · simp only [List.find?_cons, ho]

/-- The statement `delete(m, k)` leaves the entries of the other keys as they are. -/
theorem GoMap.lookup_delete_of_ne {β : Type} (m : GoMap β) (k other : String)
    (h : other ≠ k) : GoMap.lookup (GoMap.delete m k) other = GoMap.lookup m other := by
  cases m with
  | none => rfl
  | some kvs =>
    simp only [GoMap.delete, Option.map_some', GoMap.lookup]
    rw [GoMap.find_filter_of_ne kvs k other h]

/-- After `m[k] = v` the key `k` holds `v`. -/
theorem GoMap.lookup_setEntry_self {β : Type} (kvs : List (String × β)) (k : String) (v : β) :
    GoMap.lookup (some (GoMap.setEntry kvs k v)) k = some v := by
  have h : (kvs.filter (fun kv => kv.1 != k)).find? (fun kv => kv.1 == k) = none := by
    rw [List.find?_eq_none]
    intro kv hkv
    rw [List.mem_filter] at hkv
    simpa using hkv.2
  simp [GoMap.lookup, GoMap.setEntry, List.find?_append, h]

/-- The assignment `m[k] = v` leaves the entries of the other keys as they are. -/
theorem GoMap.lookup_setEntry_of_ne {β : Type} (kvs : List (String × β)) (k other : String)
    (v : β) (h : other ≠ k) :
    GoMap.lookup (some (GoMap.setEntry kvs k v)) other = GoMap.lookup (some kvs) other := by
  have hlast : [(k, v)].find? (fun kv => kv.1 == other) = none := by
    have hne : (k == other) = false := by
      rw [beq_eq_false_iff_ne]
      exact fun e => h e.symm
    simp only [List.find?_cons, hne, List.find?_nil]
  simp only [GoMap.lookup, GoMap.setEntry, List.find?_append, hlast, Option.or_none,
    GoMap.find_filter_of_ne kvs k other h]

/-! ### The link between a cluster and its credential preset -/

/-- The step of `PatchEndpoint` for changed credentials, in one assignment. -/
theorem PatchEndpoint.clearPresetLink_changed {C V : Type}
    (cluster : kubermaticv1.Cluster C V) :
    PatchEndpoint.clearPresetLink true cluster =
      { cluster with
        Labels := GoMap.delete cluster.Labels kubermaticv1.IsCredentialPresetLabelKey
        Annotations := GoMap.delete
          (GoMap.delete cluster.Annotations kubermaticv1.PresetNameAnnotation)
          kubermaticv1.PresetInvalidatedAnnotation } := by
  obtain ⟨name, rv, labels, annotations, ct, dt, fin, spec, status⟩ := cluster
  cases labels <;> cases annotations <;> simp [PatchEndpoint.clearPresetLink, GoMap.delete]

/-- C15: the step of the cluster `PatchEndpoint` between the credential-secret call and
the mutation, validation and update of the cluster.  When the credentials changed, the
cluster has no `IsCredentialPresetLabelKey` label and no `PresetNameAnnotation` or
`PresetInvalidatedAnnotation` annotation afterwards, every other label and annotation
entry is as it was, a nil map stays nil and a map that is not nil stays so, and nothing
but labels and annotations changes; when the credentials did not change, the cluster is
left exactly as it was. -/
theorem c15_changed_credentials_clear_preset_link {C V : Type}
    (cluster : kubermaticv1.Cluster C V) :
    (GoMap.lookup (PatchEndpoint.clearPresetLink true cluster).Labels
        kubermaticv1.IsCredentialPresetLabelKey = none ∧
      GoMap.lookup (PatchEndpoint.clearPresetLink true cluster).Annotations
        kubermaticv1.PresetNameAnnotation = none ∧
      GoMap.lookup (PatchEndpoint.clearPresetLink true cluster).Annotations
        kubermaticv1.PresetInvalidatedAnnotation = none ∧
      (∀ k, k ≠ kubermaticv1.IsCredentialPresetLabelKey →
        GoMap.lookup (PatchEndpoint.clearPresetLink true cluster).Labels k
          = GoMap.lookup cluster.Labels k) ∧
      (∀ k, k ≠ kubermaticv1.PresetNameAnnotation →
        k ≠ kubermaticv1.PresetInvalidatedAnnotation →
        GoMap.lookup (PatchEndpoint.clearPresetLink true cluster).Annotations k
          = GoMap.lookup cluster.Annotations k) ∧
      ((PatchEndpoint.clearPresetLink true cluster).Labels = none ↔ cluster.Labels = none) ∧
      ((PatchEndpoint.clearPresetLink true cluster).Annotations = none ↔
        cluster.Annotations = none) ∧
      { PatchEndpoint.clearPresetLink true cluster with
        Labels := cluster.Labels, Annotations := cluster.Annotations } = cluster) ∧
    PatchEndpoint.clearPresetLink false cluster = cluster := by
  rw [PatchEndpoint.clearPresetLink_changed]
  refine ⟨⟨?_, ?_, ?_, ?_, ?_, ?_, ?_, ?_⟩, ?_⟩
  · exact GoMap.lookup_delete_self _ _
  · show GoMap.lookup (GoMap.delete (GoMap.delete cluster.Annotations _) _) _ = none
    rw [GoMap.lookup_delete_of_ne _ _ _ (by decide)]
    exact GoMap.lookup_delete_self _ _
  · exact GoMap.lookup_delete_self _ _
  · intro k hk
    exact GoMap.lookup_delete_of_ne _ _ _ hk
  · intro k hk1 hk2
    show GoMap.lookup (GoMap.delete (GoMap.delete cluster.Annotations _) _) k = _
    rw [GoMap.lookup_delete_of_ne _ _ _ hk2, GoMap.lookup_delete_of_ne _ _ _ hk1]
  · show GoMap.delete cluster.Labels _ = none ↔ _
    cases cluster.Labels <;> simp [GoMap.delete]
  · show GoMap.delete (GoMap.delete cluster.Annotations _) _ = none ↔ _
    cases cluster.Annotations <;> simp [GoMap.delete]
  · rfl
  · rfl

/-- The step of `PatchEndpoint` on a sample cluster that carries the link to its preset
and a label and an annotation of its own. -/
theorem PatchEndpoint.clearPresetLink_sample :
    (PatchEndpoint.clearPresetLink true
      { sampleCluster true with
        Labels := some [("is-credential-preset", "true"), ("team", "a")]
        Annotations := some [("presetName", "p"), ("note", "n"),
          ("presetInvalidated", "deleted")] }).Labels = some [("team", "a")] ∧
    (PatchEndpoint.clearPresetLink true
      { sampleCluster true with
        Labels := some [("is-credential-preset", "true"), ("team", "a")]
        Annotations := some [("presetName", "p"), ("note", "n"),
          ("presetInvalidated", "deleted")] }).Annotations = some [("note", "n")] ∧
    (PatchEndpoint.clearPresetLink true (sampleCluster true)).Labels = none := by
  decide

/-- A Go string has length 0 exactly when it is empty. -/
theorem utf8ByteSize_pos_iff (s : String) : 0 < s.utf8ByteSize ↔ s ≠ "" := by
  obtain ⟨cs⟩ := s
  cases cs with
  | nil => simp [String.utf8ByteSize, String.utf8ByteSize.go]
  | cons c rest =>
    have hc := Char.utf8Size_pos c
    have hne : (String.mk (c :: rest)) ≠ "" := by
      intro e
      have := congrArg String.data e
      simp at this
    simp only [String.utf8ByteSize, String.utf8ByteSize.go, ne_eq, hne, not_false_eq_true,
      iff_true]
    omega

/-- The credential step of `GenerateCluster` for a customized preset. -/
theorem GenerateCluster.linkPreset_customized {V D : Type}
    (SetCloudCredentials : UserInfo → String → String → kubermaticv1.CloudSpec → D →
      Except GoError (kubermaticv1.CloudSpec × kubermaticv1.CloudSpec))
    (GetPreset : UserInfo → String → String → Except GoError kubermaticv1.Preset)
    (projectID : String) (adminUserInfo : UserInfo) (dc : D)
    (body : apiv1.CreateClusterSpec kubermaticv1.CloudSpec V)
    (cloudSpec bodyCloud : kubermaticv1.CloudSpec) (hname : body.Cluster.Credential ≠ "")
    (hset : SetCloudCredentials adminUserInfo projectID body.Cluster.Credential
      body.Cluster.Spec.Cloud dc = .ok (cloudSpec, bodyCloud))
    (hcheck : checkIfPresetCustomized GetPreset projectID adminUserInfo bodyCloud
      body.Cluster.Credential = some true) :
    GenerateCluster.linkPreset SetCloudCredentials GetPreset projectID adminUserInfo dc body =
      some (.ok
        { Labels := some (body.Cluster.Labels.getD [])
          Annotations := some (body.Cluster.Annotations.getD [])
          body := { body with
            Cluster := { body.Cluster with
              Credential := ""
              Spec := { body.Cluster.Spec with Cloud := cloudSpec } } } }) := by
  have hlen : body.Cluster.Credential.utf8ByteSize > 0 := (utf8ByteSize_pos_iff _).2 hname
  simp only [GenerateCluster.linkPreset, hlen, if_true, hset, hcheck]
  cases body.Cluster.Labels <;> cases body.Cluster.Annotations <;> rfl

/-- The credential step of `GenerateCluster` for a preset that is not customized. -/
theorem GenerateCluster.linkPreset_not_customized {V D : Type}
    (SetCloudCredentials : UserInfo → String → String → kubermaticv1.CloudSpec → D →
      Except GoError (kubermaticv1.CloudSpec × kubermaticv1.CloudSpec))
    (GetPreset : UserInfo → String → String → Except GoError kubermaticv1.Preset)
    (projectID : String) (adminUserInfo : UserInfo) (dc : D)
    (body : apiv1.CreateClusterSpec kubermaticv1.CloudSpec V)
    (cloudSpec bodyCloud : kubermaticv1.CloudSpec) (hname : body.Cluster.Credential ≠ "")
    (hset : SetCloudCredentials adminUserInfo projectID body.Cluster.Credential
      body.Cluster.Spec.Cloud dc = .ok (cloudSpec, bodyCloud))
    (hcheck : checkIfPresetCustomized GetPreset projectID adminUserInfo bodyCloud
      body.Cluster.Credential = some false) :
    GenerateCluster.linkPreset SetCloudCredentials GetPreset projectID adminUserInfo dc body =
      some (.ok
        { Labels := some (GoMap.setEntry (body.Cluster.Labels.getD [])
            kubermaticv1.IsCredentialPresetLabelKey "true")
          Annotations := some (GoMap.setEntry (body.Cluster.Annotations.getD [])
            kubermaticv1.PresetNameAnnotation body.Cluster.Credential)
          body := { body with
            Cluster := { body.Cluster with
              Spec := { body.Cluster.Spec with Cloud := cloudSpec } } } }) := by
  have hlen : body.Cluster.Credential.utf8ByteSize > 0 := (utf8ByteSize_pos_iff _).2 hname
  simp only [GenerateCluster.linkPreset, hlen, if_true, hset, hcheck]
  cases body.Cluster.Labels <;> cases body.Cluster.Annotations <;> rfl

/-- C16: `checkIfPresetCustomized` for a requested OpenStack cloud spec and the preset
name `os-preset`.  When the preset lookup fails, the function, which drops the error of
`GetPreset`, reads `preset.Spec.Openstack` through the nil preset: it is a nil
dereference and no result.  When the preset is found but has no OpenStack section, it
reads `IsCustomizable` through the nil section, again a nil dereference.  When the
preset is found with a customizable OpenStack section of another network, the result is
true. -/
theorem c16_preset_check_dereferences_nil_preset :
    checkIfPresetCustomized (fun _ _ _ => .error (.errorString "preset not found"))
      "p" sampleAdmin (sampleOpenstackCloud "net-2") "os-preset" = none ∧
    checkIfPresetCustomized
      (fun _ _ _ => .ok { Name := "os-preset", Spec := { Openstack := none } })
      "p" sampleAdmin (sampleOpenstackCloud "net-2") "os-preset" = none ∧
    checkIfPresetCustomized (fun _ _ _ => .ok samplePreset)
      "p" sampleAdmin (sampleOpenstackCloud "net-2") "os-preset" = some true := by
  refine ⟨?_, ?_, ?_⟩ <;> decide

/-- The credential step of `GenerateCluster` for a request body that already carries the
preset label and annotation and a preset that is customized: both are left in place. -/
theorem GenerateCluster.linkPreset_keeps_body_link :
    (GenerateCluster.linkPreset (fun _ _ _ cloud (_ : Unit) => .ok (cloud, cloud))
      (fun _ _ _ => .ok samplePreset) "p" sampleAdmin ()
      { sampleCreateBody "c" with
        Cluster := { (sampleCreateBody "c").Cluster with
          Credential := "os-preset"
          Labels := some [("is-credential-preset", "true")]
          Annotations := some [("presetName", "os-preset")]
          Spec := { (sampleCreateBody "c").Cluster.Spec with
            Cloud := sampleOpenstackCloud "net-2" } } }).map
        (fun r => r.map (fun linked =>
          (GoMap.lookup linked.Labels kubermaticv1.IsCredentialPresetLabelKey,
           GoMap.lookup linked.Annotations kubermaticv1.PresetNameAnnotation)))
      = some (.ok (some "true", some "os-preset")) := by
  decide

/-- The cases of `checkIfPresetCustomized` and of the credential step of
`GenerateCluster` (the statements from the cloud credentials to the preset link, before
the cluster is completed).  The check is false, whatever the preset lookup gives, when
the requested cloud spec is not OpenStack; for an OpenStack cloud spec and a preset that
is found and has an OpenStack section it is true exactly when that section is
customizable and at least one of Network, RouterID, FloatingIPPool and SecurityGroups
differs between request and preset; for an OpenStack cloud spec it has no result when
the lookup fails or the preset has no OpenStack section.  In the credential step, for a
non-empty credential name that resolves and a check that has a result: if the check is
false the labels and annotations of the step carry the label
`IsCredentialPresetLabelKey` with value `true` and the annotation `PresetNameAnnotation`
with the preset name, every other label and annotation being that of the request body;
if the check is true the labels and annotations are exactly those of the request body
(empty maps for nil), so that the link is carried only if the body carried it, and the
credential name of the body is cleared. -/
theorem GenerateCluster.linkPreset_cases {V D : Type}
    (SetCloudCredentials : UserInfo → String → String → kubermaticv1.CloudSpec → D →
      Except GoError (kubermaticv1.CloudSpec × kubermaticv1.CloudSpec))
    (GetPreset : UserInfo → String → String → Except GoError kubermaticv1.Preset)
    (projectID : String) (adminUserInfo : UserInfo) (dc : D)
    (body : apiv1.CreateClusterSpec kubermaticv1.CloudSpec V)
    (requestedCloud : kubermaticv1.CloudSpec) (credentialName : String) :
    (requestedCloud.Openstack = none →
      checkIfPresetCustomized GetPreset projectID adminUserInfo requestedCloud credentialName
        = some false) ∧
    (∀ requested preset presetSpec,
      requestedCloud.Openstack = some requested →
      GetPreset adminUserInfo projectID credentialName = .ok preset →
      preset.Spec.Openstack = some presetSpec →
      checkIfPresetCustomized GetPreset projectID adminUserInfo requestedCloud credentialName =
        some (decide (presetSpec.IsCustomizable = true ∧
          (presetSpec.Network ≠ requested.Network ∨ presetSpec.RouterID ≠ requested.RouterID ∨
            presetSpec.FloatingIPPool ≠ requested.FloatingIPPool ∨
            presetSpec.SecurityGroups ≠ requested.SecurityGroups)))) ∧
    (∀ requested, requestedCloud.Openstack = some requested →
      (∀ preset, GetPreset adminUserInfo projectID credentialName = .ok preset →
        preset.Spec.Openstack = none) →
      checkIfPresetCustomized GetPreset projectID adminUserInfo requestedCloud credentialName
        = none) ∧
    (∀ cloudSpec bodyCloud customized, body.Cluster.Credential ≠ "" →
      SetCloudCredentials adminUserInfo projectID body.Cluster.Credential
        body.Cluster.Spec.Cloud dc = .ok (cloudSpec, bodyCloud) →
      checkIfPresetCustomized GetPreset projectID adminUserInfo bodyCloud
        body.Cluster.Credential = some customized →
      ∃ linked,
        GenerateCluster.linkPreset SetCloudCredentials GetPreset projectID adminUserInfo dc body
          = some (.ok linked) ∧
        linked.body.Cluster.Spec.Cloud = cloudSpec ∧
        (customized = false →
          GoMap.lookup linked.Labels kubermaticv1.IsCredentialPresetLabelKey = some "true" ∧
          GoMap.lookup linked.Annotations kubermaticv1.PresetNameAnnotation
            = some body.Cluster.Credential ∧
          (∀ k, k ≠ kubermaticv1.IsCredentialPresetLabelKey →
            GoMap.lookup linked.Labels k = GoMap.lookup body.Cluster.Labels k) ∧
          (∀ k, k ≠ kubermaticv1.PresetNameAnnotation →
            GoMap.lookup linked.Annotations k = GoMap.lookup body.Cluster.Annotations k) ∧
          linked.body.Cluster.Credential = body.Cluster.Credential) ∧
        (customized = true →
          linked.Labels = some (body.Cluster.Labels.getD []) ∧
          linked.Annotations = some (body.Cluster.Annotations.getD []) ∧
          linked.body.Cluster.Credential = "")) := by
  refine ⟨?_, ?_, ?_, ?_⟩
  · intro hos
    simp [checkIfPresetCustomized, hos]
  · intro requested preset presetSpec hos hpreset hsection
    simp only [checkIfPresetCustomized, hos, hpreset, hsection]
    cases hcust : presetSpec.IsCustomizable <;> simp
    by_cases h1 : presetSpec.Network = requested.Network <;>
      by_cases h2 : presetSpec.RouterID = requested.RouterID <;>
      by_cases h3 : presetSpec.FloatingIPPool = requested.FloatingIPPool <;>
      by_cases h4 : presetSpec.SecurityGroups = requested.SecurityGroups <;>
      simp [h1, h2, h3, h4]
  · intro requested hos hnone
    simp only [checkIfPresetCustomized, hos]
    cases hpreset : GetPreset adminUserInfo projectID credentialName with
    | error err => rfl
    | ok preset => simp [hnone preset hpreset]
  · intro cloudSpec bodyCloud customized hname hset hcheck
    cases customized with
    | true =>
      refine ⟨_, GenerateCluster.linkPreset_customized SetCloudCredentials GetPreset projectID
        adminUserInfo dc body cloudSpec bodyCloud hname hset hcheck, rfl, ?_, ?_⟩
      · intro h; cases h
      · intro _
        exact ⟨rfl, rfl, rfl⟩
    | false =>
      refine ⟨_, GenerateCluster.linkPreset_not_customized SetCloudCredentials GetPreset
        projectID adminUserInfo dc body cloudSpec bodyCloud hname hset hcheck, rfl, ?_, ?_⟩
      · intro _
        refine ⟨GoMap.lookup_setEntry_self _ _ _, GoMap.lookup_setEntry_self _ _ _, ?_, ?_, rfl⟩
        · intro k hk
          show GoMap.lookup (some (GoMap.setEntry _ _ _)) k = _
          rw [GoMap.lookup_setEntry_of_ne _ _ _ _ hk]
          cases body.Cluster.Labels <;> rfl
        · intro k hk
          show GoMap.lookup (some (GoMap.setEntry _ _ _)) k = _
          rw [GoMap.lookup_setEntry_of_ne _ _ _ _ hk]
          cases body.Cluster.Annotations <;> rfl
      · intro h; cases h

/-- The credential step of `GenerateCluster` for a preset that is not customized: the
link to the preset is recorded. -/
theorem GenerateCluster.linkPreset_sample :
    (GenerateCluster.linkPreset (fun _ _ _ cloud (_ : Unit) => .ok (cloud, cloud))
      (fun _ _ _ => .ok samplePreset) "p" sampleAdmin ()
      { sampleCreateBody "c" with
        Cluster := { (sampleCreateBody "c").Cluster with
          Credential := "os-preset"
          Spec := { (sampleCreateBody "c").Cluster.Spec with
            Cloud := sampleOpenstackCloud "net-1" } } }).map
        (fun r => r.map (fun linked =>
          (linked.Labels, linked.Annotations, linked.body.Cluster.Credential)))
      = some (.ok (some [("is-credential-preset", "true")],
          some [("presetName", "os-preset")], "os-preset")) := by
  rfl

/-! ### Validating a create request -/

/-- What `ValidateClusterSpec` accepts: the datacenter name is not empty, the ID is
empty, the type is the kubernetes cluster type, the version parses, the name has at most
100 bytes, the cloud provider name resolves, the update manager returns the version list
of the provider, and the version is semver-equal to a version of that list. -/
theorem ValidateClusterSpec_ok_iff {V S A : Type} (updateManager : VersionChecks V S A)
    (body : apiv1.CreateClusterSpec kubermaticv1.CloudSpec V) :
    ValidateClusterSpec updateManager body = .ok () ↔
      body.Cluster.Spec.Cloud.DatacenterName ≠ "" ∧ body.Cluster.ID = "" ∧
      body.Cluster.ClusterType = apiv1.KubernetesClusterType ∧
      body.Cluster.Name.utf8ByteSize ≤ 100 ∧
      ∃ semver providerName versions,
        updateManager.Semver body.Cluster.Spec.Version = some semver ∧
        updateManager.ClusterCloudProviderName body.Cluster.Spec.Cloud = .ok providerName ∧
        updateManager.GetVersionsForProvider providerName = .ok versions ∧
        ∃ availableVersion ∈ versions,
          updateManager.Equal semver (updateManager.Version availableVersion) = true := by
  unfold ValidateClusterSpec
  by_cases hdc : body.Cluster.Spec.Cloud.DatacenterName = ""
  · simp [hdc]
  by_cases hid : body.Cluster.ID = ""
  swap
  · simp [hdc, hid]
  by_cases htype : body.Cluster.ClusterType = apiv1.KubernetesClusterType
  swap
  · simp [hdc, hid, htype, ClusterTypes]
  cases hsem : updateManager.Semver body.Cluster.Spec.Version with
  | none => simp [hdc, hid, htype, ClusterTypes]
  | some semver =>
    by_cases hlen : body.Cluster.Name.utf8ByteSize > 100
    · have : ¬ body.Cluster.Name.utf8ByteSize ≤ 100 := by omega
      simp [hdc, hid, htype, ClusterTypes, hlen, this]
    · have hle : body.Cluster.Name.utf8ByteSize ≤ 100 := by omega
      cases hprov : updateManager.ClusterCloudProviderName body.Cluster.Spec.Cloud with
      | error err => simp [hdc, hid, htype, ClusterTypes, hlen]
      | ok providerName =>
        cases hver : updateManager.GetVersionsForProvider providerName with
        | error err => simp [hdc, hid, htype, ClusterTypes, hlen, hver]
        | ok versions =>
          by_cases hany : versions.any (fun availableVersion =>
              updateManager.Equal semver (updateManager.Version availableVersion)) = true
          · have hex : ∃ availableVersion ∈ versions,
                updateManager.Equal semver (updateManager.Version availableVersion) = true := by
              simpa [List.any_eq_true] using hany
            simp [hdc, hid, htype, ClusterTypes, hlen, hver, hany, hle, hex]
          · have hnex : ¬ ∃ availableVersion ∈ versions,
                updateManager.Equal semver (updateManager.Version availableVersion) = true := by
              simpa [List.any_eq_true] using hany
            simp [hdc, hid, htype, ClusterTypes, hlen, hver, hany, hle, hnex]

/-- A create body with a client-supplied ID is rejected by `ValidateClusterSpec`. -/
theorem ValidateClusterSpec_rejects_id {V S A : Type} (updateManager : VersionChecks V S A)
    (body : apiv1.CreateClusterSpec kubermaticv1.CloudSpec V) (hid : body.Cluster.ID ≠ "") :
    ∃ err, ValidateClusterSpec updateManager body = .error err := by
  cases h : ValidateClusterSpec updateManager body with
  | error err => exact ⟨err, rfl⟩
  | ok u =>
    cases u
    exact absurd ((ValidateClusterSpec_ok_iff updateManager body).1 h).2.1 hid

set_option maxRecDepth 100000 in
/-- C17: `ValidateClusterSpec` on a create body that meets every condition and whose
cluster name consists of 51 times the character `é`, which is 51 characters and 102
bytes: the body is rejected as having a name of more than 100 characters, while the same
body with the name `c` is accepted. -/
theorem c17_name_of_51_characters_rejected_as_too_long :
    (String.mk (List.replicate 51 'é')).length = 51 ∧
    (String.mk (List.replicate 51 'é')).utf8ByteSize = 102 ∧
    ValidateClusterSpec sampleVersionChecks (sampleCreateBody (String.mk (List.replicate 51 'é')))
      = .error (.errorString "invalid cluster name: too long (greater than 100 characters)") ∧
    ValidateClusterSpec sampleVersionChecks (sampleCreateBody "c") = .ok () := by
  refine ⟨?_, ?_, ?_, ?_⟩ <;> decide

/-! ### Addons -/

/-- C18: `convertInternalAddonToExternal` returns an error exactly when the variables of
the internal addon are not nil, their raw blob is not empty and the blob fails to decode,
and the error is then that of the decoder; in particular it succeeds for nil variables
and for an empty blob, whatever the labels and the deletion timestamp.  On success ID and
Name are the internal name, the creation timestamp and IsDefault are copied, the deletion
timestamp is nil exactly when the internal one is, the variables are the decoded blob (nil
when nothing was decoded), and ContinuouslyReconcile is true exactly when the label
`addons.kubermatic.io/ensure` has the value `true`. -/
theorem c18_addon_conversion_fails_only_on_undecodable_variables {T W : Type}
    (Unmarshal : List Nat → Except GoError (Option W)) (internalAddon : kubermaticv1.Addon T) :
    (∀ err, convertInternalAddonToExternal Unmarshal internalAddon = .error err ↔
      ∃ rawVariables, internalAddon.Spec.Variables = some rawVariables ∧
        rawVariables.Raw ≠ [] ∧ Unmarshal rawVariables.Raw = .error err) ∧
    (internalAddon.Spec.Variables = none →
      ∃ result, convertInternalAddonToExternal Unmarshal internalAddon = .ok result) ∧
    (∀ rawVariables, internalAddon.Spec.Variables = some rawVariables → rawVariables.Raw = [] →
      ∃ result, convertInternalAddonToExternal Unmarshal internalAddon = .ok result) ∧
    (∀ result, convertInternalAddonToExternal Unmarshal internalAddon = .ok result →
      result.ID = internalAddon.Name ∧ result.Name = internalAddon.Name ∧
      result.CreationTimestamp = internalAddon.CreationTimestamp ∧
      result.DeletionTimestamp = internalAddon.DeletionTimestamp ∧
      (result.DeletionTimestamp = none ↔ internalAddon.DeletionTimestamp = none) ∧
      result.Spec.IsDefault = internalAddon.Spec.IsDefault ∧
      (result.Spec.ContinuouslyReconcile = true ↔
        GoMap.lookup internalAddon.Labels addonEnsureLabelKey = some "true") ∧
      (∀ rawVariables decoded, internalAddon.Spec.Variables = some rawVariables →
        rawVariables.Raw ≠ [] → Unmarshal rawVariables.Raw = .ok decoded →
        result.Spec.Variables = decoded) ∧
      ((internalAddon.Spec.Variables = none ∨
          ∃ rawVariables, internalAddon.Spec.Variables = some rawVariables ∧
            rawVariables.Raw = []) →
        result.Spec.Variables = none)) := by
  obtain ⟨name, labels, created, deleted, ⟨vars, isDefault⟩⟩ := internalAddon
  have hlabel : ∀ l : GoMap String,
      (GoMap.index "" l addonEnsureLabelKey == trueFlag) = true ↔
        GoMap.lookup l addonEnsureLabelKey = some "true" := by
    intro l
    cases l with
    | none => simp [GoMap.index, GoMap.lookup, trueFlag]
    | some kvs =>
      simp only [GoMap.index, GoMap.lookup, trueFlag, beq_iff_eq]
      cases kvs.find? (fun kv => kv.1 == addonEnsureLabelKey) with
      | none => simp
      | some kv => simp
  have hdel : (match deleted with
      | some deletionTimestamp => some deletionTimestamp
      | none => none) = deleted := by
    cases deleted <;> rfl
  cases vars with
  | none =>
    cases labels with
    | none =>
      simp [convertInternalAddonToExternal, hdel, GoMap.lookup]
    | some kvs =>
      by_cases hl : (GoMap.index "" (some kvs) addonEnsureLabelKey == trueFlag) = true
      · have hl2 := (hlabel (some kvs)).1 hl
        simp only [convertInternalAddonToExternal, hdel, hl, if_true]
        simp [hl2]
      · have hl2 : ¬ GoMap.lookup (some kvs) addonEnsureLabelKey = some "true" :=
          fun h => hl ((hlabel (some kvs)).2 h)
        simp only [convertInternalAddonToExternal, hdel, hl, if_false]
        simp [hl2]
  | some raw =>
    obtain ⟨bytes⟩ := raw
    cases bytes with
    | nil =>
      have hempty : ∀ (rawVariables : RawExtension) (decoded : Option W),
          ({ Raw := [] } : RawExtension) = rawVariables → ¬ rawVariables.Raw = [] →
          Unmarshal rawVariables.Raw = Except.ok decoded → none = decoded := by
        intro r d hr hne
        subst hr
        exact absurd rfl hne
      cases labels with
      | none =>
        simp [convertInternalAddonToExternal, hdel, GoMap.lookup]
        exact hempty
      | some kvs =>
        by_cases hl : (GoMap.index "" (some kvs) addonEnsureLabelKey == trueFlag) = true
        · have hl2 := (hlabel (some kvs)).1 hl
          simp only [convertInternalAddonToExternal, hdel, hl, if_true]
          simp [hl2]
          exact hempty
        · have hl2 : ¬ GoMap.lookup (some kvs) addonEnsureLabelKey = some "true" :=
            fun h => hl ((hlabel (some kvs)).2 h)
          simp only [convertInternalAddonToExternal, hdel, hl, if_false]
          simp [hl2]
          exact hempty
    | cons b rest =>
      cases hdec : Unmarshal (b :: rest) with
      | error e =>
        simp [convertInternalAddonToExternal, hdec]
      | ok decoded =>
        have hnoerr : ∀ err : GoError, ¬ Unmarshal (b :: rest) = Except.error err := by
          intro err h
          rw [hdec] at h
          cases h
        have hdecoded : ∀ (rawVariables : RawExtension) (decoded_1 : Option W),
            ({ Raw := b :: rest } : RawExtension) = rawVariables → ¬ rawVariables.Raw = [] →
            Unmarshal rawVariables.Raw = Except.ok decoded_1 → decoded = decoded_1 := by
          intro r d hr _ hu
          subst hr
          rw [hdec] at hu
          cases hu
          rfl
        cases labels with
        | none =>
          simp [convertInternalAddonToExternal, hdel, GoMap.lookup, hdec]
          exact hdecoded
        | some kvs =>
          by_cases hl : (GoMap.index "" (some kvs) addonEnsureLabelKey == trueFlag) = true
          · have hl2 := (hlabel (some kvs)).1 hl
            simp only [convertInternalAddonToExternal, hdel, hl, if_true, hdec]
            simp [hl2]
            exact ⟨hnoerr, hdecoded⟩
          · have hl2 : ¬ GoMap.lookup (some kvs) addonEnsureLabelKey = some "true" :=
              fun h => hl ((hlabel (some kvs)).2 h)
            simp only [convertInternalAddonToExternal, hdel, hl, if_false, hdec]
            simp [hl2]
            exact ⟨hnoerr, hdecoded⟩

/-- The addon conversion on sample addons: nil labels and nil variables, an ensure label
with an empty blob, a blob that decodes and a blob that does not. -/
theorem convertInternalAddonToExternal_samples :
    convertInternalAddonToExternal sampleUnmarshal (sampleAddon none none)
      = .ok { ID := "dns", Name := "dns", CreationTimestamp := 1, DeletionTimestamp := none,
              Spec := { IsDefault := true, Variables := none,
                        ContinuouslyReconcile := false } } ∧
    convertInternalAddonToExternal sampleUnmarshal
        (sampleAddon (some [("addons.kubermatic.io/ensure", "true")]) (some { Raw := [] }))
      = .ok { ID := "dns", Name := "dns", CreationTimestamp := 1, DeletionTimestamp := none,
              Spec := { IsDefault := true, Variables := none,
                        ContinuouslyReconcile := true } } ∧
    convertInternalAddonToExternal sampleUnmarshal
        (sampleAddon (some [("addons.kubermatic.io/ensure", "false")])
          (some { Raw := [123, 125] }))
      = .ok { ID := "dns", Name := "dns", CreationTimestamp := 1, DeletionTimestamp := none,
              Spec := { IsDefault := true, Variables := some [125],
                        ContinuouslyReconcile := false } } ∧
    convertInternalAddonToExternal sampleUnmarshal (sampleAddon none (some { Raw := [120] }))
      = .error (.errorString "invalid character looking for beginning of value") := by
  refine ⟨?_, ?_, ?_, ?_⟩ <;> decide

/-! ### Datacenters -/

/-- The function `validateUser` returns nil exactly when the unscoped identity lookup
succeeds and reports an admin. -/
theorem dc.validateUser_ok_iff {P V : Type} (env : dc.Access P V) :
    dc.validateUser env = .ok () ↔
      ∃ userInfo, env.userInfoGetter "" = .ok userInfo ∧ userInfo.IsAdmin = true := by
  unfold dc.validateUser
  cases h : env.userInfoGetter "" with
  | error err => simp
  | ok userInfo => cases hadm : userInfo.IsAdmin <;> simp [hadm]

/-- For a caller who is no admin `validateUser` returns an error, which is the 403 of
the handler when the identity lookup succeeds. -/
theorem dc.validateUser_of_not_admin {P V : Type} (env : dc.Access P V)
    (hcaller : ∀ userInfo, env.userInfoGetter "" = .ok userInfo → userInfo.IsAdmin = false) :
    ∃ err, dc.validateUser env = .error err ∧
      ∀ userInfo, env.userInfoGetter "" = .ok userInfo →
        err = GoError.HTTPError 403
          ("forbidden: \"" ++ userInfo.Email ++ "\" doesn't have admin rights") := by
  unfold dc.validateUser
  cases h : env.userInfoGetter "" with
  | error err => exact ⟨_, rfl, fun u hu => by cases hu⟩
  | ok userInfo =>
    have hadm := hcaller userInfo h
    refine ⟨_, by simp only [hadm]; rfl, ?_⟩
    intro u hu
    cases hu
    rfl

/-- C19: `validateUser` returns nil exactly when the unscoped identity lookup succeeds
and reports `IsAdmin`.  For a caller who is not a platform admin (the lookup fails or
reports no admin), each of the datacenter Create, Update, Patch and Delete endpoints
returns an error for every request, calls neither the seeds getter nor
`masterClient.Update` (its only call, if any, is the unscoped identity lookup), so that
no seed is read or modified; and when the request is of the endpoint's type, its
validation passes (Delete has none) and the lookup succeeds, the error is the 403
Forbidden of `validateUser`. -/
theorem c19_datacenter_mutations_require_admin {P V : Type} (env : dc.Access P V)
    (create : Option (dc.createDCReq P V)) (update : Option (dc.updateDCReq P V))
    (patch : Option dc.patchDCReq) (delete : Option dc.deleteDCReq) :
    (dc.validateUser env = .ok () ↔
      ∃ userInfo, env.userInfoGetter "" = .ok userInfo ∧ userInfo.IsAdmin = true) ∧
    ((∀ userInfo, env.userInfoGetter "" = .ok userInfo → userInfo.IsAdmin = false) →
      ((∃ err, (dc.CreateEndpoint env create).1 = .error err) ∧
        ((dc.CreateEndpoint env create).2 = [] ∨
          (dc.CreateEndpoint env create).2 = [.userInfoGetter ""]) ∧
        (∀ call ∈ (dc.CreateEndpoint env create).2, call.isUpdate = false) ∧
        (∀ req userInfo, create = some req → dc.createDCReq.validate env req = .ok () →
          env.userInfoGetter "" = .ok userInfo →
          (dc.CreateEndpoint env create).1 = .error (GoError.HTTPError 403
            ("forbidden: \"" ++ userInfo.Email ++ "\" doesn't have admin rights")))) ∧
      ((∃ err, (dc.UpdateEndpoint env update).1 = .error err) ∧
        ((dc.UpdateEndpoint env update).2 = [] ∨
          (dc.UpdateEndpoint env update).2 = [.userInfoGetter ""]) ∧
        (∀ call ∈ (dc.UpdateEndpoint env update).2, call.isUpdate = false) ∧
        (∀ req userInfo, update = some req →
          dc.createDCReq.validate env req.createDCReq = .ok () →
          env.userInfoGetter "" = .ok userInfo →
          (dc.UpdateEndpoint env update).1 = .error (GoError.HTTPError 403
            ("forbidden: \"" ++ userInfo.Email ++ "\" doesn't have admin rights")))) ∧
      ((∃ err, (dc.PatchEndpoint env patch).1 = .error err) ∧
        ((dc.PatchEndpoint env patch).2 = [] ∨
          (dc.PatchEndpoint env patch).2 = [.userInfoGetter ""]) ∧
        (∀ call ∈ (dc.PatchEndpoint env patch).2, call.isUpdate = false) ∧
        (∀ req userInfo, patch = some req → dc.patchDCReq.validate env req = .ok () →
          env.userInfoGetter "" = .ok userInfo →
          (dc.PatchEndpoint env patch).1 = .error (GoError.HTTPError 403
            ("forbidden: \"" ++ userInfo.Email ++ "\" doesn't have admin rights")))) ∧
      ((∃ err, (dc.DeleteEndpoint env delete).1 = .error err) ∧
        ((dc.DeleteEndpoint env delete).2 = [] ∨
          (dc.DeleteEndpoint env delete).2 = [.userInfoGetter ""]) ∧
        (∀ call ∈ (dc.DeleteEndpoint env delete).2, call.isUpdate = false) ∧
        (∀ req userInfo, delete = some req → env.userInfoGetter "" = .ok userInfo →
          (dc.DeleteEndpoint env delete).1 = .error (GoError.HTTPError 403
            ("forbidden: \"" ++ userInfo.Email ++ "\" doesn't have admin rights"))))) := by
  refine ⟨dc.validateUser_ok_iff env, ?_⟩
  intro hcaller
  obtain ⟨verr, hverr, h403⟩ := dc.validateUser_of_not_admin env hcaller
  refine ⟨?_, ?_, ?_, ?_⟩
  · cases create with
    | none => exact ⟨⟨_, rfl⟩, Or.inl rfl, by simp [dc.CreateEndpoint], fun _ _ h => by cases h⟩
    | some req =>
      cases hval : dc.createDCReq.validate env req with
      | error err =>
        have hrun : dc.CreateEndpoint env (some req) = (.error (utilerrorsNew StatusBadRequest ("Validation error: " ++ err.Error)), []) := by
          simp only [dc.CreateEndpoint, hval]
        rw [hrun]
        exact ⟨⟨_, rfl⟩, Or.inl rfl, by simp,
          fun r u hr hv => by cases hr; rw [hval] at hv; cases hv⟩
      | ok _ =>
        have hrun : dc.CreateEndpoint env (some req) = (.error verr, [.userInfoGetter ""]) := by
          simp only [dc.CreateEndpoint, hval, hverr]
        rw [hrun]
        refine ⟨⟨_, rfl⟩, Or.inr rfl, by simp [dc.Call.isUpdate], ?_⟩
        intro r u _ _ hu
        rw [h403 u hu]
  · cases update with
    | none => exact ⟨⟨_, rfl⟩, Or.inl rfl, by simp [dc.UpdateEndpoint], fun _ _ h => by cases h⟩
    | some req =>
      cases hval : dc.createDCReq.validate env req.createDCReq with
      | error err =>
        have hrun : dc.UpdateEndpoint env (some req) = (.error (utilerrorsNew StatusBadRequest ("Validation error: " ++ err.Error)), []) := by
          simp only [dc.UpdateEndpoint, hval]
        rw [hrun]
        exact ⟨⟨_, rfl⟩, Or.inl rfl, by simp,
          fun r u hr hv => by cases hr; rw [hval] at hv; cases hv⟩
      | ok _ =>
        have hrun : dc.UpdateEndpoint env (some req) = (.error verr, [.userInfoGetter ""]) := by
          simp only [dc.UpdateEndpoint, hval, hverr]
        rw [hrun]
        refine ⟨⟨_, rfl⟩, Or.inr rfl, by simp [dc.Call.isUpdate], ?_⟩
        intro r u _ _ hu
        rw [h403 u hu]
  · cases patch with
    | none => exact ⟨⟨_, rfl⟩, Or.inl rfl, by simp [dc.PatchEndpoint], fun _ _ h => by cases h⟩
    | some req =>
      cases hval : dc.patchDCReq.validate env req with
      | error err =>
        have hrun : dc.PatchEndpoint env (some req) = (.error err, []) := by
          simp only [dc.PatchEndpoint, hval]
        rw [hrun]
        exact ⟨⟨_, rfl⟩, Or.inl rfl, by simp,
          fun r u hr hv => by cases hr; rw [hval] at hv; cases hv⟩
      | ok _ =>
        have hrun : dc.PatchEndpoint env (some req) = (.error verr, [.userInfoGetter ""]) := by
          simp only [dc.PatchEndpoint, hval, hverr]
        rw [hrun]
        refine ⟨⟨_, rfl⟩, Or.inr rfl, by simp [dc.Call.isUpdate], ?_⟩
        intro r u _ _ hu
        rw [h403 u hu]
  · cases delete with
    | none => exact ⟨⟨_, rfl⟩, Or.inl rfl, by simp [dc.DeleteEndpoint], fun _ _ h => by cases h⟩
    | some req =>
      have hrun : dc.DeleteEndpoint env (some req) = (.error verr, [.userInfoGetter ""]) := by
        simp only [dc.DeleteEndpoint, hverr]
      rw [hrun]
      refine ⟨⟨_, rfl⟩, Or.inr rfl, by simp [dc.Call.isUpdate], ?_⟩
      intro r u _ hu
      rw [h403 u hu]

/-- The datacenter endpoints for sample requests: a caller without admin rights gets the
403 and nothing but the identity lookup is called, while for an admin the create and
delete requests reach `masterClient.Update`. -/
theorem dc.endpoints_samples :
    dc.CreateEndpoint (sampleAccess sampleUser false)
        (some { Seed := "Europe", Body := { Name := "hetzner-nbg1", Spec := sampleDCSpec } })
      = (.error (.HTTPError 403 "forbidden: \"user@other.org\" doesn't have admin rights"),
          [.userInfoGetter ""]) ∧
    dc.DeleteEndpoint (sampleAccess sampleUser false) (some { Seed := "europe", DC := "restricted" })
      = (.error (.HTTPError 403 "forbidden: \"user@other.org\" doesn't have admin rights"),
          [.userInfoGetter ""]) ∧
    ((dc.CreateEndpoint (sampleAccess sampleAdmin false)
        (some { Seed := "Europe", Body := { Name := "hetzner-nbg1", Spec := sampleDCSpec } })).2.map
      (fun call => call.isUpdate)) = [false, false, true] ∧
    (dc.DeleteEndpoint (sampleAccess sampleAdmin false)
        (some { Seed := "europe", DC := "restricted" })).2
      = [.userInfoGetter "", .seedsGetter,
         .masterClientUpdate
          { Name := "europe",
            Spec := { Datacenters := some [("hetzner-fsn1", sampleInternalDC true false none)],
                      Rest := () } }] := by
  refine ⟨?_, ?_, ?_, ?_⟩ <;> rfl

/-- When `filterDCsByEmail` succeeds, its result is the sub-list of the datacenters whose
requirements the email of the caller satisfies. -/
theorem dc.filterDCsByEmail_ok {P V : Type} (env : dc.Access P V) (userInfo : UserInfo)
    (dcs allowed : List (apiv1.Datacenter P V))
    (h : dc.filterDCsByEmail env userInfo dcs = .ok allowed) :
    allowed = dcs.filter (dc.emailMatches env userInfo) := by
  induction dcs generalizing allowed with
  | nil =>
    simp only [dc.filterDCsByEmail, Except.ok.injEq] at h
    rw [← h]
    rfl
  | cons d rest ih =>
    rw [dc.filterDCsByEmail] at h
    cases hm : env.MatchesRequirements userInfo.Email d.Spec.RequiredEmails with
    | error err => rw [hm] at h; cases h
    | ok isMatch =>
      rw [hm] at h
      cases hrest : dc.filterDCsByEmail env userInfo rest with
      | error err => rw [hrest] at h; cases h
      | ok result =>
        rw [hrest] at h
        simp only [Except.ok.injEq] at h
        rw [← h, ih result hrest]
        cases isMatch <;> simp [List.filter_cons, dc.emailMatches, hm]

/-- When every requirement check succeeds, so does `filterDCsByEmail`. -/
theorem dc.filterDCsByEmail_total {P V : Type} (env : dc.Access P V) (userInfo : UserInfo)
    (dcs : List (apiv1.Datacenter P V))
    (h : ∀ d ∈ dcs, ∃ isMatch,
      env.MatchesRequirements userInfo.Email d.Spec.RequiredEmails = .ok isMatch) :
    dc.filterDCsByEmail env userInfo dcs = .ok (dcs.filter (dc.emailMatches env userInfo)) := by
  induction dcs with
  | nil => rfl
  | cons d rest ih =>
    obtain ⟨isMatch, hm⟩ := h d (List.mem_cons_self _ _)
    have hrest := ih (fun d hd => h d (List.mem_cons_of_mem _ hd))
    rw [dc.filterDCsByEmail, hm, hrest]
    cases isMatch <;> simp [List.filter_cons, dc.emailMatches, hm]

/-- The three outcomes of `filterDCsByName`, by the datacenters that have the name. -/
theorem dc.filterDCsByName_cases {P V : Type} (dcs : List (apiv1.Datacenter P V))
    (dcName : String) :
    (dc.countByName dcs dcName = 0 ∧
      dc.filterDCsByName dcs dcName = .error (NewNotFound "datacenter" dcName)) ∨
    (dc.countByName dcs dcName = 1 ∧
      ∃ found, found ∈ dcs ∧ found.Metadata.Name = dcName ∧
        dc.filterDCsByName dcs dcName = .ok found) ∨
    (1 < dc.countByName dcs dcName ∧
      dc.filterDCsByName dcs dcName = .error (.errorString
        ("did not find one but " ++ toString (dc.countByName dcs dcName) ++
          " datacenters for name " ++ goQuote dcName))) := by
  have hcount : dc.countByName dcs dcName
      = (dcs.filter (fun unfilteredDC => unfilteredDC.Metadata.Name == dcName)).length := by
    simp [dc.countByName, List.countP_eq_length_filter]
  cases hf : dcs.filter (fun unfilteredDC => unfilteredDC.Metadata.Name == dcName) with
  | nil =>
    left
    rw [hcount, hf]
    exact ⟨rfl, by simp [dc.filterDCsByName, hf]⟩
  | cons found rest =>
    have hmem : found ∈ dcs.filter (fun unfilteredDC => unfilteredDC.Metadata.Name == dcName) := by
      rw [hf]; exact List.mem_cons_self _ _
    rw [List.mem_filter] at hmem
    cases rest with
    | nil =>
      right; left
      rw [hcount, hf]
      exact ⟨rfl, found, hmem.1, by simpa using hmem.2, by simp [dc.filterDCsByName, hf]⟩
    | cons second others =>
      right; right
      rw [hcount, hf]
      refine ⟨by simp, ?_⟩
      simp [dc.filterDCsByName, hf]

/-- C20: `filterDCsByName` returns a datacenter and no error exactly when exactly one
datacenter of the list has the requested name, compared exactly, and it is then that
datacenter; it returns the NotFound error (HTTP status 404) exactly when no datacenter has
the name; and when more than one has it, it returns an error that reports their number
and is no HTTP error.  `GetDatacenter` for a caller who is no admin applies this to the
datacenters of the seeds whose `RequiredEmails` the email of the caller satisfies, in their
order; so when every datacenter of the requested name is restricted to other emails,
the result is the NotFound error. -/
theorem c20_datacenter_by_name_unique_or_not_found {P V : Type} (env : dc.Access P V)
    (userInfo : UserInfo) (dcs : List (apiv1.Datacenter P V)) (dcName : String) :
    ((∃ found, dc.filterDCsByName dcs dcName = .ok found) ↔ dc.countByName dcs dcName = 1) ∧
    (∀ found, dc.filterDCsByName dcs dcName = .ok found →
      found ∈ dcs ∧ found.Metadata.Name = dcName) ∧
    (dc.filterDCsByName dcs dcName = .error (NewNotFound "datacenter" dcName) ↔
      dc.countByName dcs dcName = 0) ∧
    (∀ err, dc.filterDCsByName dcs dcName = .error err →
      (WriteHTTPError.asHTTPError err = some 404 ↔ dc.countByName dcs dcName = 0)) ∧
    (1 < dc.countByName dcs dcName →
      dc.filterDCsByName dcs dcName = .error (.errorString
        ("did not find one but " ++ toString (dc.countByName dcs dcName) ++
          " datacenters for name " ++ goQuote dcName))) ∧
    (∀ seeds allowed, env.seedsGetter = .ok seeds → userInfo.IsAdmin = false →
      dc.filterDCsByEmail env userInfo (dc.getAPIDCsFromSeedMap env seeds) = .ok allowed →
      allowed = (dc.getAPIDCsFromSeedMap env seeds).filter (dc.emailMatches env userInfo) ∧
      dc.GetDatacenter env userInfo dcName = dc.filterDCsByName allowed dcName) ∧
    (∀ seeds, env.seedsGetter = .ok seeds → userInfo.IsAdmin = false →
      (∀ d ∈ dc.getAPIDCsFromSeedMap env seeds, ∃ isMatch,
        env.MatchesRequirements userInfo.Email d.Spec.RequiredEmails = .ok isMatch) →
      (∀ d ∈ dc.getAPIDCsFromSeedMap env seeds, d.Metadata.Name = dcName →
        env.MatchesRequirements userInfo.Email d.Spec.RequiredEmails = .ok false) →
      dc.GetDatacenter env userInfo dcName = .error (NewNotFound "datacenter" dcName)) := by
  have hcases := dc.filterDCsByName_cases dcs dcName
  refine ⟨?_, ?_, ?_, ?_, ?_, ?_, ?_⟩
  · rcases hcases with ⟨h0, hr⟩ | ⟨h1, found, _, _, hr⟩ | ⟨hn, hr⟩
    · rw [hr, h0]; simp
    · rw [hr, h1]; simp
    · rw [hr]
      constructor
      · rintro ⟨f, hf⟩; cases hf
      · intro h; omega
  · intro found hfound
    rcases hcases with ⟨_, hr⟩ | ⟨_, f, hmem, hname, hr⟩ | ⟨_, hr⟩
    · rw [hr] at hfound; cases hfound
    · rw [hr] at hfound; cases hfound; exact ⟨hmem, hname⟩
    · rw [hr] at hfound; cases hfound
  · rcases hcases with ⟨h0, hr⟩ | ⟨h1, found, _, _, hr⟩ | ⟨hn, hr⟩
    · rw [hr, h0]; simp
    · rw [hr, h1]; simp
    · rw [hr]
      constructor
      · intro h; simp [NewNotFound] at h
      · intro h; omega
  · intro err herr
    rcases hcases with ⟨h0, hr⟩ | ⟨h1, found, _, _, hr⟩ | ⟨hn, hr⟩
    · rw [hr] at herr
      cases herr
      simp [h0, NewNotFound, WriteHTTPError.asHTTPError, StatusNotFound]
    · rw [hr] at herr; cases herr
    · rw [hr] at herr
      cases herr
      simp only [WriteHTTPError.asHTTPError]
      constructor
      · intro h; cases h
      · intro h; omega
  · intro hn
    rcases hcases with ⟨h0, _⟩ | ⟨h1, _⟩ | ⟨_, hr⟩
    · omega
    · omega
    · exact hr
  · intro seeds allowed hseeds hadmin hallowed
    refine ⟨dc.filterDCsByEmail_ok env userInfo _ allowed hallowed, ?_⟩
    simp [dc.GetDatacenter, hseeds, hadmin, hallowed]
  · intro seeds hseeds hadmin htotal hrestricted
    have hallowed := dc.filterDCsByEmail_total env userInfo _ htotal
    simp only [dc.GetDatacenter, hseeds, hadmin, hallowed, Bool.not_false, if_true]
    have hnone : ((dc.getAPIDCsFromSeedMap env seeds).filter
        (dc.emailMatches env userInfo)).filter
          (fun unfilteredDC => unfilteredDC.Metadata.Name == dcName) = [] := by
      rw [List.filter_eq_nil_iff]
      intro d hd
      rw [List.mem_filter] at hd
      intro hname
      have hfalse := hrestricted d hd.1 (by simpa using hname)
      have := hd.2
      simp [dc.emailMatches, hfalse] at this
    simp [dc.filterDCsByName, hnone]

/-- The datacenter lookup on the sample seeds: an admin gets the restricted datacenter,
a caller with another email gets NotFound for it and finds the open datacenter, and a
name that two seeds define is reported with its count. -/
theorem dc.GetDatacenter_samples :
    (dc.GetDatacenter (sampleAccess sampleAdmin false) sampleAdmin "restricted").map
        (fun d => (d.Metadata.Name, d.Spec.Seed)) = .ok ("restricted", "europe") ∧
    dc.GetDatacenter (sampleAccess sampleUser false) sampleUser "restricted"
      = .error (.HTTPError 404 "datacenter \"restricted\" not found") ∧
    (dc.GetDatacenter (sampleAccess sampleUser false) sampleUser "hetzner-fsn1").map
        (fun d => (d.Metadata.Name, d.Spec.Seed)) = .ok ("hetzner-fsn1", "europe") ∧
    dc.GetDatacenter (sampleAccess sampleUser false) sampleUser "Hetzner-fsn1"
      = .error (.HTTPError 404 "datacenter \"Hetzner-fsn1\" not found") ∧
    dc.GetDatacenter (sampleAccess sampleUser true) sampleUser "hetzner-fsn1"
      = .error (.errorString
          "did not find one but 2 datacenters for name \"hetzner-fsn1\"") := by
  refine ⟨?_, ?_, ?_, ?_, ?_⟩ <;> decide

/-- The two-variant helpers on sample providers: an admin is served by the privileged
provider after one identity lookup, another caller by the regular provider after two,
and a caller whose project scope cannot be resolved gets an error and no provider
call. -/
theorem two_variant_helpers_samples :
    ((updateCluster (sampleClusterProviders sampleAdmin) { Name := "p" }
        (sampleCluster true)).1.map (fun c => c.Name),
      (updateCluster (sampleClusterProviders sampleAdmin) { Name := "p" }
        (sampleCluster true)).2)
      = (.ok "privileged",
          [.userInfoGetter "", .privileged "ClusterProvider.UpdateUnsecured"]) ∧
    ((updateCluster (sampleClusterProviders sampleUser) { Name := "p" }
        (sampleCluster true)).1.map (fun c => c.Name),
      (updateCluster (sampleClusterProviders sampleUser) { Name := "p" }
        (sampleCluster true)).2)
      = (.ok "user@other.org",
          [.userInfoGetter "", .userInfoGetter "p", .regular "ClusterProvider.Update"]) ∧
    getSSHKey (sampleClusterProviders sampleUser) "other" "key"
      = (.error (.HTTPError 500 "no binding"),
          [.userInfoGetter "", .userInfoGetter "other"]) ∧
    getSSHKey (sampleClusterProviders sampleAdmin) "other" "key"
      = (.ok "privileged-key", [.userInfoGetter "", .privileged "SSHKeyProvider.GetUnsecured"]) := by
  refine ⟨?_, ?_, ?_, ?_⟩ <;> rfl

/-! ### Listing datacenters -/

/-- The stable sort by name gives a list in non-decreasing order of the names. -/
theorem dc.sortByName_sorted {P V : Type} (dcs : List (apiv1.Datacenter P V)) :
    List.Sorted (fun a b => a.Metadata.Name ≤ b.Metadata.Name) (dc.sortByName dcs) := by
  have htotal : IsTotal (apiv1.Datacenter P V) dc.nameLE :=
    ⟨fun a b => le_total a.Metadata.Name.data b.Metadata.Name.data⟩
  have htrans : IsTrans (apiv1.Datacenter P V) dc.nameLE :=
    ⟨fun a b c hab hbc => le_trans (α := List Char) hab hbc⟩
  have h := List.sorted_insertionSort dc.nameLE dcs
  refine List.Pairwise.imp ?_ h
  intro a b hab
  exact String.le_iff_toList_le.2 hab

/-- The stable sort by name permutes the list. -/
theorem dc.sortByName_perm {P V : Type} (dcs : List (apiv1.Datacenter P V)) :
    (dc.sortByName dcs).Perm dcs :=
  List.perm_insertionSort dc.nameLE dcs

/-- When the last part of a list endpoint succeeds, its result is sorted and permutes
the datacenters visible to the caller. -/
theorem dc.ListEndpoint.filterAndSort_ok {P V : Type} (env : dc.Access P V)
    (userInfo : UserInfo) (dcs out : List (apiv1.Datacenter P V))
    (h : dc.ListEndpoint.filterAndSort env userInfo dcs = .ok out) :
    dc.ListsSorted env userInfo dcs out := by
  have key : ∃ l, out = dc.sortByName l ∧ l = dc.visibleTo env userInfo dcs := by
    unfold dc.ListEndpoint.filterAndSort at h
    cases hadm : userInfo.IsAdmin with
    | true =>
      simp only [hadm, Bool.not_true, Bool.false_eq_true, if_false, Except.ok.injEq] at h
      exact ⟨dcs, h.symm, by simp [dc.visibleTo, hadm]⟩
    | false =>
      simp only [hadm, Bool.not_false, if_true] at h
      cases hf : dc.filterDCsByEmail env userInfo dcs with
      | error err => rw [hf] at h; cases h
      | ok allowed =>
        rw [hf] at h
        simp only [Except.ok.injEq] at h
        refine ⟨allowed, h.symm, ?_⟩
        rw [dc.filterDCsByEmail_ok env userInfo dcs allowed hf]
        simp [dc.visibleTo, hadm]
  obtain ⟨l, hout, hl⟩ := key
  subst hout
  subst hl
  refine ⟨dc.sortByName_sorted _, dc.sortByName_perm _, ?_⟩
  intro dcName
  exact List.Perm.countP_eq _ (dc.sortByName_perm _)

/-- The last part of a list endpoint succeeds when every requirement check does. -/
theorem dc.ListEndpoint.filterAndSort_total {P V : Type} (env : dc.Access P V)
    (userInfo : UserInfo) (dcs : List (apiv1.Datacenter P V))
    (h : ∀ d ∈ dcs, ∃ isMatch,
      env.MatchesRequirements userInfo.Email d.Spec.RequiredEmails = .ok isMatch) :
    dc.ListEndpoint.filterAndSort env userInfo dcs
      = .ok (dc.sortByName (dc.visibleTo env userInfo dcs)) := by
  unfold dc.ListEndpoint.filterAndSort
  cases hadm : userInfo.IsAdmin with
  | true => simp [dc.visibleTo, hadm]
  | false =>
    simp only [Bool.not_false, if_true]
    rw [dc.filterDCsByEmail_total env userInfo dcs h]
    simp [dc.visibleTo, hadm]

/-- The function `getAPIDCsFromSeed` returns the converted datacenters of the seed. -/
theorem dc.getAPIDCsFromSeed_eq_converted {P V : Type} (env : dc.Access P V)
    (seed : kubermaticv1.Seed P V) :
    dc.getAPIDCsFromSeed env seed = dc.convertedFromSeed env seed := by
  unfold dc.getAPIDCsFromSeed dc.convertedFromSeed
  congr 1
  funext entry
  unfold dc.convertInternalDCToExternal
  cases dc.ConvertInternalDCToExternalSpec env entry.2 seed.Name <;> rfl

/-- The function `getAPIDCsFromSeedMap` returns the converted datacenters of the seeds,
seed after seed. -/
theorem dc.getAPIDCsFromSeedMap_eq_converted {P V : Type} (env : dc.Access P V)
    (seeds : GoMap (kubermaticv1.Seed P V)) :
    dc.getAPIDCsFromSeedMap env seeds = dc.convertedFromSeeds env seeds := by
  unfold dc.getAPIDCsFromSeedMap dc.convertedFromSeeds
  congr 1
  funext seedEntry
  exact dc.getAPIDCsFromSeed_eq_converted env seedEntry.2

/-- C21 (as stated, refuted): `ListEndpointForSeed` for an admin and the seed `europe`
on the sample seeds `europe` and `asia`.  The datacenters converted from the seeds are
three, `hetzner-fsn1` and `restricted` of `europe` and `hetzner-sin1` of `asia`; the
endpoint returns the two of `europe`, which is no permutation of the three. -/
theorem c21_seed_variant_lists_one_seed_counterexample :
    (dc.convertedFromSeeds (sampleAccess sampleAdmin false) (sampleSeeds false)).map
        (fun d => (d.Metadata.Name, d.Spec.Seed))
      = [("hetzner-fsn1", "europe"), ("restricted", "europe"), ("hetzner-sin1", "asia")] ∧
    (dc.ListEndpointForSeed (sampleAccess sampleAdmin false) (some { Seed := "europe" })).map
        (fun l => l.map (fun d => (d.Metadata.Name, d.Spec.Seed)))
      = .ok [("hetzner-fsn1", "europe"), ("restricted", "europe")] ∧
    (dc.ListEndpoint (sampleAccess sampleAdmin false)).map
        (fun l => l.map (fun d => (d.Metadata.Name, d.Spec.Seed)))
      = .ok [("hetzner-fsn1", "europe"), ("hetzner-sin1", "asia"), ("restricted", "europe")] := by
  refine ⟨?_, ?_, ?_⟩ <;> decide

/-- C21 (amended): whenever the datacenter `ListEndpoint`, `ListEndpointForProvider` or
`ListEndpointForSeed` returns a list, the seeds and the unscoped identity were obtained,
the list is sorted in non-decreasing order of `Metadata.Name`, and it is a permutation of
the datacenters converted from the seeds, that is of the entries of the datacenter maps
of all the seeds that `convertInternalDCToExternal` converts (for the provider variant
those whose `Spec.Provider` is the requested provider, for the seed variant those of the
requested seed only), restricted for a caller who is no admin to those whose
`RequiredEmails` the email of the caller satisfies; in particular for every name the list
holds as many datacenters of that name as were converted.  The endpoints do return a list
when the seeds and the identity are obtained (and the seed exists) and every requirements
check succeeds.  This holds for every order in which the maps are ranged over. -/
theorem c21_datacenter_lists_sorted_permutation {P V : Type} (env : dc.Access P V)
    (providerReq : dc.forProviderDCListReq) (seedReq : dc.listDCForSeedReq) :
    (∀ out, dc.ListEndpoint env = .ok out →
      ∃ seeds userInfo, env.seedsGetter = .ok seeds ∧ env.userInfoGetter "" = .ok userInfo ∧
        dc.ListsSorted env userInfo (dc.convertedFromSeeds env seeds) out) ∧
    (∀ out, dc.ListEndpointForProvider env (some providerReq) = .ok out →
      ∃ seeds userInfo, env.seedsGetter = .ok seeds ∧ env.userInfoGetter "" = .ok userInfo ∧
        dc.ListsSorted env userInfo
          ((dc.convertedFromSeeds env seeds).filter
            (fun datacenter => datacenter.Spec.Provider == providerReq.Provider)) out) ∧
    (∀ out, dc.ListEndpointForSeed env (some seedReq) = .ok out →
      ∃ seeds userInfo seed, env.seedsGetter = .ok seeds ∧
        env.userInfoGetter "" = .ok userInfo ∧ GoMap.lookup seeds seedReq.Seed = some seed ∧
        dc.ListsSorted env userInfo (dc.convertedFromSeed env seed) out) ∧
    (∀ seeds userInfo, env.seedsGetter = .ok seeds → env.userInfoGetter "" = .ok userInfo →
      (∀ d ∈ dc.convertedFromSeeds env seeds, ∃ isMatch,
        env.MatchesRequirements userInfo.Email d.Spec.RequiredEmails = .ok isMatch) →
      (∃ out, dc.ListEndpoint env = .ok out) ∧
      (∃ out, dc.ListEndpointForProvider env (some providerReq) = .ok out) ∧
      (∀ seed, GoMap.lookup seeds seedReq.Seed = some seed →
        (∀ d ∈ dc.convertedFromSeed env seed, ∃ isMatch,
          env.MatchesRequirements userInfo.Email d.Spec.RequiredEmails = .ok isMatch) →
        ∃ out, dc.ListEndpointForSeed env (some seedReq) = .ok out)) := by
  simp only [← dc.getAPIDCsFromSeed_eq_converted, ← dc.getAPIDCsFromSeedMap_eq_converted]
  refine ⟨?_, ?_, ?_, ?_⟩
  · intro out h
    unfold dc.ListEndpoint at h
    cases hs : env.seedsGetter with
    | error err => rw [hs] at h; cases h
    | ok seeds =>
      cases hu : env.userInfoGetter "" with
      | error err => simp only [hs, hu] at h; cases h
      | ok userInfo =>
        simp only [hs, hu] at h
        exact ⟨seeds, userInfo, rfl, rfl, dc.ListEndpoint.filterAndSort_ok env userInfo _ out h⟩
  · intro out h
    unfold dc.ListEndpointForProvider at h
    cases hs : env.seedsGetter with
    | error err => simp only [hs] at h; cases h
    | ok seeds =>
      cases hu : env.userInfoGetter "" with
      | error err => simp only [hs, hu] at h; cases h
      | ok userInfo =>
        simp only [hs, hu] at h
        exact ⟨seeds, userInfo, rfl, rfl, dc.ListEndpoint.filterAndSort_ok env userInfo _ out h⟩
  · intro out h
    unfold dc.ListEndpointForSeed at h
    cases hs : env.seedsGetter with
    | error err => simp only [hs] at h; cases h
    | ok seeds =>
      cases hu : env.userInfoGetter "" with
      | error err => simp only [hs, hu] at h; cases h
      | ok userInfo =>
        cases hseed : GoMap.lookup seeds seedReq.Seed with
        | none => simp only [hs, hu, hseed] at h; cases h
        | some seed =>
          simp only [hs, hu, hseed] at h
          exact ⟨seeds, userInfo, seed, rfl, rfl, hseed,
            dc.ListEndpoint.filterAndSort_ok env userInfo _ out h⟩
  · intro seeds userInfo hs hu hall
    refine ⟨?_, ?_, ?_⟩
    · simp only [dc.ListEndpoint, hs, hu]
      exact ⟨_, dc.ListEndpoint.filterAndSort_total env userInfo _ hall⟩
    · simp only [dc.ListEndpointForProvider, hs, hu]
      refine ⟨_, dc.ListEndpoint.filterAndSort_total env userInfo _ ?_⟩
      intro d hd
      exact hall d (List.mem_filter.1 hd).1
    · intro seed hseed hallSeed
      simp only [dc.ListEndpointForSeed, hs, hu, hseed]
      exact ⟨_, dc.ListEndpoint.filterAndSort_total env userInfo _ hallSeed⟩

/-- The list endpoints on the sample seeds, in which two seeds define a datacenter of the
same name: an admin gets all three datacenters, sorted by name with both of the equal
names kept, and a caller with another email does not get the restricted one. -/
theorem dc.ListEndpoint_samples :
    (dc.ListEndpoint (sampleAccess sampleAdmin true)).map
        (fun l => l.map (fun d => (d.Metadata.Name, d.Spec.Seed)))
      = .ok [("hetzner-fsn1", "europe"), ("hetzner-fsn1", "asia"), ("restricted", "europe")] ∧
    (dc.ListEndpoint (sampleAccess sampleUser false)).map
        (fun l => l.map (fun d => (d.Metadata.Name, d.Spec.Seed)))
      = .ok [("hetzner-fsn1", "europe"), ("hetzner-sin1", "asia")] ∧
    (dc.ListEndpointForSeed (sampleAccess sampleAdmin false) (some { Seed := "europe" })).map
        (fun l => l.map (fun d => d.Metadata.Name))
      = .ok ["hetzner-fsn1", "restricted"] ∧
    (dc.ListEndpointForProvider (sampleAccess sampleAdmin false)
        (some { Provider := "baremetal" })).map (fun l => l.map (fun d => d.Metadata.Name))
      = .ok [] := by
  refine ⟨?_, ?_, ?_, ?_⟩ <;> decide

/-! ### Machine size filters -/

/-- With a maximum of 0 `FilterCPU` accepts the records from the minimum up to
`math.MaxInt32`. -/
theorem FilterCPU_zero_max (record minCPU : Int) :
    FilterCPU record minCPU 0 = true ↔ minCPU ≤ record ∧ record ≤ 2147483647 := by
  simp [FilterCPU, MaxInt32]

/-- With a maximum other than 0 `FilterCPU` accepts the records from the minimum up to
the maximum. -/
theorem FilterCPU_nonzero_max (record minCPU maxCPU : Int) (h : maxCPU ≠ 0) :
    FilterCPU record minCPU maxCPU = true ↔ minCPU ≤ record ∧ record ≤ maxCPU := by
  simp [FilterCPU, h]

/-- With a maximum of 0 `FilterMemory` accepts the records from the minimum up to
`math.MaxInt32`. -/
theorem FilterMemory_zero_max (record minMemory : Int) :
    FilterMemory record minMemory 0 = true ↔ minMemory ≤ record ∧ record ≤ 2147483647 := by
  simp [FilterMemory, MaxInt32]

/-- With a maximum other than 0 `FilterMemory` accepts the records from the minimum up
to the maximum. -/
theorem FilterMemory_nonzero_max (record minMemory maxMemory : Int) (h : maxMemory ≠ 0) :
    FilterMemory record minMemory maxMemory = true ↔
      minMemory ≤ record ∧ record ≤ maxMemory := by
  simp [FilterMemory, h]

/-- C22: `FilterCPU` and `FilterMemory` for the record 2147483648, a Go `int` of a 64-bit
platform, with minimum 0 and maximum 0, the maximum that the code comments as
`unlimited`: the record is not below the minimum, and both functions return false, since
they put `math.MaxInt32` in the place of the maximum 0; the record 2147483647 is still
accepted. -/
theorem c22_zero_maximum_caps_at_max_int32 :
    (0 : Int) ≤ 2147483648 ∧ (2147483648 : Int) ≤ MaxInt ∧
    FilterCPU 2147483648 0 0 = false ∧ FilterMemory 2147483648 0 0 = false ∧
    FilterCPU 2147483647 0 0 = true ∧ FilterMemory 2147483647 0 0 = true := by
  decide

/-- The ranges of `FilterCPU` and `FilterMemory`: with maximum 0 they return true exactly
when the record is at least the minimum and at most 2147483647; for a maximum other than
0 they return true exactly when the record lies between the minimum and the maximum, both
included. -/
theorem FilterCPU_FilterMemory_ranges (record minimum maximum : Int) :
    (FilterCPU record minimum 0 = true ↔ minimum ≤ record ∧ record ≤ 2147483647) ∧
    (FilterMemory record minimum 0 = true ↔ minimum ≤ record ∧ record ≤ 2147483647) ∧
    (maximum ≠ 0 →
      (FilterCPU record minimum maximum = true ↔ minimum ≤ record ∧ record ≤ maximum)) ∧
    (maximum ≠ 0 →
      (FilterMemory record minimum maximum = true ↔ minimum ≤ record ∧ record ≤ maximum)) :=
  ⟨FilterCPU_zero_max record minimum, FilterMemory_zero_max record minimum,
    FilterCPU_nonzero_max record minimum maximum,
    FilterMemory_nonzero_max record minimum maximum⟩

/-- The loop of `filterGCPByQuota` appends, in their order, the instances that pass both
filters. -/
theorem filterGCPByQuota.loop_eq (machineFilter : MachineFlavorFilter)
    (instances kept : List GCPMachineSize) :
    filterGCPByQuota.loop machineFilter instances (some kept) =
      some (kept ++ instances.filter (fun r =>
        FilterCPU r.VCPUs machineFilter.MinCPU machineFilter.MaxCPU &&
        FilterMemory (Int.tdiv r.Memory 1024) machineFilter.MinRAM machineFilter.MaxRAM)) := by
  induction instances generalizing kept with
  | nil => simp [filterGCPByQuota.loop]
  | cons r rest ih =>
    rw [filterGCPByQuota.loop]
    cases hc : FilterCPU r.VCPUs machineFilter.MinCPU machineFilter.MaxCPU <;>
      cases hm : FilterMemory (Int.tdiv r.Memory 1024) machineFilter.MinRAM
        machineFilter.MaxRAM <;>
      simp [hc, hm, GoSlice.append, ih, List.filter_cons]

/-- The result of `filterGCPByQuota` is never nil: it is the sub-list, in the original
order and with unmodified elements, of the machine sizes that pass `FilterCPU` on their
CPUs and `FilterMemory` on their memory divided by 1024. -/
theorem filterGCPByQuota_eq_filter (instances : List GCPMachineSize)
    (machineFilter : MachineFlavorFilter) :
    filterGCPByQuota instances machineFilter =
      some (instances.filter (fun r =>
        FilterCPU r.VCPUs machineFilter.MinCPU machineFilter.MaxCPU &&
        FilterMemory (Int.tdiv r.Memory 1024) machineFilter.MinRAM machineFilter.MaxRAM)) := by
  rw [filterGCPByQuota, filterGCPByQuota.loop_eq]
  rfl

/-- The function `filterGCPByQuota` with the zero-valued filter on a machine size of
2147483648 CPUs and 1024 MB of memory: the size is not kept, the result being the empty
list, which is not nil, since `FilterCPU` bounds the record by `math.MaxInt32`. -/
theorem filterGCPByQuota_zero_filter_cap_sample :
    (0 : Int) ≤ 2147483648 ∧ (0 : Int) ≤ 1024 ∧
    filterGCPByQuota [{ Name := "huge", Description := "", Memory := 1024, VCPUs := 2147483648 }]
      MachineFlavorFilter.zero = some [] := by
  decide

/-- With the zero-valued filter `filterGCPByQuota` keeps a size exactly when its CPUs
and its memory divided by 1024 lie between 0 and 2147483647. -/
theorem filterGCPByQuota_zero_filter_iff (instances : List GCPMachineSize) :
    ∃ kept, filterGCPByQuota instances MachineFlavorFilter.zero = some kept ∧
      List.Sublist kept instances ∧
      ∀ r, r ∈ kept ↔ r ∈ instances ∧ 0 ≤ r.VCPUs ∧ r.VCPUs ≤ 2147483647 ∧
        0 ≤ Int.tdiv r.Memory 1024 ∧ Int.tdiv r.Memory 1024 ≤ 2147483647 := by
  refine ⟨_, filterGCPByQuota_eq_filter instances MachineFlavorFilter.zero,
    List.filter_sublist _, ?_⟩
  intro r
  simp only [List.mem_filter, MachineFlavorFilter.zero, Bool.and_eq_true, FilterCPU_zero_max,
    FilterMemory_zero_max]
  tauto

/-- C25: `filterGCPByQuota` returns a list that is never nil, namely the sub-list, in the
original order and with unmodified elements, of the machine sizes `r` for which
`FilterCPU(r.VCPUs, MinCPU, MaxCPU)` and `FilterMemory(r.Memory / 1024, MinRAM, MaxRAM)`
both hold, the division being the integer division of Go; and with the zero-valued
filter every size with non-negative CPU and memory is kept, for the sizes that a machine
type can have: a CPU count and a memory in units of 1024 MB of at most 2147483647. -/
theorem c25_gcp_sizes_filtered_by_quota (instances : List GCPMachineSize)
    (machineFilter : MachineFlavorFilter) :
    filterGCPByQuota instances machineFilter =
      some (instances.filter (fun r =>
        FilterCPU r.VCPUs machineFilter.MinCPU machineFilter.MaxCPU &&
        FilterMemory (Int.tdiv r.Memory 1024) machineFilter.MinRAM machineFilter.MaxRAM)) ∧
    (∀ kept, filterGCPByQuota instances machineFilter = some kept →
      List.Sublist kept instances ∧
      ∀ r, r ∈ kept ↔ r ∈ instances ∧
        FilterCPU r.VCPUs machineFilter.MinCPU machineFilter.MaxCPU = true ∧
        FilterMemory (Int.tdiv r.Memory 1024) machineFilter.MinRAM machineFilter.MaxRAM
          = true) ∧
    filterGCPByQuota instances machineFilter ≠ none ∧
    (∃ kept, filterGCPByQuota instances MachineFlavorFilter.zero = some kept ∧
      ∀ r ∈ instances, 0 ≤ r.VCPUs → 0 ≤ r.Memory →
        r.VCPUs ≤ 2147483647 → Int.tdiv r.Memory 1024 ≤ 2147483647 → r ∈ kept) := by
  have heq := filterGCPByQuota_eq_filter instances machineFilter
  refine ⟨heq, ?_, ?_, ?_⟩
  · intro kept hkept
    rw [heq] at hkept
    simp only [Option.some.injEq] at hkept
    subst hkept
    refine ⟨List.filter_sublist _, ?_⟩
    intro r
    simp only [List.mem_filter, Bool.and_eq_true]
  · rw [heq]
    exact Option.some_ne_none _
  · obtain ⟨kept, hkept, _, hiff⟩ := filterGCPByQuota_zero_filter_iff instances
    refine ⟨kept, hkept, ?_⟩
    intro r hr hcpu hmem hcpuMax hmemMax
    exact (hiff r).2 ⟨hr, hcpu, hcpuMax, Int.tdiv_nonneg hmem (by decide), hmemMax⟩

/-- The quota filter on sample machine sizes: the size of 2147483647 CPUs passes the
zero-valued filter, so does a size of negative memory above -1024, whose quotient by
1024 is 0, and a filter of 2 to 4 CPUs and 3 to 8 GB keeps the one size inside both
ranges. -/
theorem filterGCPByQuota_samples :
    filterGCPByQuota [{ Name := "large", Description := "", Memory := 1024, VCPUs := 2147483647 }]
      MachineFlavorFilter.zero
      = some [{ Name := "large", Description := "", Memory := 1024, VCPUs := 2147483647 }] ∧
    filterGCPByQuota [{ Name := "odd", Description := "", Memory := -1023, VCPUs := 2 }]
      MachineFlavorFilter.zero
      = some [{ Name := "odd", Description := "", Memory := -1023, VCPUs := 2 }] ∧
    filterGCPByQuota
      [{ Name := "a", Description := "", Memory := 4096, VCPUs := 1 },
       { Name := "b", Description := "", Memory := 8192, VCPUs := 2 },
       { Name := "c", Description := "", Memory := 16384, VCPUs := 4 },
       { Name := "d", Description := "", Memory := 3071, VCPUs := 2 }]
      { MinCPU := 2, MaxCPU := 4, MinRAM := 3, MaxRAM := 8, EnableGPU := false }
      = some [{ Name := "b", Description := "", Memory := 8192, VCPUs := 2 }] := by
  refine ⟨?_, ?_, ?_⟩ <;> decide

/-! ### Renaming a datacenter -/

/-- A successful `UpdateEndpoint` call that renames a datacenter to a name that
`strings.EqualFold` tells apart from the old one: the seed passed to
`masterClient.Update` maps the new name to the converted spec, does not hold the old name
any more, and holds every other entry as before. -/
theorem dc.UpdateEndpoint_rename {P V : Type} (env : dc.Access P V) (req : dc.updateDCReq P V)
    (seeds : GoMap (kubermaticv1.Seed P V)) (seed : kubermaticv1.Seed P V)
    (datacenters : List (String × kubermaticv1.Datacenter P V))
    (current : kubermaticv1.Datacenter P V)
    (hvalid : dc.createDCReq.validate env req.createDCReq = .ok ())
    (huser : dc.validateUser env = .ok ())
    (hseeds : env.seedsGetter = .ok seeds)
    (hseed : GoMap.lookup seeds req.createDCReq.Body.Spec.Seed = some seed)
    (hmap : seed.Spec.Datacenters = some datacenters)
    (hold : GoMap.lookup (some datacenters) req.DCToUpdate = some current)
    (hne : req.DCToUpdate ≠ req.createDCReq.Body.Name)
    (hfold : env.EqualFold req.DCToUpdate req.createDCReq.Body.Name = false)
    (hfree : GoMap.lookup (some datacenters) req.createDCReq.Body.Name = none)
    (hupdate : ∀ s, env.masterClientUpdate s = .ok ()) :
    ∃ updated,
      dc.UpdateEndpoint env (some req) =
        (.ok { Metadata := { Name := req.createDCReq.Body.Name },
               Spec := req.createDCReq.Body.Spec },
          [.userInfoGetter "", .seedsGetter, .masterClientUpdate updated]) ∧
      updated.Name = seed.Name ∧ updated.Spec.Rest = seed.Spec.Rest ∧
      GoMap.lookup updated.Spec.Datacenters req.createDCReq.Body.Name
        = some (dc.convertExternalDCToInternal req.createDCReq.Body.Spec) ∧
      GoMap.lookup updated.Spec.Datacenters req.DCToUpdate = none ∧
      ∀ other, other ≠ req.DCToUpdate → other ≠ req.createDCReq.Body.Name →
        GoMap.lookup updated.Spec.Datacenters other = GoMap.lookup seed.Spec.Datacenters other := by
  refine ⟨seed.withDatacenters
    (GoMap.setEntry (datacenters.filter (fun kv => kv.1 != req.DCToUpdate))
      req.createDCReq.Body.Name (dc.convertExternalDCToInternal req.createDCReq.Body.Spec)),
    ?_, rfl, rfl, ?_, ?_, ?_⟩
  · simp only [dc.UpdateEndpoint, hvalid, huser, hseeds, hseed, hmap, hold, hfold, hfree,
      Bool.not_false, if_true, hupdate]
  · exact GoMap.lookup_setEntry_self _ _ _
  · show GoMap.lookup (some (GoMap.setEntry _ _ _)) _ = none
    rw [GoMap.lookup_setEntry_of_ne _ _ _ _ hne]
    exact GoMap.lookup_delete_self (some datacenters) req.DCToUpdate
  · intro other h1 h2
    show GoMap.lookup (some (GoMap.setEntry _ _ _)) _ = _
    rw [GoMap.lookup_setEntry_of_ne _ _ _ _ h2, hmap]
    exact GoMap.lookup_delete_of_ne (some datacenters) req.DCToUpdate other h1

/-- C23: the datacenter `UpdateEndpoint` and `PatchEndpoint` for an admin on the seed
`europe` with the datacenters `hetzner-fsn1` and `restricted`, renaming `hetzner-fsn1` to
`Hetzner-FSN1`, a name that differs in letter case only.  Both calls succeed and return
the datacenter under its new name.  The seed that the update passes to
`masterClient.Update` holds the new name and still holds the old name `hetzner-fsn1`; the
seed that the patch passes holds the old name and not the new one.  Renaming to
`hetzner-nbg1` removes the old name. -/
theorem c23_case_only_rename_keeps_old_datacenter :
    ((dc.UpdateEndpoint (sampleAccess sampleAdmin false)
        (some { createDCReq := { Seed := "europe",
                                 Body := { Name := "Hetzner-FSN1", Spec := sampleDCSpec } },
                DCToUpdate := "hetzner-fsn1" })).1.map (fun d => d.Metadata.Name),
      (dc.UpdateEndpoint (sampleAccess sampleAdmin false)
        (some { createDCReq := { Seed := "europe",
                                 Body := { Name := "Hetzner-FSN1", Spec := sampleDCSpec } },
                DCToUpdate := "hetzner-fsn1" })).2.map (fun call => call.updatedNames))
      = (.ok "Hetzner-FSN1", [[], [], ["hetzner-fsn1", "restricted", "Hetzner-FSN1"]]) ∧
    ((dc.PatchEndpoint
        (samplePatchAccess (sampleSeeds false)
          { Metadata := { Name := "Hetzner-FSN1" }, Spec := sampleDCSpec })
        (some { Patch := "\x7b\"metadata\":\x7b\"name\":\"Hetzner-FSN1\"\x7d\x7d",
                DCToPatch := "hetzner-fsn1", Seed := "europe" })).1.map
          (fun d => d.Metadata.Name),
      (dc.PatchEndpoint
        (samplePatchAccess (sampleSeeds false)
          { Metadata := { Name := "Hetzner-FSN1" }, Spec := sampleDCSpec })
        (some { Patch := "\x7b\"metadata\":\x7b\"name\":\"Hetzner-FSN1\"\x7d\x7d",
                DCToPatch := "hetzner-fsn1", Seed := "europe" })).2.map
          (fun call => call.updatedNames))
      = (.ok "Hetzner-FSN1", [[], [], ["restricted", "hetzner-fsn1"]]) ∧
    (dc.UpdateEndpoint (sampleAccess sampleAdmin false)
        (some { createDCReq := { Seed := "europe",
                                 Body := { Name := "hetzner-nbg1", Spec := sampleDCSpec } },
                DCToUpdate := "hetzner-fsn1" })).2.map (fun call => call.updatedNames)
      = [[], [], ["restricted", "hetzner-nbg1"]] := by
  refine ⟨?_, ?_, ?_⟩ <;> rfl

/-! ### Converting a datacenter to the external spec and back -/

/-- Converting an internal datacenter to the external spec and back keeps country,
location and every provider section but Baremetal, which comes back nil together with
the KubeLB settings and the default operating system profiles, while `DisableCSIDriver`
comes back false and the node settings come back as a pointer that is not nil. -/
theorem dc.convert_external_and_back {P V : Type} (env : dc.Access P V)
    (datacenter : kubermaticv1.Datacenter P V) (seedName : String)
    (spec : apiv1.DatacenterSpec P V)
    (h : dc.ConvertInternalDCToExternalSpec env datacenter seedName = .ok spec) :
    (dc.convertExternalDCToInternal spec).Country = datacenter.Country ∧
    (dc.convertExternalDCToInternal spec).Location = datacenter.Location ∧
    (dc.convertExternalDCToInternal spec).Spec =
      { datacenter.Spec with
        Baremetal := none, ProviderReconciliationInterval := none,
        DefaultOperatingSystemProfiles := none, DisableCSIDriver := false, KubeLB := none } ∧
    spec.Baremetal = datacenter.Spec.Baremetal ∧
    (dc.convertExternalDCToInternal spec).Node = some (datacenter.Node.getD
      kubermaticv1.NodeSettings.zero) := by
  unfold dc.ConvertInternalDCToExternalSpec at h
  cases hp : env.DatacenterCloudProviderName datacenter.Spec with
  | error err => rw [hp] at h; cases h
  | ok p =>
    rw [hp] at h
    simp only [Except.ok.injEq] at h
    subst h
    refine ⟨rfl, rfl, rfl, rfl, ?_⟩
    cases datacenter.Node <;> rfl

/-- The datacenter that `convertExternalDCToInternal` returns never has a Baremetal
section. -/
theorem dc.convertExternalDCToInternal_baremetal {P V : Type} (spec : apiv1.DatacenterSpec P V) :
    (dc.convertExternalDCToInternal spec).Spec.Baremetal = none := rfl

/-- C24: the internal datacenter `metal-1`, whose only provider section is Baremetal.
Its external spec has the Baremetal section and passes `validateProvider` with provider
`baremetal`, but `convertExternalDCToInternal` gives back a datacenter without any
provider section.  So `PatchEndpoint` with the empty merge patch fails with status 500
when `DatacenterCloudProviderName` rejects a spec without provider, and when that helper
accepts such a spec with the empty name, the call stores under `metal-1` a datacenter
without provider section and returns the provider name empty. -/
theorem c24_baremetal_section_lost_on_conversion_back :
    dc.convertInternalDCToExternal (sampleAccess sampleAdmin false)
      (sampleInternalDC false true none) "metal-1" "europe" = .ok sampleBaremetalAPIDC ∧
    dc.GetProviderName sampleBaremetalAPIDC.Spec = ("baremetal", none) ∧
    dc.convertExternalDCToInternal sampleBaremetalAPIDC.Spec
      = { sampleInternalDC false false none with
          Node := some kubermaticv1.NodeSettings.zero } ∧
    dc.PatchEndpoint (samplePatchAccess sampleBaremetalSeeds sampleBaremetalAPIDC)
        (some { Patch := "\x7b\x7d", DCToPatch := "metal-1", Seed := "europe" })
      = (.error (.HTTPError 500
          ("failed extracting provider name from dc: " ++
            "only one cloud provider can be set in DatacenterSpec")),
          [.userInfoGetter "", .seedsGetter]) ∧
    dc.PatchEndpoint
        { samplePatchAccess sampleBaremetalSeeds sampleBaremetalAPIDC with
          DatacenterCloudProviderName := sampleLenientProviderName }
        (some { Patch := "\x7b\x7d", DCToPatch := "metal-1", Seed := "europe" })
      = (.ok { sampleBaremetalAPIDC with
               Spec := { sampleBaremetalAPIDC.Spec with Provider := "" } },
          [.userInfoGetter "", .seedsGetter,
           .masterClientUpdate
            { Name := "europe",
              Spec := { Datacenters :=
                          some [("metal-1",
                            { sampleInternalDC false false none with
                              Node := some kubermaticv1.NodeSettings.zero })],
                        Rest := () } }]) := by
  refine ⟨?_, ?_, ?_, ?_, ?_⟩ <;> rfl

/-- The same conversion for the sample Hetzner datacenter: the patch endpoint with the
empty merge patch stores a datacenter with the Hetzner section. -/
theorem dc.PatchEndpoint_empty_patch_sample :
    (dc.PatchEndpoint
        (samplePatchAccess (sampleSeeds false)
          { Metadata := { Name := "hetzner-fsn1" },
            Spec := { sampleDCSpec with Location := "Falkenstein", Provider := "hetzner" } })
        (some { Patch := "\x7b\x7d", DCToPatch := "hetzner-fsn1", Seed := "europe" })).2
      = [.userInfoGetter "", .seedsGetter,
           .masterClientUpdate
            { Name := "europe",
              Spec := { Datacenters :=
                          some [("restricted", sampleInternalDC true false (some ["example.com"])),
                                ("hetzner-fsn1",
                                  { sampleInternalDC true false none with
                                    Node := some kubermaticv1.NodeSettings.zero })],
                        Rest := () } }] := by
  rfl

/-! ### Deleting a cluster -/

/-- Calls of an `AddFinalizer` that keeps the finalizers of a cluster keep them. -/
theorem foldl_AddFinalizer_keeps {C V : Type}
    (AddFinalizer : kubermaticv1.Cluster C V → String → kubermaticv1.Cluster C V)
    (hkeeps : ∀ c added kept, kept ∈ c.Finalizers → kept ∈ (AddFinalizer c added).Finalizers)
    (added : List String) (cluster : kubermaticv1.Cluster C V) (kept : String)
    (hkept : kept ∈ cluster.Finalizers) :
    kept ∈ (added.foldl AddFinalizer cluster).Finalizers := by
  induction added generalizing cluster with
  | nil => exact hkept
  | cons f rest ih =>
    rw [List.foldl_cons]
    exact ih _ (hkeeps cluster f kept hkept)

/-- C26: in the finalizer step of the cluster `DeleteEndpoint`, `AddFinalizer` is called
with the in-cluster load-balancer cleanup finalizer exactly when the cluster has the
`NodeDeletionFinalizer` and `deleteLoadBalancers` is true, with the in-cluster volume
cleanup finalizer exactly when the cluster has the `NodeDeletionFinalizer` and
`deleteVolumes` is true, and with no other finalizer; the cluster that is then updated and
deleted is the existing cluster after these calls.  For a cluster without the
`NodeDeletionFinalizer` the cluster is left as it is whatever the flags.  Nothing but
`AddFinalizer` touches the finalizers, so when `AddFinalizer` keeps the finalizers that a
cluster has, every finalizer of the existing cluster is still there. -/
theorem c26_cleanup_finalizers_added_when_cluster_was_up {C V : Type}
    (env : ClusterDeletion C V) (deleteVolumes deleteLoadBalancers : Bool)
    (existingCluster : kubermaticv1.Cluster C V) :
    (kubermaticv1.InClusterLBCleanupFinalizer ∈
        (DeleteEndpoint.addCleanupFinalizers env deleteVolumes deleteLoadBalancers
          existingCluster).2 ↔
      env.HasFinalizer existingCluster kubermaticv1.NodeDeletionFinalizer = true ∧
        deleteLoadBalancers = true) ∧
    (kubermaticv1.InClusterPVCleanupFinalizer ∈
        (DeleteEndpoint.addCleanupFinalizers env deleteVolumes deleteLoadBalancers
          existingCluster).2 ↔
      env.HasFinalizer existingCluster kubermaticv1.NodeDeletionFinalizer = true ∧
        deleteVolumes = true) ∧
    (∀ finalizer ∈ (DeleteEndpoint.addCleanupFinalizers env deleteVolumes deleteLoadBalancers
        existingCluster).2,
      finalizer = kubermaticv1.InClusterLBCleanupFinalizer ∨
      finalizer = kubermaticv1.InClusterPVCleanupFinalizer) ∧
    (DeleteEndpoint.addCleanupFinalizers env deleteVolumes deleteLoadBalancers
        existingCluster).1 =
      (DeleteEndpoint.addCleanupFinalizers env deleteVolumes deleteLoadBalancers
        existingCluster).2.foldl env.AddFinalizer existingCluster ∧
    (env.HasFinalizer existingCluster kubermaticv1.NodeDeletionFinalizer = false →
      DeleteEndpoint.addCleanupFinalizers env deleteVolumes deleteLoadBalancers existingCluster
        = (existingCluster, [])) ∧
    ((∀ c added kept, kept ∈ c.Finalizers → kept ∈ (env.AddFinalizer c added).Finalizers) →
      ∀ kept ∈ existingCluster.Finalizers,
        kept ∈ (DeleteEndpoint.addCleanupFinalizers env deleteVolumes deleteLoadBalancers
          existingCluster).1.Finalizers) ∧
    (∀ projectID clusterID project, env.GetProject projectID = .ok project →
      env.GetInternalCluster project projectID clusterID = .ok existingCluster →
      DeleteEndpoint env projectID clusterID deleteVolumes deleteLoadBalancers =
        updateAndDeleteCluster env project
          ((DeleteEndpoint.addCleanupFinalizers env deleteVolumes deleteLoadBalancers
            existingCluster).2.foldl env.AddFinalizer existingCluster)) := by
  have hne : kubermaticv1.InClusterLBCleanupFinalizer ≠ kubermaticv1.InClusterPVCleanupFinalizer := by
    decide
  have hfold : (DeleteEndpoint.addCleanupFinalizers env deleteVolumes deleteLoadBalancers
        existingCluster).1 =
      (DeleteEndpoint.addCleanupFinalizers env deleteVolumes deleteLoadBalancers
        existingCluster).2.foldl env.AddFinalizer existingCluster := by
    cases hup : env.HasFinalizer existingCluster kubermaticv1.NodeDeletionFinalizer <;>
      cases deleteVolumes <;> cases deleteLoadBalancers <;>
      simp [DeleteEndpoint.addCleanupFinalizers, hup]
  refine ⟨?_, ?_, ?_, hfold, ?_, ?_, ?_⟩
  · cases hup : env.HasFinalizer existingCluster kubermaticv1.NodeDeletionFinalizer <;>
      cases deleteVolumes <;> cases deleteLoadBalancers <;>
      simp [DeleteEndpoint.addCleanupFinalizers, hup, hne]
  · cases hup : env.HasFinalizer existingCluster kubermaticv1.NodeDeletionFinalizer <;>
      cases deleteVolumes <;> cases deleteLoadBalancers <;>
      simp [DeleteEndpoint.addCleanupFinalizers, hup, hne.symm]
  · cases hup : env.HasFinalizer existingCluster kubermaticv1.NodeDeletionFinalizer <;>
      cases deleteVolumes <;> cases deleteLoadBalancers <;>
      simp [DeleteEndpoint.addCleanupFinalizers, hup]
  · intro hup
    simp [DeleteEndpoint.addCleanupFinalizers, hup]
  · intro hkeeps kept hkept
    rw [hfold]
    exact foldl_AddFinalizer_keeps env.AddFinalizer hkeeps _ existingCluster kept hkept
  · intro projectID clusterID project hproject hcluster
    simp only [DeleteEndpoint, hproject, hcluster, hfold]

/-- The cluster `DeleteEndpoint` on sample clusters: for a cluster that was up and both
flags, both cleanup finalizers follow the finalizers it has; for a cluster that was never
up nothing is added. -/
theorem DeleteEndpoint_samples :
    (DeleteEndpoint
        (sampleDeletion { sampleCluster true with
          Finalizers := ["kubermatic.k8c.io/delete-nodes", "custom"] })
        "p" "c1" true true).2.map
          (fun call => match call with
            | .update _ c => c.Finalizers
            | .delete _ c => c.Finalizers)
      = [["kubermatic.k8c.io/delete-nodes", "custom", "kubermatic.k8c.io/cleanup-in-cluster-lb",
           "kubermatic.k8c.io/cleanup-in-cluster-pv"],
         ["kubermatic.k8c.io/delete-nodes", "custom", "kubermatic.k8c.io/cleanup-in-cluster-lb",
           "kubermatic.k8c.io/cleanup-in-cluster-pv"]] ∧
    (DeleteEndpoint
        (sampleDeletion { sampleCluster true with
          Finalizers := ["kubermatic.k8c.io/delete-nodes", "custom"] })
        "p" "c1" true false).2.map
          (fun call => match call with
            | .update _ c => c.Finalizers
            | .delete _ c => c.Finalizers)
      = [["kubermatic.k8c.io/delete-nodes", "custom", "kubermatic.k8c.io/cleanup-in-cluster-pv"],
         ["kubermatic.k8c.io/delete-nodes", "custom",
           "kubermatic.k8c.io/cleanup-in-cluster-pv"]] ∧
    (DeleteEndpoint (sampleDeletion { sampleCluster true with Finalizers := ["custom"] })
        "p" "c1" true true).2.map
          (fun call => match call with
            | .update _ c => c.Finalizers
            | .delete _ c => c.Finalizers)
      = [["custom"], ["custom"]] := by
  refine ⟨?_, ?_, ?_⟩ <;> decide

/-! ### The whitelist copy and a nil cluster network -/

/-- The whitelist copy of `PatchEndpoint` dereferences the `ClusterNetwork` pointer of the
patched cluster: when it is nil the copy is not defined, whatever the old cluster. -/
theorem PatchEndpoint.copyWhitelist_nil_network {C V : Type}
    (oldInternalCluster : kubermaticv1.Cluster C V) (patchedCluster : apiv1.Cluster C V)
    (h : patchedCluster.Spec.ClusterNetwork = none) :
    PatchEndpoint.copyWhitelist oldInternalCluster (some patchedCluster) = none := by
  simp [PatchEndpoint.copyWhitelist, h]

/-- The whitelist copy of `PatchEndpoint` is defined exactly when the patched cluster
and its `ClusterNetwork` pointer are not nil. -/
theorem PatchEndpoint.copyWhitelist_defined_iff {C V : Type}
    (oldInternalCluster : kubermaticv1.Cluster C V)
    (patchedCluster : Option (apiv1.Cluster C V)) :
    (PatchEndpoint.copyWhitelist oldInternalCluster patchedCluster).isSome = true ↔
      ∃ patched network, patchedCluster = some patched ∧
        patched.Spec.ClusterNetwork = some network := by
  cases patchedCluster with
  | none => simp [PatchEndpoint.copyWhitelist]
  | some patched =>
    cases hn : patched.Spec.ClusterNetwork with
    | none => simp [PatchEndpoint.copyWhitelist, hn]
    | some network => simp [PatchEndpoint.copyWhitelist, hn]

/-- C27: the whitelist copy of the cluster `PatchEndpoint` for the sample cluster and the
merge patch that sets `spec.clusterNetwork` to null.  The external cluster that is
patched has a `ClusterNetwork` pointer that is not nil; in the patched cluster, which is
the external cluster without its cluster network, the pointer is nil, and the copy reads
`patchedCluster.Spec.ClusterNetwork.KonnectivityEnabled` through it: the copy is a nil
dereference, where the unpatched cluster is copied without one. -/
theorem c27_null_cluster_network_is_dereferenced :
    (ConvertInternalClusterToExternal (sampleCollaborators false false) (sampleCluster true) ()
      false ([] : List Unit)).Spec.ClusterNetwork
      = some (sampleCluster true).Spec.ClusterNetwork ∧
    PatchEndpoint.copyWhitelist (sampleCluster true)
      (some
        { ConvertInternalClusterToExternal (sampleCollaborators false false)
            (sampleCluster true) () false ([] : List Unit) with
          Spec :=
            { (ConvertInternalClusterToExternal (sampleCollaborators false false)
                (sampleCluster true) () false ([] : List Unit)).Spec with
              ClusterNetwork := none } }) = none ∧
    (PatchEndpoint.copyWhitelist (sampleCluster true)
      (some (ConvertInternalClusterToExternal (sampleCollaborators false false)
        (sampleCluster true) () false ([] : List Unit)))).map
        (fun c => c.Spec.ClusterNetwork)
      = some (sampleCluster true).Spec.ClusterNetwork := by
  refine ⟨?_, ?_, ?_⟩ <;> decide

/-! ### Replica counts of machine deployments without replicas -/

/-- One iteration of the loop of `SetDefaultSubnet` for a machine deployment whose
`Replicas` is nil: it adds the replica count of the iteration before, which the variable
`replicas` still holds. -/
theorem SetDefaultSubnet.step_nil_replicas {M : Type}
    (GetAPIV2NodeCloudSpec : M → Except GoError NodeCloudSpec) (st : SubnetLoop)
    (machineSpec : M) (aws : AWSNodeSpec)
    (h : GetAPIV2NodeCloudSpec machineSpec = .ok { AWS := some aws }) :
    SetDefaultSubnet.step GetAPIV2NodeCloudSpec st ⟨machineSpec, none⟩ =
      .ok { machinesForAZ := st.machinesForAZ.set aws.AvailabilityZone
              (wrapInt32 (st.machinesForAZ.get aws.AvailabilityZone + st.replicas))
            machineCounter := wrapInt32 (st.machineCounter + st.replicas)
            replicas := st.replicas } := by
  simp [SetDefaultSubnet.step, h]

/-- C28: `SetDefaultSubnet` for the subnets of the zones `a` and `b` and two machine
deployments, one in zone `a` with 2 replicas followed by one in zone `b` whose `Replicas`
is nil.  The loop counts 2 machines for zone `b` and 4 in all, the second deployment
contributing the 2 replicas of the first, so no zone is without machines and the subnet
of zone `a` becomes the default, where with 0 machines for the second deployment it
would be the subnet of zone `b`; with the same two deployments in the other order the
deployment without replicas contributes 0 and the subnet of zone `b` is the default. -/
theorem c28_nil_replicas_take_previous_count :
    (SetDefaultSubnet.loop sampleNodeCloudSpec ⟨[("b", 0), ("a", 0)], 0, 0⟩
        [⟨"a", some 2⟩, ⟨"b", none⟩]).map
        (fun st => (st.machinesForAZ.get "a", st.machinesForAZ.get "b", st.machineCounter))
      = .ok (2, 2, 4) ∧
    SetDefaultSubnet sampleNodeCloudSpec (some [⟨"a", some 2⟩, ⟨"b", none⟩])
        [sampleSubnet "a" false, sampleSubnet "b" false]
      = .ok [sampleSubnet "a" true, sampleSubnet "b" false] ∧
    (SetDefaultSubnet.loop sampleNodeCloudSpec ⟨[("b", 0), ("a", 0)], 0, 0⟩
        [⟨"b", none⟩, ⟨"a", some 2⟩]).map
        (fun st => (st.machinesForAZ.get "a", st.machinesForAZ.get "b", st.machineCounter))
      = .ok (2, 0, 2) ∧
    SetDefaultSubnet sampleNodeCloudSpec (some [⟨"b", none⟩, ⟨"a", some 2⟩])
        [sampleSubnet "a" false, sampleSubnet "b" false]
      = .ok [sampleSubnet "a" false, sampleSubnet "b" true] := by
  refine ⟨?_, ?_, ?_, ?_⟩ <;> decide

/-! ### The provider of a datacenter spec -/

/-- A section that is set contributes its provider type, a nil section nothing. -/
theorem dc.providerSection_single (providerType : String) (isSet : Bool) :
    List.map (fun providerSection : String × Bool => providerSection.1)
      (List.filter (fun providerSection => providerSection.2) [(providerType, isSet)])
      = if isSet = true then [providerType] else [] := by
  cases isSet <;> rfl

/-- The provider names that `GetProviderName` collects are the provider types of the
sections that are set, in the order of the sections. -/
theorem dc.GetProviderName.providerNames_eq {P V : Type} (dcSpec : apiv1.DatacenterSpec P V) :
    dc.GetProviderName.providerNames dcSpec =
      ((dc.providerSections dcSpec).filter (fun providerSection => providerSection.2)).map
        (fun providerSection => providerSection.1) := by
  have happend : dc.providerSections dcSpec =
      [(kubermaticv1.AlibabaCloudProvider, dcSpec.Alibaba.isSome)] ++
      [(kubermaticv1.BringYourOwnCloudProvider, dcSpec.BringYourOwn.isSome)] ++
      [(kubermaticv1.DigitaloceanCloudProvider, dcSpec.Digitalocean.isSome)] ++
      [(kubermaticv1.AWSCloudProvider, dcSpec.AWS.isSome)] ++
      [(kubermaticv1.OpenstackCloudProvider, dcSpec.Openstack.isSome)] ++
      [(kubermaticv1.PacketCloudProvider, dcSpec.Packet.isSome)] ++
      [(kubermaticv1.HetznerCloudProvider, dcSpec.Hetzner.isSome)] ++
      [(kubermaticv1.VSphereCloudProvider, dcSpec.VSphere.isSome)] ++
      [(kubermaticv1.BaremetalCloudProvider, dcSpec.Baremetal.isSome)] ++
      [(kubermaticv1.AzureCloudProvider, dcSpec.Azure.isSome)] ++
      [(kubermaticv1.EdgeCloudProvider, dcSpec.Edge.isSome)] ++
      [(kubermaticv1.GCPCloudProvider, dcSpec.GCP.isSome)] ++
      [(kubermaticv1.KubevirtCloudProvider, dcSpec.Kubevirt.isSome)] ++
      [(kubermaticv1.AnexiaCloudProvider, dcSpec.Anexia.isSome)] ++
      [(kubermaticv1.NutanixCloudProvider, dcSpec.Nutanix.isSome)] ++
      [(kubermaticv1.VMwareCloudDirectorCloudProvider, dcSpec.VMwareCloudDirector.isSome)] ++
      [(kubermaticv1.FakeCloudProvider, dcSpec.Fake.isSome)] := by
    simp only [dc.providerSections, List.cons_append, List.nil_append]
  rw [happend]
  simp only [List.filter_append, List.map_append, dc.providerSection_single,
    dc.GetProviderName.providerNames]

/-- The two outcomes of `GetProviderName`, by the provider names it collects. -/
theorem dc.GetProviderName_cases {P V : Type} (dcSpec : apiv1.DatacenterSpec P V) :
    (∃ providerName, dc.GetProviderName.providerNames dcSpec = [providerName] ∧
      dc.GetProviderName dcSpec = (providerName, none)) ∨
    ((dc.GetProviderName.providerNames dcSpec).length ≠ 1 ∧
      dc.GetProviderName dcSpec = ("", some (.errorString
        ("only one DC provider should be specified, got: " ++
          formatProviderNames (dc.GetProviderName.providerNames dcSpec))))) := by
  unfold dc.GetProviderName
  cases h : dc.GetProviderName.providerNames dcSpec with
  | nil => right; exact ⟨by simp, rfl⟩
  | cons first rest =>
    cases rest with
    | nil => left; exact ⟨first, rfl, rfl⟩
    | cons second others => right; exact ⟨by simp, rfl⟩

/-- C29: `GetProviderName` returns a nil error exactly when exactly one of the provider
sections of the spec (Alibaba, BringYourOwn, Digitalocean, AWS, Openstack, Packet,
Hetzner, VSphere, Baremetal, Azure, Edge, GCP, Kubevirt, Anexia, Nutanix,
VMwareCloudDirector, Fake) is set, and the provider type it returns is then the one of
the section that is set; when no section or more than one is set it returns the empty
type together with an error; and `validateProvider` fails in exactly those cases. -/
theorem c29_provider_name_iff_exactly_one_section {P V : Type}
    (dcSpec : apiv1.DatacenterSpec P V) :
    ((dc.GetProviderName dcSpec).2 = none ↔ dc.setSectionCount dcSpec = 1) ∧
    (∀ providerType, dc.setSectionCount dcSpec = 1 →
      (providerType, true) ∈ dc.providerSections dcSpec →
      dc.GetProviderName dcSpec = (providerType, none)) ∧
    (dc.setSectionCount dcSpec ≠ 1 →
      (dc.GetProviderName dcSpec).1 = "" ∧ ∃ err, (dc.GetProviderName dcSpec).2 = some err) ∧
    (dc.validateProvider dcSpec = .ok () ↔ dc.setSectionCount dcSpec = 1) ∧
    ((∃ err, dc.validateProvider dcSpec = .error err) ↔ dc.setSectionCount dcSpec ≠ 1) := by
  have hlen : (dc.GetProviderName.providerNames dcSpec).length = dc.setSectionCount dcSpec := by
    rw [dc.GetProviderName.providerNames_eq, List.length_map]
    rfl
  have hiff : (dc.GetProviderName dcSpec).2 = none ↔ dc.setSectionCount dcSpec = 1 := by
    rcases dc.GetProviderName_cases dcSpec with ⟨n, hn, hr⟩ | ⟨hne, hr⟩
    · rw [hr, ← hlen, hn]; simp
    · rw [hr, ← hlen]; simp [hne]
  refine ⟨hiff, ?_, ?_, ?_, ?_⟩
  · intro providerType hone hmem
    rcases dc.GetProviderName_cases dcSpec with ⟨n, hn, hr⟩ | ⟨hne, _⟩
    · rw [hr]
      have hin : providerType ∈ dc.GetProviderName.providerNames dcSpec := by
        rw [dc.GetProviderName.providerNames_eq, List.mem_map]
        exact ⟨(providerType, true), List.mem_filter.2 ⟨hmem, rfl⟩, rfl⟩
      rw [hn, List.mem_singleton] at hin
      rw [hin]
    · exact absurd (hlen.trans hone) hne
  · intro hne
    rcases dc.GetProviderName_cases dcSpec with ⟨n, hn, _⟩ | ⟨_, hr⟩
    · exfalso
      apply hne
      rw [← hlen, hn]
      rfl
    · rw [hr]
      exact ⟨rfl, _, rfl⟩
  · unfold dc.validateProvider
    rw [← hiff]
    cases (dc.GetProviderName dcSpec).2 <;> simp
  · unfold dc.validateProvider
    rw [ne_eq, ← hiff]
    cases (dc.GetProviderName dcSpec).2 <;> simp

/-- The provider of sample specs: one with the Hetzner section, one with the Baremetal
section, one without section and one with two sections. -/
theorem dc.GetProviderName_samples :
    dc.GetProviderName sampleDCSpec = ("hetzner", none) ∧
    dc.GetProviderName sampleBaremetalAPIDC.Spec = ("baremetal", none) ∧
    dc.GetProviderName { sampleDCSpec with Hetzner := none }
      = ("", some (.errorString "only one DC provider should be specified, got: []")) ∧
    dc.GetProviderName { sampleDCSpec with AWS := some () }
      = ("", some (.errorString
          "only one DC provider should be specified, got: [aws hetzner]")) := by
  refine ⟨?_, ?_, ?_, ?_⟩ <;> decide

/-! ### The ensure label of an addon -/

/-- When `convertInternalAddonToExternal` succeeds, it reports `ContinuouslyReconcile`
exactly for an addon whose ensure label has the value `true`. -/
theorem convertInternalAddonToExternal_reconcile {T W : Type}
    (Unmarshal : List Nat → Except GoError (Option W)) (internalAddon : kubermaticv1.Addon T)
    (result : apiv1.Addon T W)
    (h : convertInternalAddonToExternal Unmarshal internalAddon = .ok result) :
    result.Spec.ContinuouslyReconcile =
      decide (GoMap.lookup internalAddon.Labels addonEnsureLabelKey = some "true") := by
  obtain ⟨name, labels, created, deleted, ⟨vars, isDefault⟩⟩ := internalAddon
  have hlabel : (GoMap.index "" labels addonEnsureLabelKey == trueFlag) =
      decide (GoMap.lookup labels addonEnsureLabelKey = some "true") := by
    cases labels with
    | none => simp [GoMap.index, GoMap.lookup, trueFlag]
    | some kvs =>
      cases hfind : kvs.find? (fun kv => kv.1 == addonEnsureLabelKey) with
      | none => simp [GoMap.index, GoMap.lookup, trueFlag, hfind]
      | some kv =>
        by_cases hvalue : kv.2 = "true" <;>
          simp [GoMap.index, GoMap.lookup, trueFlag, hfind, hvalue]
  have key : ∀ base : apiv1.Addon T W, base.Spec.ContinuouslyReconcile = false →
      (match labels with
        | none => (Except.ok base : Except GoError (apiv1.Addon T W))
        | some _ =>
          if GoMap.index "" labels addonEnsureLabelKey == trueFlag then
            Except.ok { base with Spec := { base.Spec with ContinuouslyReconcile := true } }
          else Except.ok base) = .ok result →
      result.Spec.ContinuouslyReconcile =
        decide (GoMap.lookup labels addonEnsureLabelKey = some "true") := by
    intro base hbase hres
    cases labels with
    | none =>
      simp only [Except.ok.injEq] at hres
      rw [← hres, hbase]
      simp [GoMap.lookup]
    | some kvs =>
      rw [← hlabel]
      cases hidx : (GoMap.index "" (some kvs) addonEnsureLabelKey == trueFlag) with
      | true =>
        simp only [hidx, if_true, Except.ok.injEq] at hres
        rw [← hres]
      | false =>
        simp only [hidx, Bool.false_eq_true, if_false, Except.ok.injEq] at hres
        rw [← hres, hbase]
  unfold convertInternalAddonToExternal at h
  cases vars with
  | none => exact key _ rfl h
  | some raw =>
    by_cases hlen : raw.Raw.length > 0
    · cases hdec : Unmarshal raw.Raw with
      | error err => simp [hlen, hdec] at h
      | ok decoded =>
        simp only [hlen, if_true, hdec] at h
        exact key _ rfl h
    · simp only [hlen, if_false] at h
      exact key _ rfl h

/-- The ensure label after the label step of `PatchAddonEndpoint`. -/
theorem PatchAddonEndpoint.setEnsureLabel_lookup (labels : GoMap String)
    (continuouslyReconcile : Bool) :
    GoMap.lookup (PatchAddonEndpoint.setEnsureLabel labels continuouslyReconcile)
        addonEnsureLabelKey = some (if continuouslyReconcile then "true" else "false") ∧
    ∀ k, k ≠ addonEnsureLabelKey →
      GoMap.lookup (PatchAddonEndpoint.setEnsureLabel labels continuouslyReconcile) k
        = GoMap.lookup labels k := by
  constructor
  · cases continuouslyReconcile
    · exact GoMap.lookup_setEntry_self _ _ _
    · exact GoMap.lookup_setEntry_self _ _ _
  · intro k hk
    cases continuouslyReconcile
    · show GoMap.lookup (some (GoMap.setEntry _ _ _)) k = _
      rw [GoMap.lookup_setEntry_of_ne _ _ _ _ hk]
      cases labels <;> rfl
    · show GoMap.lookup (some (GoMap.setEntry (GoMap.setEntry _ _ _) _ _)) k = _
      rw [GoMap.lookup_setEntry_of_ne _ _ _ _ hk, GoMap.lookup_setEntry_of_ne _ _ _ _ hk]
      cases labels <;> rfl

/-- C30: the `ContinuouslyReconcile` flag of a request and the label
`addons.kubermatic.io/ensure`.  After the label step of `PatchAddonEndpoint` the label is
`true` when the request asks for `ContinuouslyReconcile` and `false` otherwise, and every
other label is as it was.  `CreateAddonEndpoint` builds the label `true` and nothing else
when the flag is set and no label otherwise.  `convertInternalAddonToExternal`, when it
succeeds on an addon with the labels of either step, reports `ContinuouslyReconcile`
equal to the requested flag.  `PatchAddonEndpoint`, once the cluster, the stored addon
and the raw variables are obtained, hands to `updateAddon` exactly the stored addon with
the new variables and the labels of the label step of the stored labels, and when the
update returns an addon that converts, the endpoint returns that conversion, whose flag
is the requested one if the provider kept the labels.  `CreateAddonEndpoint`, once the
cluster and the raw variables are obtained, hands to `createAddon` exactly the labels of
its label step with the variables and the name of the request, and when the provider
returns an addon that converts, the endpoint returns that conversion, whose flag is the
requested one if the provider kept the labels. -/
theorem c30_ensure_label_round_trip {C V T W : Type} (env : AddonEndpoints C V T W)
    (labels : GoMap String) (continuouslyReconcile : Bool) :
    (GoMap.lookup (PatchAddonEndpoint.setEnsureLabel labels continuouslyReconcile)
        addonEnsureLabelKey = some (if continuouslyReconcile then "true" else "false")) ∧
    (∀ k, k ≠ addonEnsureLabelKey →
      GoMap.lookup (PatchAddonEndpoint.setEnsureLabel labels continuouslyReconcile) k
        = GoMap.lookup labels k) ∧
    (CreateAddonEndpoint.labels continuouslyReconcile =
      some (if continuouslyReconcile then [(addonEnsureLabelKey, "true")] else [])) ∧
    (∀ (internalAddon : kubermaticv1.Addon T) (result : apiv1.Addon T W),
      convertInternalAddonToExternal env.Unmarshal
        { internalAddon with
          Labels := PatchAddonEndpoint.setEnsureLabel labels continuouslyReconcile }
        = .ok result →
      result.Spec.ContinuouslyReconcile = continuouslyReconcile) ∧
    (∀ (internalAddon : kubermaticv1.Addon T) (result : apiv1.Addon T W),
      convertInternalAddonToExternal env.Unmarshal
        { internalAddon with Labels := CreateAddonEndpoint.labels continuouslyReconcile }
        = .ok result →
      result.Spec.ContinuouslyReconcile = continuouslyReconcile) ∧
    (∀ (addon : apiv1.Addon T W) projectID clusterID addonID cluster stored rawVars,
      env.GetCluster projectID clusterID = .ok cluster →
      (getAddon env.providers cluster projectID addonID).1 = .ok stored →
      convertExternalVariablesToInternal env.Marshal addon.Spec.Variables = .ok rawVars →
      ∃ handed : kubermaticv1.Addon T,
        (PatchAddonEndpoint env addon projectID clusterID addonID).2 = [.updateAddon handed] ∧
        handed.Name = stored.Name ∧
        handed.CreationTimestamp = stored.CreationTimestamp ∧
        handed.DeletionTimestamp = stored.DeletionTimestamp ∧
        handed.Spec.IsDefault = stored.Spec.IsDefault ∧
        handed.Spec.Variables = some rawVars ∧
        handed.Labels =
          PatchAddonEndpoint.setEnsureLabel stored.Labels addon.Spec.ContinuouslyReconcile ∧
        GoMap.lookup handed.Labels addonEnsureLabelKey
          = some (if addon.Spec.ContinuouslyReconcile then "true" else "false") ∧
        (∀ k, k ≠ addonEnsureLabelKey →
          GoMap.lookup handed.Labels k = GoMap.lookup stored.Labels k) ∧
        (∀ err, (updateAddon env.providers cluster handed projectID).1 = .error err →
          (PatchAddonEndpoint env addon projectID clusterID addonID).1
            = .error (env.KubernetesErrorToHTTPError err)) ∧
        (∀ updated, (updateAddon env.providers cluster handed projectID).1 = .ok updated →
          (PatchAddonEndpoint env addon projectID clusterID addonID).1
            = (match convertInternalAddonToExternal env.Unmarshal updated with
                | .error err => .error (env.KubernetesErrorToHTTPError err)
                | .ok result => .ok result) ∧
          ∀ result, convertInternalAddonToExternal env.Unmarshal updated = .ok result →
            updated.Labels = handed.Labels →
            result.Spec.ContinuouslyReconcile = addon.Spec.ContinuouslyReconcile)) ∧
    (∀ (addon : apiv1.Addon T W) projectID clusterID cluster rawVars,
      env.GetCluster projectID clusterID = .ok cluster →
      convertExternalVariablesToInternal env.Marshal addon.Spec.Variables = .ok rawVars →
      (CreateAddonEndpoint env addon projectID clusterID).2
        = [.createAddon (some rawVars)
            (some (if addon.Spec.ContinuouslyReconcile then [(addonEnsureLabelKey, "true")]
              else [])) addon.Name] ∧
      (∀ err,
        (createAddon env.providers cluster (some rawVars)
          (CreateAddonEndpoint.labels addon.Spec.ContinuouslyReconcile) projectID
          addon.Name).1 = .error err →
        (CreateAddonEndpoint env addon projectID clusterID).1
          = .error (env.KubernetesErrorToHTTPError err)) ∧
      (∀ created,
        (createAddon env.providers cluster (some rawVars)
          (CreateAddonEndpoint.labels addon.Spec.ContinuouslyReconcile) projectID
          addon.Name).1 = .ok created →
        (CreateAddonEndpoint env addon projectID clusterID).1
          = (match convertInternalAddonToExternal env.Unmarshal created with
              | .error err => .error (env.KubernetesErrorToHTTPError err)
              | .ok result => .ok result) ∧
        ∀ result, convertInternalAddonToExternal env.Unmarshal created = .ok result →
          created.Labels = CreateAddonEndpoint.labels addon.Spec.ContinuouslyReconcile →
          result.Spec.ContinuouslyReconcile = addon.Spec.ContinuouslyReconcile)) := by
  have hpatch : ∀ (l : GoMap String) (flag : Bool),
      decide (GoMap.lookup (PatchAddonEndpoint.setEnsureLabel l flag) addonEnsureLabelKey
        = some "true") = flag := by
    intro l flag
    rw [(PatchAddonEndpoint.setEnsureLabel_lookup l flag).1]
    cases flag <;> decide
  have hcreate : ∀ flag : Bool,
      decide (GoMap.lookup (CreateAddonEndpoint.labels flag) addonEnsureLabelKey
        = some "true") = flag := by
    intro flag
    cases flag <;> decide
  have hlabels : ∀ flag : Bool, CreateAddonEndpoint.labels flag =
      some (if flag then [(addonEnsureLabelKey, "true")] else []) := by
    intro flag
    cases flag <;> rfl
  refine ⟨(PatchAddonEndpoint.setEnsureLabel_lookup labels continuouslyReconcile).1,
    (PatchAddonEndpoint.setEnsureLabel_lookup labels continuouslyReconcile).2,
    hlabels continuouslyReconcile, ?_, ?_, ?_, ?_⟩
  · intro internalAddon result h
    rw [convertInternalAddonToExternal_reconcile env.Unmarshal _ result h]
    exact hpatch labels continuouslyReconcile
  · intro internalAddon result h
    rw [convertInternalAddonToExternal_reconcile env.Unmarshal _ result h]
    exact hcreate continuouslyReconcile
  · intro addon projectID clusterID addonID cluster stored rawVars hc hg hv
    refine ⟨{ stored with
        Spec := { stored.Spec with Variables := some rawVars }
        Labels := PatchAddonEndpoint.setEnsureLabel stored.Labels
          addon.Spec.ContinuouslyReconcile }, ?_, rfl, rfl, rfl, rfl, rfl, rfl,
      (PatchAddonEndpoint.setEnsureLabel_lookup _ _).1,
      (PatchAddonEndpoint.setEnsureLabel_lookup _ _).2, ?_, ?_⟩
    · simp only [PatchAddonEndpoint, hc, hg, hv]
      cases (updateAddon env.providers cluster
          { stored with
            Spec := { stored.Spec with Variables := some rawVars }
            Labels := PatchAddonEndpoint.setEnsureLabel stored.Labels
              addon.Spec.ContinuouslyReconcile } projectID).1 with
      | error err => rfl
      | ok updated =>
        simp only []
        cases convertInternalAddonToExternal env.Unmarshal updated <;> rfl
    · intro err hu
      simp only [PatchAddonEndpoint, hc, hg, hv, hu]
    · intro updated hu
      refine ⟨?_, ?_⟩
      · simp only [PatchAddonEndpoint, hc, hg, hv, hu]
        cases convertInternalAddonToExternal env.Unmarshal updated <;> rfl
      · intro result hconv hkeeps
        rw [convertInternalAddonToExternal_reconcile env.Unmarshal _ _ hconv, hkeeps]
        exact hpatch _ _
  · intro addon projectID clusterID cluster rawVars hc hv
    refine ⟨?_, ?_, ?_⟩
    · rw [← hlabels]
      simp only [CreateAddonEndpoint, hc, hv]
      cases (createAddon env.providers cluster (some rawVars)
          (CreateAddonEndpoint.labels addon.Spec.ContinuouslyReconcile) projectID
          addon.Name).1 with
      | error err => rfl
      | ok created =>
        simp only []
        cases convertInternalAddonToExternal env.Unmarshal created <;> rfl
    · intro err hu
      simp only [CreateAddonEndpoint, hc, hv, hu]
    · intro created hu
      refine ⟨?_, ?_⟩
      · simp only [CreateAddonEndpoint, hc, hv, hu]
        cases convertInternalAddonToExternal env.Unmarshal created <;> rfl
      · intro result hconv hkeeps
        rw [convertInternalAddonToExternal_reconcile env.Unmarshal _ _ hconv, hkeeps]
        exact hcreate _

/-- The addon endpoints on a sample cluster whose provider stores what it is given:
patching the stored addon, which has a label of its own and the ensure label `true`, with
the flag unset hands to the provider the addon with the ensure label `false` and the other
label kept, and the result reports no continuous reconciliation; creating an addon with
the flag set hands over the label `true` and the result reports the flag. -/
theorem addon_endpoints_samples :
    PatchAddonEndpoint.setEnsureLabel
        (some [("team", "a"), ("addons.kubermatic.io/ensure", "true")]) false
      = some [("team", "a"), ("addons.kubermatic.io/ensure", "false")] ∧
    PatchAddonEndpoint.setEnsureLabel none true
      = some [("addons.kubermatic.io/ensure", "true")] ∧
    ((PatchAddonEndpoint
        (sampleAddonEndpoints
          (sampleAddon (some [("team", "a"), ("addons.kubermatic.io/ensure", "true")]) none))
        (sampleAddonRequest false) "p" "c1" "dns").1.map
        (fun r => (r.Name, r.Spec.ContinuouslyReconcile, r.Spec.Variables)),
      (PatchAddonEndpoint
        (sampleAddonEndpoints
          (sampleAddon (some [("team", "a"), ("addons.kubermatic.io/ensure", "true")]) none))
        (sampleAddonRequest false) "p" "c1" "dns").2.map
        (fun write => match write with
          | .updateAddon handed => handed.Labels
          | .createAddon _ handedLabels _ => handedLabels))
      = (.ok ("dns", false, some [125]),
          [some [("team", "a"), ("addons.kubermatic.io/ensure", "false")]]) ∧
    ((CreateAddonEndpoint (sampleAddonEndpoints (sampleAddon none none))
        (sampleAddonRequest true) "p" "c1").1.map
        (fun r => (r.Name, r.Spec.ContinuouslyReconcile, r.Spec.Variables)),
      (CreateAddonEndpoint (sampleAddonEndpoints (sampleAddon none none))
        (sampleAddonRequest true) "p" "c1").2)
      = (.ok ("dns", true, some [125]),
          [.createAddon (some { Raw := [123, 125] })
            (some [("addons.kubermatic.io/ensure", "true")]) "dns"]) := by
  refine ⟨?_, ?_, ?_, ?_⟩ <;> decide

end Dashboard
